import Mathlib

/-! # Matrix2D: the multiplication dispatcher `Matrix::Mul` and its container

An embedding of `Matrix_Combined.h`.  Matrices live in a heap of objects that
are addressed by reference, so that a call such as `Mul(A, B, A)` (the output
is the same object as an input) can be expressed.  Every template
instantiation of the element types is described by an `ElemOps` record over
one carrier type.  The state also carries the text written to `std::cerr` and
a ghost record of every `at(row, column)` and `operator[]` call.
-/

namespace Mat2D

/-! ## Data model -/

/-- What can stop a call: an exception, or an access outside the allocated buffer. -/
inductive Err where
  /-- The statement `throw std::runtime_error(what)` -/
  | runtime_error (what : String)
  /-- A read or write outside the `_Rows * _Cols` elements of `p_mat`. -/
  | undefined_behaviour
  /-- A `static_assert` of the instantiated template fails. -/
  | static_assert (what : String)
deriving DecidableEq, Repr

/-- The address of a matrix object. -/
abbrev Ref := Nat

/-- The class `Matrix2D<_Elem, _Rows, _Cols>`: the two template parameters and the buffer. -/
structure Matrix2D (E : Type) where
  c_rows : Nat
  c_cols : Nat
  p_mat : List E
deriving DecidableEq, Repr

/-- The constant `c_elements = _Rows * _Cols`. -/
def Matrix2D.c_elements {E : Type} (m : Matrix2D E) : Nat := m.c_rows * m.c_cols

/-- One call of an accessor of a matrix object (ghost record). -/
inductive Access where
  /-- The call `obj.at(row, column)` -/
  | at2 (obj : Ref) (row column : Nat)
  /-- The call `obj[index]` -/
  | index (obj : Ref) (index : Nat)
deriving DecidableEq, Repr

/-- The program state: the objects, the text sent to `std::cerr`, the accessor
calls made so far (oldest first) and the next free address. -/
structure State (E : Type) where
  heap : Ref → Matrix2D E
  cerr : List String
  calls : List Access
  next : Ref

/-- The arithmetic of one instantiation `Mul<_ElemA, .., _ElemB, .., _ElemC>`,
over a carrier `E` that holds the values of all types involved. -/
structure ElemOps (E : Type) where
  /-- The product `x * y` for `x` of type `_ElemA` and `y` of type `_ElemB` -/
  mul : E → E → E
  /-- The sum `p + q` for two such products -/
  add : E → E → E
  /-- The conversion `_ElemC(v)` -/
  conv : E → E
  /-- The value `x + y` that `x += y` stores, in `_ElemC` -/
  plus_assign : E → E → E
  /-- The element all of whose bytes are zero -/
  zero : E

/-- All three element types are the same (semi)ring, e.g. the integers, or the
integers modulo `2 ^ w` of an unsigned type: `_ElemC(v)` is the identity. -/
def ringOps (R : Type) [Semiring R] : ElemOps R where
  mul := fun x y => x * y
  add := fun x y => x + y
  conv := fun x => x
  plus_assign := fun x y => x + y
  zero := 0

/-- Products are rational (they stand for `double`), `_ElemC` is an integer type:
`_ElemC(v)` truncates toward zero, `+=` adds integers. -/
def truncOps : ElemOps ℚ where
  mul := fun x y => x * y
  add := fun x y => x + y
  conv := fun x => ((if 0 ≤ x then ⌊x⌋ else ⌈x⌉ : ℤ) : ℚ)
  plus_assign := fun x y => x + y
  zero := 0

/-! ## Element access -/

/-- The function `Matrix2D::POS_XY` (lines 188 to 198) of a `_Rows` x `_Cols` matrix. -/
def POS_XY (_Rows _Cols row column : Nat) : Except Err Nat :=
  if column > _Cols then .error (.runtime_error "X out of range!")
  else if row > _Rows then .error (.runtime_error "Y out of range!")
  else .ok ((row * _Cols) + column)

variable {E : Type}

/-- Append one accessor call to the ghost record. -/
def State.log (s : State E) (x : Access) : State E :=
  { s with calls := s.calls ++ [x] }

/-- The statement `std::cerr << msg << std::endl`. -/
def State.print (s : State E) (msg : String) : State E :=
  { s with cerr := s.cerr ++ [msg] }

/-- Replace the object at `obj`. -/
def State.setMat (s : State E) (obj : Ref) (m : Matrix2D E) : State E :=
  { s with heap := fun r => if r = obj then m else s.heap r }

/-- The element `p_mat[i]` that a reference denotes, read. -/
def State.load (s : State E) (obj : Ref) (i : Nat) : Except Err E :=
  match (s.heap obj).p_mat[i]? with
  | some v => .ok v
  | none => .error .undefined_behaviour

/-- The element `p_mat[i]` that a reference denotes, written. -/
def State.store (s : State E) (obj : Ref) (i : Nat) (v : E) : Except Err (State E) :=
  if i < (s.heap obj).p_mat.length then
    .ok (s.setMat obj { s.heap obj with p_mat := (s.heap obj).p_mat.set i v })
  else .error .undefined_behaviour

/-- The call `obj.at(row, column)` (line 104): the position `POS_XY(row, column)` in `p_mat`. -/
def State.at2 (s : State E) (obj : Ref) (row column : Nat) : Except Err (Nat × State E) :=
  match POS_XY (s.heap obj).c_rows (s.heap obj).c_cols row column with
  | .error e => .error e
  | .ok i => .ok (i, s.log (.at2 obj row column))

/-- The call `obj[index]` (line 102): the position `index` in `p_mat`, unchecked. -/
def State.index (s : State E) (obj : Ref) (index : Nat) : Nat × State E :=
  (index, s.log (.index obj index))

/-- Reading `obj.at(row, column)`. -/
def State.read_at2 (s : State E) (obj : Ref) (row column : Nat) : Except Err (E × State E) :=
  match s.at2 obj row column with
  | .error e => .error e
  | .ok (i, s1) =>
    match s1.load obj i with
    | .error e => .error e
    | .ok v => .ok (v, s1)

/-- The loop `for (size_t i = 0; i < n; i++) body`, over any loop state. -/
def forLoop {σ : Type} (n : Nat) (body : Nat → σ → Except Err σ) (s : σ) : Except Err σ :=
  (List.range n).foldlM (fun s i => body i s) s

/-! ## The unrolled branches of `Mul` as straight-line code -/

/-- An argument of `at`: a literal, or the loop variable `rows` or `cols` of a
semi-generic branch. -/
inductive Idx where
  | lit (n : Nat)
  | rows
  | cols
deriving DecidableEq, Repr

instance (n : Nat) : OfNat Idx n := ⟨Idx.lit n⟩

/-- The value of an argument when the loop variables hold `rows` and `cols`. -/
def Idx.eval (rows cols : Nat) : Idx → Nat
  | .lit n => n
  | .rows => rows
  | .cols => cols

/-- One product `(A.at(aRow, aCol) * B.at(bRow, bCol))`. -/
structure Term where
  aRow : Idx
  aCol : Idx
  bRow : Idx
  bCol : Idx
deriving DecidableEq, Repr

/-- One statement `C.at(cRow, cCol) = _ElemC(first + rest_0 + rest_1 + ...);`. -/
structure Assign where
  cRow : Idx
  cCol : Idx
  first : Term
  rest : List Term
deriving DecidableEq, Repr

/-- One `if (...) { ...; return; }` of the unrolled table. -/
inductive Branch where
  /-- The statement
  `if (_RowsA == rA and _ColsA == cA and _RowsB == rB and _ColsB == cB) body; return;` -/
  | exact (rA cA rB cB : Nat) (body : List Assign)
  /-- The statement
  `if (_ColsA == cA and _RowsB == rB) for (rows < _RowsC) for (cols < _ColsC) body; return;` -/
  | loop (cA rB : Nat) (body : Assign)
deriving DecidableEq, Repr

/-- Transcription of the branches with `_ColsA == 1` of the table for up to 5x5
(`Matrix::Mul`, source lines 680 to 1159), in source order. -/
def Mul_unrolled_5x5_ColsA1 : List Branch := [
  -- 1x1 * 1x1 -> 1x1
  .exact 1 1 1 1 [
    Assign.mk 0 0 ⟨0, 0, 0, 0⟩ []],
  -- 1x1 * 1x2 -> 1x2
  .exact 1 1 1 2 [
    Assign.mk 0 0 ⟨0, 0, 0, 0⟩ [],
    Assign.mk 0 1 ⟨0, 0, 0, 1⟩ []],
  -- 1x1 * 1x3 -> 1x3
  .exact 1 1 1 3 [
    Assign.mk 0 0 ⟨0, 0, 0, 0⟩ [],
    Assign.mk 0 1 ⟨0, 0, 0, 1⟩ [],
    Assign.mk 0 2 ⟨0, 0, 0, 2⟩ []],
  -- 1x1 * 1x4 -> 1x4
  .exact 1 1 1 4 [
    Assign.mk 0 0 ⟨0, 0, 0, 0⟩ [],
    Assign.mk 0 1 ⟨0, 0, 0, 1⟩ [],
    Assign.mk 0 2 ⟨0, 0, 0, 2⟩ [],
    Assign.mk 0 3 ⟨0, 0, 0, 3⟩ []],
  -- 1x1 * 1x5 -> 1x5
  .exact 1 1 1 5 [
    Assign.mk 0 0 ⟨0, 0, 0, 0⟩ [],
    Assign.mk 0 1 ⟨0, 0, 0, 1⟩ [],
    Assign.mk 0 2 ⟨0, 0, 0, 2⟩ [],
    Assign.mk 0 3 ⟨0, 0, 0, 3⟩ [],
    Assign.mk 0 4 ⟨0, 0, 0, 4⟩ []],
  -- 2x1 * 1x1 -> 2x1
  .exact 2 1 1 1 [
    Assign.mk 0 0 ⟨0, 0, 0, 0⟩ [],
    Assign.mk 1 0 ⟨1, 0, 0, 0⟩ []],
  -- 2x1 * 1x2 -> 2x2
  .exact 2 1 1 2 [
    Assign.mk 0 0 ⟨0, 0, 0, 0⟩ [],
    Assign.mk 0 1 ⟨0, 0, 0, 1⟩ [],
    Assign.mk 1 0 ⟨1, 0, 0, 0⟩ [],
    Assign.mk 1 1 ⟨1, 0, 0, 1⟩ []],
  -- 2x1 * 1x3 -> 2x3
  .exact 2 1 1 3 [
    Assign.mk 0 0 ⟨0, 0, 0, 0⟩ [],
    Assign.mk 0 1 ⟨0, 0, 0, 1⟩ [],
    Assign.mk 0 2 ⟨0, 0, 0, 2⟩ [],
    Assign.mk 1 0 ⟨1, 0, 0, 0⟩ [],
    Assign.mk 1 1 ⟨1, 0, 0, 1⟩ [],
    Assign.mk 1 2 ⟨1, 0, 0, 2⟩ []],
  -- 2x1 * 1x4 -> 2x4
  .exact 2 1 1 4 [
    Assign.mk 0 0 ⟨0, 0, 0, 0⟩ [],
    Assign.mk 0 1 ⟨0, 0, 0, 1⟩ [],
    Assign.mk 0 2 ⟨0, 0, 0, 2⟩ [],
    Assign.mk 0 3 ⟨0, 0, 0, 3⟩ [],
    Assign.mk 1 0 ⟨1, 0, 0, 0⟩ [],
    Assign.mk 1 1 ⟨1, 0, 0, 1⟩ [],
    Assign.mk 1 2 ⟨1, 0, 0, 2⟩ [],
    Assign.mk 1 3 ⟨1, 0, 0, 3⟩ []],
  -- 2x1 * 1x5 -> 2x5
  .exact 2 1 1 5 [
    Assign.mk 0 0 ⟨0, 0, 0, 0⟩ [],
    Assign.mk 0 1 ⟨0, 0, 0, 1⟩ [],
    Assign.mk 0 2 ⟨0, 0, 0, 2⟩ [],
    Assign.mk 0 3 ⟨0, 0, 0, 3⟩ [],
    Assign.mk 0 4 ⟨0, 0, 0, 4⟩ [],
    Assign.mk 1 0 ⟨1, 0, 0, 0⟩ [],
    Assign.mk 1 1 ⟨1, 0, 0, 1⟩ [],
    Assign.mk 1 2 ⟨1, 0, 0, 2⟩ [],
    Assign.mk 1 3 ⟨1, 0, 0, 3⟩ [],
    Assign.mk 1 4 ⟨1, 0, 0, 4⟩ []],
  -- 3x1 * 1x1 -> 3x1
  .exact 3 1 1 1 [
    Assign.mk 0 0 ⟨0, 0, 0, 0⟩ [],
    Assign.mk 1 0 ⟨1, 0, 0, 0⟩ [],
    Assign.mk 2 0 ⟨2, 0, 0, 0⟩ []],
  -- 3x1 * 1x2 -> 3x2
  .exact 3 1 1 2 [
    Assign.mk 0 0 ⟨0, 0, 0, 0⟩ [],
    Assign.mk 0 1 ⟨0, 0, 0, 1⟩ [],
    Assign.mk 1 0 ⟨1, 0, 0, 0⟩ [],
    Assign.mk 1 1 ⟨1, 0, 0, 1⟩ [],
    Assign.mk 2 0 ⟨2, 0, 0, 0⟩ [],
    Assign.mk 2 1 ⟨2, 0, 0, 1⟩ []],
  -- 3x1 * 1x3 -> 3x3
  .exact 3 1 1 3 [
    Assign.mk 0 0 ⟨0, 0, 0, 0⟩ [],
    Assign.mk 0 1 ⟨0, 0, 0, 1⟩ [],
    Assign.mk 0 2 ⟨0, 0, 0, 2⟩ [],
    Assign.mk 1 0 ⟨1, 0, 0, 0⟩ [],
    Assign.mk 1 1 ⟨1, 0, 0, 1⟩ [],
    Assign.mk 1 2 ⟨1, 0, 0, 2⟩ [],
    Assign.mk 2 0 ⟨2, 0, 0, 0⟩ [],
    Assign.mk 2 1 ⟨2, 0, 0, 1⟩ [],
    Assign.mk 2 2 ⟨2, 0, 0, 2⟩ []],
  -- 3x1 * 1x4 -> 3x4
  .exact 3 1 1 4 [
    Assign.mk 0 0 ⟨0, 0, 0, 0⟩ [],
    Assign.mk 0 1 ⟨0, 0, 0, 1⟩ [],
    Assign.mk 0 2 ⟨0, 0, 0, 2⟩ [],
    Assign.mk 0 3 ⟨0, 0, 0, 3⟩ [],
    Assign.mk 1 0 ⟨1, 0, 0, 0⟩ [],
    Assign.mk 1 1 ⟨1, 0, 0, 1⟩ [],
    Assign.mk 1 2 ⟨1, 0, 0, 2⟩ [],
    Assign.mk 1 3 ⟨1, 0, 0, 3⟩ [],
    Assign.mk 2 0 ⟨2, 0, 0, 0⟩ [],
    Assign.mk 2 1 ⟨2, 0, 0, 1⟩ [],
    Assign.mk 2 2 ⟨2, 0, 0, 2⟩ [],
    Assign.mk 2 3 ⟨2, 0, 0, 3⟩ []],
  -- 3x1 * 1x5 -> 3x5
  .exact 3 1 1 5 [
    Assign.mk 0 0 ⟨0, 0, 0, 0⟩ [],
    Assign.mk 0 1 ⟨0, 0, 0, 1⟩ [],
    Assign.mk 0 2 ⟨0, 0, 0, 2⟩ [],
    Assign.mk 0 3 ⟨0, 0, 0, 3⟩ [],
    Assign.mk 0 4 ⟨0, 0, 0, 4⟩ [],
    Assign.mk 1 0 ⟨1, 0, 0, 0⟩ [],
    Assign.mk 1 1 ⟨1, 0, 0, 1⟩ [],
    Assign.mk 1 2 ⟨1, 0, 0, 2⟩ [],
    Assign.mk 1 3 ⟨1, 0, 0, 3⟩ [],
    Assign.mk 1 4 ⟨1, 0, 0, 4⟩ [],
    Assign.mk 2 0 ⟨2, 0, 0, 0⟩ [],
    Assign.mk 2 1 ⟨2, 0, 0, 1⟩ [],
    Assign.mk 2 2 ⟨2, 0, 0, 2⟩ [],
    Assign.mk 2 3 ⟨2, 0, 0, 3⟩ [],
    Assign.mk 2 4 ⟨2, 0, 0, 4⟩ []],
  -- 4x1 * 1x1 -> 4x1
  .exact 4 1 1 1 [
    Assign.mk 0 0 ⟨0, 0, 0, 0⟩ [],
    Assign.mk 1 0 ⟨1, 0, 0, 0⟩ [],
    Assign.mk 2 0 ⟨2, 0, 0, 0⟩ [],
    Assign.mk 3 0 ⟨3, 0, 0, 0⟩ []],
  -- 4x1 * 1x2 -> 4x2
  .exact 4 1 1 2 [
    Assign.mk 0 0 ⟨0, 0, 0, 0⟩ [],
    Assign.mk 0 1 ⟨0, 0, 0, 1⟩ [],
    Assign.mk 1 0 ⟨1, 0, 0, 0⟩ [],
    Assign.mk 1 1 ⟨1, 0, 0, 1⟩ [],
    Assign.mk 2 0 ⟨2, 0, 0, 0⟩ [],
    Assign.mk 2 1 ⟨2, 0, 0, 1⟩ [],
    Assign.mk 3 0 ⟨3, 0, 0, 0⟩ [],
    Assign.mk 3 1 ⟨3, 0, 0, 1⟩ []],
  -- 4x1 * 1x3 -> 4x3
  .exact 4 1 1 3 [
    Assign.mk 0 0 ⟨0, 0, 0, 0⟩ [],
    Assign.mk 0 1 ⟨0, 0, 0, 1⟩ [],
    Assign.mk 0 2 ⟨0, 0, 0, 2⟩ [],
    Assign.mk 1 0 ⟨1, 0, 0, 0⟩ [],
    Assign.mk 1 1 ⟨1, 0, 0, 1⟩ [],
    Assign.mk 1 2 ⟨1, 0, 0, 2⟩ [],
    Assign.mk 2 0 ⟨2, 0, 0, 0⟩ [],
    Assign.mk 2 1 ⟨2, 0, 0, 1⟩ [],
    Assign.mk 2 2 ⟨2, 0, 0, 2⟩ [],
    Assign.mk 3 0 ⟨3, 0, 0, 0⟩ [],
    Assign.mk 3 1 ⟨3, 0, 0, 1⟩ [],
    Assign.mk 3 2 ⟨3, 0, 0, 2⟩ []],
  -- 4x1 * 1x4 -> 4x4
  .exact 4 1 1 4 [
    Assign.mk 0 0 ⟨0, 0, 0, 0⟩ [],
    Assign.mk 0 1 ⟨0, 0, 0, 1⟩ [],
    Assign.mk 0 2 ⟨0, 0, 0, 2⟩ [],
    Assign.mk 0 3 ⟨0, 0, 0, 3⟩ [],
    Assign.mk 1 0 ⟨1, 0, 0, 0⟩ [],
    Assign.mk 1 1 ⟨1, 0, 0, 1⟩ [],
    Assign.mk 1 2 ⟨1, 0, 0, 2⟩ [],
    Assign.mk 1 3 ⟨1, 0, 0, 3⟩ [],
    Assign.mk 2 0 ⟨2, 0, 0, 0⟩ [],
    Assign.mk 2 1 ⟨2, 0, 0, 1⟩ [],
    Assign.mk 2 2 ⟨2, 0, 0, 2⟩ [],
    Assign.mk 2 3 ⟨2, 0, 0, 3⟩ [],
    Assign.mk 3 0 ⟨3, 0, 0, 0⟩ [],
    Assign.mk 3 1 ⟨3, 0, 0, 1⟩ [],
    Assign.mk 3 2 ⟨3, 0, 0, 2⟩ [],
    Assign.mk 3 3 ⟨3, 0, 0, 3⟩ []],
  -- 4x1 * 1x5 -> 4x5
  .exact 4 1 1 5 [
    Assign.mk 0 0 ⟨0, 0, 0, 0⟩ [],
    Assign.mk 0 1 ⟨0, 0, 0, 1⟩ [],
    Assign.mk 0 2 ⟨0, 0, 0, 2⟩ [],
    Assign.mk 0 3 ⟨0, 0, 0, 3⟩ [],
    Assign.mk 0 4 ⟨0, 0, 0, 4⟩ [],
    Assign.mk 1 0 ⟨1, 0, 0, 0⟩ [],
    Assign.mk 1 1 ⟨1, 0, 0, 1⟩ [],
    Assign.mk 1 2 ⟨1, 0, 0, 2⟩ [],
    Assign.mk 1 3 ⟨1, 0, 0, 3⟩ [],
    Assign.mk 1 4 ⟨1, 0, 0, 4⟩ [],
    Assign.mk 2 0 ⟨2, 0, 0, 0⟩ [],
    Assign.mk 2 1 ⟨2, 0, 0, 1⟩ [],
    Assign.mk 2 2 ⟨2, 0, 0, 2⟩ [],
    Assign.mk 2 3 ⟨2, 0, 0, 3⟩ [],
    Assign.mk 2 4 ⟨2, 0, 0, 4⟩ [],
    Assign.mk 3 0 ⟨3, 0, 0, 0⟩ [],
    Assign.mk 3 1 ⟨3, 0, 0, 1⟩ [],
    Assign.mk 3 2 ⟨3, 0, 0, 2⟩ [],
    Assign.mk 3 3 ⟨3, 0, 0, 3⟩ [],
    Assign.mk 3 4 ⟨3, 0, 0, 4⟩ []],
  -- 5x1 * 1x1 -> 5x1
  .exact 5 1 1 1 [
    Assign.mk 0 0 ⟨0, 0, 0, 0⟩ [],
    Assign.mk 1 0 ⟨1, 0, 0, 0⟩ [],
    Assign.mk 2 0 ⟨2, 0, 0, 0⟩ [],
    Assign.mk 3 0 ⟨3, 0, 0, 0⟩ [],
    Assign.mk 4 0 ⟨4, 0, 0, 0⟩ []],
  -- 5x1 * 1x2 -> 5x2
  .exact 5 1 1 2 [
    Assign.mk 0 0 ⟨0, 0, 0, 0⟩ [],
    Assign.mk 0 1 ⟨0, 0, 0, 1⟩ [],
    Assign.mk 1 0 ⟨1, 0, 0, 0⟩ [],
    Assign.mk 1 1 ⟨1, 0, 0, 1⟩ [],
    Assign.mk 2 0 ⟨2, 0, 0, 0⟩ [],
    Assign.mk 2 1 ⟨2, 0, 0, 1⟩ [],
    Assign.mk 3 0 ⟨3, 0, 0, 0⟩ [],
    Assign.mk 3 1 ⟨3, 0, 0, 1⟩ [],
    Assign.mk 4 0 ⟨4, 0, 0, 0⟩ [],
    Assign.mk 4 1 ⟨4, 0, 0, 1⟩ []],
  -- 5x1 * 1x3 -> 5x3
  .exact 5 1 1 3 [
    Assign.mk 0 0 ⟨0, 0, 0, 0⟩ [],
    Assign.mk 0 1 ⟨0, 0, 0, 1⟩ [],
    Assign.mk 0 2 ⟨0, 0, 0, 2⟩ [],
    Assign.mk 1 0 ⟨1, 0, 0, 0⟩ [],
    Assign.mk 1 1 ⟨1, 0, 0, 1⟩ [],
    Assign.mk 1 2 ⟨1, 0, 0, 2⟩ [],
    Assign.mk 2 0 ⟨2, 0, 0, 0⟩ [],
    Assign.mk 2 1 ⟨2, 0, 0, 1⟩ [],
    Assign.mk 2 2 ⟨2, 0, 0, 2⟩ [],
    Assign.mk 3 0 ⟨3, 0, 0, 0⟩ [],
    Assign.mk 3 1 ⟨3, 0, 0, 1⟩ [],
    Assign.mk 3 2 ⟨3, 0, 0, 2⟩ [],
    Assign.mk 4 0 ⟨4, 0, 0, 0⟩ [],
    Assign.mk 4 1 ⟨4, 0, 0, 1⟩ [],
    Assign.mk 4 2 ⟨4, 0, 0, 2⟩ []],
  -- 5x1 * 1x4 -> 5x4
  .exact 5 1 1 4 [
    Assign.mk 0 0 ⟨0, 0, 0, 0⟩ [],
    Assign.mk 0 1 ⟨0, 0, 0, 1⟩ [],
    Assign.mk 0 2 ⟨0, 0, 0, 2⟩ [],
    Assign.mk 0 3 ⟨0, 0, 0, 3⟩ [],
    Assign.mk 1 0 ⟨1, 0, 0, 0⟩ [],
    Assign.mk 1 1 ⟨1, 0, 0, 1⟩ [],
    Assign.mk 1 2 ⟨1, 0, 0, 2⟩ [],
    Assign.mk 1 3 ⟨1, 0, 0, 3⟩ [],
    Assign.mk 2 0 ⟨2, 0, 0, 0⟩ [],
    Assign.mk 2 1 ⟨2, 0, 0, 1⟩ [],
    Assign.mk 2 2 ⟨2, 0, 0, 2⟩ [],
    Assign.mk 2 3 ⟨2, 0, 0, 3⟩ [],
    Assign.mk 3 0 ⟨3, 0, 0, 0⟩ [],
    Assign.mk 3 1 ⟨3, 0, 0, 1⟩ [],
    Assign.mk 3 2 ⟨3, 0, 0, 2⟩ [],
    Assign.mk 3 3 ⟨3, 0, 0, 3⟩ [],
    Assign.mk 4 0 ⟨4, 0, 0, 0⟩ [],
    Assign.mk 4 1 ⟨4, 0, 0, 1⟩ [],
    Assign.mk 4 2 ⟨4, 0, 0, 2⟩ [],
    Assign.mk 4 3 ⟨4, 0, 0, 3⟩ []],
  -- 5x1 * 1x5 -> 5x5
  .exact 5 1 1 5 [
    Assign.mk 0 0 ⟨0, 0, 0, 0⟩ [],
    Assign.mk 0 1 ⟨0, 0, 0, 1⟩ [],
    Assign.mk 0 2 ⟨0, 0, 0, 2⟩ [],
    Assign.mk 0 3 ⟨0, 0, 0, 3⟩ [],
    Assign.mk 0 4 ⟨0, 0, 0, 4⟩ [],
    Assign.mk 1 0 ⟨1, 0, 0, 0⟩ [],
    Assign.mk 1 1 ⟨1, 0, 0, 1⟩ [],
    Assign.mk 1 2 ⟨1, 0, 0, 2⟩ [],
    Assign.mk 1 3 ⟨1, 0, 0, 3⟩ [],
    Assign.mk 1 4 ⟨1, 0, 0, 4⟩ [],
    Assign.mk 2 0 ⟨2, 0, 0, 0⟩ [],
    Assign.mk 2 1 ⟨2, 0, 0, 1⟩ [],
    Assign.mk 2 2 ⟨2, 0, 0, 2⟩ [],
    Assign.mk 2 3 ⟨2, 0, 0, 3⟩ [],
    Assign.mk 2 4 ⟨2, 0, 0, 4⟩ [],
    Assign.mk 3 0 ⟨3, 0, 0, 0⟩ [],
    Assign.mk 3 1 ⟨3, 0, 0, 1⟩ [],
    Assign.mk 3 2 ⟨3, 0, 0, 2⟩ [],
    Assign.mk 3 3 ⟨3, 0, 0, 3⟩ [],
    Assign.mk 3 4 ⟨3, 0, 0, 4⟩ [],
    Assign.mk 4 0 ⟨4, 0, 0, 0⟩ [],
    Assign.mk 4 1 ⟨4, 0, 0, 1⟩ [],
    Assign.mk 4 2 ⟨4, 0, 0, 2⟩ [],
    Assign.mk 4 3 ⟨4, 0, 0, 3⟩ [],
    Assign.mk 4 4 ⟨4, 0, 0, 4⟩ []],
  -- Matrices n1x1 * 1xn2
  .loop 1 1
    (Assign.mk .rows .cols ⟨.rows, 0, 0, .cols⟩ [])]

/-- Transcription of the branches with `_ColsA == 2` of the table for up to 5x5
(`Matrix::Mul`, source lines 1164 to 1643), in source order. -/
def Mul_unrolled_5x5_ColsA2 : List Branch := [
  -- 1x2 * 2x1 -> 1x1
  .exact 1 2 2 1 [
    Assign.mk 0 0 ⟨0, 0, 0, 0⟩ [⟨0, 1, 1, 0⟩]],
  -- 1x2 * 2x2 -> 1x2
  .exact 1 2 2 2 [
    Assign.mk 0 0 ⟨0, 0, 0, 0⟩ [⟨0, 1, 1, 0⟩],
    Assign.mk 0 1 ⟨0, 0, 0, 1⟩ [⟨0, 1, 1, 1⟩]],
  -- 1x2 * 2x3 -> 1x3
  .exact 1 2 2 3 [
    Assign.mk 0 0 ⟨0, 0, 0, 0⟩ [⟨0, 1, 1, 0⟩],
    Assign.mk 0 1 ⟨0, 0, 0, 1⟩ [⟨0, 1, 1, 1⟩],
    Assign.mk 0 2 ⟨0, 0, 0, 2⟩ [⟨0, 1, 1, 2⟩]],
  -- 1x2 * 2x4 -> 1x4
  .exact 1 2 2 4 [
    Assign.mk 0 0 ⟨0, 0, 0, 0⟩ [⟨0, 1, 1, 0⟩],
    Assign.mk 0 1 ⟨0, 0, 0, 1⟩ [⟨0, 1, 1, 1⟩],
    Assign.mk 0 2 ⟨0, 0, 0, 2⟩ [⟨0, 1, 1, 2⟩],
    Assign.mk 0 3 ⟨0, 0, 0, 3⟩ [⟨0, 1, 1, 3⟩]],
  -- 1x2 * 2x5 -> 1x5
  .exact 1 2 2 5 [
    Assign.mk 0 0 ⟨0, 0, 0, 0⟩ [⟨0, 1, 1, 0⟩],
    Assign.mk 0 1 ⟨0, 0, 0, 1⟩ [⟨0, 1, 1, 1⟩],
    Assign.mk 0 2 ⟨0, 0, 0, 2⟩ [⟨0, 1, 1, 2⟩],
    Assign.mk 0 3 ⟨0, 0, 0, 3⟩ [⟨0, 1, 1, 3⟩],
    Assign.mk 0 4 ⟨0, 0, 0, 4⟩ [⟨0, 1, 1, 4⟩]],
  -- 2x2 * 2x1 -> 2x1
  .exact 2 2 2 1 [
    Assign.mk 0 0 ⟨0, 0, 0, 0⟩ [⟨0, 1, 1, 0⟩],
    Assign.mk 1 0 ⟨1, 0, 0, 0⟩ [⟨1, 1, 1, 0⟩]],
  -- 2x2 * 2x2 -> 2x2
  .exact 2 2 2 2 [
    Assign.mk 0 0 ⟨0, 0, 0, 0⟩ [⟨0, 1, 1, 0⟩],
    Assign.mk 0 1 ⟨0, 0, 0, 1⟩ [⟨0, 1, 1, 1⟩],
    Assign.mk 1 0 ⟨1, 0, 0, 0⟩ [⟨1, 1, 1, 0⟩],
    Assign.mk 1 1 ⟨1, 0, 0, 1⟩ [⟨1, 1, 1, 1⟩]],
  -- 2x2 * 2x3 -> 2x3
  .exact 2 2 2 3 [
    Assign.mk 0 0 ⟨0, 0, 0, 0⟩ [⟨0, 1, 1, 0⟩],
    Assign.mk 0 1 ⟨0, 0, 0, 1⟩ [⟨0, 1, 1, 1⟩],
    Assign.mk 0 2 ⟨0, 0, 0, 2⟩ [⟨0, 1, 1, 2⟩],
    Assign.mk 1 0 ⟨1, 0, 0, 0⟩ [⟨1, 1, 1, 0⟩],
    Assign.mk 1 1 ⟨1, 0, 0, 1⟩ [⟨1, 1, 1, 1⟩],
    Assign.mk 1 2 ⟨1, 0, 0, 2⟩ [⟨1, 1, 1, 2⟩]],
  -- 2x2 * 2x4 -> 2x4
  .exact 2 2 2 4 [
    Assign.mk 0 0 ⟨0, 0, 0, 0⟩ [⟨0, 1, 1, 0⟩],
    Assign.mk 0 1 ⟨0, 0, 0, 1⟩ [⟨0, 1, 1, 1⟩],
    Assign.mk 0 2 ⟨0, 0, 0, 2⟩ [⟨0, 1, 1, 2⟩],
    Assign.mk 0 3 ⟨0, 0, 0, 3⟩ [⟨0, 1, 1, 3⟩],
    Assign.mk 1 0 ⟨1, 0, 0, 0⟩ [⟨1, 1, 1, 0⟩],
    Assign.mk 1 1 ⟨1, 0, 0, 1⟩ [⟨1, 1, 1, 1⟩],
    Assign.mk 1 2 ⟨1, 0, 0, 2⟩ [⟨1, 1, 1, 2⟩],
    Assign.mk 1 3 ⟨1, 0, 0, 3⟩ [⟨1, 1, 1, 3⟩]],
  -- 2x2 * 2x5 -> 2x5
  .exact 2 2 2 5 [
    Assign.mk 0 0 ⟨0, 0, 0, 0⟩ [⟨0, 1, 1, 0⟩],
    Assign.mk 0 1 ⟨0, 0, 0, 1⟩ [⟨0, 1, 1, 1⟩],
    Assign.mk 0 2 ⟨0, 0, 0, 2⟩ [⟨0, 1, 1, 2⟩],
    Assign.mk 0 3 ⟨0, 0, 0, 3⟩ [⟨0, 1, 1, 3⟩],
    Assign.mk 0 4 ⟨0, 0, 0, 4⟩ [⟨0, 1, 1, 4⟩],
    Assign.mk 1 0 ⟨1, 0, 0, 0⟩ [⟨1, 1, 1, 0⟩],
    Assign.mk 1 1 ⟨1, 0, 0, 1⟩ [⟨1, 1, 1, 1⟩],
    Assign.mk 1 2 ⟨1, 0, 0, 2⟩ [⟨1, 1, 1, 2⟩],
    Assign.mk 1 3 ⟨1, 0, 0, 3⟩ [⟨1, 1, 1, 3⟩],
    Assign.mk 1 4 ⟨1, 0, 0, 4⟩ [⟨1, 1, 1, 4⟩]],
  -- 3x2 * 2x1 -> 3x1
  .exact 3 2 2 1 [
    Assign.mk 0 0 ⟨0, 0, 0, 0⟩ [⟨0, 1, 1, 0⟩],
    Assign.mk 1 0 ⟨1, 0, 0, 0⟩ [⟨1, 1, 1, 0⟩],
    Assign.mk 2 0 ⟨2, 0, 0, 0⟩ [⟨2, 1, 1, 0⟩]],
  -- 3x2 * 2x2 -> 3x2
  .exact 3 2 2 2 [
    Assign.mk 0 0 ⟨0, 0, 0, 0⟩ [⟨0, 1, 1, 0⟩],
    Assign.mk 0 1 ⟨0, 0, 0, 1⟩ [⟨0, 1, 1, 1⟩],
    Assign.mk 1 0 ⟨1, 0, 0, 0⟩ [⟨1, 1, 1, 0⟩],
    Assign.mk 1 1 ⟨1, 0, 0, 1⟩ [⟨1, 1, 1, 1⟩],
    Assign.mk 2 0 ⟨2, 0, 0, 0⟩ [⟨2, 1, 1, 0⟩],
    Assign.mk 2 1 ⟨2, 0, 0, 1⟩ [⟨2, 1, 1, 1⟩]],
  -- 3x2 * 2x3 -> 3x3
  .exact 3 2 2 3 [
    Assign.mk 0 0 ⟨0, 0, 0, 0⟩ [⟨0, 1, 1, 0⟩],
    Assign.mk 0 1 ⟨0, 0, 0, 1⟩ [⟨0, 1, 1, 1⟩],
    Assign.mk 0 2 ⟨0, 0, 0, 2⟩ [⟨0, 1, 1, 2⟩],
    Assign.mk 1 0 ⟨1, 0, 0, 0⟩ [⟨1, 1, 1, 0⟩],
    Assign.mk 1 1 ⟨1, 0, 0, 1⟩ [⟨1, 1, 1, 1⟩],
    Assign.mk 1 2 ⟨1, 0, 0, 2⟩ [⟨1, 1, 1, 2⟩],
    Assign.mk 2 0 ⟨2, 0, 0, 0⟩ [⟨2, 1, 1, 0⟩],
    Assign.mk 2 1 ⟨2, 0, 0, 1⟩ [⟨2, 1, 1, 1⟩],
    Assign.mk 2 2 ⟨2, 0, 0, 2⟩ [⟨2, 1, 1, 2⟩]],
  -- 3x2 * 2x4 -> 3x4
  .exact 3 2 2 4 [
    Assign.mk 0 0 ⟨0, 0, 0, 0⟩ [⟨0, 1, 1, 0⟩],
    Assign.mk 0 1 ⟨0, 0, 0, 1⟩ [⟨0, 1, 1, 1⟩],
    Assign.mk 0 2 ⟨0, 0, 0, 2⟩ [⟨0, 1, 1, 2⟩],
    Assign.mk 0 3 ⟨0, 0, 0, 3⟩ [⟨0, 1, 1, 3⟩],
    Assign.mk 1 0 ⟨1, 0, 0, 0⟩ [⟨1, 1, 1, 0⟩],
    Assign.mk 1 1 ⟨1, 0, 0, 1⟩ [⟨1, 1, 1, 1⟩],
    Assign.mk 1 2 ⟨1, 0, 0, 2⟩ [⟨1, 1, 1, 2⟩],
    Assign.mk 1 3 ⟨1, 0, 0, 3⟩ [⟨1, 1, 1, 3⟩],
    Assign.mk 2 0 ⟨2, 0, 0, 0⟩ [⟨2, 1, 1, 0⟩],
    Assign.mk 2 1 ⟨2, 0, 0, 1⟩ [⟨2, 1, 1, 1⟩],
    Assign.mk 2 2 ⟨2, 0, 0, 2⟩ [⟨2, 1, 1, 2⟩],
    Assign.mk 2 3 ⟨2, 0, 0, 3⟩ [⟨2, 1, 1, 3⟩]],
  -- 3x2 * 2x5 -> 3x5
  .exact 3 2 2 5 [
    Assign.mk 0 0 ⟨0, 0, 0, 0⟩ [⟨0, 1, 1, 0⟩],
    Assign.mk 0 1 ⟨0, 0, 0, 1⟩ [⟨0, 1, 1, 1⟩],
    Assign.mk 0 2 ⟨0, 0, 0, 2⟩ [⟨0, 1, 1, 2⟩],
    Assign.mk 0 3 ⟨0, 0, 0, 3⟩ [⟨0, 1, 1, 3⟩],
    Assign.mk 0 4 ⟨0, 0, 0, 4⟩ [⟨0, 1, 1, 4⟩],
    Assign.mk 1 0 ⟨1, 0, 0, 0⟩ [⟨1, 1, 1, 0⟩],
    Assign.mk 1 1 ⟨1, 0, 0, 1⟩ [⟨1, 1, 1, 1⟩],
    Assign.mk 1 2 ⟨1, 0, 0, 2⟩ [⟨1, 1, 1, 2⟩],
    Assign.mk 1 3 ⟨1, 0, 0, 3⟩ [⟨1, 1, 1, 3⟩],
    Assign.mk 1 4 ⟨1, 0, 0, 4⟩ [⟨1, 1, 1, 4⟩],
    Assign.mk 2 0 ⟨2, 0, 0, 0⟩ [⟨2, 1, 1, 0⟩],
    Assign.mk 2 1 ⟨2, 0, 0, 1⟩ [⟨2, 1, 1, 1⟩],
    Assign.mk 2 2 ⟨2, 0, 0, 2⟩ [⟨2, 1, 1, 2⟩],
    Assign.mk 2 3 ⟨2, 0, 0, 3⟩ [⟨2, 1, 1, 3⟩],
    Assign.mk 2 4 ⟨2, 0, 0, 4⟩ [⟨2, 1, 1, 4⟩]],
  -- 4x2 * 2x1 -> 4x1
  .exact 4 2 2 1 [
    Assign.mk 0 0 ⟨0, 0, 0, 0⟩ [⟨0, 1, 1, 0⟩],
    Assign.mk 1 0 ⟨1, 0, 0, 0⟩ [⟨1, 1, 1, 0⟩],
    Assign.mk 2 0 ⟨2, 0, 0, 0⟩ [⟨2, 1, 1, 0⟩],
    Assign.mk 3 0 ⟨3, 0, 0, 0⟩ [⟨3, 1, 1, 0⟩]],
  -- 4x2 * 2x2 -> 4x2
  .exact 4 2 2 2 [
    Assign.mk 0 0 ⟨0, 0, 0, 0⟩ [⟨0, 1, 1, 0⟩],
    Assign.mk 0 1 ⟨0, 0, 0, 1⟩ [⟨0, 1, 1, 1⟩],
    Assign.mk 1 0 ⟨1, 0, 0, 0⟩ [⟨1, 1, 1, 0⟩],
    Assign.mk 1 1 ⟨1, 0, 0, 1⟩ [⟨1, 1, 1, 1⟩],
    Assign.mk 2 0 ⟨2, 0, 0, 0⟩ [⟨2, 1, 1, 0⟩],
    Assign.mk 2 1 ⟨2, 0, 0, 1⟩ [⟨2, 1, 1, 1⟩],
    Assign.mk 3 0 ⟨3, 0, 0, 0⟩ [⟨3, 1, 1, 0⟩],
    Assign.mk 3 1 ⟨3, 0, 0, 1⟩ [⟨3, 1, 1, 1⟩]],
  -- 4x2 * 2x3 -> 4x3
  .exact 4 2 2 3 [
    Assign.mk 0 0 ⟨0, 0, 0, 0⟩ [⟨0, 1, 1, 0⟩],
    Assign.mk 0 1 ⟨0, 0, 0, 1⟩ [⟨0, 1, 1, 1⟩],
    Assign.mk 0 2 ⟨0, 0, 0, 2⟩ [⟨0, 1, 1, 2⟩],
    Assign.mk 1 0 ⟨1, 0, 0, 0⟩ [⟨1, 1, 1, 0⟩],
    Assign.mk 1 1 ⟨1, 0, 0, 1⟩ [⟨1, 1, 1, 1⟩],
    Assign.mk 1 2 ⟨1, 0, 0, 2⟩ [⟨1, 1, 1, 2⟩],
    Assign.mk 2 0 ⟨2, 0, 0, 0⟩ [⟨2, 1, 1, 0⟩],
    Assign.mk 2 1 ⟨2, 0, 0, 1⟩ [⟨2, 1, 1, 1⟩],
    Assign.mk 2 2 ⟨2, 0, 0, 2⟩ [⟨2, 1, 1, 2⟩],
    Assign.mk 3 0 ⟨3, 0, 0, 0⟩ [⟨3, 1, 1, 0⟩],
    Assign.mk 3 1 ⟨3, 0, 0, 1⟩ [⟨3, 1, 1, 1⟩],
    Assign.mk 3 2 ⟨3, 0, 0, 2⟩ [⟨3, 1, 1, 2⟩]],
  -- 4x2 * 2x4 -> 4x4
  .exact 4 2 2 4 [
    Assign.mk 0 0 ⟨0, 0, 0, 0⟩ [⟨0, 1, 1, 0⟩],
    Assign.mk 0 1 ⟨0, 0, 0, 1⟩ [⟨0, 1, 1, 1⟩],
    Assign.mk 0 2 ⟨0, 0, 0, 2⟩ [⟨0, 1, 1, 2⟩],
    Assign.mk 0 3 ⟨0, 0, 0, 3⟩ [⟨0, 1, 1, 3⟩],
    Assign.mk 1 0 ⟨1, 0, 0, 0⟩ [⟨1, 1, 1, 0⟩],
    Assign.mk 1 1 ⟨1, 0, 0, 1⟩ [⟨1, 1, 1, 1⟩],
    Assign.mk 1 2 ⟨1, 0, 0, 2⟩ [⟨1, 1, 1, 2⟩],
    Assign.mk 1 3 ⟨1, 0, 0, 3⟩ [⟨1, 1, 1, 3⟩],
    Assign.mk 2 0 ⟨2, 0, 0, 0⟩ [⟨2, 1, 1, 0⟩],
    Assign.mk 2 1 ⟨2, 0, 0, 1⟩ [⟨2, 1, 1, 1⟩],
    Assign.mk 2 2 ⟨2, 0, 0, 2⟩ [⟨2, 1, 1, 2⟩],
    Assign.mk 2 3 ⟨2, 0, 0, 3⟩ [⟨2, 1, 1, 3⟩],
    Assign.mk 3 0 ⟨3, 0, 0, 0⟩ [⟨3, 1, 1, 0⟩],
    Assign.mk 3 1 ⟨3, 0, 0, 1⟩ [⟨3, 1, 1, 1⟩],
    Assign.mk 3 2 ⟨3, 0, 0, 2⟩ [⟨3, 1, 1, 2⟩],
    Assign.mk 3 3 ⟨3, 0, 0, 3⟩ [⟨3, 1, 1, 3⟩]],
  -- 4x2 * 2x5 -> 4x5
  .exact 4 2 2 5 [
    Assign.mk 0 0 ⟨0, 0, 0, 0⟩ [⟨0, 1, 1, 0⟩],
    Assign.mk 0 1 ⟨0, 0, 0, 1⟩ [⟨0, 1, 1, 1⟩],
    Assign.mk 0 2 ⟨0, 0, 0, 2⟩ [⟨0, 1, 1, 2⟩],
    Assign.mk 0 3 ⟨0, 0, 0, 3⟩ [⟨0, 1, 1, 3⟩],
    Assign.mk 0 4 ⟨0, 0, 0, 4⟩ [⟨0, 1, 1, 4⟩],
    Assign.mk 1 0 ⟨1, 0, 0, 0⟩ [⟨1, 1, 1, 0⟩],
    Assign.mk 1 1 ⟨1, 0, 0, 1⟩ [⟨1, 1, 1, 1⟩],
    Assign.mk 1 2 ⟨1, 0, 0, 2⟩ [⟨1, 1, 1, 2⟩],
    Assign.mk 1 3 ⟨1, 0, 0, 3⟩ [⟨1, 1, 1, 3⟩],
    Assign.mk 1 4 ⟨1, 0, 0, 4⟩ [⟨1, 1, 1, 4⟩],
    Assign.mk 2 0 ⟨2, 0, 0, 0⟩ [⟨2, 1, 1, 0⟩],
    Assign.mk 2 1 ⟨2, 0, 0, 1⟩ [⟨2, 1, 1, 1⟩],
    Assign.mk 2 2 ⟨2, 0, 0, 2⟩ [⟨2, 1, 1, 2⟩],
    Assign.mk 2 3 ⟨2, 0, 0, 3⟩ [⟨2, 1, 1, 3⟩],
    Assign.mk 2 4 ⟨2, 0, 0, 4⟩ [⟨2, 1, 1, 4⟩],
    Assign.mk 3 0 ⟨3, 0, 0, 0⟩ [⟨3, 1, 1, 0⟩],
    Assign.mk 3 1 ⟨3, 0, 0, 1⟩ [⟨3, 1, 1, 1⟩],
    Assign.mk 3 2 ⟨3, 0, 0, 2⟩ [⟨3, 1, 1, 2⟩],
    Assign.mk 3 3 ⟨3, 0, 0, 3⟩ [⟨3, 1, 1, 3⟩],
    Assign.mk 3 4 ⟨3, 0, 0, 4⟩ [⟨3, 1, 1, 4⟩]],
  -- 5x2 * 2x1 -> 5x1
  .exact 5 2 2 1 [
    Assign.mk 0 0 ⟨0, 0, 0, 0⟩ [⟨0, 1, 1, 0⟩],
    Assign.mk 1 0 ⟨1, 0, 0, 0⟩ [⟨1, 1, 1, 0⟩],
    Assign.mk 2 0 ⟨2, 0, 0, 0⟩ [⟨2, 1, 1, 0⟩],
    Assign.mk 3 0 ⟨3, 0, 0, 0⟩ [⟨3, 1, 1, 0⟩],
    Assign.mk 4 0 ⟨4, 0, 0, 0⟩ [⟨4, 1, 1, 0⟩]],
  -- 5x2 * 2x2 -> 5x2
  .exact 5 2 2 2 [
    Assign.mk 0 0 ⟨0, 0, 0, 0⟩ [⟨0, 1, 1, 0⟩],
    Assign.mk 0 1 ⟨0, 0, 0, 1⟩ [⟨0, 1, 1, 1⟩],
    Assign.mk 1 0 ⟨1, 0, 0, 0⟩ [⟨1, 1, 1, 0⟩],
    Assign.mk 1 1 ⟨1, 0, 0, 1⟩ [⟨1, 1, 1, 1⟩],
    Assign.mk 2 0 ⟨2, 0, 0, 0⟩ [⟨2, 1, 1, 0⟩],
    Assign.mk 2 1 ⟨2, 0, 0, 1⟩ [⟨2, 1, 1, 1⟩],
    Assign.mk 3 0 ⟨3, 0, 0, 0⟩ [⟨3, 1, 1, 0⟩],
    Assign.mk 3 1 ⟨3, 0, 0, 1⟩ [⟨3, 1, 1, 1⟩],
    Assign.mk 4 0 ⟨4, 0, 0, 0⟩ [⟨4, 1, 1, 0⟩],
    Assign.mk 4 1 ⟨4, 0, 0, 1⟩ [⟨4, 1, 1, 1⟩]],
  -- 5x2 * 2x3 -> 5x3
  .exact 5 2 2 3 [
    Assign.mk 0 0 ⟨0, 0, 0, 0⟩ [⟨0, 1, 1, 0⟩],
    Assign.mk 0 1 ⟨0, 0, 0, 1⟩ [⟨0, 1, 1, 1⟩],
    Assign.mk 0 2 ⟨0, 0, 0, 2⟩ [⟨0, 1, 1, 2⟩],
    Assign.mk 1 0 ⟨1, 0, 0, 0⟩ [⟨1, 1, 1, 0⟩],
    Assign.mk 1 1 ⟨1, 0, 0, 1⟩ [⟨1, 1, 1, 1⟩],
    Assign.mk 1 2 ⟨1, 0, 0, 2⟩ [⟨1, 1, 1, 2⟩],
    Assign.mk 2 0 ⟨2, 0, 0, 0⟩ [⟨2, 1, 1, 0⟩],
    Assign.mk 2 1 ⟨2, 0, 0, 1⟩ [⟨2, 1, 1, 1⟩],
    Assign.mk 2 2 ⟨2, 0, 0, 2⟩ [⟨2, 1, 1, 2⟩],
    Assign.mk 3 0 ⟨3, 0, 0, 0⟩ [⟨3, 1, 1, 0⟩],
    Assign.mk 3 1 ⟨3, 0, 0, 1⟩ [⟨3, 1, 1, 1⟩],
    Assign.mk 3 2 ⟨3, 0, 0, 2⟩ [⟨3, 1, 1, 2⟩],
    Assign.mk 4 0 ⟨4, 0, 0, 0⟩ [⟨4, 1, 1, 0⟩],
    Assign.mk 4 1 ⟨4, 0, 0, 1⟩ [⟨4, 1, 1, 1⟩],
    Assign.mk 4 2 ⟨4, 0, 0, 2⟩ [⟨4, 1, 1, 2⟩]],
  -- 5x2 * 2x4 -> 5x4
  .exact 5 2 2 4 [
    Assign.mk 0 0 ⟨0, 0, 0, 0⟩ [⟨0, 1, 1, 0⟩],
    Assign.mk 0 1 ⟨0, 0, 0, 1⟩ [⟨0, 1, 1, 1⟩],
    Assign.mk 0 2 ⟨0, 0, 0, 2⟩ [⟨0, 1, 1, 2⟩],
    Assign.mk 0 3 ⟨0, 0, 0, 3⟩ [⟨0, 1, 1, 3⟩],
    Assign.mk 1 0 ⟨1, 0, 0, 0⟩ [⟨1, 1, 1, 0⟩],
    Assign.mk 1 1 ⟨1, 0, 0, 1⟩ [⟨1, 1, 1, 1⟩],
    Assign.mk 1 2 ⟨1, 0, 0, 2⟩ [⟨1, 1, 1, 2⟩],
    Assign.mk 1 3 ⟨1, 0, 0, 3⟩ [⟨1, 1, 1, 3⟩],
    Assign.mk 2 0 ⟨2, 0, 0, 0⟩ [⟨2, 1, 1, 0⟩],
    Assign.mk 2 1 ⟨2, 0, 0, 1⟩ [⟨2, 1, 1, 1⟩],
    Assign.mk 2 2 ⟨2, 0, 0, 2⟩ [⟨2, 1, 1, 2⟩],
    Assign.mk 2 3 ⟨2, 0, 0, 3⟩ [⟨2, 1, 1, 3⟩],
    Assign.mk 3 0 ⟨3, 0, 0, 0⟩ [⟨3, 1, 1, 0⟩],
    Assign.mk 3 1 ⟨3, 0, 0, 1⟩ [⟨3, 1, 1, 1⟩],
    Assign.mk 3 2 ⟨3, 0, 0, 2⟩ [⟨3, 1, 1, 2⟩],
    Assign.mk 3 3 ⟨3, 0, 0, 3⟩ [⟨3, 1, 1, 3⟩],
    Assign.mk 4 0 ⟨4, 0, 0, 0⟩ [⟨4, 1, 1, 0⟩],
    Assign.mk 4 1 ⟨4, 0, 0, 1⟩ [⟨4, 1, 1, 1⟩],
    Assign.mk 4 2 ⟨4, 0, 0, 2⟩ [⟨4, 1, 1, 2⟩],
    Assign.mk 4 3 ⟨4, 0, 0, 3⟩ [⟨4, 1, 1, 3⟩]],
  -- 5x2 * 2x5 -> 5x5
  .exact 5 2 2 5 [
    Assign.mk 0 0 ⟨0, 0, 0, 0⟩ [⟨0, 1, 1, 0⟩],
    Assign.mk 0 1 ⟨0, 0, 0, 1⟩ [⟨0, 1, 1, 1⟩],
    Assign.mk 0 2 ⟨0, 0, 0, 2⟩ [⟨0, 1, 1, 2⟩],
    Assign.mk 0 3 ⟨0, 0, 0, 3⟩ [⟨0, 1, 1, 3⟩],
    Assign.mk 0 4 ⟨0, 0, 0, 4⟩ [⟨0, 1, 1, 4⟩],
    Assign.mk 1 0 ⟨1, 0, 0, 0⟩ [⟨1, 1, 1, 0⟩],
    Assign.mk 1 1 ⟨1, 0, 0, 1⟩ [⟨1, 1, 1, 1⟩],
    Assign.mk 1 2 ⟨1, 0, 0, 2⟩ [⟨1, 1, 1, 2⟩],
    Assign.mk 1 3 ⟨1, 0, 0, 3⟩ [⟨1, 1, 1, 3⟩],
    Assign.mk 1 4 ⟨1, 0, 0, 4⟩ [⟨1, 1, 1, 4⟩],
    Assign.mk 2 0 ⟨2, 0, 0, 0⟩ [⟨2, 1, 1, 0⟩],
    Assign.mk 2 1 ⟨2, 0, 0, 1⟩ [⟨2, 1, 1, 1⟩],
    Assign.mk 2 2 ⟨2, 0, 0, 2⟩ [⟨2, 1, 1, 2⟩],
    Assign.mk 2 3 ⟨2, 0, 0, 3⟩ [⟨2, 1, 1, 3⟩],
    Assign.mk 2 4 ⟨2, 0, 0, 4⟩ [⟨2, 1, 1, 4⟩],
    Assign.mk 3 0 ⟨3, 0, 0, 0⟩ [⟨3, 1, 1, 0⟩],
    Assign.mk 3 1 ⟨3, 0, 0, 1⟩ [⟨3, 1, 1, 1⟩],
    Assign.mk 3 2 ⟨3, 0, 0, 2⟩ [⟨3, 1, 1, 2⟩],
    Assign.mk 3 3 ⟨3, 0, 0, 3⟩ [⟨3, 1, 1, 3⟩],
    Assign.mk 3 4 ⟨3, 0, 0, 4⟩ [⟨3, 1, 1, 4⟩],
    Assign.mk 4 0 ⟨4, 0, 0, 0⟩ [⟨4, 1, 1, 0⟩],
    Assign.mk 4 1 ⟨4, 0, 0, 1⟩ [⟨4, 1, 1, 1⟩],
    Assign.mk 4 2 ⟨4, 0, 0, 2⟩ [⟨4, 1, 1, 2⟩],
    Assign.mk 4 3 ⟨4, 0, 0, 3⟩ [⟨4, 1, 1, 3⟩],
    Assign.mk 4 4 ⟨4, 0, 0, 4⟩ [⟨4, 1, 1, 4⟩]],
  -- Matrices n1x2 * 2xn2
  .loop 2 2
    (Assign.mk .rows .cols ⟨.rows, 0, 0, .cols⟩ [⟨.rows, 1, 1, .cols⟩])]

/-- Transcription of the branches with `_ColsA == 3` of the table for up to 5x5
(`Matrix::Mul`, source lines 1648 to 2127), in source order. -/
def Mul_unrolled_5x5_ColsA3 : List Branch := [
  -- 1x3 * 3x1 -> 1x1
  .exact 1 3 3 1 [
    Assign.mk 0 0 ⟨0, 0, 0, 0⟩ [⟨0, 1, 1, 0⟩, ⟨0, 2, 2, 0⟩]],
  -- 1x3 * 3x2 -> 1x2
  .exact 1 3 3 2 [
    Assign.mk 0 0 ⟨0, 0, 0, 0⟩ [⟨0, 1, 1, 0⟩, ⟨0, 2, 2, 0⟩],
    Assign.mk 0 1 ⟨0, 0, 0, 1⟩ [⟨0, 1, 1, 1⟩, ⟨0, 2, 2, 1⟩]],
  -- 1x3 * 3x3 -> 1x3
  .exact 1 3 3 3 [
    Assign.mk 0 0 ⟨0, 0, 0, 0⟩ [⟨0, 1, 1, 0⟩, ⟨0, 2, 2, 0⟩],
    Assign.mk 0 1 ⟨0, 0, 0, 1⟩ [⟨0, 1, 1, 1⟩, ⟨0, 2, 2, 1⟩],
    Assign.mk 0 2 ⟨0, 0, 0, 2⟩ [⟨0, 1, 1, 2⟩, ⟨0, 2, 2, 2⟩]],
  -- 1x3 * 3x4 -> 1x4
  .exact 1 3 3 4 [
    Assign.mk 0 0 ⟨0, 0, 0, 0⟩ [⟨0, 1, 1, 0⟩, ⟨0, 2, 2, 0⟩],
    Assign.mk 0 1 ⟨0, 0, 0, 1⟩ [⟨0, 1, 1, 1⟩, ⟨0, 2, 2, 1⟩],
    Assign.mk 0 2 ⟨0, 0, 0, 2⟩ [⟨0, 1, 1, 2⟩, ⟨0, 2, 2, 2⟩],
    Assign.mk 0 3 ⟨0, 0, 0, 3⟩ [⟨0, 1, 1, 3⟩, ⟨0, 2, 2, 3⟩]],
  -- 1x3 * 3x5 -> 1x5
  .exact 1 3 3 5 [
    Assign.mk 0 0 ⟨0, 0, 0, 0⟩ [⟨0, 1, 1, 0⟩, ⟨0, 2, 2, 0⟩],
    Assign.mk 0 1 ⟨0, 0, 0, 1⟩ [⟨0, 1, 1, 1⟩, ⟨0, 2, 2, 1⟩],
    Assign.mk 0 2 ⟨0, 0, 0, 2⟩ [⟨0, 1, 1, 2⟩, ⟨0, 2, 2, 2⟩],
    Assign.mk 0 3 ⟨0, 0, 0, 3⟩ [⟨0, 1, 1, 3⟩, ⟨0, 2, 2, 3⟩],
    Assign.mk 0 4 ⟨0, 0, 0, 4⟩ [⟨0, 1, 1, 4⟩, ⟨0, 2, 2, 4⟩]],
  -- 2x3 * 3x1 -> 2x1
  .exact 2 3 3 1 [
    Assign.mk 0 0 ⟨0, 0, 0, 0⟩ [⟨0, 1, 1, 0⟩, ⟨0, 2, 2, 0⟩],
    Assign.mk 1 0 ⟨1, 0, 0, 0⟩ [⟨1, 1, 1, 0⟩, ⟨1, 2, 2, 0⟩]],
  -- 2x3 * 3x2 -> 2x2
  .exact 2 3 3 2 [
    Assign.mk 0 0 ⟨0, 0, 0, 0⟩ [⟨0, 1, 1, 0⟩, ⟨0, 2, 2, 0⟩],
    Assign.mk 0 1 ⟨0, 0, 0, 1⟩ [⟨0, 1, 1, 1⟩, ⟨0, 2, 2, 1⟩],
    Assign.mk 1 0 ⟨1, 0, 0, 0⟩ [⟨1, 1, 1, 0⟩, ⟨1, 2, 2, 0⟩],
    Assign.mk 1 1 ⟨1, 0, 0, 1⟩ [⟨1, 1, 1, 1⟩, ⟨1, 2, 2, 1⟩]],
  -- 2x3 * 3x3 -> 2x3
  .exact 2 3 3 3 [
    Assign.mk 0 0 ⟨0, 0, 0, 0⟩ [⟨0, 1, 1, 0⟩, ⟨0, 2, 2, 0⟩],
    Assign.mk 0 1 ⟨0, 0, 0, 1⟩ [⟨0, 1, 1, 1⟩, ⟨0, 2, 2, 1⟩],
    Assign.mk 0 2 ⟨0, 0, 0, 2⟩ [⟨0, 1, 1, 2⟩, ⟨0, 2, 2, 2⟩],
    Assign.mk 1 0 ⟨1, 0, 0, 0⟩ [⟨1, 1, 1, 0⟩, ⟨1, 2, 2, 0⟩],
    Assign.mk 1 1 ⟨1, 0, 0, 1⟩ [⟨1, 1, 1, 1⟩, ⟨1, 2, 2, 1⟩],
    Assign.mk 1 2 ⟨1, 0, 0, 2⟩ [⟨1, 1, 1, 2⟩, ⟨1, 2, 2, 2⟩]],
  -- 2x3 * 3x4 -> 2x4
  .exact 2 3 3 4 [
    Assign.mk 0 0 ⟨0, 0, 0, 0⟩ [⟨0, 1, 1, 0⟩, ⟨0, 2, 2, 0⟩],
    Assign.mk 0 1 ⟨0, 0, 0, 1⟩ [⟨0, 1, 1, 1⟩, ⟨0, 2, 2, 1⟩],
    Assign.mk 0 2 ⟨0, 0, 0, 2⟩ [⟨0, 1, 1, 2⟩, ⟨0, 2, 2, 2⟩],
    Assign.mk 0 3 ⟨0, 0, 0, 3⟩ [⟨0, 1, 1, 3⟩, ⟨0, 2, 2, 3⟩],
    Assign.mk 1 0 ⟨1, 0, 0, 0⟩ [⟨1, 1, 1, 0⟩, ⟨1, 2, 2, 0⟩],
    Assign.mk 1 1 ⟨1, 0, 0, 1⟩ [⟨1, 1, 1, 1⟩, ⟨1, 2, 2, 1⟩],
    Assign.mk 1 2 ⟨1, 0, 0, 2⟩ [⟨1, 1, 1, 2⟩, ⟨1, 2, 2, 2⟩],
    Assign.mk 1 3 ⟨1, 0, 0, 3⟩ [⟨1, 1, 1, 3⟩, ⟨1, 2, 2, 3⟩]],
  -- 2x3 * 3x5 -> 2x5
  .exact 2 3 3 5 [
    Assign.mk 0 0 ⟨0, 0, 0, 0⟩ [⟨0, 1, 1, 0⟩, ⟨0, 2, 2, 0⟩],
    Assign.mk 0 1 ⟨0, 0, 0, 1⟩ [⟨0, 1, 1, 1⟩, ⟨0, 2, 2, 1⟩],
    Assign.mk 0 2 ⟨0, 0, 0, 2⟩ [⟨0, 1, 1, 2⟩, ⟨0, 2, 2, 2⟩],
    Assign.mk 0 3 ⟨0, 0, 0, 3⟩ [⟨0, 1, 1, 3⟩, ⟨0, 2, 2, 3⟩],
    Assign.mk 0 4 ⟨0, 0, 0, 4⟩ [⟨0, 1, 1, 4⟩, ⟨0, 2, 2, 4⟩],
    Assign.mk 1 0 ⟨1, 0, 0, 0⟩ [⟨1, 1, 1, 0⟩, ⟨1, 2, 2, 0⟩],
    Assign.mk 1 1 ⟨1, 0, 0, 1⟩ [⟨1, 1, 1, 1⟩, ⟨1, 2, 2, 1⟩],
    Assign.mk 1 2 ⟨1, 0, 0, 2⟩ [⟨1, 1, 1, 2⟩, ⟨1, 2, 2, 2⟩],
    Assign.mk 1 3 ⟨1, 0, 0, 3⟩ [⟨1, 1, 1, 3⟩, ⟨1, 2, 2, 3⟩],
    Assign.mk 1 4 ⟨1, 0, 0, 4⟩ [⟨1, 1, 1, 4⟩, ⟨1, 2, 2, 4⟩]],
  -- 3x3 * 3x1 -> 3x1
  .exact 3 3 3 1 [
    Assign.mk 0 0 ⟨0, 0, 0, 0⟩ [⟨0, 1, 1, 0⟩, ⟨0, 2, 2, 0⟩],
    Assign.mk 1 0 ⟨1, 0, 0, 0⟩ [⟨1, 1, 1, 0⟩, ⟨1, 2, 2, 0⟩],
    Assign.mk 2 0 ⟨2, 0, 0, 0⟩ [⟨2, 1, 1, 0⟩, ⟨2, 2, 2, 0⟩]],
  -- 3x3 * 3x2 -> 3x2
  .exact 3 3 3 2 [
    Assign.mk 0 0 ⟨0, 0, 0, 0⟩ [⟨0, 1, 1, 0⟩, ⟨0, 2, 2, 0⟩],
    Assign.mk 0 1 ⟨0, 0, 0, 1⟩ [⟨0, 1, 1, 1⟩, ⟨0, 2, 2, 1⟩],
    Assign.mk 1 0 ⟨1, 0, 0, 0⟩ [⟨1, 1, 1, 0⟩, ⟨1, 2, 2, 0⟩],
    Assign.mk 1 1 ⟨1, 0, 0, 1⟩ [⟨1, 1, 1, 1⟩, ⟨1, 2, 2, 1⟩],
    Assign.mk 2 0 ⟨2, 0, 0, 0⟩ [⟨2, 1, 1, 0⟩, ⟨2, 2, 2, 0⟩],
    Assign.mk 2 1 ⟨2, 0, 0, 1⟩ [⟨2, 1, 1, 1⟩, ⟨2, 2, 2, 1⟩]],
  -- 3x3 * 3x3 -> 3x3
  .exact 3 3 3 3 [
    Assign.mk 0 0 ⟨0, 0, 0, 0⟩ [⟨0, 1, 1, 0⟩, ⟨0, 2, 2, 0⟩],
    Assign.mk 0 1 ⟨0, 0, 0, 1⟩ [⟨0, 1, 1, 1⟩, ⟨0, 2, 2, 1⟩],
    Assign.mk 0 2 ⟨0, 0, 0, 2⟩ [⟨0, 1, 1, 2⟩, ⟨0, 2, 2, 2⟩],
    Assign.mk 1 0 ⟨1, 0, 0, 0⟩ [⟨1, 1, 1, 0⟩, ⟨1, 2, 2, 0⟩],
    Assign.mk 1 1 ⟨1, 0, 0, 1⟩ [⟨1, 1, 1, 1⟩, ⟨1, 2, 2, 1⟩],
    Assign.mk 1 2 ⟨1, 0, 0, 2⟩ [⟨1, 1, 1, 2⟩, ⟨1, 2, 2, 2⟩],
    Assign.mk 2 0 ⟨2, 0, 0, 0⟩ [⟨2, 1, 1, 0⟩, ⟨2, 2, 2, 0⟩],
    Assign.mk 2 1 ⟨2, 0, 0, 1⟩ [⟨2, 1, 1, 1⟩, ⟨2, 2, 2, 1⟩],
    Assign.mk 2 2 ⟨2, 0, 0, 2⟩ [⟨2, 1, 1, 2⟩, ⟨2, 2, 2, 2⟩]],
  -- 3x3 * 3x4 -> 3x4
  .exact 3 3 3 4 [
    Assign.mk 0 0 ⟨0, 0, 0, 0⟩ [⟨0, 1, 1, 0⟩, ⟨0, 2, 2, 0⟩],
    Assign.mk 0 1 ⟨0, 0, 0, 1⟩ [⟨0, 1, 1, 1⟩, ⟨0, 2, 2, 1⟩],
    Assign.mk 0 2 ⟨0, 0, 0, 2⟩ [⟨0, 1, 1, 2⟩, ⟨0, 2, 2, 2⟩],
    Assign.mk 0 3 ⟨0, 0, 0, 3⟩ [⟨0, 1, 1, 3⟩, ⟨0, 2, 2, 3⟩],
    Assign.mk 1 0 ⟨1, 0, 0, 0⟩ [⟨1, 1, 1, 0⟩, ⟨1, 2, 2, 0⟩],
    Assign.mk 1 1 ⟨1, 0, 0, 1⟩ [⟨1, 1, 1, 1⟩, ⟨1, 2, 2, 1⟩],
    Assign.mk 1 2 ⟨1, 0, 0, 2⟩ [⟨1, 1, 1, 2⟩, ⟨1, 2, 2, 2⟩],
    Assign.mk 1 3 ⟨1, 0, 0, 3⟩ [⟨1, 1, 1, 3⟩, ⟨1, 2, 2, 3⟩],
    Assign.mk 2 0 ⟨2, 0, 0, 0⟩ [⟨2, 1, 1, 0⟩, ⟨2, 2, 2, 0⟩],
    Assign.mk 2 1 ⟨2, 0, 0, 1⟩ [⟨2, 1, 1, 1⟩, ⟨2, 2, 2, 1⟩],
    Assign.mk 2 2 ⟨2, 0, 0, 2⟩ [⟨2, 1, 1, 2⟩, ⟨2, 2, 2, 2⟩],
    Assign.mk 2 3 ⟨2, 0, 0, 3⟩ [⟨2, 1, 1, 3⟩, ⟨2, 2, 2, 3⟩]],
  -- 3x3 * 3x5 -> 3x5
  .exact 3 3 3 5 [
    Assign.mk 0 0 ⟨0, 0, 0, 0⟩ [⟨0, 1, 1, 0⟩, ⟨0, 2, 2, 0⟩],
    Assign.mk 0 1 ⟨0, 0, 0, 1⟩ [⟨0, 1, 1, 1⟩, ⟨0, 2, 2, 1⟩],
    Assign.mk 0 2 ⟨0, 0, 0, 2⟩ [⟨0, 1, 1, 2⟩, ⟨0, 2, 2, 2⟩],
    Assign.mk 0 3 ⟨0, 0, 0, 3⟩ [⟨0, 1, 1, 3⟩, ⟨0, 2, 2, 3⟩],
    Assign.mk 0 4 ⟨0, 0, 0, 4⟩ [⟨0, 1, 1, 4⟩, ⟨0, 2, 2, 4⟩],
    Assign.mk 1 0 ⟨1, 0, 0, 0⟩ [⟨1, 1, 1, 0⟩, ⟨1, 2, 2, 0⟩],
    Assign.mk 1 1 ⟨1, 0, 0, 1⟩ [⟨1, 1, 1, 1⟩, ⟨1, 2, 2, 1⟩],
    Assign.mk 1 2 ⟨1, 0, 0, 2⟩ [⟨1, 1, 1, 2⟩, ⟨1, 2, 2, 2⟩],
    Assign.mk 1 3 ⟨1, 0, 0, 3⟩ [⟨1, 1, 1, 3⟩, ⟨1, 2, 2, 3⟩],
    Assign.mk 1 4 ⟨1, 0, 0, 4⟩ [⟨1, 1, 1, 4⟩, ⟨1, 2, 2, 4⟩],
    Assign.mk 2 0 ⟨2, 0, 0, 0⟩ [⟨2, 1, 1, 0⟩, ⟨2, 2, 2, 0⟩],
    Assign.mk 2 1 ⟨2, 0, 0, 1⟩ [⟨2, 1, 1, 1⟩, ⟨2, 2, 2, 1⟩],
    Assign.mk 2 2 ⟨2, 0, 0, 2⟩ [⟨2, 1, 1, 2⟩, ⟨2, 2, 2, 2⟩],
    Assign.mk 2 3 ⟨2, 0, 0, 3⟩ [⟨2, 1, 1, 3⟩, ⟨2, 2, 2, 3⟩],
    Assign.mk 2 4 ⟨2, 0, 0, 4⟩ [⟨2, 1, 1, 4⟩, ⟨2, 2, 2, 4⟩]],
  -- 4x3 * 3x1 -> 4x1
  .exact 4 3 3 1 [
    Assign.mk 0 0 ⟨0, 0, 0, 0⟩ [⟨0, 1, 1, 0⟩, ⟨0, 2, 2, 0⟩],
    Assign.mk 1 0 ⟨1, 0, 0, 0⟩ [⟨1, 1, 1, 0⟩, ⟨1, 2, 2, 0⟩],
    Assign.mk 2 0 ⟨2, 0, 0, 0⟩ [⟨2, 1, 1, 0⟩, ⟨2, 2, 2, 0⟩],
    Assign.mk 3 0 ⟨3, 0, 0, 0⟩ [⟨3, 1, 1, 0⟩, ⟨3, 2, 2, 0⟩]],
  -- 4x3 * 3x2 -> 4x2
  .exact 4 3 3 2 [
    Assign.mk 0 0 ⟨0, 0, 0, 0⟩ [⟨0, 1, 1, 0⟩, ⟨0, 2, 2, 0⟩],
    Assign.mk 0 1 ⟨0, 0, 0, 1⟩ [⟨0, 1, 1, 1⟩, ⟨0, 2, 2, 1⟩],
    Assign.mk 1 0 ⟨1, 0, 0, 0⟩ [⟨1, 1, 1, 0⟩, ⟨1, 2, 2, 0⟩],
    Assign.mk 1 1 ⟨1, 0, 0, 1⟩ [⟨1, 1, 1, 1⟩, ⟨1, 2, 2, 1⟩],
    Assign.mk 2 0 ⟨2, 0, 0, 0⟩ [⟨2, 1, 1, 0⟩, ⟨2, 2, 2, 0⟩],
    Assign.mk 2 1 ⟨2, 0, 0, 1⟩ [⟨2, 1, 1, 1⟩, ⟨2, 2, 2, 1⟩],
    Assign.mk 3 0 ⟨3, 0, 0, 0⟩ [⟨3, 1, 1, 0⟩, ⟨3, 2, 2, 0⟩],
    Assign.mk 3 1 ⟨3, 0, 0, 1⟩ [⟨3, 1, 1, 1⟩, ⟨3, 2, 2, 1⟩]],
  -- 4x3 * 3x3 -> 4x3
  .exact 4 3 3 3 [
    Assign.mk 0 0 ⟨0, 0, 0, 0⟩ [⟨0, 1, 1, 0⟩, ⟨0, 2, 2, 0⟩],
    Assign.mk 0 1 ⟨0, 0, 0, 1⟩ [⟨0, 1, 1, 1⟩, ⟨0, 2, 2, 1⟩],
    Assign.mk 0 2 ⟨0, 0, 0, 2⟩ [⟨0, 1, 1, 2⟩, ⟨0, 2, 2, 2⟩],
    Assign.mk 1 0 ⟨1, 0, 0, 0⟩ [⟨1, 1, 1, 0⟩, ⟨1, 2, 2, 0⟩],
    Assign.mk 1 1 ⟨1, 0, 0, 1⟩ [⟨1, 1, 1, 1⟩, ⟨1, 2, 2, 1⟩],
    Assign.mk 1 2 ⟨1, 0, 0, 2⟩ [⟨1, 1, 1, 2⟩, ⟨1, 2, 2, 2⟩],
    Assign.mk 2 0 ⟨2, 0, 0, 0⟩ [⟨2, 1, 1, 0⟩, ⟨2, 2, 2, 0⟩],
    Assign.mk 2 1 ⟨2, 0, 0, 1⟩ [⟨2, 1, 1, 1⟩, ⟨2, 2, 2, 1⟩],
    Assign.mk 2 2 ⟨2, 0, 0, 2⟩ [⟨2, 1, 1, 2⟩, ⟨2, 2, 2, 2⟩],
    Assign.mk 3 0 ⟨3, 0, 0, 0⟩ [⟨3, 1, 1, 0⟩, ⟨3, 2, 2, 0⟩],
    Assign.mk 3 1 ⟨3, 0, 0, 1⟩ [⟨3, 1, 1, 1⟩, ⟨3, 2, 2, 1⟩],
    Assign.mk 3 2 ⟨3, 0, 0, 2⟩ [⟨3, 1, 1, 2⟩, ⟨3, 2, 2, 2⟩]],
  -- 4x3 * 3x4 -> 4x4
  .exact 4 3 3 4 [
    Assign.mk 0 0 ⟨0, 0, 0, 0⟩ [⟨0, 1, 1, 0⟩, ⟨0, 2, 2, 0⟩],
    Assign.mk 0 1 ⟨0, 0, 0, 1⟩ [⟨0, 1, 1, 1⟩, ⟨0, 2, 2, 1⟩],
    Assign.mk 0 2 ⟨0, 0, 0, 2⟩ [⟨0, 1, 1, 2⟩, ⟨0, 2, 2, 2⟩],
    Assign.mk 0 3 ⟨0, 0, 0, 3⟩ [⟨0, 1, 1, 3⟩, ⟨0, 2, 2, 3⟩],
    Assign.mk 1 0 ⟨1, 0, 0, 0⟩ [⟨1, 1, 1, 0⟩, ⟨1, 2, 2, 0⟩],
    Assign.mk 1 1 ⟨1, 0, 0, 1⟩ [⟨1, 1, 1, 1⟩, ⟨1, 2, 2, 1⟩],
    Assign.mk 1 2 ⟨1, 0, 0, 2⟩ [⟨1, 1, 1, 2⟩, ⟨1, 2, 2, 2⟩],
    Assign.mk 1 3 ⟨1, 0, 0, 3⟩ [⟨1, 1, 1, 3⟩, ⟨1, 2, 2, 3⟩],
    Assign.mk 2 0 ⟨2, 0, 0, 0⟩ [⟨2, 1, 1, 0⟩, ⟨2, 2, 2, 0⟩],
    Assign.mk 2 1 ⟨2, 0, 0, 1⟩ [⟨2, 1, 1, 1⟩, ⟨2, 2, 2, 1⟩],
    Assign.mk 2 2 ⟨2, 0, 0, 2⟩ [⟨2, 1, 1, 2⟩, ⟨2, 2, 2, 2⟩],
    Assign.mk 2 3 ⟨2, 0, 0, 3⟩ [⟨2, 1, 1, 3⟩, ⟨2, 2, 2, 3⟩],
    Assign.mk 3 0 ⟨3, 0, 0, 0⟩ [⟨3, 1, 1, 0⟩, ⟨3, 2, 2, 0⟩],
    Assign.mk 3 1 ⟨3, 0, 0, 1⟩ [⟨3, 1, 1, 1⟩, ⟨3, 2, 2, 1⟩],
    Assign.mk 3 2 ⟨3, 0, 0, 2⟩ [⟨3, 1, 1, 2⟩, ⟨3, 2, 2, 2⟩],
    Assign.mk 3 3 ⟨3, 0, 0, 3⟩ [⟨3, 1, 1, 3⟩, ⟨3, 2, 2, 3⟩]],
  -- 4x3 * 3x5 -> 4x5
  .exact 4 3 3 5 [
    Assign.mk 0 0 ⟨0, 0, 0, 0⟩ [⟨0, 1, 1, 0⟩, ⟨0, 2, 2, 0⟩],
    Assign.mk 0 1 ⟨0, 0, 0, 1⟩ [⟨0, 1, 1, 1⟩, ⟨0, 2, 2, 1⟩],
    Assign.mk 0 2 ⟨0, 0, 0, 2⟩ [⟨0, 1, 1, 2⟩, ⟨0, 2, 2, 2⟩],
    Assign.mk 0 3 ⟨0, 0, 0, 3⟩ [⟨0, 1, 1, 3⟩, ⟨0, 2, 2, 3⟩],
    Assign.mk 0 4 ⟨0, 0, 0, 4⟩ [⟨0, 1, 1, 4⟩, ⟨0, 2, 2, 4⟩],
    Assign.mk 1 0 ⟨1, 0, 0, 0⟩ [⟨1, 1, 1, 0⟩, ⟨1, 2, 2, 0⟩],
    Assign.mk 1 1 ⟨1, 0, 0, 1⟩ [⟨1, 1, 1, 1⟩, ⟨1, 2, 2, 1⟩],
    Assign.mk 1 2 ⟨1, 0, 0, 2⟩ [⟨1, 1, 1, 2⟩, ⟨1, 2, 2, 2⟩],
    Assign.mk 1 3 ⟨1, 0, 0, 3⟩ [⟨1, 1, 1, 3⟩, ⟨1, 2, 2, 3⟩],
    Assign.mk 1 4 ⟨1, 0, 0, 4⟩ [⟨1, 1, 1, 4⟩, ⟨1, 2, 2, 4⟩],
    Assign.mk 2 0 ⟨2, 0, 0, 0⟩ [⟨2, 1, 1, 0⟩, ⟨2, 2, 2, 0⟩],
    Assign.mk 2 1 ⟨2, 0, 0, 1⟩ [⟨2, 1, 1, 1⟩, ⟨2, 2, 2, 1⟩],
    Assign.mk 2 2 ⟨2, 0, 0, 2⟩ [⟨2, 1, 1, 2⟩, ⟨2, 2, 2, 2⟩],
    Assign.mk 2 3 ⟨2, 0, 0, 3⟩ [⟨2, 1, 1, 3⟩, ⟨2, 2, 2, 3⟩],
    Assign.mk 2 4 ⟨2, 0, 0, 4⟩ [⟨2, 1, 1, 4⟩, ⟨2, 2, 2, 4⟩],
    Assign.mk 3 0 ⟨3, 0, 0, 0⟩ [⟨3, 1, 1, 0⟩, ⟨3, 2, 2, 0⟩],
    Assign.mk 3 1 ⟨3, 0, 0, 1⟩ [⟨3, 1, 1, 1⟩, ⟨3, 2, 2, 1⟩],
    Assign.mk 3 2 ⟨3, 0, 0, 2⟩ [⟨3, 1, 1, 2⟩, ⟨3, 2, 2, 2⟩],
    Assign.mk 3 3 ⟨3, 0, 0, 3⟩ [⟨3, 1, 1, 3⟩, ⟨3, 2, 2, 3⟩],
    Assign.mk 3 4 ⟨3, 0, 0, 4⟩ [⟨3, 1, 1, 4⟩, ⟨3, 2, 2, 4⟩]],
  -- 5x3 * 3x1 -> 5x1
  .exact 5 3 3 1 [
    Assign.mk 0 0 ⟨0, 0, 0, 0⟩ [⟨0, 1, 1, 0⟩, ⟨0, 2, 2, 0⟩],
    Assign.mk 1 0 ⟨1, 0, 0, 0⟩ [⟨1, 1, 1, 0⟩, ⟨1, 2, 2, 0⟩],
    Assign.mk 2 0 ⟨2, 0, 0, 0⟩ [⟨2, 1, 1, 0⟩, ⟨2, 2, 2, 0⟩],
    Assign.mk 3 0 ⟨3, 0, 0, 0⟩ [⟨3, 1, 1, 0⟩, ⟨3, 2, 2, 0⟩],
    Assign.mk 4 0 ⟨4, 0, 0, 0⟩ [⟨4, 1, 1, 0⟩, ⟨4, 2, 2, 0⟩]],
  -- 5x3 * 3x2 -> 5x2
  .exact 5 3 3 2 [
    Assign.mk 0 0 ⟨0, 0, 0, 0⟩ [⟨0, 1, 1, 0⟩, ⟨0, 2, 2, 0⟩],
    Assign.mk 0 1 ⟨0, 0, 0, 1⟩ [⟨0, 1, 1, 1⟩, ⟨0, 2, 2, 1⟩],
    Assign.mk 1 0 ⟨1, 0, 0, 0⟩ [⟨1, 1, 1, 0⟩, ⟨1, 2, 2, 0⟩],
    Assign.mk 1 1 ⟨1, 0, 0, 1⟩ [⟨1, 1, 1, 1⟩, ⟨1, 2, 2, 1⟩],
    Assign.mk 2 0 ⟨2, 0, 0, 0⟩ [⟨2, 1, 1, 0⟩, ⟨2, 2, 2, 0⟩],
    Assign.mk 2 1 ⟨2, 0, 0, 1⟩ [⟨2, 1, 1, 1⟩, ⟨2, 2, 2, 1⟩],
    Assign.mk 3 0 ⟨3, 0, 0, 0⟩ [⟨3, 1, 1, 0⟩, ⟨3, 2, 2, 0⟩],
    Assign.mk 3 1 ⟨3, 0, 0, 1⟩ [⟨3, 1, 1, 1⟩, ⟨3, 2, 2, 1⟩],
    Assign.mk 4 0 ⟨4, 0, 0, 0⟩ [⟨4, 1, 1, 0⟩, ⟨4, 2, 2, 0⟩],
    Assign.mk 4 1 ⟨4, 0, 0, 1⟩ [⟨4, 1, 1, 1⟩, ⟨4, 2, 2, 1⟩]],
  -- 5x3 * 3x3 -> 5x3
  .exact 5 3 3 3 [
    Assign.mk 0 0 ⟨0, 0, 0, 0⟩ [⟨0, 1, 1, 0⟩, ⟨0, 2, 2, 0⟩],
    Assign.mk 0 1 ⟨0, 0, 0, 1⟩ [⟨0, 1, 1, 1⟩, ⟨0, 2, 2, 1⟩],
    Assign.mk 0 2 ⟨0, 0, 0, 2⟩ [⟨0, 1, 1, 2⟩, ⟨0, 2, 2, 2⟩],
    Assign.mk 1 0 ⟨1, 0, 0, 0⟩ [⟨1, 1, 1, 0⟩, ⟨1, 2, 2, 0⟩],
    Assign.mk 1 1 ⟨1, 0, 0, 1⟩ [⟨1, 1, 1, 1⟩, ⟨1, 2, 2, 1⟩],
    Assign.mk 1 2 ⟨1, 0, 0, 2⟩ [⟨1, 1, 1, 2⟩, ⟨1, 2, 2, 2⟩],
    Assign.mk 2 0 ⟨2, 0, 0, 0⟩ [⟨2, 1, 1, 0⟩, ⟨2, 2, 2, 0⟩],
    Assign.mk 2 1 ⟨2, 0, 0, 1⟩ [⟨2, 1, 1, 1⟩, ⟨2, 2, 2, 1⟩],
    Assign.mk 2 2 ⟨2, 0, 0, 2⟩ [⟨2, 1, 1, 2⟩, ⟨2, 2, 2, 2⟩],
    Assign.mk 3 0 ⟨3, 0, 0, 0⟩ [⟨3, 1, 1, 0⟩, ⟨3, 2, 2, 0⟩],
    Assign.mk 3 1 ⟨3, 0, 0, 1⟩ [⟨3, 1, 1, 1⟩, ⟨3, 2, 2, 1⟩],
    Assign.mk 3 2 ⟨3, 0, 0, 2⟩ [⟨3, 1, 1, 2⟩, ⟨3, 2, 2, 2⟩],
    Assign.mk 4 0 ⟨4, 0, 0, 0⟩ [⟨4, 1, 1, 0⟩, ⟨4, 2, 2, 0⟩],
    Assign.mk 4 1 ⟨4, 0, 0, 1⟩ [⟨4, 1, 1, 1⟩, ⟨4, 2, 2, 1⟩],
    Assign.mk 4 2 ⟨4, 0, 0, 2⟩ [⟨4, 1, 1, 2⟩, ⟨4, 2, 2, 2⟩]],
  -- 5x3 * 3x4 -> 5x4
  .exact 5 3 3 4 [
    Assign.mk 0 0 ⟨0, 0, 0, 0⟩ [⟨0, 1, 1, 0⟩, ⟨0, 2, 2, 0⟩],
    Assign.mk 0 1 ⟨0, 0, 0, 1⟩ [⟨0, 1, 1, 1⟩, ⟨0, 2, 2, 1⟩],
    Assign.mk 0 2 ⟨0, 0, 0, 2⟩ [⟨0, 1, 1, 2⟩, ⟨0, 2, 2, 2⟩],
    Assign.mk 0 3 ⟨0, 0, 0, 3⟩ [⟨0, 1, 1, 3⟩, ⟨0, 2, 2, 3⟩],
    Assign.mk 1 0 ⟨1, 0, 0, 0⟩ [⟨1, 1, 1, 0⟩, ⟨1, 2, 2, 0⟩],
    Assign.mk 1 1 ⟨1, 0, 0, 1⟩ [⟨1, 1, 1, 1⟩, ⟨1, 2, 2, 1⟩],
    Assign.mk 1 2 ⟨1, 0, 0, 2⟩ [⟨1, 1, 1, 2⟩, ⟨1, 2, 2, 2⟩],
    Assign.mk 1 3 ⟨1, 0, 0, 3⟩ [⟨1, 1, 1, 3⟩, ⟨1, 2, 2, 3⟩],
    Assign.mk 2 0 ⟨2, 0, 0, 0⟩ [⟨2, 1, 1, 0⟩, ⟨2, 2, 2, 0⟩],
    Assign.mk 2 1 ⟨2, 0, 0, 1⟩ [⟨2, 1, 1, 1⟩, ⟨2, 2, 2, 1⟩],
    Assign.mk 2 2 ⟨2, 0, 0, 2⟩ [⟨2, 1, 1, 2⟩, ⟨2, 2, 2, 2⟩],
    Assign.mk 2 3 ⟨2, 0, 0, 3⟩ [⟨2, 1, 1, 3⟩, ⟨2, 2, 2, 3⟩],
    Assign.mk 3 0 ⟨3, 0, 0, 0⟩ [⟨3, 1, 1, 0⟩, ⟨3, 2, 2, 0⟩],
    Assign.mk 3 1 ⟨3, 0, 0, 1⟩ [⟨3, 1, 1, 1⟩, ⟨3, 2, 2, 1⟩],
    Assign.mk 3 2 ⟨3, 0, 0, 2⟩ [⟨3, 1, 1, 2⟩, ⟨3, 2, 2, 2⟩],
    Assign.mk 3 3 ⟨3, 0, 0, 3⟩ [⟨3, 1, 1, 3⟩, ⟨3, 2, 2, 3⟩],
    Assign.mk 4 0 ⟨4, 0, 0, 0⟩ [⟨4, 1, 1, 0⟩, ⟨4, 2, 2, 0⟩],
    Assign.mk 4 1 ⟨4, 0, 0, 1⟩ [⟨4, 1, 1, 1⟩, ⟨4, 2, 2, 1⟩],
    Assign.mk 4 2 ⟨4, 0, 0, 2⟩ [⟨4, 1, 1, 2⟩, ⟨4, 2, 2, 2⟩],
    Assign.mk 4 3 ⟨4, 0, 0, 3⟩ [⟨4, 1, 1, 3⟩, ⟨4, 2, 2, 3⟩]],
  -- 5x3 * 3x5 -> 5x5
  .exact 5 3 3 5 [
    Assign.mk 0 0 ⟨0, 0, 0, 0⟩ [⟨0, 1, 1, 0⟩, ⟨0, 2, 2, 0⟩],
    Assign.mk 0 1 ⟨0, 0, 0, 1⟩ [⟨0, 1, 1, 1⟩, ⟨0, 2, 2, 1⟩],
    Assign.mk 0 2 ⟨0, 0, 0, 2⟩ [⟨0, 1, 1, 2⟩, ⟨0, 2, 2, 2⟩],
    Assign.mk 0 3 ⟨0, 0, 0, 3⟩ [⟨0, 1, 1, 3⟩, ⟨0, 2, 2, 3⟩],
    Assign.mk 0 4 ⟨0, 0, 0, 4⟩ [⟨0, 1, 1, 4⟩, ⟨0, 2, 2, 4⟩],
    Assign.mk 1 0 ⟨1, 0, 0, 0⟩ [⟨1, 1, 1, 0⟩, ⟨1, 2, 2, 0⟩],
    Assign.mk 1 1 ⟨1, 0, 0, 1⟩ [⟨1, 1, 1, 1⟩, ⟨1, 2, 2, 1⟩],
    Assign.mk 1 2 ⟨1, 0, 0, 2⟩ [⟨1, 1, 1, 2⟩, ⟨1, 2, 2, 2⟩],
    Assign.mk 1 3 ⟨1, 0, 0, 3⟩ [⟨1, 1, 1, 3⟩, ⟨1, 2, 2, 3⟩],
    Assign.mk 1 4 ⟨1, 0, 0, 4⟩ [⟨1, 1, 1, 4⟩, ⟨1, 2, 2, 4⟩],
    Assign.mk 2 0 ⟨2, 0, 0, 0⟩ [⟨2, 1, 1, 0⟩, ⟨2, 2, 2, 0⟩],
    Assign.mk 2 1 ⟨2, 0, 0, 1⟩ [⟨2, 1, 1, 1⟩, ⟨2, 2, 2, 1⟩],
    Assign.mk 2 2 ⟨2, 0, 0, 2⟩ [⟨2, 1, 1, 2⟩, ⟨2, 2, 2, 2⟩],
    Assign.mk 2 3 ⟨2, 0, 0, 3⟩ [⟨2, 1, 1, 3⟩, ⟨2, 2, 2, 3⟩],
    Assign.mk 2 4 ⟨2, 0, 0, 4⟩ [⟨2, 1, 1, 4⟩, ⟨2, 2, 2, 4⟩],
    Assign.mk 3 0 ⟨3, 0, 0, 0⟩ [⟨3, 1, 1, 0⟩, ⟨3, 2, 2, 0⟩],
    Assign.mk 3 1 ⟨3, 0, 0, 1⟩ [⟨3, 1, 1, 1⟩, ⟨3, 2, 2, 1⟩],
    Assign.mk 3 2 ⟨3, 0, 0, 2⟩ [⟨3, 1, 1, 2⟩, ⟨3, 2, 2, 2⟩],
    Assign.mk 3 3 ⟨3, 0, 0, 3⟩ [⟨3, 1, 1, 3⟩, ⟨3, 2, 2, 3⟩],
    Assign.mk 3 4 ⟨3, 0, 0, 4⟩ [⟨3, 1, 1, 4⟩, ⟨3, 2, 2, 4⟩],
    Assign.mk 4 0 ⟨4, 0, 0, 0⟩ [⟨4, 1, 1, 0⟩, ⟨4, 2, 2, 0⟩],
    Assign.mk 4 1 ⟨4, 0, 0, 1⟩ [⟨4, 1, 1, 1⟩, ⟨4, 2, 2, 1⟩],
    Assign.mk 4 2 ⟨4, 0, 0, 2⟩ [⟨4, 1, 1, 2⟩, ⟨4, 2, 2, 2⟩],
    Assign.mk 4 3 ⟨4, 0, 0, 3⟩ [⟨4, 1, 1, 3⟩, ⟨4, 2, 2, 3⟩],
    Assign.mk 4 4 ⟨4, 0, 0, 4⟩ [⟨4, 1, 1, 4⟩, ⟨4, 2, 2, 4⟩]],
  -- Matrices n1x3 * 3xn2
  .loop 3 3
    (Assign.mk .rows .cols ⟨.rows, 0, 0, .cols⟩ [⟨.rows, 1, 1, .cols⟩, ⟨.rows, 2, 2, .cols⟩])]

/-- Transcription of the branches with `_ColsA == 4` of the table for up to 5x5
(`Matrix::Mul`, source lines 2132 to 2611), in source order. -/
def Mul_unrolled_5x5_ColsA4 : List Branch := [
  -- 1x4 * 4x1 -> 1x1
  .exact 1 4 4 1 [
    Assign.mk 0 0 ⟨0, 0, 0, 0⟩ [⟨0, 1, 1, 0⟩, ⟨0, 2, 2, 0⟩, ⟨0, 3, 3, 0⟩]],
  -- 1x4 * 4x2 -> 1x2
  .exact 1 4 4 2 [
    Assign.mk 0 0 ⟨0, 0, 0, 0⟩ [⟨0, 1, 1, 0⟩, ⟨0, 2, 2, 0⟩, ⟨0, 3, 3, 0⟩],
    Assign.mk 0 1 ⟨0, 0, 0, 1⟩ [⟨0, 1, 1, 1⟩, ⟨0, 2, 2, 1⟩, ⟨0, 3, 3, 1⟩]],
  -- 1x4 * 4x3 -> 1x3
  .exact 1 4 4 3 [
    Assign.mk 0 0 ⟨0, 0, 0, 0⟩ [⟨0, 1, 1, 0⟩, ⟨0, 2, 2, 0⟩, ⟨0, 3, 3, 0⟩],
    Assign.mk 0 1 ⟨0, 0, 0, 1⟩ [⟨0, 1, 1, 1⟩, ⟨0, 2, 2, 1⟩, ⟨0, 3, 3, 1⟩],
    Assign.mk 0 2 ⟨0, 0, 0, 2⟩ [⟨0, 1, 1, 2⟩, ⟨0, 2, 2, 2⟩, ⟨0, 3, 3, 2⟩]],
  -- 1x4 * 4x4 -> 1x4
  .exact 1 4 4 4 [
    Assign.mk 0 0 ⟨0, 0, 0, 0⟩ [⟨0, 1, 1, 0⟩, ⟨0, 2, 2, 0⟩, ⟨0, 3, 3, 0⟩],
    Assign.mk 0 1 ⟨0, 0, 0, 1⟩ [⟨0, 1, 1, 1⟩, ⟨0, 2, 2, 1⟩, ⟨0, 3, 3, 1⟩],
    Assign.mk 0 2 ⟨0, 0, 0, 2⟩ [⟨0, 1, 1, 2⟩, ⟨0, 2, 2, 2⟩, ⟨0, 3, 3, 2⟩],
    Assign.mk 0 3 ⟨0, 0, 0, 3⟩ [⟨0, 1, 1, 3⟩, ⟨0, 2, 2, 3⟩, ⟨0, 3, 3, 3⟩]],
  -- 1x4 * 4x5 -> 1x5
  .exact 1 4 4 5 [
    Assign.mk 0 0 ⟨0, 0, 0, 0⟩ [⟨0, 1, 1, 0⟩, ⟨0, 2, 2, 0⟩, ⟨0, 3, 3, 0⟩],
    Assign.mk 0 1 ⟨0, 0, 0, 1⟩ [⟨0, 1, 1, 1⟩, ⟨0, 2, 2, 1⟩, ⟨0, 3, 3, 1⟩],
    Assign.mk 0 2 ⟨0, 0, 0, 2⟩ [⟨0, 1, 1, 2⟩, ⟨0, 2, 2, 2⟩, ⟨0, 3, 3, 2⟩],
    Assign.mk 0 3 ⟨0, 0, 0, 3⟩ [⟨0, 1, 1, 3⟩, ⟨0, 2, 2, 3⟩, ⟨0, 3, 3, 3⟩],
    Assign.mk 0 4 ⟨0, 0, 0, 4⟩ [⟨0, 1, 1, 4⟩, ⟨0, 2, 2, 4⟩, ⟨0, 3, 3, 4⟩]],
  -- 2x4 * 4x1 -> 2x1
  .exact 2 4 4 1 [
    Assign.mk 0 0 ⟨0, 0, 0, 0⟩ [⟨0, 1, 1, 0⟩, ⟨0, 2, 2, 0⟩, ⟨0, 3, 3, 0⟩],
    Assign.mk 1 0 ⟨1, 0, 0, 0⟩ [⟨1, 1, 1, 0⟩, ⟨1, 2, 2, 0⟩, ⟨1, 3, 3, 0⟩]],
  -- 2x4 * 4x2 -> 2x2
  .exact 2 4 4 2 [
    Assign.mk 0 0 ⟨0, 0, 0, 0⟩ [⟨0, 1, 1, 0⟩, ⟨0, 2, 2, 0⟩, ⟨0, 3, 3, 0⟩],
    Assign.mk 0 1 ⟨0, 0, 0, 1⟩ [⟨0, 1, 1, 1⟩, ⟨0, 2, 2, 1⟩, ⟨0, 3, 3, 1⟩],
    Assign.mk 1 0 ⟨1, 0, 0, 0⟩ [⟨1, 1, 1, 0⟩, ⟨1, 2, 2, 0⟩, ⟨1, 3, 3, 0⟩],
    Assign.mk 1 1 ⟨1, 0, 0, 1⟩ [⟨1, 1, 1, 1⟩, ⟨1, 2, 2, 1⟩, ⟨1, 3, 3, 1⟩]],
  -- 2x4 * 4x3 -> 2x3
  .exact 2 4 4 3 [
    Assign.mk 0 0 ⟨0, 0, 0, 0⟩ [⟨0, 1, 1, 0⟩, ⟨0, 2, 2, 0⟩, ⟨0, 3, 3, 0⟩],
    Assign.mk 0 1 ⟨0, 0, 0, 1⟩ [⟨0, 1, 1, 1⟩, ⟨0, 2, 2, 1⟩, ⟨0, 3, 3, 1⟩],
    Assign.mk 0 2 ⟨0, 0, 0, 2⟩ [⟨0, 1, 1, 2⟩, ⟨0, 2, 2, 2⟩, ⟨0, 3, 3, 2⟩],
    Assign.mk 1 0 ⟨1, 0, 0, 0⟩ [⟨1, 1, 1, 0⟩, ⟨1, 2, 2, 0⟩, ⟨1, 3, 3, 0⟩],
    Assign.mk 1 1 ⟨1, 0, 0, 1⟩ [⟨1, 1, 1, 1⟩, ⟨1, 2, 2, 1⟩, ⟨1, 3, 3, 1⟩],
    Assign.mk 1 2 ⟨1, 0, 0, 2⟩ [⟨1, 1, 1, 2⟩, ⟨1, 2, 2, 2⟩, ⟨1, 3, 3, 2⟩]],
  -- 2x4 * 4x4 -> 2x4
  .exact 2 4 4 4 [
    Assign.mk 0 0 ⟨0, 0, 0, 0⟩ [⟨0, 1, 1, 0⟩, ⟨0, 2, 2, 0⟩, ⟨0, 3, 3, 0⟩],
    Assign.mk 0 1 ⟨0, 0, 0, 1⟩ [⟨0, 1, 1, 1⟩, ⟨0, 2, 2, 1⟩, ⟨0, 3, 3, 1⟩],
    Assign.mk 0 2 ⟨0, 0, 0, 2⟩ [⟨0, 1, 1, 2⟩, ⟨0, 2, 2, 2⟩, ⟨0, 3, 3, 2⟩],
    Assign.mk 0 3 ⟨0, 0, 0, 3⟩ [⟨0, 1, 1, 3⟩, ⟨0, 2, 2, 3⟩, ⟨0, 3, 3, 3⟩],
    Assign.mk 1 0 ⟨1, 0, 0, 0⟩ [⟨1, 1, 1, 0⟩, ⟨1, 2, 2, 0⟩, ⟨1, 3, 3, 0⟩],
    Assign.mk 1 1 ⟨1, 0, 0, 1⟩ [⟨1, 1, 1, 1⟩, ⟨1, 2, 2, 1⟩, ⟨1, 3, 3, 1⟩],
    Assign.mk 1 2 ⟨1, 0, 0, 2⟩ [⟨1, 1, 1, 2⟩, ⟨1, 2, 2, 2⟩, ⟨1, 3, 3, 2⟩],
    Assign.mk 1 3 ⟨1, 0, 0, 3⟩ [⟨1, 1, 1, 3⟩, ⟨1, 2, 2, 3⟩, ⟨1, 3, 3, 3⟩]],
  -- 2x4 * 4x5 -> 2x5
  .exact 2 4 4 5 [
    Assign.mk 0 0 ⟨0, 0, 0, 0⟩ [⟨0, 1, 1, 0⟩, ⟨0, 2, 2, 0⟩, ⟨0, 3, 3, 0⟩],
    Assign.mk 0 1 ⟨0, 0, 0, 1⟩ [⟨0, 1, 1, 1⟩, ⟨0, 2, 2, 1⟩, ⟨0, 3, 3, 1⟩],
    Assign.mk 0 2 ⟨0, 0, 0, 2⟩ [⟨0, 1, 1, 2⟩, ⟨0, 2, 2, 2⟩, ⟨0, 3, 3, 2⟩],
    Assign.mk 0 3 ⟨0, 0, 0, 3⟩ [⟨0, 1, 1, 3⟩, ⟨0, 2, 2, 3⟩, ⟨0, 3, 3, 3⟩],
    Assign.mk 0 4 ⟨0, 0, 0, 4⟩ [⟨0, 1, 1, 4⟩, ⟨0, 2, 2, 4⟩, ⟨0, 3, 3, 4⟩],
    Assign.mk 1 0 ⟨1, 0, 0, 0⟩ [⟨1, 1, 1, 0⟩, ⟨1, 2, 2, 0⟩, ⟨1, 3, 3, 0⟩],
    Assign.mk 1 1 ⟨1, 0, 0, 1⟩ [⟨1, 1, 1, 1⟩, ⟨1, 2, 2, 1⟩, ⟨1, 3, 3, 1⟩],
    Assign.mk 1 2 ⟨1, 0, 0, 2⟩ [⟨1, 1, 1, 2⟩, ⟨1, 2, 2, 2⟩, ⟨1, 3, 3, 2⟩],
    Assign.mk 1 3 ⟨1, 0, 0, 3⟩ [⟨1, 1, 1, 3⟩, ⟨1, 2, 2, 3⟩, ⟨1, 3, 3, 3⟩],
    Assign.mk 1 4 ⟨1, 0, 0, 4⟩ [⟨1, 1, 1, 4⟩, ⟨1, 2, 2, 4⟩, ⟨1, 3, 3, 4⟩]],
  -- 3x4 * 4x1 -> 3x1
  .exact 3 4 4 1 [
    Assign.mk 0 0 ⟨0, 0, 0, 0⟩ [⟨0, 1, 1, 0⟩, ⟨0, 2, 2, 0⟩, ⟨0, 3, 3, 0⟩],
    Assign.mk 1 0 ⟨1, 0, 0, 0⟩ [⟨1, 1, 1, 0⟩, ⟨1, 2, 2, 0⟩, ⟨1, 3, 3, 0⟩],
    Assign.mk 2 0 ⟨2, 0, 0, 0⟩ [⟨2, 1, 1, 0⟩, ⟨2, 2, 2, 0⟩, ⟨2, 3, 3, 0⟩]],
  -- 3x4 * 4x2 -> 3x2
  .exact 3 4 4 2 [
    Assign.mk 0 0 ⟨0, 0, 0, 0⟩ [⟨0, 1, 1, 0⟩, ⟨0, 2, 2, 0⟩, ⟨0, 3, 3, 0⟩],
    Assign.mk 0 1 ⟨0, 0, 0, 1⟩ [⟨0, 1, 1, 1⟩, ⟨0, 2, 2, 1⟩, ⟨0, 3, 3, 1⟩],
    Assign.mk 1 0 ⟨1, 0, 0, 0⟩ [⟨1, 1, 1, 0⟩, ⟨1, 2, 2, 0⟩, ⟨1, 3, 3, 0⟩],
    Assign.mk 1 1 ⟨1, 0, 0, 1⟩ [⟨1, 1, 1, 1⟩, ⟨1, 2, 2, 1⟩, ⟨1, 3, 3, 1⟩],
    Assign.mk 2 0 ⟨2, 0, 0, 0⟩ [⟨2, 1, 1, 0⟩, ⟨2, 2, 2, 0⟩, ⟨2, 3, 3, 0⟩],
    Assign.mk 2 1 ⟨2, 0, 0, 1⟩ [⟨2, 1, 1, 1⟩, ⟨2, 2, 2, 1⟩, ⟨2, 3, 3, 1⟩]],
  -- 3x4 * 4x3 -> 3x3
  .exact 3 4 4 3 [
    Assign.mk 0 0 ⟨0, 0, 0, 0⟩ [⟨0, 1, 1, 0⟩, ⟨0, 2, 2, 0⟩, ⟨0, 3, 3, 0⟩],
    Assign.mk 0 1 ⟨0, 0, 0, 1⟩ [⟨0, 1, 1, 1⟩, ⟨0, 2, 2, 1⟩, ⟨0, 3, 3, 1⟩],
    Assign.mk 0 2 ⟨0, 0, 0, 2⟩ [⟨0, 1, 1, 2⟩, ⟨0, 2, 2, 2⟩, ⟨0, 3, 3, 2⟩],
    Assign.mk 1 0 ⟨1, 0, 0, 0⟩ [⟨1, 1, 1, 0⟩, ⟨1, 2, 2, 0⟩, ⟨1, 3, 3, 0⟩],
    Assign.mk 1 1 ⟨1, 0, 0, 1⟩ [⟨1, 1, 1, 1⟩, ⟨1, 2, 2, 1⟩, ⟨1, 3, 3, 1⟩],
    Assign.mk 1 2 ⟨1, 0, 0, 2⟩ [⟨1, 1, 1, 2⟩, ⟨1, 2, 2, 2⟩, ⟨1, 3, 3, 2⟩],
    Assign.mk 2 0 ⟨2, 0, 0, 0⟩ [⟨2, 1, 1, 0⟩, ⟨2, 2, 2, 0⟩, ⟨2, 3, 3, 0⟩],
    Assign.mk 2 1 ⟨2, 0, 0, 1⟩ [⟨2, 1, 1, 1⟩, ⟨2, 2, 2, 1⟩, ⟨2, 3, 3, 1⟩],
    Assign.mk 2 2 ⟨2, 0, 0, 2⟩ [⟨2, 1, 1, 2⟩, ⟨2, 2, 2, 2⟩, ⟨2, 3, 3, 2⟩]],
  -- 3x4 * 4x4 -> 3x4
  .exact 3 4 4 4 [
    Assign.mk 0 0 ⟨0, 0, 0, 0⟩ [⟨0, 1, 1, 0⟩, ⟨0, 2, 2, 0⟩, ⟨0, 3, 3, 0⟩],
    Assign.mk 0 1 ⟨0, 0, 0, 1⟩ [⟨0, 1, 1, 1⟩, ⟨0, 2, 2, 1⟩, ⟨0, 3, 3, 1⟩],
    Assign.mk 0 2 ⟨0, 0, 0, 2⟩ [⟨0, 1, 1, 2⟩, ⟨0, 2, 2, 2⟩, ⟨0, 3, 3, 2⟩],
    Assign.mk 0 3 ⟨0, 0, 0, 3⟩ [⟨0, 1, 1, 3⟩, ⟨0, 2, 2, 3⟩, ⟨0, 3, 3, 3⟩],
    Assign.mk 1 0 ⟨1, 0, 0, 0⟩ [⟨1, 1, 1, 0⟩, ⟨1, 2, 2, 0⟩, ⟨1, 3, 3, 0⟩],
    Assign.mk 1 1 ⟨1, 0, 0, 1⟩ [⟨1, 1, 1, 1⟩, ⟨1, 2, 2, 1⟩, ⟨1, 3, 3, 1⟩],
    Assign.mk 1 2 ⟨1, 0, 0, 2⟩ [⟨1, 1, 1, 2⟩, ⟨1, 2, 2, 2⟩, ⟨1, 3, 3, 2⟩],
    Assign.mk 1 3 ⟨1, 0, 0, 3⟩ [⟨1, 1, 1, 3⟩, ⟨1, 2, 2, 3⟩, ⟨1, 3, 3, 3⟩],
    Assign.mk 2 0 ⟨2, 0, 0, 0⟩ [⟨2, 1, 1, 0⟩, ⟨2, 2, 2, 0⟩, ⟨2, 3, 3, 0⟩],
    Assign.mk 2 1 ⟨2, 0, 0, 1⟩ [⟨2, 1, 1, 1⟩, ⟨2, 2, 2, 1⟩, ⟨2, 3, 3, 1⟩],
    Assign.mk 2 2 ⟨2, 0, 0, 2⟩ [⟨2, 1, 1, 2⟩, ⟨2, 2, 2, 2⟩, ⟨2, 3, 3, 2⟩],
    Assign.mk 2 3 ⟨2, 0, 0, 3⟩ [⟨2, 1, 1, 3⟩, ⟨2, 2, 2, 3⟩, ⟨2, 3, 3, 3⟩]],
  -- 3x4 * 4x5 -> 3x5
  .exact 3 4 4 5 [
    Assign.mk 0 0 ⟨0, 0, 0, 0⟩ [⟨0, 1, 1, 0⟩, ⟨0, 2, 2, 0⟩, ⟨0, 3, 3, 0⟩],
    Assign.mk 0 1 ⟨0, 0, 0, 1⟩ [⟨0, 1, 1, 1⟩, ⟨0, 2, 2, 1⟩, ⟨0, 3, 3, 1⟩],
    Assign.mk 0 2 ⟨0, 0, 0, 2⟩ [⟨0, 1, 1, 2⟩, ⟨0, 2, 2, 2⟩, ⟨0, 3, 3, 2⟩],
    Assign.mk 0 3 ⟨0, 0, 0, 3⟩ [⟨0, 1, 1, 3⟩, ⟨0, 2, 2, 3⟩, ⟨0, 3, 3, 3⟩],
    Assign.mk 0 4 ⟨0, 0, 0, 4⟩ [⟨0, 1, 1, 4⟩, ⟨0, 2, 2, 4⟩, ⟨0, 3, 3, 4⟩],
    Assign.mk 1 0 ⟨1, 0, 0, 0⟩ [⟨1, 1, 1, 0⟩, ⟨1, 2, 2, 0⟩, ⟨1, 3, 3, 0⟩],
    Assign.mk 1 1 ⟨1, 0, 0, 1⟩ [⟨1, 1, 1, 1⟩, ⟨1, 2, 2, 1⟩, ⟨1, 3, 3, 1⟩],
    Assign.mk 1 2 ⟨1, 0, 0, 2⟩ [⟨1, 1, 1, 2⟩, ⟨1, 2, 2, 2⟩, ⟨1, 3, 3, 2⟩],
    Assign.mk 1 3 ⟨1, 0, 0, 3⟩ [⟨1, 1, 1, 3⟩, ⟨1, 2, 2, 3⟩, ⟨1, 3, 3, 3⟩],
    Assign.mk 1 4 ⟨1, 0, 0, 4⟩ [⟨1, 1, 1, 4⟩, ⟨1, 2, 2, 4⟩, ⟨1, 3, 3, 4⟩],
    Assign.mk 2 0 ⟨2, 0, 0, 0⟩ [⟨2, 1, 1, 0⟩, ⟨2, 2, 2, 0⟩, ⟨2, 3, 3, 0⟩],
    Assign.mk 2 1 ⟨2, 0, 0, 1⟩ [⟨2, 1, 1, 1⟩, ⟨2, 2, 2, 1⟩, ⟨2, 3, 3, 1⟩],
    Assign.mk 2 2 ⟨2, 0, 0, 2⟩ [⟨2, 1, 1, 2⟩, ⟨2, 2, 2, 2⟩, ⟨2, 3, 3, 2⟩],
    Assign.mk 2 3 ⟨2, 0, 0, 3⟩ [⟨2, 1, 1, 3⟩, ⟨2, 2, 2, 3⟩, ⟨2, 3, 3, 3⟩],
    Assign.mk 2 4 ⟨2, 0, 0, 4⟩ [⟨2, 1, 1, 4⟩, ⟨2, 2, 2, 4⟩, ⟨2, 3, 3, 4⟩]],
  -- 4x4 * 4x1 -> 4x1
  .exact 4 4 4 1 [
    Assign.mk 0 0 ⟨0, 0, 0, 0⟩ [⟨0, 1, 1, 0⟩, ⟨0, 2, 2, 0⟩, ⟨0, 3, 3, 0⟩],
    Assign.mk 1 0 ⟨1, 0, 0, 0⟩ [⟨1, 1, 1, 0⟩, ⟨1, 2, 2, 0⟩, ⟨1, 3, 3, 0⟩],
    Assign.mk 2 0 ⟨2, 0, 0, 0⟩ [⟨2, 1, 1, 0⟩, ⟨2, 2, 2, 0⟩, ⟨2, 3, 3, 0⟩],
    Assign.mk 3 0 ⟨3, 0, 0, 0⟩ [⟨3, 1, 1, 0⟩, ⟨3, 2, 2, 0⟩, ⟨3, 3, 3, 0⟩]],
  -- 4x4 * 4x2 -> 4x2
  .exact 4 4 4 2 [
    Assign.mk 0 0 ⟨0, 0, 0, 0⟩ [⟨0, 1, 1, 0⟩, ⟨0, 2, 2, 0⟩, ⟨0, 3, 3, 0⟩],
    Assign.mk 0 1 ⟨0, 0, 0, 1⟩ [⟨0, 1, 1, 1⟩, ⟨0, 2, 2, 1⟩, ⟨0, 3, 3, 1⟩],
    Assign.mk 1 0 ⟨1, 0, 0, 0⟩ [⟨1, 1, 1, 0⟩, ⟨1, 2, 2, 0⟩, ⟨1, 3, 3, 0⟩],
    Assign.mk 1 1 ⟨1, 0, 0, 1⟩ [⟨1, 1, 1, 1⟩, ⟨1, 2, 2, 1⟩, ⟨1, 3, 3, 1⟩],
    Assign.mk 2 0 ⟨2, 0, 0, 0⟩ [⟨2, 1, 1, 0⟩, ⟨2, 2, 2, 0⟩, ⟨2, 3, 3, 0⟩],
    Assign.mk 2 1 ⟨2, 0, 0, 1⟩ [⟨2, 1, 1, 1⟩, ⟨2, 2, 2, 1⟩, ⟨2, 3, 3, 1⟩],
    Assign.mk 3 0 ⟨3, 0, 0, 0⟩ [⟨3, 1, 1, 0⟩, ⟨3, 2, 2, 0⟩, ⟨3, 3, 3, 0⟩],
    Assign.mk 3 1 ⟨3, 0, 0, 1⟩ [⟨3, 1, 1, 1⟩, ⟨3, 2, 2, 1⟩, ⟨3, 3, 3, 1⟩]],
  -- 4x4 * 4x3 -> 4x3
  .exact 4 4 4 3 [
    Assign.mk 0 0 ⟨0, 0, 0, 0⟩ [⟨0, 1, 1, 0⟩, ⟨0, 2, 2, 0⟩, ⟨0, 3, 3, 0⟩],
    Assign.mk 0 1 ⟨0, 0, 0, 1⟩ [⟨0, 1, 1, 1⟩, ⟨0, 2, 2, 1⟩, ⟨0, 3, 3, 1⟩],
    Assign.mk 0 2 ⟨0, 0, 0, 2⟩ [⟨0, 1, 1, 2⟩, ⟨0, 2, 2, 2⟩, ⟨0, 3, 3, 2⟩],
    Assign.mk 1 0 ⟨1, 0, 0, 0⟩ [⟨1, 1, 1, 0⟩, ⟨1, 2, 2, 0⟩, ⟨1, 3, 3, 0⟩],
    Assign.mk 1 1 ⟨1, 0, 0, 1⟩ [⟨1, 1, 1, 1⟩, ⟨1, 2, 2, 1⟩, ⟨1, 3, 3, 1⟩],
    Assign.mk 1 2 ⟨1, 0, 0, 2⟩ [⟨1, 1, 1, 2⟩, ⟨1, 2, 2, 2⟩, ⟨1, 3, 3, 2⟩],
    Assign.mk 2 0 ⟨2, 0, 0, 0⟩ [⟨2, 1, 1, 0⟩, ⟨2, 2, 2, 0⟩, ⟨2, 3, 3, 0⟩],
    Assign.mk 2 1 ⟨2, 0, 0, 1⟩ [⟨2, 1, 1, 1⟩, ⟨2, 2, 2, 1⟩, ⟨2, 3, 3, 1⟩],
    Assign.mk 2 2 ⟨2, 0, 0, 2⟩ [⟨2, 1, 1, 2⟩, ⟨2, 2, 2, 2⟩, ⟨2, 3, 3, 2⟩],
    Assign.mk 3 0 ⟨3, 0, 0, 0⟩ [⟨3, 1, 1, 0⟩, ⟨3, 2, 2, 0⟩, ⟨3, 3, 3, 0⟩],
    Assign.mk 3 1 ⟨3, 0, 0, 1⟩ [⟨3, 1, 1, 1⟩, ⟨3, 2, 2, 1⟩, ⟨3, 3, 3, 1⟩],
    Assign.mk 3 2 ⟨3, 0, 0, 2⟩ [⟨3, 1, 1, 2⟩, ⟨3, 2, 2, 2⟩, ⟨3, 3, 3, 2⟩]],
  -- 4x4 * 4x4 -> 4x4
  .exact 4 4 4 4 [
    Assign.mk 0 0 ⟨0, 0, 0, 0⟩ [⟨0, 1, 1, 0⟩, ⟨0, 2, 2, 0⟩, ⟨0, 3, 3, 0⟩],
    Assign.mk 0 1 ⟨0, 0, 0, 1⟩ [⟨0, 1, 1, 1⟩, ⟨0, 2, 2, 1⟩, ⟨0, 3, 3, 1⟩],
    Assign.mk 0 2 ⟨0, 0, 0, 2⟩ [⟨0, 1, 1, 2⟩, ⟨0, 2, 2, 2⟩, ⟨0, 3, 3, 2⟩],
    Assign.mk 0 3 ⟨0, 0, 0, 3⟩ [⟨0, 1, 1, 3⟩, ⟨0, 2, 2, 3⟩, ⟨0, 3, 3, 3⟩],
    Assign.mk 1 0 ⟨1, 0, 0, 0⟩ [⟨1, 1, 1, 0⟩, ⟨1, 2, 2, 0⟩, ⟨1, 3, 3, 0⟩],
    Assign.mk 1 1 ⟨1, 0, 0, 1⟩ [⟨1, 1, 1, 1⟩, ⟨1, 2, 2, 1⟩, ⟨1, 3, 3, 1⟩],
    Assign.mk 1 2 ⟨1, 0, 0, 2⟩ [⟨1, 1, 1, 2⟩, ⟨1, 2, 2, 2⟩, ⟨1, 3, 3, 2⟩],
    Assign.mk 1 3 ⟨1, 0, 0, 3⟩ [⟨1, 1, 1, 3⟩, ⟨1, 2, 2, 3⟩, ⟨1, 3, 3, 3⟩],
    Assign.mk 2 0 ⟨2, 0, 0, 0⟩ [⟨2, 1, 1, 0⟩, ⟨2, 2, 2, 0⟩, ⟨2, 3, 3, 0⟩],
    Assign.mk 2 1 ⟨2, 0, 0, 1⟩ [⟨2, 1, 1, 1⟩, ⟨2, 2, 2, 1⟩, ⟨2, 3, 3, 1⟩],
    Assign.mk 2 2 ⟨2, 0, 0, 2⟩ [⟨2, 1, 1, 2⟩, ⟨2, 2, 2, 2⟩, ⟨2, 3, 3, 2⟩],
    Assign.mk 2 3 ⟨2, 0, 0, 3⟩ [⟨2, 1, 1, 3⟩, ⟨2, 2, 2, 3⟩, ⟨2, 3, 3, 3⟩],
    Assign.mk 3 0 ⟨3, 0, 0, 0⟩ [⟨3, 1, 1, 0⟩, ⟨3, 2, 2, 0⟩, ⟨3, 3, 3, 0⟩],
    Assign.mk 3 1 ⟨3, 0, 0, 1⟩ [⟨3, 1, 1, 1⟩, ⟨3, 2, 2, 1⟩, ⟨3, 3, 3, 1⟩],
    Assign.mk 3 2 ⟨3, 0, 0, 2⟩ [⟨3, 1, 1, 2⟩, ⟨3, 2, 2, 2⟩, ⟨3, 3, 3, 2⟩],
    Assign.mk 3 3 ⟨3, 0, 0, 3⟩ [⟨3, 1, 1, 3⟩, ⟨3, 2, 2, 3⟩, ⟨3, 3, 3, 3⟩]],
  -- 4x4 * 4x5 -> 4x5
  .exact 4 4 4 5 [
    Assign.mk 0 0 ⟨0, 0, 0, 0⟩ [⟨0, 1, 1, 0⟩, ⟨0, 2, 2, 0⟩, ⟨0, 3, 3, 0⟩],
    Assign.mk 0 1 ⟨0, 0, 0, 1⟩ [⟨0, 1, 1, 1⟩, ⟨0, 2, 2, 1⟩, ⟨0, 3, 3, 1⟩],
    Assign.mk 0 2 ⟨0, 0, 0, 2⟩ [⟨0, 1, 1, 2⟩, ⟨0, 2, 2, 2⟩, ⟨0, 3, 3, 2⟩],
    Assign.mk 0 3 ⟨0, 0, 0, 3⟩ [⟨0, 1, 1, 3⟩, ⟨0, 2, 2, 3⟩, ⟨0, 3, 3, 3⟩],
    Assign.mk 0 4 ⟨0, 0, 0, 4⟩ [⟨0, 1, 1, 4⟩, ⟨0, 2, 2, 4⟩, ⟨0, 3, 3, 4⟩],
    Assign.mk 1 0 ⟨1, 0, 0, 0⟩ [⟨1, 1, 1, 0⟩, ⟨1, 2, 2, 0⟩, ⟨1, 3, 3, 0⟩],
    Assign.mk 1 1 ⟨1, 0, 0, 1⟩ [⟨1, 1, 1, 1⟩, ⟨1, 2, 2, 1⟩, ⟨1, 3, 3, 1⟩],
    Assign.mk 1 2 ⟨1, 0, 0, 2⟩ [⟨1, 1, 1, 2⟩, ⟨1, 2, 2, 2⟩, ⟨1, 3, 3, 2⟩],
    Assign.mk 1 3 ⟨1, 0, 0, 3⟩ [⟨1, 1, 1, 3⟩, ⟨1, 2, 2, 3⟩, ⟨1, 3, 3, 3⟩],
    Assign.mk 1 4 ⟨1, 0, 0, 4⟩ [⟨1, 1, 1, 4⟩, ⟨1, 2, 2, 4⟩, ⟨1, 3, 3, 4⟩],
    Assign.mk 2 0 ⟨2, 0, 0, 0⟩ [⟨2, 1, 1, 0⟩, ⟨2, 2, 2, 0⟩, ⟨2, 3, 3, 0⟩],
    Assign.mk 2 1 ⟨2, 0, 0, 1⟩ [⟨2, 1, 1, 1⟩, ⟨2, 2, 2, 1⟩, ⟨2, 3, 3, 1⟩],
    Assign.mk 2 2 ⟨2, 0, 0, 2⟩ [⟨2, 1, 1, 2⟩, ⟨2, 2, 2, 2⟩, ⟨2, 3, 3, 2⟩],
    Assign.mk 2 3 ⟨2, 0, 0, 3⟩ [⟨2, 1, 1, 3⟩, ⟨2, 2, 2, 3⟩, ⟨2, 3, 3, 3⟩],
    Assign.mk 2 4 ⟨2, 0, 0, 4⟩ [⟨2, 1, 1, 4⟩, ⟨2, 2, 2, 4⟩, ⟨2, 3, 3, 4⟩],
    Assign.mk 3 0 ⟨3, 0, 0, 0⟩ [⟨3, 1, 1, 0⟩, ⟨3, 2, 2, 0⟩, ⟨3, 3, 3, 0⟩],
    Assign.mk 3 1 ⟨3, 0, 0, 1⟩ [⟨3, 1, 1, 1⟩, ⟨3, 2, 2, 1⟩, ⟨3, 3, 3, 1⟩],
    Assign.mk 3 2 ⟨3, 0, 0, 2⟩ [⟨3, 1, 1, 2⟩, ⟨3, 2, 2, 2⟩, ⟨3, 3, 3, 2⟩],
    Assign.mk 3 3 ⟨3, 0, 0, 3⟩ [⟨3, 1, 1, 3⟩, ⟨3, 2, 2, 3⟩, ⟨3, 3, 3, 3⟩],
    Assign.mk 3 4 ⟨3, 0, 0, 4⟩ [⟨3, 1, 1, 4⟩, ⟨3, 2, 2, 4⟩, ⟨3, 3, 3, 4⟩]],
  -- 5x4 * 4x1 -> 5x1
  .exact 5 4 4 1 [
    Assign.mk 0 0 ⟨0, 0, 0, 0⟩ [⟨0, 1, 1, 0⟩, ⟨0, 2, 2, 0⟩, ⟨0, 3, 3, 0⟩],
    Assign.mk 1 0 ⟨1, 0, 0, 0⟩ [⟨1, 1, 1, 0⟩, ⟨1, 2, 2, 0⟩, ⟨1, 3, 3, 0⟩],
    Assign.mk 2 0 ⟨2, 0, 0, 0⟩ [⟨2, 1, 1, 0⟩, ⟨2, 2, 2, 0⟩, ⟨2, 3, 3, 0⟩],
    Assign.mk 3 0 ⟨3, 0, 0, 0⟩ [⟨3, 1, 1, 0⟩, ⟨3, 2, 2, 0⟩, ⟨3, 3, 3, 0⟩],
    Assign.mk 4 0 ⟨4, 0, 0, 0⟩ [⟨4, 1, 1, 0⟩, ⟨4, 2, 2, 0⟩, ⟨4, 3, 3, 0⟩]],
  -- 5x4 * 4x2 -> 5x2
  .exact 5 4 4 2 [
    Assign.mk 0 0 ⟨0, 0, 0, 0⟩ [⟨0, 1, 1, 0⟩, ⟨0, 2, 2, 0⟩, ⟨0, 3, 3, 0⟩],
    Assign.mk 0 1 ⟨0, 0, 0, 1⟩ [⟨0, 1, 1, 1⟩, ⟨0, 2, 2, 1⟩, ⟨0, 3, 3, 1⟩],
    Assign.mk 1 0 ⟨1, 0, 0, 0⟩ [⟨1, 1, 1, 0⟩, ⟨1, 2, 2, 0⟩, ⟨1, 3, 3, 0⟩],
    Assign.mk 1 1 ⟨1, 0, 0, 1⟩ [⟨1, 1, 1, 1⟩, ⟨1, 2, 2, 1⟩, ⟨1, 3, 3, 1⟩],
    Assign.mk 2 0 ⟨2, 0, 0, 0⟩ [⟨2, 1, 1, 0⟩, ⟨2, 2, 2, 0⟩, ⟨2, 3, 3, 0⟩],
    Assign.mk 2 1 ⟨2, 0, 0, 1⟩ [⟨2, 1, 1, 1⟩, ⟨2, 2, 2, 1⟩, ⟨2, 3, 3, 1⟩],
    Assign.mk 3 0 ⟨3, 0, 0, 0⟩ [⟨3, 1, 1, 0⟩, ⟨3, 2, 2, 0⟩, ⟨3, 3, 3, 0⟩],
    Assign.mk 3 1 ⟨3, 0, 0, 1⟩ [⟨3, 1, 1, 1⟩, ⟨3, 2, 2, 1⟩, ⟨3, 3, 3, 1⟩],
    Assign.mk 4 0 ⟨4, 0, 0, 0⟩ [⟨4, 1, 1, 0⟩, ⟨4, 2, 2, 0⟩, ⟨4, 3, 3, 0⟩],
    Assign.mk 4 1 ⟨4, 0, 0, 1⟩ [⟨4, 1, 1, 1⟩, ⟨4, 2, 2, 1⟩, ⟨4, 3, 3, 1⟩]],
  -- 5x4 * 4x3 -> 5x3
  .exact 5 4 4 3 [
    Assign.mk 0 0 ⟨0, 0, 0, 0⟩ [⟨0, 1, 1, 0⟩, ⟨0, 2, 2, 0⟩, ⟨0, 3, 3, 0⟩],
    Assign.mk 0 1 ⟨0, 0, 0, 1⟩ [⟨0, 1, 1, 1⟩, ⟨0, 2, 2, 1⟩, ⟨0, 3, 3, 1⟩],
    Assign.mk 0 2 ⟨0, 0, 0, 2⟩ [⟨0, 1, 1, 2⟩, ⟨0, 2, 2, 2⟩, ⟨0, 3, 3, 2⟩],
    Assign.mk 1 0 ⟨1, 0, 0, 0⟩ [⟨1, 1, 1, 0⟩, ⟨1, 2, 2, 0⟩, ⟨1, 3, 3, 0⟩],
    Assign.mk 1 1 ⟨1, 0, 0, 1⟩ [⟨1, 1, 1, 1⟩, ⟨1, 2, 2, 1⟩, ⟨1, 3, 3, 1⟩],
    Assign.mk 1 2 ⟨1, 0, 0, 2⟩ [⟨1, 1, 1, 2⟩, ⟨1, 2, 2, 2⟩, ⟨1, 3, 3, 2⟩],
    Assign.mk 2 0 ⟨2, 0, 0, 0⟩ [⟨2, 1, 1, 0⟩, ⟨2, 2, 2, 0⟩, ⟨2, 3, 3, 0⟩],
    Assign.mk 2 1 ⟨2, 0, 0, 1⟩ [⟨2, 1, 1, 1⟩, ⟨2, 2, 2, 1⟩, ⟨2, 3, 3, 1⟩],
    Assign.mk 2 2 ⟨2, 0, 0, 2⟩ [⟨2, 1, 1, 2⟩, ⟨2, 2, 2, 2⟩, ⟨2, 3, 3, 2⟩],
    Assign.mk 3 0 ⟨3, 0, 0, 0⟩ [⟨3, 1, 1, 0⟩, ⟨3, 2, 2, 0⟩, ⟨3, 3, 3, 0⟩],
    Assign.mk 3 1 ⟨3, 0, 0, 1⟩ [⟨3, 1, 1, 1⟩, ⟨3, 2, 2, 1⟩, ⟨3, 3, 3, 1⟩],
    Assign.mk 3 2 ⟨3, 0, 0, 2⟩ [⟨3, 1, 1, 2⟩, ⟨3, 2, 2, 2⟩, ⟨3, 3, 3, 2⟩],
    Assign.mk 4 0 ⟨4, 0, 0, 0⟩ [⟨4, 1, 1, 0⟩, ⟨4, 2, 2, 0⟩, ⟨4, 3, 3, 0⟩],
    Assign.mk 4 1 ⟨4, 0, 0, 1⟩ [⟨4, 1, 1, 1⟩, ⟨4, 2, 2, 1⟩, ⟨4, 3, 3, 1⟩],
    Assign.mk 4 2 ⟨4, 0, 0, 2⟩ [⟨4, 1, 1, 2⟩, ⟨4, 2, 2, 2⟩, ⟨4, 3, 3, 2⟩]],
  -- 5x4 * 4x4 -> 5x4
  .exact 5 4 4 4 [
    Assign.mk 0 0 ⟨0, 0, 0, 0⟩ [⟨0, 1, 1, 0⟩, ⟨0, 2, 2, 0⟩, ⟨0, 3, 3, 0⟩],
    Assign.mk 0 1 ⟨0, 0, 0, 1⟩ [⟨0, 1, 1, 1⟩, ⟨0, 2, 2, 1⟩, ⟨0, 3, 3, 1⟩],
    Assign.mk 0 2 ⟨0, 0, 0, 2⟩ [⟨0, 1, 1, 2⟩, ⟨0, 2, 2, 2⟩, ⟨0, 3, 3, 2⟩],
    Assign.mk 0 3 ⟨0, 0, 0, 3⟩ [⟨0, 1, 1, 3⟩, ⟨0, 2, 2, 3⟩, ⟨0, 3, 3, 3⟩],
    Assign.mk 1 0 ⟨1, 0, 0, 0⟩ [⟨1, 1, 1, 0⟩, ⟨1, 2, 2, 0⟩, ⟨1, 3, 3, 0⟩],
    Assign.mk 1 1 ⟨1, 0, 0, 1⟩ [⟨1, 1, 1, 1⟩, ⟨1, 2, 2, 1⟩, ⟨1, 3, 3, 1⟩],
    Assign.mk 1 2 ⟨1, 0, 0, 2⟩ [⟨1, 1, 1, 2⟩, ⟨1, 2, 2, 2⟩, ⟨1, 3, 3, 2⟩],
    Assign.mk 1 3 ⟨1, 0, 0, 3⟩ [⟨1, 1, 1, 3⟩, ⟨1, 2, 2, 3⟩, ⟨1, 3, 3, 3⟩],
    Assign.mk 2 0 ⟨2, 0, 0, 0⟩ [⟨2, 1, 1, 0⟩, ⟨2, 2, 2, 0⟩, ⟨2, 3, 3, 0⟩],
    Assign.mk 2 1 ⟨2, 0, 0, 1⟩ [⟨2, 1, 1, 1⟩, ⟨2, 2, 2, 1⟩, ⟨2, 3, 3, 1⟩],
    Assign.mk 2 2 ⟨2, 0, 0, 2⟩ [⟨2, 1, 1, 2⟩, ⟨2, 2, 2, 2⟩, ⟨2, 3, 3, 2⟩],
    Assign.mk 2 3 ⟨2, 0, 0, 3⟩ [⟨2, 1, 1, 3⟩, ⟨2, 2, 2, 3⟩, ⟨2, 3, 3, 3⟩],
    Assign.mk 3 0 ⟨3, 0, 0, 0⟩ [⟨3, 1, 1, 0⟩, ⟨3, 2, 2, 0⟩, ⟨3, 3, 3, 0⟩],
    Assign.mk 3 1 ⟨3, 0, 0, 1⟩ [⟨3, 1, 1, 1⟩, ⟨3, 2, 2, 1⟩, ⟨3, 3, 3, 1⟩],
    Assign.mk 3 2 ⟨3, 0, 0, 2⟩ [⟨3, 1, 1, 2⟩, ⟨3, 2, 2, 2⟩, ⟨3, 3, 3, 2⟩],
    Assign.mk 3 3 ⟨3, 0, 0, 3⟩ [⟨3, 1, 1, 3⟩, ⟨3, 2, 2, 3⟩, ⟨3, 3, 3, 3⟩],
    Assign.mk 4 0 ⟨4, 0, 0, 0⟩ [⟨4, 1, 1, 0⟩, ⟨4, 2, 2, 0⟩, ⟨4, 3, 3, 0⟩],
    Assign.mk 4 1 ⟨4, 0, 0, 1⟩ [⟨4, 1, 1, 1⟩, ⟨4, 2, 2, 1⟩, ⟨4, 3, 3, 1⟩],
    Assign.mk 4 2 ⟨4, 0, 0, 2⟩ [⟨4, 1, 1, 2⟩, ⟨4, 2, 2, 2⟩, ⟨4, 3, 3, 2⟩],
    Assign.mk 4 3 ⟨4, 0, 0, 3⟩ [⟨4, 1, 1, 3⟩, ⟨4, 2, 2, 3⟩, ⟨4, 3, 3, 3⟩]],
  -- 5x4 * 4x5 -> 5x5
  .exact 5 4 4 5 [
    Assign.mk 0 0 ⟨0, 0, 0, 0⟩ [⟨0, 1, 1, 0⟩, ⟨0, 2, 2, 0⟩, ⟨0, 3, 3, 0⟩],
    Assign.mk 0 1 ⟨0, 0, 0, 1⟩ [⟨0, 1, 1, 1⟩, ⟨0, 2, 2, 1⟩, ⟨0, 3, 3, 1⟩],
    Assign.mk 0 2 ⟨0, 0, 0, 2⟩ [⟨0, 1, 1, 2⟩, ⟨0, 2, 2, 2⟩, ⟨0, 3, 3, 2⟩],
    Assign.mk 0 3 ⟨0, 0, 0, 3⟩ [⟨0, 1, 1, 3⟩, ⟨0, 2, 2, 3⟩, ⟨0, 3, 3, 3⟩],
    Assign.mk 0 4 ⟨0, 0, 0, 4⟩ [⟨0, 1, 1, 4⟩, ⟨0, 2, 2, 4⟩, ⟨0, 3, 3, 4⟩],
    Assign.mk 1 0 ⟨1, 0, 0, 0⟩ [⟨1, 1, 1, 0⟩, ⟨1, 2, 2, 0⟩, ⟨1, 3, 3, 0⟩],
    Assign.mk 1 1 ⟨1, 0, 0, 1⟩ [⟨1, 1, 1, 1⟩, ⟨1, 2, 2, 1⟩, ⟨1, 3, 3, 1⟩],
    Assign.mk 1 2 ⟨1, 0, 0, 2⟩ [⟨1, 1, 1, 2⟩, ⟨1, 2, 2, 2⟩, ⟨1, 3, 3, 2⟩],
    Assign.mk 1 3 ⟨1, 0, 0, 3⟩ [⟨1, 1, 1, 3⟩, ⟨1, 2, 2, 3⟩, ⟨1, 3, 3, 3⟩],
    Assign.mk 1 4 ⟨1, 0, 0, 4⟩ [⟨1, 1, 1, 4⟩, ⟨1, 2, 2, 4⟩, ⟨1, 3, 3, 4⟩],
    Assign.mk 2 0 ⟨2, 0, 0, 0⟩ [⟨2, 1, 1, 0⟩, ⟨2, 2, 2, 0⟩, ⟨2, 3, 3, 0⟩],
    Assign.mk 2 1 ⟨2, 0, 0, 1⟩ [⟨2, 1, 1, 1⟩, ⟨2, 2, 2, 1⟩, ⟨2, 3, 3, 1⟩],
    Assign.mk 2 2 ⟨2, 0, 0, 2⟩ [⟨2, 1, 1, 2⟩, ⟨2, 2, 2, 2⟩, ⟨2, 3, 3, 2⟩],
    Assign.mk 2 3 ⟨2, 0, 0, 3⟩ [⟨2, 1, 1, 3⟩, ⟨2, 2, 2, 3⟩, ⟨2, 3, 3, 3⟩],
    Assign.mk 2 4 ⟨2, 0, 0, 4⟩ [⟨2, 1, 1, 4⟩, ⟨2, 2, 2, 4⟩, ⟨2, 3, 3, 4⟩],
    Assign.mk 3 0 ⟨3, 0, 0, 0⟩ [⟨3, 1, 1, 0⟩, ⟨3, 2, 2, 0⟩, ⟨3, 3, 3, 0⟩],
    Assign.mk 3 1 ⟨3, 0, 0, 1⟩ [⟨3, 1, 1, 1⟩, ⟨3, 2, 2, 1⟩, ⟨3, 3, 3, 1⟩],
    Assign.mk 3 2 ⟨3, 0, 0, 2⟩ [⟨3, 1, 1, 2⟩, ⟨3, 2, 2, 2⟩, ⟨3, 3, 3, 2⟩],
    Assign.mk 3 3 ⟨3, 0, 0, 3⟩ [⟨3, 1, 1, 3⟩, ⟨3, 2, 2, 3⟩, ⟨3, 3, 3, 3⟩],
    Assign.mk 3 4 ⟨3, 0, 0, 4⟩ [⟨3, 1, 1, 4⟩, ⟨3, 2, 2, 4⟩, ⟨3, 3, 3, 4⟩],
    Assign.mk 4 0 ⟨4, 0, 0, 0⟩ [⟨4, 1, 1, 0⟩, ⟨4, 2, 2, 0⟩, ⟨4, 3, 3, 0⟩],
    Assign.mk 4 1 ⟨4, 0, 0, 1⟩ [⟨4, 1, 1, 1⟩, ⟨4, 2, 2, 1⟩, ⟨4, 3, 3, 1⟩],
    Assign.mk 4 2 ⟨4, 0, 0, 2⟩ [⟨4, 1, 1, 2⟩, ⟨4, 2, 2, 2⟩, ⟨4, 3, 3, 2⟩],
    Assign.mk 4 3 ⟨4, 0, 0, 3⟩ [⟨4, 1, 1, 3⟩, ⟨4, 2, 2, 3⟩, ⟨4, 3, 3, 3⟩],
    Assign.mk 4 4 ⟨4, 0, 0, 4⟩ [⟨4, 1, 1, 4⟩, ⟨4, 2, 2, 4⟩, ⟨4, 3, 3, 4⟩]],
  -- Matrices n1x4 * 4xn2
  .loop 4 4
    (Assign.mk .rows .cols ⟨.rows, 0, 0, .cols⟩ [⟨.rows, 1, 1, .cols⟩, ⟨.rows, 2, 2, .cols⟩, ⟨.rows, 3, 3, .cols⟩])]

/-- Transcription of the branches with `_ColsA == 5` of the table for up to 5x5
(`Matrix::Mul`, source lines 2616 to 3095), in source order. -/
def Mul_unrolled_5x5_ColsA5 : List Branch := [
  -- 1x5 * 5x1 -> 1x1
  .exact 1 5 5 1 [
    Assign.mk 0 0 ⟨0, 0, 0, 0⟩ [⟨0, 1, 1, 0⟩, ⟨0, 2, 2, 0⟩, ⟨0, 3, 3, 0⟩, ⟨0, 4, 4, 0⟩]],
  -- 1x5 * 5x2 -> 1x2
  .exact 1 5 5 2 [
    Assign.mk 0 0 ⟨0, 0, 0, 0⟩ [⟨0, 1, 1, 0⟩, ⟨0, 2, 2, 0⟩, ⟨0, 3, 3, 0⟩, ⟨0, 4, 4, 0⟩],
    Assign.mk 0 1 ⟨0, 0, 0, 1⟩ [⟨0, 1, 1, 1⟩, ⟨0, 2, 2, 1⟩, ⟨0, 3, 3, 1⟩, ⟨0, 4, 4, 1⟩]],
  -- 1x5 * 5x3 -> 1x3
  .exact 1 5 5 3 [
    Assign.mk 0 0 ⟨0, 0, 0, 0⟩ [⟨0, 1, 1, 0⟩, ⟨0, 2, 2, 0⟩, ⟨0, 3, 3, 0⟩, ⟨0, 4, 4, 0⟩],
    Assign.mk 0 1 ⟨0, 0, 0, 1⟩ [⟨0, 1, 1, 1⟩, ⟨0, 2, 2, 1⟩, ⟨0, 3, 3, 1⟩, ⟨0, 4, 4, 1⟩],
    Assign.mk 0 2 ⟨0, 0, 0, 2⟩ [⟨0, 1, 1, 2⟩, ⟨0, 2, 2, 2⟩, ⟨0, 3, 3, 2⟩, ⟨0, 4, 4, 2⟩]],
  -- 1x5 * 5x4 -> 1x4
  .exact 1 5 5 4 [
    Assign.mk 0 0 ⟨0, 0, 0, 0⟩ [⟨0, 1, 1, 0⟩, ⟨0, 2, 2, 0⟩, ⟨0, 3, 3, 0⟩, ⟨0, 4, 4, 0⟩],
    Assign.mk 0 1 ⟨0, 0, 0, 1⟩ [⟨0, 1, 1, 1⟩, ⟨0, 2, 2, 1⟩, ⟨0, 3, 3, 1⟩, ⟨0, 4, 4, 1⟩],
    Assign.mk 0 2 ⟨0, 0, 0, 2⟩ [⟨0, 1, 1, 2⟩, ⟨0, 2, 2, 2⟩, ⟨0, 3, 3, 2⟩, ⟨0, 4, 4, 2⟩],
    Assign.mk 0 3 ⟨0, 0, 0, 3⟩ [⟨0, 1, 1, 3⟩, ⟨0, 2, 2, 3⟩, ⟨0, 3, 3, 3⟩, ⟨0, 4, 4, 3⟩]],
  -- 1x5 * 5x5 -> 1x5
  .exact 1 5 5 5 [
    Assign.mk 0 0 ⟨0, 0, 0, 0⟩ [⟨0, 1, 1, 0⟩, ⟨0, 2, 2, 0⟩, ⟨0, 3, 3, 0⟩, ⟨0, 4, 4, 0⟩],
    Assign.mk 0 1 ⟨0, 0, 0, 1⟩ [⟨0, 1, 1, 1⟩, ⟨0, 2, 2, 1⟩, ⟨0, 3, 3, 1⟩, ⟨0, 4, 4, 1⟩],
    Assign.mk 0 2 ⟨0, 0, 0, 2⟩ [⟨0, 1, 1, 2⟩, ⟨0, 2, 2, 2⟩, ⟨0, 3, 3, 2⟩, ⟨0, 4, 4, 2⟩],
    Assign.mk 0 3 ⟨0, 0, 0, 3⟩ [⟨0, 1, 1, 3⟩, ⟨0, 2, 2, 3⟩, ⟨0, 3, 3, 3⟩, ⟨0, 4, 4, 3⟩],
    Assign.mk 0 4 ⟨0, 0, 0, 4⟩ [⟨0, 1, 1, 4⟩, ⟨0, 2, 2, 4⟩, ⟨0, 3, 3, 4⟩, ⟨0, 4, 4, 4⟩]],
  -- 2x5 * 5x1 -> 2x1
  .exact 2 5 5 1 [
    Assign.mk 0 0 ⟨0, 0, 0, 0⟩ [⟨0, 1, 1, 0⟩, ⟨0, 2, 2, 0⟩, ⟨0, 3, 3, 0⟩, ⟨0, 4, 4, 0⟩],
    Assign.mk 1 0 ⟨1, 0, 0, 0⟩ [⟨1, 1, 1, 0⟩, ⟨1, 2, 2, 0⟩, ⟨1, 3, 3, 0⟩, ⟨1, 4, 4, 0⟩]],
  -- 2x5 * 5x2 -> 2x2
  .exact 2 5 5 2 [
    Assign.mk 0 0 ⟨0, 0, 0, 0⟩ [⟨0, 1, 1, 0⟩, ⟨0, 2, 2, 0⟩, ⟨0, 3, 3, 0⟩, ⟨0, 4, 4, 0⟩],
    Assign.mk 0 1 ⟨0, 0, 0, 1⟩ [⟨0, 1, 1, 1⟩, ⟨0, 2, 2, 1⟩, ⟨0, 3, 3, 1⟩, ⟨0, 4, 4, 1⟩],
    Assign.mk 1 0 ⟨1, 0, 0, 0⟩ [⟨1, 1, 1, 0⟩, ⟨1, 2, 2, 0⟩, ⟨1, 3, 3, 0⟩, ⟨1, 4, 4, 0⟩],
    Assign.mk 1 1 ⟨1, 0, 0, 1⟩ [⟨1, 1, 1, 1⟩, ⟨1, 2, 2, 1⟩, ⟨1, 3, 3, 1⟩, ⟨1, 4, 4, 1⟩]],
  -- 2x5 * 5x3 -> 2x3
  .exact 2 5 5 3 [
    Assign.mk 0 0 ⟨0, 0, 0, 0⟩ [⟨0, 1, 1, 0⟩, ⟨0, 2, 2, 0⟩, ⟨0, 3, 3, 0⟩, ⟨0, 4, 4, 0⟩],
    Assign.mk 0 1 ⟨0, 0, 0, 1⟩ [⟨0, 1, 1, 1⟩, ⟨0, 2, 2, 1⟩, ⟨0, 3, 3, 1⟩, ⟨0, 4, 4, 1⟩],
    Assign.mk 0 2 ⟨0, 0, 0, 2⟩ [⟨0, 1, 1, 2⟩, ⟨0, 2, 2, 2⟩, ⟨0, 3, 3, 2⟩, ⟨0, 4, 4, 2⟩],
    Assign.mk 1 0 ⟨1, 0, 0, 0⟩ [⟨1, 1, 1, 0⟩, ⟨1, 2, 2, 0⟩, ⟨1, 3, 3, 0⟩, ⟨1, 4, 4, 0⟩],
    Assign.mk 1 1 ⟨1, 0, 0, 1⟩ [⟨1, 1, 1, 1⟩, ⟨1, 2, 2, 1⟩, ⟨1, 3, 3, 1⟩, ⟨1, 4, 4, 1⟩],
    Assign.mk 1 2 ⟨1, 0, 0, 2⟩ [⟨1, 1, 1, 2⟩, ⟨1, 2, 2, 2⟩, ⟨1, 3, 3, 2⟩, ⟨1, 4, 4, 2⟩]],
  -- 2x5 * 5x4 -> 2x4
  .exact 2 5 5 4 [
    Assign.mk 0 0 ⟨0, 0, 0, 0⟩ [⟨0, 1, 1, 0⟩, ⟨0, 2, 2, 0⟩, ⟨0, 3, 3, 0⟩, ⟨0, 4, 4, 0⟩],
    Assign.mk 0 1 ⟨0, 0, 0, 1⟩ [⟨0, 1, 1, 1⟩, ⟨0, 2, 2, 1⟩, ⟨0, 3, 3, 1⟩, ⟨0, 4, 4, 1⟩],
    Assign.mk 0 2 ⟨0, 0, 0, 2⟩ [⟨0, 1, 1, 2⟩, ⟨0, 2, 2, 2⟩, ⟨0, 3, 3, 2⟩, ⟨0, 4, 4, 2⟩],
    Assign.mk 0 3 ⟨0, 0, 0, 3⟩ [⟨0, 1, 1, 3⟩, ⟨0, 2, 2, 3⟩, ⟨0, 3, 3, 3⟩, ⟨0, 4, 4, 3⟩],
    Assign.mk 1 0 ⟨1, 0, 0, 0⟩ [⟨1, 1, 1, 0⟩, ⟨1, 2, 2, 0⟩, ⟨1, 3, 3, 0⟩, ⟨1, 4, 4, 0⟩],
    Assign.mk 1 1 ⟨1, 0, 0, 1⟩ [⟨1, 1, 1, 1⟩, ⟨1, 2, 2, 1⟩, ⟨1, 3, 3, 1⟩, ⟨1, 4, 4, 1⟩],
    Assign.mk 1 2 ⟨1, 0, 0, 2⟩ [⟨1, 1, 1, 2⟩, ⟨1, 2, 2, 2⟩, ⟨1, 3, 3, 2⟩, ⟨1, 4, 4, 2⟩],
    Assign.mk 1 3 ⟨1, 0, 0, 3⟩ [⟨1, 1, 1, 3⟩, ⟨1, 2, 2, 3⟩, ⟨1, 3, 3, 3⟩, ⟨1, 4, 4, 3⟩]],
  -- 2x5 * 5x5 -> 2x5
  .exact 2 5 5 5 [
    Assign.mk 0 0 ⟨0, 0, 0, 0⟩ [⟨0, 1, 1, 0⟩, ⟨0, 2, 2, 0⟩, ⟨0, 3, 3, 0⟩, ⟨0, 4, 4, 0⟩],
    Assign.mk 0 1 ⟨0, 0, 0, 1⟩ [⟨0, 1, 1, 1⟩, ⟨0, 2, 2, 1⟩, ⟨0, 3, 3, 1⟩, ⟨0, 4, 4, 1⟩],
    Assign.mk 0 2 ⟨0, 0, 0, 2⟩ [⟨0, 1, 1, 2⟩, ⟨0, 2, 2, 2⟩, ⟨0, 3, 3, 2⟩, ⟨0, 4, 4, 2⟩],
    Assign.mk 0 3 ⟨0, 0, 0, 3⟩ [⟨0, 1, 1, 3⟩, ⟨0, 2, 2, 3⟩, ⟨0, 3, 3, 3⟩, ⟨0, 4, 4, 3⟩],
    Assign.mk 0 4 ⟨0, 0, 0, 4⟩ [⟨0, 1, 1, 4⟩, ⟨0, 2, 2, 4⟩, ⟨0, 3, 3, 4⟩, ⟨0, 4, 4, 4⟩],
    Assign.mk 1 0 ⟨1, 0, 0, 0⟩ [⟨1, 1, 1, 0⟩, ⟨1, 2, 2, 0⟩, ⟨1, 3, 3, 0⟩, ⟨1, 4, 4, 0⟩],
    Assign.mk 1 1 ⟨1, 0, 0, 1⟩ [⟨1, 1, 1, 1⟩, ⟨1, 2, 2, 1⟩, ⟨1, 3, 3, 1⟩, ⟨1, 4, 4, 1⟩],
    Assign.mk 1 2 ⟨1, 0, 0, 2⟩ [⟨1, 1, 1, 2⟩, ⟨1, 2, 2, 2⟩, ⟨1, 3, 3, 2⟩, ⟨1, 4, 4, 2⟩],
    Assign.mk 1 3 ⟨1, 0, 0, 3⟩ [⟨1, 1, 1, 3⟩, ⟨1, 2, 2, 3⟩, ⟨1, 3, 3, 3⟩, ⟨1, 4, 4, 3⟩],
    Assign.mk 1 4 ⟨1, 0, 0, 4⟩ [⟨1, 1, 1, 4⟩, ⟨1, 2, 2, 4⟩, ⟨1, 3, 3, 4⟩, ⟨1, 4, 4, 4⟩]],
  -- 3x5 * 5x1 -> 3x1
  .exact 3 5 5 1 [
    Assign.mk 0 0 ⟨0, 0, 0, 0⟩ [⟨0, 1, 1, 0⟩, ⟨0, 2, 2, 0⟩, ⟨0, 3, 3, 0⟩, ⟨0, 4, 4, 0⟩],
    Assign.mk 1 0 ⟨1, 0, 0, 0⟩ [⟨1, 1, 1, 0⟩, ⟨1, 2, 2, 0⟩, ⟨1, 3, 3, 0⟩, ⟨1, 4, 4, 0⟩],
    Assign.mk 2 0 ⟨2, 0, 0, 0⟩ [⟨2, 1, 1, 0⟩, ⟨2, 2, 2, 0⟩, ⟨2, 3, 3, 0⟩, ⟨2, 4, 4, 0⟩]],
  -- 3x5 * 5x2 -> 3x2
  .exact 3 5 5 2 [
    Assign.mk 0 0 ⟨0, 0, 0, 0⟩ [⟨0, 1, 1, 0⟩, ⟨0, 2, 2, 0⟩, ⟨0, 3, 3, 0⟩, ⟨0, 4, 4, 0⟩],
    Assign.mk 0 1 ⟨0, 0, 0, 1⟩ [⟨0, 1, 1, 1⟩, ⟨0, 2, 2, 1⟩, ⟨0, 3, 3, 1⟩, ⟨0, 4, 4, 1⟩],
    Assign.mk 1 0 ⟨1, 0, 0, 0⟩ [⟨1, 1, 1, 0⟩, ⟨1, 2, 2, 0⟩, ⟨1, 3, 3, 0⟩, ⟨1, 4, 4, 0⟩],
    Assign.mk 1 1 ⟨1, 0, 0, 1⟩ [⟨1, 1, 1, 1⟩, ⟨1, 2, 2, 1⟩, ⟨1, 3, 3, 1⟩, ⟨1, 4, 4, 1⟩],
    Assign.mk 2 0 ⟨2, 0, 0, 0⟩ [⟨2, 1, 1, 0⟩, ⟨2, 2, 2, 0⟩, ⟨2, 3, 3, 0⟩, ⟨2, 4, 4, 0⟩],
    Assign.mk 2 1 ⟨2, 0, 0, 1⟩ [⟨2, 1, 1, 1⟩, ⟨2, 2, 2, 1⟩, ⟨2, 3, 3, 1⟩, ⟨2, 4, 4, 1⟩]],
  -- 3x5 * 5x3 -> 3x3
  .exact 3 5 5 3 [
    Assign.mk 0 0 ⟨0, 0, 0, 0⟩ [⟨0, 1, 1, 0⟩, ⟨0, 2, 2, 0⟩, ⟨0, 3, 3, 0⟩, ⟨0, 4, 4, 0⟩],
    Assign.mk 0 1 ⟨0, 0, 0, 1⟩ [⟨0, 1, 1, 1⟩, ⟨0, 2, 2, 1⟩, ⟨0, 3, 3, 1⟩, ⟨0, 4, 4, 1⟩],
    Assign.mk 0 2 ⟨0, 0, 0, 2⟩ [⟨0, 1, 1, 2⟩, ⟨0, 2, 2, 2⟩, ⟨0, 3, 3, 2⟩, ⟨0, 4, 4, 2⟩],
    Assign.mk 1 0 ⟨1, 0, 0, 0⟩ [⟨1, 1, 1, 0⟩, ⟨1, 2, 2, 0⟩, ⟨1, 3, 3, 0⟩, ⟨1, 4, 4, 0⟩],
    Assign.mk 1 1 ⟨1, 0, 0, 1⟩ [⟨1, 1, 1, 1⟩, ⟨1, 2, 2, 1⟩, ⟨1, 3, 3, 1⟩, ⟨1, 4, 4, 1⟩],
    Assign.mk 1 2 ⟨1, 0, 0, 2⟩ [⟨1, 1, 1, 2⟩, ⟨1, 2, 2, 2⟩, ⟨1, 3, 3, 2⟩, ⟨1, 4, 4, 2⟩],
    Assign.mk 2 0 ⟨2, 0, 0, 0⟩ [⟨2, 1, 1, 0⟩, ⟨2, 2, 2, 0⟩, ⟨2, 3, 3, 0⟩, ⟨2, 4, 4, 0⟩],
    Assign.mk 2 1 ⟨2, 0, 0, 1⟩ [⟨2, 1, 1, 1⟩, ⟨2, 2, 2, 1⟩, ⟨2, 3, 3, 1⟩, ⟨2, 4, 4, 1⟩],
    Assign.mk 2 2 ⟨2, 0, 0, 2⟩ [⟨2, 1, 1, 2⟩, ⟨2, 2, 2, 2⟩, ⟨2, 3, 3, 2⟩, ⟨2, 4, 4, 2⟩]],
  -- 3x5 * 5x4 -> 3x4
  .exact 3 5 5 4 [
    Assign.mk 0 0 ⟨0, 0, 0, 0⟩ [⟨0, 1, 1, 0⟩, ⟨0, 2, 2, 0⟩, ⟨0, 3, 3, 0⟩, ⟨0, 4, 4, 0⟩],
    Assign.mk 0 1 ⟨0, 0, 0, 1⟩ [⟨0, 1, 1, 1⟩, ⟨0, 2, 2, 1⟩, ⟨0, 3, 3, 1⟩, ⟨0, 4, 4, 1⟩],
    Assign.mk 0 2 ⟨0, 0, 0, 2⟩ [⟨0, 1, 1, 2⟩, ⟨0, 2, 2, 2⟩, ⟨0, 3, 3, 2⟩, ⟨0, 4, 4, 2⟩],
    Assign.mk 0 3 ⟨0, 0, 0, 3⟩ [⟨0, 1, 1, 3⟩, ⟨0, 2, 2, 3⟩, ⟨0, 3, 3, 3⟩, ⟨0, 4, 4, 3⟩],
    Assign.mk 1 0 ⟨1, 0, 0, 0⟩ [⟨1, 1, 1, 0⟩, ⟨1, 2, 2, 0⟩, ⟨1, 3, 3, 0⟩, ⟨1, 4, 4, 0⟩],
    Assign.mk 1 1 ⟨1, 0, 0, 1⟩ [⟨1, 1, 1, 1⟩, ⟨1, 2, 2, 1⟩, ⟨1, 3, 3, 1⟩, ⟨1, 4, 4, 1⟩],
    Assign.mk 1 2 ⟨1, 0, 0, 2⟩ [⟨1, 1, 1, 2⟩, ⟨1, 2, 2, 2⟩, ⟨1, 3, 3, 2⟩, ⟨1, 4, 4, 2⟩],
    Assign.mk 1 3 ⟨1, 0, 0, 3⟩ [⟨1, 1, 1, 3⟩, ⟨1, 2, 2, 3⟩, ⟨1, 3, 3, 3⟩, ⟨1, 4, 4, 3⟩],
    Assign.mk 2 0 ⟨2, 0, 0, 0⟩ [⟨2, 1, 1, 0⟩, ⟨2, 2, 2, 0⟩, ⟨2, 3, 3, 0⟩, ⟨2, 4, 4, 0⟩],
    Assign.mk 2 1 ⟨2, 0, 0, 1⟩ [⟨2, 1, 1, 1⟩, ⟨2, 2, 2, 1⟩, ⟨2, 3, 3, 1⟩, ⟨2, 4, 4, 1⟩],
    Assign.mk 2 2 ⟨2, 0, 0, 2⟩ [⟨2, 1, 1, 2⟩, ⟨2, 2, 2, 2⟩, ⟨2, 3, 3, 2⟩, ⟨2, 4, 4, 2⟩],
    Assign.mk 2 3 ⟨2, 0, 0, 3⟩ [⟨2, 1, 1, 3⟩, ⟨2, 2, 2, 3⟩, ⟨2, 3, 3, 3⟩, ⟨2, 4, 4, 3⟩]],
  -- 3x5 * 5x5 -> 3x5
  .exact 3 5 5 5 [
    Assign.mk 0 0 ⟨0, 0, 0, 0⟩ [⟨0, 1, 1, 0⟩, ⟨0, 2, 2, 0⟩, ⟨0, 3, 3, 0⟩, ⟨0, 4, 4, 0⟩],
    Assign.mk 0 1 ⟨0, 0, 0, 1⟩ [⟨0, 1, 1, 1⟩, ⟨0, 2, 2, 1⟩, ⟨0, 3, 3, 1⟩, ⟨0, 4, 4, 1⟩],
    Assign.mk 0 2 ⟨0, 0, 0, 2⟩ [⟨0, 1, 1, 2⟩, ⟨0, 2, 2, 2⟩, ⟨0, 3, 3, 2⟩, ⟨0, 4, 4, 2⟩],
    Assign.mk 0 3 ⟨0, 0, 0, 3⟩ [⟨0, 1, 1, 3⟩, ⟨0, 2, 2, 3⟩, ⟨0, 3, 3, 3⟩, ⟨0, 4, 4, 3⟩],
    Assign.mk 0 4 ⟨0, 0, 0, 4⟩ [⟨0, 1, 1, 4⟩, ⟨0, 2, 2, 4⟩, ⟨0, 3, 3, 4⟩, ⟨0, 4, 4, 4⟩],
    Assign.mk 1 0 ⟨1, 0, 0, 0⟩ [⟨1, 1, 1, 0⟩, ⟨1, 2, 2, 0⟩, ⟨1, 3, 3, 0⟩, ⟨1, 4, 4, 0⟩],
    Assign.mk 1 1 ⟨1, 0, 0, 1⟩ [⟨1, 1, 1, 1⟩, ⟨1, 2, 2, 1⟩, ⟨1, 3, 3, 1⟩, ⟨1, 4, 4, 1⟩],
    Assign.mk 1 2 ⟨1, 0, 0, 2⟩ [⟨1, 1, 1, 2⟩, ⟨1, 2, 2, 2⟩, ⟨1, 3, 3, 2⟩, ⟨1, 4, 4, 2⟩],
    Assign.mk 1 3 ⟨1, 0, 0, 3⟩ [⟨1, 1, 1, 3⟩, ⟨1, 2, 2, 3⟩, ⟨1, 3, 3, 3⟩, ⟨1, 4, 4, 3⟩],
    Assign.mk 1 4 ⟨1, 0, 0, 4⟩ [⟨1, 1, 1, 4⟩, ⟨1, 2, 2, 4⟩, ⟨1, 3, 3, 4⟩, ⟨1, 4, 4, 4⟩],
    Assign.mk 2 0 ⟨2, 0, 0, 0⟩ [⟨2, 1, 1, 0⟩, ⟨2, 2, 2, 0⟩, ⟨2, 3, 3, 0⟩, ⟨2, 4, 4, 0⟩],
    Assign.mk 2 1 ⟨2, 0, 0, 1⟩ [⟨2, 1, 1, 1⟩, ⟨2, 2, 2, 1⟩, ⟨2, 3, 3, 1⟩, ⟨2, 4, 4, 1⟩],
    Assign.mk 2 2 ⟨2, 0, 0, 2⟩ [⟨2, 1, 1, 2⟩, ⟨2, 2, 2, 2⟩, ⟨2, 3, 3, 2⟩, ⟨2, 4, 4, 2⟩],
    Assign.mk 2 3 ⟨2, 0, 0, 3⟩ [⟨2, 1, 1, 3⟩, ⟨2, 2, 2, 3⟩, ⟨2, 3, 3, 3⟩, ⟨2, 4, 4, 3⟩],
    Assign.mk 2 4 ⟨2, 0, 0, 4⟩ [⟨2, 1, 1, 4⟩, ⟨2, 2, 2, 4⟩, ⟨2, 3, 3, 4⟩, ⟨2, 4, 4, 4⟩]],
  -- 4x5 * 5x1 -> 4x1
  .exact 4 5 5 1 [
    Assign.mk 0 0 ⟨0, 0, 0, 0⟩ [⟨0, 1, 1, 0⟩, ⟨0, 2, 2, 0⟩, ⟨0, 3, 3, 0⟩, ⟨0, 4, 4, 0⟩],
    Assign.mk 1 0 ⟨1, 0, 0, 0⟩ [⟨1, 1, 1, 0⟩, ⟨1, 2, 2, 0⟩, ⟨1, 3, 3, 0⟩, ⟨1, 4, 4, 0⟩],
    Assign.mk 2 0 ⟨2, 0, 0, 0⟩ [⟨2, 1, 1, 0⟩, ⟨2, 2, 2, 0⟩, ⟨2, 3, 3, 0⟩, ⟨2, 4, 4, 0⟩],
    Assign.mk 3 0 ⟨3, 0, 0, 0⟩ [⟨3, 1, 1, 0⟩, ⟨3, 2, 2, 0⟩, ⟨3, 3, 3, 0⟩, ⟨3, 4, 4, 0⟩]],
  -- 4x5 * 5x2 -> 4x2
  .exact 4 5 5 2 [
    Assign.mk 0 0 ⟨0, 0, 0, 0⟩ [⟨0, 1, 1, 0⟩, ⟨0, 2, 2, 0⟩, ⟨0, 3, 3, 0⟩, ⟨0, 4, 4, 0⟩],
    Assign.mk 0 1 ⟨0, 0, 0, 1⟩ [⟨0, 1, 1, 1⟩, ⟨0, 2, 2, 1⟩, ⟨0, 3, 3, 1⟩, ⟨0, 4, 4, 1⟩],
    Assign.mk 1 0 ⟨1, 0, 0, 0⟩ [⟨1, 1, 1, 0⟩, ⟨1, 2, 2, 0⟩, ⟨1, 3, 3, 0⟩, ⟨1, 4, 4, 0⟩],
    Assign.mk 1 1 ⟨1, 0, 0, 1⟩ [⟨1, 1, 1, 1⟩, ⟨1, 2, 2, 1⟩, ⟨1, 3, 3, 1⟩, ⟨1, 4, 4, 1⟩],
    Assign.mk 2 0 ⟨2, 0, 0, 0⟩ [⟨2, 1, 1, 0⟩, ⟨2, 2, 2, 0⟩, ⟨2, 3, 3, 0⟩, ⟨2, 4, 4, 0⟩],
    Assign.mk 2 1 ⟨2, 0, 0, 1⟩ [⟨2, 1, 1, 1⟩, ⟨2, 2, 2, 1⟩, ⟨2, 3, 3, 1⟩, ⟨2, 4, 4, 1⟩],
    Assign.mk 3 0 ⟨3, 0, 0, 0⟩ [⟨3, 1, 1, 0⟩, ⟨3, 2, 2, 0⟩, ⟨3, 3, 3, 0⟩, ⟨3, 4, 4, 0⟩],
    Assign.mk 3 1 ⟨3, 0, 0, 1⟩ [⟨3, 1, 1, 1⟩, ⟨3, 2, 2, 1⟩, ⟨3, 3, 3, 1⟩, ⟨3, 4, 4, 1⟩]],
  -- 4x5 * 5x3 -> 4x3
  .exact 4 5 5 3 [
    Assign.mk 0 0 ⟨0, 0, 0, 0⟩ [⟨0, 1, 1, 0⟩, ⟨0, 2, 2, 0⟩, ⟨0, 3, 3, 0⟩, ⟨0, 4, 4, 0⟩],
    Assign.mk 0 1 ⟨0, 0, 0, 1⟩ [⟨0, 1, 1, 1⟩, ⟨0, 2, 2, 1⟩, ⟨0, 3, 3, 1⟩, ⟨0, 4, 4, 1⟩],
    Assign.mk 0 2 ⟨0, 0, 0, 2⟩ [⟨0, 1, 1, 2⟩, ⟨0, 2, 2, 2⟩, ⟨0, 3, 3, 2⟩, ⟨0, 4, 4, 2⟩],
    Assign.mk 1 0 ⟨1, 0, 0, 0⟩ [⟨1, 1, 1, 0⟩, ⟨1, 2, 2, 0⟩, ⟨1, 3, 3, 0⟩, ⟨1, 4, 4, 0⟩],
    Assign.mk 1 1 ⟨1, 0, 0, 1⟩ [⟨1, 1, 1, 1⟩, ⟨1, 2, 2, 1⟩, ⟨1, 3, 3, 1⟩, ⟨1, 4, 4, 1⟩],
    Assign.mk 1 2 ⟨1, 0, 0, 2⟩ [⟨1, 1, 1, 2⟩, ⟨1, 2, 2, 2⟩, ⟨1, 3, 3, 2⟩, ⟨1, 4, 4, 2⟩],
    Assign.mk 2 0 ⟨2, 0, 0, 0⟩ [⟨2, 1, 1, 0⟩, ⟨2, 2, 2, 0⟩, ⟨2, 3, 3, 0⟩, ⟨2, 4, 4, 0⟩],
    Assign.mk 2 1 ⟨2, 0, 0, 1⟩ [⟨2, 1, 1, 1⟩, ⟨2, 2, 2, 1⟩, ⟨2, 3, 3, 1⟩, ⟨2, 4, 4, 1⟩],
    Assign.mk 2 2 ⟨2, 0, 0, 2⟩ [⟨2, 1, 1, 2⟩, ⟨2, 2, 2, 2⟩, ⟨2, 3, 3, 2⟩, ⟨2, 4, 4, 2⟩],
    Assign.mk 3 0 ⟨3, 0, 0, 0⟩ [⟨3, 1, 1, 0⟩, ⟨3, 2, 2, 0⟩, ⟨3, 3, 3, 0⟩, ⟨3, 4, 4, 0⟩],
    Assign.mk 3 1 ⟨3, 0, 0, 1⟩ [⟨3, 1, 1, 1⟩, ⟨3, 2, 2, 1⟩, ⟨3, 3, 3, 1⟩, ⟨3, 4, 4, 1⟩],
    Assign.mk 3 2 ⟨3, 0, 0, 2⟩ [⟨3, 1, 1, 2⟩, ⟨3, 2, 2, 2⟩, ⟨3, 3, 3, 2⟩, ⟨3, 4, 4, 2⟩]],
  -- 4x5 * 5x4 -> 4x4
  .exact 4 5 5 4 [
    Assign.mk 0 0 ⟨0, 0, 0, 0⟩ [⟨0, 1, 1, 0⟩, ⟨0, 2, 2, 0⟩, ⟨0, 3, 3, 0⟩, ⟨0, 4, 4, 0⟩],
    Assign.mk 0 1 ⟨0, 0, 0, 1⟩ [⟨0, 1, 1, 1⟩, ⟨0, 2, 2, 1⟩, ⟨0, 3, 3, 1⟩, ⟨0, 4, 4, 1⟩],
    Assign.mk 0 2 ⟨0, 0, 0, 2⟩ [⟨0, 1, 1, 2⟩, ⟨0, 2, 2, 2⟩, ⟨0, 3, 3, 2⟩, ⟨0, 4, 4, 2⟩],
    Assign.mk 0 3 ⟨0, 0, 0, 3⟩ [⟨0, 1, 1, 3⟩, ⟨0, 2, 2, 3⟩, ⟨0, 3, 3, 3⟩, ⟨0, 4, 4, 3⟩],
    Assign.mk 1 0 ⟨1, 0, 0, 0⟩ [⟨1, 1, 1, 0⟩, ⟨1, 2, 2, 0⟩, ⟨1, 3, 3, 0⟩, ⟨1, 4, 4, 0⟩],
    Assign.mk 1 1 ⟨1, 0, 0, 1⟩ [⟨1, 1, 1, 1⟩, ⟨1, 2, 2, 1⟩, ⟨1, 3, 3, 1⟩, ⟨1, 4, 4, 1⟩],
    Assign.mk 1 2 ⟨1, 0, 0, 2⟩ [⟨1, 1, 1, 2⟩, ⟨1, 2, 2, 2⟩, ⟨1, 3, 3, 2⟩, ⟨1, 4, 4, 2⟩],
    Assign.mk 1 3 ⟨1, 0, 0, 3⟩ [⟨1, 1, 1, 3⟩, ⟨1, 2, 2, 3⟩, ⟨1, 3, 3, 3⟩, ⟨1, 4, 4, 3⟩],
    Assign.mk 2 0 ⟨2, 0, 0, 0⟩ [⟨2, 1, 1, 0⟩, ⟨2, 2, 2, 0⟩, ⟨2, 3, 3, 0⟩, ⟨2, 4, 4, 0⟩],
    Assign.mk 2 1 ⟨2, 0, 0, 1⟩ [⟨2, 1, 1, 1⟩, ⟨2, 2, 2, 1⟩, ⟨2, 3, 3, 1⟩, ⟨2, 4, 4, 1⟩],
    Assign.mk 2 2 ⟨2, 0, 0, 2⟩ [⟨2, 1, 1, 2⟩, ⟨2, 2, 2, 2⟩, ⟨2, 3, 3, 2⟩, ⟨2, 4, 4, 2⟩],
    Assign.mk 2 3 ⟨2, 0, 0, 3⟩ [⟨2, 1, 1, 3⟩, ⟨2, 2, 2, 3⟩, ⟨2, 3, 3, 3⟩, ⟨2, 4, 4, 3⟩],
    Assign.mk 3 0 ⟨3, 0, 0, 0⟩ [⟨3, 1, 1, 0⟩, ⟨3, 2, 2, 0⟩, ⟨3, 3, 3, 0⟩, ⟨3, 4, 4, 0⟩],
    Assign.mk 3 1 ⟨3, 0, 0, 1⟩ [⟨3, 1, 1, 1⟩, ⟨3, 2, 2, 1⟩, ⟨3, 3, 3, 1⟩, ⟨3, 4, 4, 1⟩],
    Assign.mk 3 2 ⟨3, 0, 0, 2⟩ [⟨3, 1, 1, 2⟩, ⟨3, 2, 2, 2⟩, ⟨3, 3, 3, 2⟩, ⟨3, 4, 4, 2⟩],
    Assign.mk 3 3 ⟨3, 0, 0, 3⟩ [⟨3, 1, 1, 3⟩, ⟨3, 2, 2, 3⟩, ⟨3, 3, 3, 3⟩, ⟨3, 4, 4, 3⟩]],
  -- 4x5 * 5x5 -> 4x5
  .exact 4 5 5 5 [
    Assign.mk 0 0 ⟨0, 0, 0, 0⟩ [⟨0, 1, 1, 0⟩, ⟨0, 2, 2, 0⟩, ⟨0, 3, 3, 0⟩, ⟨0, 4, 4, 0⟩],
    Assign.mk 0 1 ⟨0, 0, 0, 1⟩ [⟨0, 1, 1, 1⟩, ⟨0, 2, 2, 1⟩, ⟨0, 3, 3, 1⟩, ⟨0, 4, 4, 1⟩],
    Assign.mk 0 2 ⟨0, 0, 0, 2⟩ [⟨0, 1, 1, 2⟩, ⟨0, 2, 2, 2⟩, ⟨0, 3, 3, 2⟩, ⟨0, 4, 4, 2⟩],
    Assign.mk 0 3 ⟨0, 0, 0, 3⟩ [⟨0, 1, 1, 3⟩, ⟨0, 2, 2, 3⟩, ⟨0, 3, 3, 3⟩, ⟨0, 4, 4, 3⟩],
    Assign.mk 0 4 ⟨0, 0, 0, 4⟩ [⟨0, 1, 1, 4⟩, ⟨0, 2, 2, 4⟩, ⟨0, 3, 3, 4⟩, ⟨0, 4, 4, 4⟩],
    Assign.mk 1 0 ⟨1, 0, 0, 0⟩ [⟨1, 1, 1, 0⟩, ⟨1, 2, 2, 0⟩, ⟨1, 3, 3, 0⟩, ⟨1, 4, 4, 0⟩],
    Assign.mk 1 1 ⟨1, 0, 0, 1⟩ [⟨1, 1, 1, 1⟩, ⟨1, 2, 2, 1⟩, ⟨1, 3, 3, 1⟩, ⟨1, 4, 4, 1⟩],
    Assign.mk 1 2 ⟨1, 0, 0, 2⟩ [⟨1, 1, 1, 2⟩, ⟨1, 2, 2, 2⟩, ⟨1, 3, 3, 2⟩, ⟨1, 4, 4, 2⟩],
    Assign.mk 1 3 ⟨1, 0, 0, 3⟩ [⟨1, 1, 1, 3⟩, ⟨1, 2, 2, 3⟩, ⟨1, 3, 3, 3⟩, ⟨1, 4, 4, 3⟩],
    Assign.mk 1 4 ⟨1, 0, 0, 4⟩ [⟨1, 1, 1, 4⟩, ⟨1, 2, 2, 4⟩, ⟨1, 3, 3, 4⟩, ⟨1, 4, 4, 4⟩],
    Assign.mk 2 0 ⟨2, 0, 0, 0⟩ [⟨2, 1, 1, 0⟩, ⟨2, 2, 2, 0⟩, ⟨2, 3, 3, 0⟩, ⟨2, 4, 4, 0⟩],
    Assign.mk 2 1 ⟨2, 0, 0, 1⟩ [⟨2, 1, 1, 1⟩, ⟨2, 2, 2, 1⟩, ⟨2, 3, 3, 1⟩, ⟨2, 4, 4, 1⟩],
    Assign.mk 2 2 ⟨2, 0, 0, 2⟩ [⟨2, 1, 1, 2⟩, ⟨2, 2, 2, 2⟩, ⟨2, 3, 3, 2⟩, ⟨2, 4, 4, 2⟩],
    Assign.mk 2 3 ⟨2, 0, 0, 3⟩ [⟨2, 1, 1, 3⟩, ⟨2, 2, 2, 3⟩, ⟨2, 3, 3, 3⟩, ⟨2, 4, 4, 3⟩],
    Assign.mk 2 4 ⟨2, 0, 0, 4⟩ [⟨2, 1, 1, 4⟩, ⟨2, 2, 2, 4⟩, ⟨2, 3, 3, 4⟩, ⟨2, 4, 4, 4⟩],
    Assign.mk 3 0 ⟨3, 0, 0, 0⟩ [⟨3, 1, 1, 0⟩, ⟨3, 2, 2, 0⟩, ⟨3, 3, 3, 0⟩, ⟨3, 4, 4, 0⟩],
    Assign.mk 3 1 ⟨3, 0, 0, 1⟩ [⟨3, 1, 1, 1⟩, ⟨3, 2, 2, 1⟩, ⟨3, 3, 3, 1⟩, ⟨3, 4, 4, 1⟩],
    Assign.mk 3 2 ⟨3, 0, 0, 2⟩ [⟨3, 1, 1, 2⟩, ⟨3, 2, 2, 2⟩, ⟨3, 3, 3, 2⟩, ⟨3, 4, 4, 2⟩],
    Assign.mk 3 3 ⟨3, 0, 0, 3⟩ [⟨3, 1, 1, 3⟩, ⟨3, 2, 2, 3⟩, ⟨3, 3, 3, 3⟩, ⟨3, 4, 4, 3⟩],
    Assign.mk 3 4 ⟨3, 0, 0, 4⟩ [⟨3, 1, 1, 4⟩, ⟨3, 2, 2, 4⟩, ⟨3, 3, 3, 4⟩, ⟨3, 4, 4, 4⟩]],
  -- 5x5 * 5x1 -> 5x1
  .exact 5 5 5 1 [
    Assign.mk 0 0 ⟨0, 0, 0, 0⟩ [⟨0, 1, 1, 0⟩, ⟨0, 2, 2, 0⟩, ⟨0, 3, 3, 0⟩, ⟨0, 4, 4, 0⟩],
    Assign.mk 1 0 ⟨1, 0, 0, 0⟩ [⟨1, 1, 1, 0⟩, ⟨1, 2, 2, 0⟩, ⟨1, 3, 3, 0⟩, ⟨1, 4, 4, 0⟩],
    Assign.mk 2 0 ⟨2, 0, 0, 0⟩ [⟨2, 1, 1, 0⟩, ⟨2, 2, 2, 0⟩, ⟨2, 3, 3, 0⟩, ⟨2, 4, 4, 0⟩],
    Assign.mk 3 0 ⟨3, 0, 0, 0⟩ [⟨3, 1, 1, 0⟩, ⟨3, 2, 2, 0⟩, ⟨3, 3, 3, 0⟩, ⟨3, 4, 4, 0⟩],
    Assign.mk 4 0 ⟨4, 0, 0, 0⟩ [⟨4, 1, 1, 0⟩, ⟨4, 2, 2, 0⟩, ⟨4, 3, 3, 0⟩, ⟨4, 4, 4, 0⟩]],
  -- 5x5 * 5x2 -> 5x2
  .exact 5 5 5 2 [
    Assign.mk 0 0 ⟨0, 0, 0, 0⟩ [⟨0, 1, 1, 0⟩, ⟨0, 2, 2, 0⟩, ⟨0, 3, 3, 0⟩, ⟨0, 4, 4, 0⟩],
    Assign.mk 0 1 ⟨0, 0, 0, 1⟩ [⟨0, 1, 1, 1⟩, ⟨0, 2, 2, 1⟩, ⟨0, 3, 3, 1⟩, ⟨0, 4, 4, 1⟩],
    Assign.mk 1 0 ⟨1, 0, 0, 0⟩ [⟨1, 1, 1, 0⟩, ⟨1, 2, 2, 0⟩, ⟨1, 3, 3, 0⟩, ⟨1, 4, 4, 0⟩],
    Assign.mk 1 1 ⟨1, 0, 0, 1⟩ [⟨1, 1, 1, 1⟩, ⟨1, 2, 2, 1⟩, ⟨1, 3, 3, 1⟩, ⟨1, 4, 4, 1⟩],
    Assign.mk 2 0 ⟨2, 0, 0, 0⟩ [⟨2, 1, 1, 0⟩, ⟨2, 2, 2, 0⟩, ⟨2, 3, 3, 0⟩, ⟨2, 4, 4, 0⟩],
    Assign.mk 2 1 ⟨2, 0, 0, 1⟩ [⟨2, 1, 1, 1⟩, ⟨2, 2, 2, 1⟩, ⟨2, 3, 3, 1⟩, ⟨2, 4, 4, 1⟩],
    Assign.mk 3 0 ⟨3, 0, 0, 0⟩ [⟨3, 1, 1, 0⟩, ⟨3, 2, 2, 0⟩, ⟨3, 3, 3, 0⟩, ⟨3, 4, 4, 0⟩],
    Assign.mk 3 1 ⟨3, 0, 0, 1⟩ [⟨3, 1, 1, 1⟩, ⟨3, 2, 2, 1⟩, ⟨3, 3, 3, 1⟩, ⟨3, 4, 4, 1⟩],
    Assign.mk 4 0 ⟨4, 0, 0, 0⟩ [⟨4, 1, 1, 0⟩, ⟨4, 2, 2, 0⟩, ⟨4, 3, 3, 0⟩, ⟨4, 4, 4, 0⟩],
    Assign.mk 4 1 ⟨4, 0, 0, 1⟩ [⟨4, 1, 1, 1⟩, ⟨4, 2, 2, 1⟩, ⟨4, 3, 3, 1⟩, ⟨4, 4, 4, 1⟩]],
  -- 5x5 * 5x3 -> 5x3
  .exact 5 5 5 3 [
    Assign.mk 0 0 ⟨0, 0, 0, 0⟩ [⟨0, 1, 1, 0⟩, ⟨0, 2, 2, 0⟩, ⟨0, 3, 3, 0⟩, ⟨0, 4, 4, 0⟩],
    Assign.mk 0 1 ⟨0, 0, 0, 1⟩ [⟨0, 1, 1, 1⟩, ⟨0, 2, 2, 1⟩, ⟨0, 3, 3, 1⟩, ⟨0, 4, 4, 1⟩],
    Assign.mk 0 2 ⟨0, 0, 0, 2⟩ [⟨0, 1, 1, 2⟩, ⟨0, 2, 2, 2⟩, ⟨0, 3, 3, 2⟩, ⟨0, 4, 4, 2⟩],
    Assign.mk 1 0 ⟨1, 0, 0, 0⟩ [⟨1, 1, 1, 0⟩, ⟨1, 2, 2, 0⟩, ⟨1, 3, 3, 0⟩, ⟨1, 4, 4, 0⟩],
    Assign.mk 1 1 ⟨1, 0, 0, 1⟩ [⟨1, 1, 1, 1⟩, ⟨1, 2, 2, 1⟩, ⟨1, 3, 3, 1⟩, ⟨1, 4, 4, 1⟩],
    Assign.mk 1 2 ⟨1, 0, 0, 2⟩ [⟨1, 1, 1, 2⟩, ⟨1, 2, 2, 2⟩, ⟨1, 3, 3, 2⟩, ⟨1, 4, 4, 2⟩],
    Assign.mk 2 0 ⟨2, 0, 0, 0⟩ [⟨2, 1, 1, 0⟩, ⟨2, 2, 2, 0⟩, ⟨2, 3, 3, 0⟩, ⟨2, 4, 4, 0⟩],
    Assign.mk 2 1 ⟨2, 0, 0, 1⟩ [⟨2, 1, 1, 1⟩, ⟨2, 2, 2, 1⟩, ⟨2, 3, 3, 1⟩, ⟨2, 4, 4, 1⟩],
    Assign.mk 2 2 ⟨2, 0, 0, 2⟩ [⟨2, 1, 1, 2⟩, ⟨2, 2, 2, 2⟩, ⟨2, 3, 3, 2⟩, ⟨2, 4, 4, 2⟩],
    Assign.mk 3 0 ⟨3, 0, 0, 0⟩ [⟨3, 1, 1, 0⟩, ⟨3, 2, 2, 0⟩, ⟨3, 3, 3, 0⟩, ⟨3, 4, 4, 0⟩],
    Assign.mk 3 1 ⟨3, 0, 0, 1⟩ [⟨3, 1, 1, 1⟩, ⟨3, 2, 2, 1⟩, ⟨3, 3, 3, 1⟩, ⟨3, 4, 4, 1⟩],
    Assign.mk 3 2 ⟨3, 0, 0, 2⟩ [⟨3, 1, 1, 2⟩, ⟨3, 2, 2, 2⟩, ⟨3, 3, 3, 2⟩, ⟨3, 4, 4, 2⟩],
    Assign.mk 4 0 ⟨4, 0, 0, 0⟩ [⟨4, 1, 1, 0⟩, ⟨4, 2, 2, 0⟩, ⟨4, 3, 3, 0⟩, ⟨4, 4, 4, 0⟩],
    Assign.mk 4 1 ⟨4, 0, 0, 1⟩ [⟨4, 1, 1, 1⟩, ⟨4, 2, 2, 1⟩, ⟨4, 3, 3, 1⟩, ⟨4, 4, 4, 1⟩],
    Assign.mk 4 2 ⟨4, 0, 0, 2⟩ [⟨4, 1, 1, 2⟩, ⟨4, 2, 2, 2⟩, ⟨4, 3, 3, 2⟩, ⟨4, 4, 4, 2⟩]],
  -- 5x5 * 5x4 -> 5x4
  .exact 5 5 5 4 [
    Assign.mk 0 0 ⟨0, 0, 0, 0⟩ [⟨0, 1, 1, 0⟩, ⟨0, 2, 2, 0⟩, ⟨0, 3, 3, 0⟩, ⟨0, 4, 4, 0⟩],
    Assign.mk 0 1 ⟨0, 0, 0, 1⟩ [⟨0, 1, 1, 1⟩, ⟨0, 2, 2, 1⟩, ⟨0, 3, 3, 1⟩, ⟨0, 4, 4, 1⟩],
    Assign.mk 0 2 ⟨0, 0, 0, 2⟩ [⟨0, 1, 1, 2⟩, ⟨0, 2, 2, 2⟩, ⟨0, 3, 3, 2⟩, ⟨0, 4, 4, 2⟩],
    Assign.mk 0 3 ⟨0, 0, 0, 3⟩ [⟨0, 1, 1, 3⟩, ⟨0, 2, 2, 3⟩, ⟨0, 3, 3, 3⟩, ⟨0, 4, 4, 3⟩],
    Assign.mk 1 0 ⟨1, 0, 0, 0⟩ [⟨1, 1, 1, 0⟩, ⟨1, 2, 2, 0⟩, ⟨1, 3, 3, 0⟩, ⟨1, 4, 4, 0⟩],
    Assign.mk 1 1 ⟨1, 0, 0, 1⟩ [⟨1, 1, 1, 1⟩, ⟨1, 2, 2, 1⟩, ⟨1, 3, 3, 1⟩, ⟨1, 4, 4, 1⟩],
    Assign.mk 1 2 ⟨1, 0, 0, 2⟩ [⟨1, 1, 1, 2⟩, ⟨1, 2, 2, 2⟩, ⟨1, 3, 3, 2⟩, ⟨1, 4, 4, 2⟩],
    Assign.mk 1 3 ⟨1, 0, 0, 3⟩ [⟨1, 1, 1, 3⟩, ⟨1, 2, 2, 3⟩, ⟨1, 3, 3, 3⟩, ⟨1, 4, 4, 3⟩],
    Assign.mk 2 0 ⟨2, 0, 0, 0⟩ [⟨2, 1, 1, 0⟩, ⟨2, 2, 2, 0⟩, ⟨2, 3, 3, 0⟩, ⟨2, 4, 4, 0⟩],
    Assign.mk 2 1 ⟨2, 0, 0, 1⟩ [⟨2, 1, 1, 1⟩, ⟨2, 2, 2, 1⟩, ⟨2, 3, 3, 1⟩, ⟨2, 4, 4, 1⟩],
    Assign.mk 2 2 ⟨2, 0, 0, 2⟩ [⟨2, 1, 1, 2⟩, ⟨2, 2, 2, 2⟩, ⟨2, 3, 3, 2⟩, ⟨2, 4, 4, 2⟩],
    Assign.mk 2 3 ⟨2, 0, 0, 3⟩ [⟨2, 1, 1, 3⟩, ⟨2, 2, 2, 3⟩, ⟨2, 3, 3, 3⟩, ⟨2, 4, 4, 3⟩],
    Assign.mk 3 0 ⟨3, 0, 0, 0⟩ [⟨3, 1, 1, 0⟩, ⟨3, 2, 2, 0⟩, ⟨3, 3, 3, 0⟩, ⟨3, 4, 4, 0⟩],
    Assign.mk 3 1 ⟨3, 0, 0, 1⟩ [⟨3, 1, 1, 1⟩, ⟨3, 2, 2, 1⟩, ⟨3, 3, 3, 1⟩, ⟨3, 4, 4, 1⟩],
    Assign.mk 3 2 ⟨3, 0, 0, 2⟩ [⟨3, 1, 1, 2⟩, ⟨3, 2, 2, 2⟩, ⟨3, 3, 3, 2⟩, ⟨3, 4, 4, 2⟩],
    Assign.mk 3 3 ⟨3, 0, 0, 3⟩ [⟨3, 1, 1, 3⟩, ⟨3, 2, 2, 3⟩, ⟨3, 3, 3, 3⟩, ⟨3, 4, 4, 3⟩],
    Assign.mk 4 0 ⟨4, 0, 0, 0⟩ [⟨4, 1, 1, 0⟩, ⟨4, 2, 2, 0⟩, ⟨4, 3, 3, 0⟩, ⟨4, 4, 4, 0⟩],
    Assign.mk 4 1 ⟨4, 0, 0, 1⟩ [⟨4, 1, 1, 1⟩, ⟨4, 2, 2, 1⟩, ⟨4, 3, 3, 1⟩, ⟨4, 4, 4, 1⟩],
    Assign.mk 4 2 ⟨4, 0, 0, 2⟩ [⟨4, 1, 1, 2⟩, ⟨4, 2, 2, 2⟩, ⟨4, 3, 3, 2⟩, ⟨4, 4, 4, 2⟩],
    Assign.mk 4 3 ⟨4, 0, 0, 3⟩ [⟨4, 1, 1, 3⟩, ⟨4, 2, 2, 3⟩, ⟨4, 3, 3, 3⟩, ⟨4, 4, 4, 3⟩]],
  -- 5x5 * 5x5 -> 5x5
  .exact 5 5 5 5 [
    Assign.mk 0 0 ⟨0, 0, 0, 0⟩ [⟨0, 1, 1, 0⟩, ⟨0, 2, 2, 0⟩, ⟨0, 3, 3, 0⟩, ⟨0, 4, 4, 0⟩],
    Assign.mk 0 1 ⟨0, 0, 0, 1⟩ [⟨0, 1, 1, 1⟩, ⟨0, 2, 2, 1⟩, ⟨0, 3, 3, 1⟩, ⟨0, 4, 4, 1⟩],
    Assign.mk 0 2 ⟨0, 0, 0, 2⟩ [⟨0, 1, 1, 2⟩, ⟨0, 2, 2, 2⟩, ⟨0, 3, 3, 2⟩, ⟨0, 4, 4, 2⟩],
    Assign.mk 0 3 ⟨0, 0, 0, 3⟩ [⟨0, 1, 1, 3⟩, ⟨0, 2, 2, 3⟩, ⟨0, 3, 3, 3⟩, ⟨0, 4, 4, 3⟩],
    Assign.mk 0 4 ⟨0, 0, 0, 4⟩ [⟨0, 1, 1, 4⟩, ⟨0, 2, 2, 4⟩, ⟨0, 3, 3, 4⟩, ⟨0, 4, 4, 4⟩],
    Assign.mk 1 0 ⟨1, 0, 0, 0⟩ [⟨1, 1, 1, 0⟩, ⟨1, 2, 2, 0⟩, ⟨1, 3, 3, 0⟩, ⟨1, 4, 4, 0⟩],
    Assign.mk 1 1 ⟨1, 0, 0, 1⟩ [⟨1, 1, 1, 1⟩, ⟨1, 2, 2, 1⟩, ⟨1, 3, 3, 1⟩, ⟨1, 4, 4, 1⟩],
    Assign.mk 1 2 ⟨1, 0, 0, 2⟩ [⟨1, 1, 1, 2⟩, ⟨1, 2, 2, 2⟩, ⟨1, 3, 3, 2⟩, ⟨1, 4, 4, 2⟩],
    Assign.mk 1 3 ⟨1, 0, 0, 3⟩ [⟨1, 1, 1, 3⟩, ⟨1, 2, 2, 3⟩, ⟨1, 3, 3, 3⟩, ⟨1, 4, 4, 3⟩],
    Assign.mk 1 4 ⟨1, 0, 0, 4⟩ [⟨1, 1, 1, 4⟩, ⟨1, 2, 2, 4⟩, ⟨1, 3, 3, 4⟩, ⟨1, 4, 4, 4⟩],
    Assign.mk 2 0 ⟨2, 0, 0, 0⟩ [⟨2, 1, 1, 0⟩, ⟨2, 2, 2, 0⟩, ⟨2, 3, 3, 0⟩, ⟨2, 4, 4, 0⟩],
    Assign.mk 2 1 ⟨2, 0, 0, 1⟩ [⟨2, 1, 1, 1⟩, ⟨2, 2, 2, 1⟩, ⟨2, 3, 3, 1⟩, ⟨2, 4, 4, 1⟩],
    Assign.mk 2 2 ⟨2, 0, 0, 2⟩ [⟨2, 1, 1, 2⟩, ⟨2, 2, 2, 2⟩, ⟨2, 3, 3, 2⟩, ⟨2, 4, 4, 2⟩],
    Assign.mk 2 3 ⟨2, 0, 0, 3⟩ [⟨2, 1, 1, 3⟩, ⟨2, 2, 2, 3⟩, ⟨2, 3, 3, 3⟩, ⟨2, 4, 4, 3⟩],
    Assign.mk 2 4 ⟨2, 0, 0, 4⟩ [⟨2, 1, 1, 4⟩, ⟨2, 2, 2, 4⟩, ⟨2, 3, 3, 4⟩, ⟨2, 4, 4, 4⟩],
    Assign.mk 3 0 ⟨3, 0, 0, 0⟩ [⟨3, 1, 1, 0⟩, ⟨3, 2, 2, 0⟩, ⟨3, 3, 3, 0⟩, ⟨3, 4, 4, 0⟩],
    Assign.mk 3 1 ⟨3, 0, 0, 1⟩ [⟨3, 1, 1, 1⟩, ⟨3, 2, 2, 1⟩, ⟨3, 3, 3, 1⟩, ⟨3, 4, 4, 1⟩],
    Assign.mk 3 2 ⟨3, 0, 0, 2⟩ [⟨3, 1, 1, 2⟩, ⟨3, 2, 2, 2⟩, ⟨3, 3, 3, 2⟩, ⟨3, 4, 4, 2⟩],
    Assign.mk 3 3 ⟨3, 0, 0, 3⟩ [⟨3, 1, 1, 3⟩, ⟨3, 2, 2, 3⟩, ⟨3, 3, 3, 3⟩, ⟨3, 4, 4, 3⟩],
    Assign.mk 3 4 ⟨3, 0, 0, 4⟩ [⟨3, 1, 1, 4⟩, ⟨3, 2, 2, 4⟩, ⟨3, 3, 3, 4⟩, ⟨3, 4, 4, 4⟩],
    Assign.mk 4 0 ⟨4, 0, 0, 0⟩ [⟨4, 1, 1, 0⟩, ⟨4, 2, 2, 0⟩, ⟨4, 3, 3, 0⟩, ⟨4, 4, 4, 0⟩],
    Assign.mk 4 1 ⟨4, 0, 0, 1⟩ [⟨4, 1, 1, 1⟩, ⟨4, 2, 2, 1⟩, ⟨4, 3, 3, 1⟩, ⟨4, 4, 4, 1⟩],
    Assign.mk 4 2 ⟨4, 0, 0, 2⟩ [⟨4, 1, 1, 2⟩, ⟨4, 2, 2, 2⟩, ⟨4, 3, 3, 2⟩, ⟨4, 4, 4, 2⟩],
    Assign.mk 4 3 ⟨4, 0, 0, 3⟩ [⟨4, 1, 1, 3⟩, ⟨4, 2, 2, 3⟩, ⟨4, 3, 3, 3⟩, ⟨4, 4, 4, 3⟩],
    Assign.mk 4 4 ⟨4, 0, 0, 4⟩ [⟨4, 1, 1, 4⟩, ⟨4, 2, 2, 4⟩, ⟨4, 3, 3, 4⟩, ⟨4, 4, 4, 4⟩]],
  -- Matrices n1x5 * 5xn2
  .loop 5 5
    (Assign.mk .rows .cols ⟨.rows, 0, 0, .cols⟩ [⟨.rows, 1, 1, .cols⟩, ⟨.rows, 2, 2, .cols⟩, ⟨.rows, 3, 3, .cols⟩, ⟨.rows, 4, 4, .cols⟩])]

/-- The whole table compiled for up to 5x5. -/
def Mul_unrolled_5x5 : List Branch :=
  Mul_unrolled_5x5_ColsA1 ++ Mul_unrolled_5x5_ColsA2 ++ Mul_unrolled_5x5_ColsA3 ++ Mul_unrolled_5x5_ColsA4 ++ Mul_unrolled_5x5_ColsA5

/-- Transcription of the branches with `_ColsA == 1` of the table for up to 4x4
(`Matrix::Mul`, source lines 3100 to 3360), in source order. -/
def Mul_unrolled_4x4_ColsA1 : List Branch := [
  -- 1x1 * 1x1 -> 1x1
  .exact 1 1 1 1 [
    Assign.mk 0 0 ⟨0, 0, 0, 0⟩ []],
  -- 1x1 * 1x2 -> 1x2
  .exact 1 1 1 2 [
    Assign.mk 0 0 ⟨0, 0, 0, 0⟩ [],
    Assign.mk 0 1 ⟨0, 0, 0, 1⟩ []],
  -- 1x1 * 1x3 -> 1x3
  .exact 1 1 1 3 [
    Assign.mk 0 0 ⟨0, 0, 0, 0⟩ [],
    Assign.mk 0 1 ⟨0, 0, 0, 1⟩ [],
    Assign.mk 0 2 ⟨0, 0, 0, 2⟩ []],
  -- 1x1 * 1x4 -> 1x4
  .exact 1 1 1 4 [
    Assign.mk 0 0 ⟨0, 0, 0, 0⟩ [],
    Assign.mk 0 1 ⟨0, 0, 0, 1⟩ [],
    Assign.mk 0 2 ⟨0, 0, 0, 2⟩ [],
    Assign.mk 0 3 ⟨0, 0, 0, 3⟩ []],
  -- 2x1 * 1x1 -> 2x1
  .exact 2 1 1 1 [
    Assign.mk 0 0 ⟨0, 0, 0, 0⟩ [],
    Assign.mk 1 0 ⟨1, 0, 0, 0⟩ []],
  -- 2x1 * 1x2 -> 2x2
  .exact 2 1 1 2 [
    Assign.mk 0 0 ⟨0, 0, 0, 0⟩ [],
    Assign.mk 0 1 ⟨0, 0, 0, 1⟩ [],
    Assign.mk 1 0 ⟨1, 0, 0, 0⟩ [],
    Assign.mk 1 1 ⟨1, 0, 0, 1⟩ []],
  -- 2x1 * 1x3 -> 2x3
  .exact 2 1 1 3 [
    Assign.mk 0 0 ⟨0, 0, 0, 0⟩ [],
    Assign.mk 0 1 ⟨0, 0, 0, 1⟩ [],
    Assign.mk 0 2 ⟨0, 0, 0, 2⟩ [],
    Assign.mk 1 0 ⟨1, 0, 0, 0⟩ [],
    Assign.mk 1 1 ⟨1, 0, 0, 1⟩ [],
    Assign.mk 1 2 ⟨1, 0, 0, 2⟩ []],
  -- 2x1 * 1x4 -> 2x4
  .exact 2 1 1 4 [
    Assign.mk 0 0 ⟨0, 0, 0, 0⟩ [],
    Assign.mk 0 1 ⟨0, 0, 0, 1⟩ [],
    Assign.mk 0 2 ⟨0, 0, 0, 2⟩ [],
    Assign.mk 0 3 ⟨0, 0, 0, 3⟩ [],
    Assign.mk 1 0 ⟨1, 0, 0, 0⟩ [],
    Assign.mk 1 1 ⟨1, 0, 0, 1⟩ [],
    Assign.mk 1 2 ⟨1, 0, 0, 2⟩ [],
    Assign.mk 1 3 ⟨1, 0, 0, 3⟩ []],
  -- 3x1 * 1x1 -> 3x1
  .exact 3 1 1 1 [
    Assign.mk 0 0 ⟨0, 0, 0, 0⟩ [],
    Assign.mk 1 0 ⟨1, 0, 0, 0⟩ [],
    Assign.mk 2 0 ⟨2, 0, 0, 0⟩ []],
  -- 3x1 * 1x2 -> 3x2
  .exact 3 1 1 2 [
    Assign.mk 0 0 ⟨0, 0, 0, 0⟩ [],
    Assign.mk 0 1 ⟨0, 0, 0, 1⟩ [],
    Assign.mk 1 0 ⟨1, 0, 0, 0⟩ [],
    Assign.mk 1 1 ⟨1, 0, 0, 1⟩ [],
    Assign.mk 2 0 ⟨2, 0, 0, 0⟩ [],
    Assign.mk 2 1 ⟨2, 0, 0, 1⟩ []],
  -- 3x1 * 1x3 -> 3x3
  .exact 3 1 1 3 [
    Assign.mk 0 0 ⟨0, 0, 0, 0⟩ [],
    Assign.mk 0 1 ⟨0, 0, 0, 1⟩ [],
    Assign.mk 0 2 ⟨0, 0, 0, 2⟩ [],
    Assign.mk 1 0 ⟨1, 0, 0, 0⟩ [],
    Assign.mk 1 1 ⟨1, 0, 0, 1⟩ [],
    Assign.mk 1 2 ⟨1, 0, 0, 2⟩ [],
    Assign.mk 2 0 ⟨2, 0, 0, 0⟩ [],
    Assign.mk 2 1 ⟨2, 0, 0, 1⟩ [],
    Assign.mk 2 2 ⟨2, 0, 0, 2⟩ []],
  -- 3x1 * 1x4 -> 3x4
  .exact 3 1 1 4 [
    Assign.mk 0 0 ⟨0, 0, 0, 0⟩ [],
    Assign.mk 0 1 ⟨0, 0, 0, 1⟩ [],
    Assign.mk 0 2 ⟨0, 0, 0, 2⟩ [],
    Assign.mk 0 3 ⟨0, 0, 0, 3⟩ [],
    Assign.mk 1 0 ⟨1, 0, 0, 0⟩ [],
    Assign.mk 1 1 ⟨1, 0, 0, 1⟩ [],
    Assign.mk 1 2 ⟨1, 0, 0, 2⟩ [],
    Assign.mk 1 3 ⟨1, 0, 0, 3⟩ [],
    Assign.mk 2 0 ⟨2, 0, 0, 0⟩ [],
    Assign.mk 2 1 ⟨2, 0, 0, 1⟩ [],
    Assign.mk 2 2 ⟨2, 0, 0, 2⟩ [],
    Assign.mk 2 3 ⟨2, 0, 0, 3⟩ []],
  -- 4x1 * 1x1 -> 4x1
  .exact 4 1 1 1 [
    Assign.mk 0 0 ⟨0, 0, 0, 0⟩ [],
    Assign.mk 1 0 ⟨1, 0, 0, 0⟩ [],
    Assign.mk 2 0 ⟨2, 0, 0, 0⟩ [],
    Assign.mk 3 0 ⟨3, 0, 0, 0⟩ []],
  -- 4x1 * 1x2 -> 4x2
  .exact 4 1 1 2 [
    Assign.mk 0 0 ⟨0, 0, 0, 0⟩ [],
    Assign.mk 0 1 ⟨0, 0, 0, 1⟩ [],
    Assign.mk 1 0 ⟨1, 0, 0, 0⟩ [],
    Assign.mk 1 1 ⟨1, 0, 0, 1⟩ [],
    Assign.mk 2 0 ⟨2, 0, 0, 0⟩ [],
    Assign.mk 2 1 ⟨2, 0, 0, 1⟩ [],
    Assign.mk 3 0 ⟨3, 0, 0, 0⟩ [],
    Assign.mk 3 1 ⟨3, 0, 0, 1⟩ []],
  -- 4x1 * 1x3 -> 4x3
  .exact 4 1 1 3 [
    Assign.mk 0 0 ⟨0, 0, 0, 0⟩ [],
    Assign.mk 0 1 ⟨0, 0, 0, 1⟩ [],
    Assign.mk 0 2 ⟨0, 0, 0, 2⟩ [],
    Assign.mk 1 0 ⟨1, 0, 0, 0⟩ [],
    Assign.mk 1 1 ⟨1, 0, 0, 1⟩ [],
    Assign.mk 1 2 ⟨1, 0, 0, 2⟩ [],
    Assign.mk 2 0 ⟨2, 0, 0, 0⟩ [],
    Assign.mk 2 1 ⟨2, 0, 0, 1⟩ [],
    Assign.mk 2 2 ⟨2, 0, 0, 2⟩ [],
    Assign.mk 3 0 ⟨3, 0, 0, 0⟩ [],
    Assign.mk 3 1 ⟨3, 0, 0, 1⟩ [],
    Assign.mk 3 2 ⟨3, 0, 0, 2⟩ []],
  -- 4x1 * 1x4 -> 4x4
  .exact 4 1 1 4 [
    Assign.mk 0 0 ⟨0, 0, 0, 0⟩ [],
    Assign.mk 0 1 ⟨0, 0, 0, 1⟩ [],
    Assign.mk 0 2 ⟨0, 0, 0, 2⟩ [],
    Assign.mk 0 3 ⟨0, 0, 0, 3⟩ [],
    Assign.mk 1 0 ⟨1, 0, 0, 0⟩ [],
    Assign.mk 1 1 ⟨1, 0, 0, 1⟩ [],
    Assign.mk 1 2 ⟨1, 0, 0, 2⟩ [],
    Assign.mk 1 3 ⟨1, 0, 0, 3⟩ [],
    Assign.mk 2 0 ⟨2, 0, 0, 0⟩ [],
    Assign.mk 2 1 ⟨2, 0, 0, 1⟩ [],
    Assign.mk 2 2 ⟨2, 0, 0, 2⟩ [],
    Assign.mk 2 3 ⟨2, 0, 0, 3⟩ [],
    Assign.mk 3 0 ⟨3, 0, 0, 0⟩ [],
    Assign.mk 3 1 ⟨3, 0, 0, 1⟩ [],
    Assign.mk 3 2 ⟨3, 0, 0, 2⟩ [],
    Assign.mk 3 3 ⟨3, 0, 0, 3⟩ []],
  -- Matrices n1x1 * 1xn2
  .loop 1 1
    (Assign.mk .rows .cols ⟨.rows, 0, 0, .cols⟩ [])]

/-- Transcription of the branches with `_ColsA == 2` of the table for up to 4x4
(`Matrix::Mul`, source lines 3365 to 3625), in source order. -/
def Mul_unrolled_4x4_ColsA2 : List Branch := [
  -- 1x2 * 2x1 -> 1x1
  .exact 1 2 2 1 [
    Assign.mk 0 0 ⟨0, 0, 0, 0⟩ [⟨0, 1, 1, 0⟩]],
  -- 1x2 * 2x2 -> 1x2
  .exact 1 2 2 2 [
    Assign.mk 0 0 ⟨0, 0, 0, 0⟩ [⟨0, 1, 1, 0⟩],
    Assign.mk 0 1 ⟨0, 0, 0, 1⟩ [⟨0, 1, 1, 1⟩]],
  -- 1x2 * 2x3 -> 1x3
  .exact 1 2 2 3 [
    Assign.mk 0 0 ⟨0, 0, 0, 0⟩ [⟨0, 1, 1, 0⟩],
    Assign.mk 0 1 ⟨0, 0, 0, 1⟩ [⟨0, 1, 1, 1⟩],
    Assign.mk 0 2 ⟨0, 0, 0, 2⟩ [⟨0, 1, 1, 2⟩]],
  -- 1x2 * 2x4 -> 1x4
  .exact 1 2 2 4 [
    Assign.mk 0 0 ⟨0, 0, 0, 0⟩ [⟨0, 1, 1, 0⟩],
    Assign.mk 0 1 ⟨0, 0, 0, 1⟩ [⟨0, 1, 1, 1⟩],
    Assign.mk 0 2 ⟨0, 0, 0, 2⟩ [⟨0, 1, 1, 2⟩],
    Assign.mk 0 3 ⟨0, 0, 0, 3⟩ [⟨0, 1, 1, 3⟩]],
  -- 2x2 * 2x1 -> 2x1
  .exact 2 2 2 1 [
    Assign.mk 0 0 ⟨0, 0, 0, 0⟩ [⟨0, 1, 1, 0⟩],
    Assign.mk 1 0 ⟨1, 0, 0, 0⟩ [⟨1, 1, 1, 0⟩]],
  -- 2x2 * 2x2 -> 2x2
  .exact 2 2 2 2 [
    Assign.mk 0 0 ⟨0, 0, 0, 0⟩ [⟨0, 1, 1, 0⟩],
    Assign.mk 0 1 ⟨0, 0, 0, 1⟩ [⟨0, 1, 1, 1⟩],
    Assign.mk 1 0 ⟨1, 0, 0, 0⟩ [⟨1, 1, 1, 0⟩],
    Assign.mk 1 1 ⟨1, 0, 0, 1⟩ [⟨1, 1, 1, 1⟩]],
  -- 2x2 * 2x3 -> 2x3
  .exact 2 2 2 3 [
    Assign.mk 0 0 ⟨0, 0, 0, 0⟩ [⟨0, 1, 1, 0⟩],
    Assign.mk 0 1 ⟨0, 0, 0, 1⟩ [⟨0, 1, 1, 1⟩],
    Assign.mk 0 2 ⟨0, 0, 0, 2⟩ [⟨0, 1, 1, 2⟩],
    Assign.mk 1 0 ⟨1, 0, 0, 0⟩ [⟨1, 1, 1, 0⟩],
    Assign.mk 1 1 ⟨1, 0, 0, 1⟩ [⟨1, 1, 1, 1⟩],
    Assign.mk 1 2 ⟨1, 0, 0, 2⟩ [⟨1, 1, 1, 2⟩]],
  -- 2x2 * 2x4 -> 2x4
  .exact 2 2 2 4 [
    Assign.mk 0 0 ⟨0, 0, 0, 0⟩ [⟨0, 1, 1, 0⟩],
    Assign.mk 0 1 ⟨0, 0, 0, 1⟩ [⟨0, 1, 1, 1⟩],
    Assign.mk 0 2 ⟨0, 0, 0, 2⟩ [⟨0, 1, 1, 2⟩],
    Assign.mk 0 3 ⟨0, 0, 0, 3⟩ [⟨0, 1, 1, 3⟩],
    Assign.mk 1 0 ⟨1, 0, 0, 0⟩ [⟨1, 1, 1, 0⟩],
    Assign.mk 1 1 ⟨1, 0, 0, 1⟩ [⟨1, 1, 1, 1⟩],
    Assign.mk 1 2 ⟨1, 0, 0, 2⟩ [⟨1, 1, 1, 2⟩],
    Assign.mk 1 3 ⟨1, 0, 0, 3⟩ [⟨1, 1, 1, 3⟩]],
  -- 3x2 * 2x1 -> 3x1
  .exact 3 2 2 1 [
    Assign.mk 0 0 ⟨0, 0, 0, 0⟩ [⟨0, 1, 1, 0⟩],
    Assign.mk 1 0 ⟨1, 0, 0, 0⟩ [⟨1, 1, 1, 0⟩],
    Assign.mk 2 0 ⟨2, 0, 0, 0⟩ [⟨2, 1, 1, 0⟩]],
  -- 3x2 * 2x2 -> 3x2
  .exact 3 2 2 2 [
    Assign.mk 0 0 ⟨0, 0, 0, 0⟩ [⟨0, 1, 1, 0⟩],
    Assign.mk 0 1 ⟨0, 0, 0, 1⟩ [⟨0, 1, 1, 1⟩],
    Assign.mk 1 0 ⟨1, 0, 0, 0⟩ [⟨1, 1, 1, 0⟩],
    Assign.mk 1 1 ⟨1, 0, 0, 1⟩ [⟨1, 1, 1, 1⟩],
    Assign.mk 2 0 ⟨2, 0, 0, 0⟩ [⟨2, 1, 1, 0⟩],
    Assign.mk 2 1 ⟨2, 0, 0, 1⟩ [⟨2, 1, 1, 1⟩]],
  -- 3x2 * 2x3 -> 3x3
  .exact 3 2 2 3 [
    Assign.mk 0 0 ⟨0, 0, 0, 0⟩ [⟨0, 1, 1, 0⟩],
    Assign.mk 0 1 ⟨0, 0, 0, 1⟩ [⟨0, 1, 1, 1⟩],
    Assign.mk 0 2 ⟨0, 0, 0, 2⟩ [⟨0, 1, 1, 2⟩],
    Assign.mk 1 0 ⟨1, 0, 0, 0⟩ [⟨1, 1, 1, 0⟩],
    Assign.mk 1 1 ⟨1, 0, 0, 1⟩ [⟨1, 1, 1, 1⟩],
    Assign.mk 1 2 ⟨1, 0, 0, 2⟩ [⟨1, 1, 1, 2⟩],
    Assign.mk 2 0 ⟨2, 0, 0, 0⟩ [⟨2, 1, 1, 0⟩],
    Assign.mk 2 1 ⟨2, 0, 0, 1⟩ [⟨2, 1, 1, 1⟩],
    Assign.mk 2 2 ⟨2, 0, 0, 2⟩ [⟨2, 1, 1, 2⟩]],
  -- 3x2 * 2x4 -> 3x4
  .exact 3 2 2 4 [
    Assign.mk 0 0 ⟨0, 0, 0, 0⟩ [⟨0, 1, 1, 0⟩],
    Assign.mk 0 1 ⟨0, 0, 0, 1⟩ [⟨0, 1, 1, 1⟩],
    Assign.mk 0 2 ⟨0, 0, 0, 2⟩ [⟨0, 1, 1, 2⟩],
    Assign.mk 0 3 ⟨0, 0, 0, 3⟩ [⟨0, 1, 1, 3⟩],
    Assign.mk 1 0 ⟨1, 0, 0, 0⟩ [⟨1, 1, 1, 0⟩],
    Assign.mk 1 1 ⟨1, 0, 0, 1⟩ [⟨1, 1, 1, 1⟩],
    Assign.mk 1 2 ⟨1, 0, 0, 2⟩ [⟨1, 1, 1, 2⟩],
    Assign.mk 1 3 ⟨1, 0, 0, 3⟩ [⟨1, 1, 1, 3⟩],
    Assign.mk 2 0 ⟨2, 0, 0, 0⟩ [⟨2, 1, 1, 0⟩],
    Assign.mk 2 1 ⟨2, 0, 0, 1⟩ [⟨2, 1, 1, 1⟩],
    Assign.mk 2 2 ⟨2, 0, 0, 2⟩ [⟨2, 1, 1, 2⟩],
    Assign.mk 2 3 ⟨2, 0, 0, 3⟩ [⟨2, 1, 1, 3⟩]],
  -- 4x2 * 2x1 -> 4x1
  .exact 4 2 2 1 [
    Assign.mk 0 0 ⟨0, 0, 0, 0⟩ [⟨0, 1, 1, 0⟩],
    Assign.mk 1 0 ⟨1, 0, 0, 0⟩ [⟨1, 1, 1, 0⟩],
    Assign.mk 2 0 ⟨2, 0, 0, 0⟩ [⟨2, 1, 1, 0⟩],
    Assign.mk 3 0 ⟨3, 0, 0, 0⟩ [⟨3, 1, 1, 0⟩]],
  -- 4x2 * 2x2 -> 4x2
  .exact 4 2 2 2 [
    Assign.mk 0 0 ⟨0, 0, 0, 0⟩ [⟨0, 1, 1, 0⟩],
    Assign.mk 0 1 ⟨0, 0, 0, 1⟩ [⟨0, 1, 1, 1⟩],
    Assign.mk 1 0 ⟨1, 0, 0, 0⟩ [⟨1, 1, 1, 0⟩],
    Assign.mk 1 1 ⟨1, 0, 0, 1⟩ [⟨1, 1, 1, 1⟩],
    Assign.mk 2 0 ⟨2, 0, 0, 0⟩ [⟨2, 1, 1, 0⟩],
    Assign.mk 2 1 ⟨2, 0, 0, 1⟩ [⟨2, 1, 1, 1⟩],
    Assign.mk 3 0 ⟨3, 0, 0, 0⟩ [⟨3, 1, 1, 0⟩],
    Assign.mk 3 1 ⟨3, 0, 0, 1⟩ [⟨3, 1, 1, 1⟩]],
  -- 4x2 * 2x3 -> 4x3
  .exact 4 2 2 3 [
    Assign.mk 0 0 ⟨0, 0, 0, 0⟩ [⟨0, 1, 1, 0⟩],
    Assign.mk 0 1 ⟨0, 0, 0, 1⟩ [⟨0, 1, 1, 1⟩],
    Assign.mk 0 2 ⟨0, 0, 0, 2⟩ [⟨0, 1, 1, 2⟩],
    Assign.mk 1 0 ⟨1, 0, 0, 0⟩ [⟨1, 1, 1, 0⟩],
    Assign.mk 1 1 ⟨1, 0, 0, 1⟩ [⟨1, 1, 1, 1⟩],
    Assign.mk 1 2 ⟨1, 0, 0, 2⟩ [⟨1, 1, 1, 2⟩],
    Assign.mk 2 0 ⟨2, 0, 0, 0⟩ [⟨2, 1, 1, 0⟩],
    Assign.mk 2 1 ⟨2, 0, 0, 1⟩ [⟨2, 1, 1, 1⟩],
    Assign.mk 2 2 ⟨2, 0, 0, 2⟩ [⟨2, 1, 1, 2⟩],
    Assign.mk 3 0 ⟨3, 0, 0, 0⟩ [⟨3, 1, 1, 0⟩],
    Assign.mk 3 1 ⟨3, 0, 0, 1⟩ [⟨3, 1, 1, 1⟩],
    Assign.mk 3 2 ⟨3, 0, 0, 2⟩ [⟨3, 1, 1, 2⟩]],
  -- 4x2 * 2x4 -> 4x4
  .exact 4 2 2 4 [
    Assign.mk 0 0 ⟨0, 0, 0, 0⟩ [⟨0, 1, 1, 0⟩],
    Assign.mk 0 1 ⟨0, 0, 0, 1⟩ [⟨0, 1, 1, 1⟩],
    Assign.mk 0 2 ⟨0, 0, 0, 2⟩ [⟨0, 1, 1, 2⟩],
    Assign.mk 0 3 ⟨0, 0, 0, 3⟩ [⟨0, 1, 1, 3⟩],
    Assign.mk 1 0 ⟨1, 0, 0, 0⟩ [⟨1, 1, 1, 0⟩],
    Assign.mk 1 1 ⟨1, 0, 0, 1⟩ [⟨1, 1, 1, 1⟩],
    Assign.mk 1 2 ⟨1, 0, 0, 2⟩ [⟨1, 1, 1, 2⟩],
    Assign.mk 1 3 ⟨1, 0, 0, 3⟩ [⟨1, 1, 1, 3⟩],
    Assign.mk 2 0 ⟨2, 0, 0, 0⟩ [⟨2, 1, 1, 0⟩],
    Assign.mk 2 1 ⟨2, 0, 0, 1⟩ [⟨2, 1, 1, 1⟩],
    Assign.mk 2 2 ⟨2, 0, 0, 2⟩ [⟨2, 1, 1, 2⟩],
    Assign.mk 2 3 ⟨2, 0, 0, 3⟩ [⟨2, 1, 1, 3⟩],
    Assign.mk 3 0 ⟨3, 0, 0, 0⟩ [⟨3, 1, 1, 0⟩],
    Assign.mk 3 1 ⟨3, 0, 0, 1⟩ [⟨3, 1, 1, 1⟩],
    Assign.mk 3 2 ⟨3, 0, 0, 2⟩ [⟨3, 1, 1, 2⟩],
    Assign.mk 3 3 ⟨3, 0, 0, 3⟩ [⟨3, 1, 1, 3⟩]],
  -- Matrices n1x2 * 2xn2
  .loop 2 2
    (Assign.mk .rows .cols ⟨.rows, 0, 0, .cols⟩ [⟨.rows, 1, 1, .cols⟩])]

/-- Transcription of the branches with `_ColsA == 3` of the table for up to 4x4
(`Matrix::Mul`, source lines 3630 to 3890), in source order. -/
def Mul_unrolled_4x4_ColsA3 : List Branch := [
  -- 1x3 * 3x1 -> 1x1
  .exact 1 3 3 1 [
    Assign.mk 0 0 ⟨0, 0, 0, 0⟩ [⟨0, 1, 1, 0⟩, ⟨0, 2, 2, 0⟩]],
  -- 1x3 * 3x2 -> 1x2
  .exact 1 3 3 2 [
    Assign.mk 0 0 ⟨0, 0, 0, 0⟩ [⟨0, 1, 1, 0⟩, ⟨0, 2, 2, 0⟩],
    Assign.mk 0 1 ⟨0, 0, 0, 1⟩ [⟨0, 1, 1, 1⟩, ⟨0, 2, 2, 1⟩]],
  -- 1x3 * 3x3 -> 1x3
  .exact 1 3 3 3 [
    Assign.mk 0 0 ⟨0, 0, 0, 0⟩ [⟨0, 1, 1, 0⟩, ⟨0, 2, 2, 0⟩],
    Assign.mk 0 1 ⟨0, 0, 0, 1⟩ [⟨0, 1, 1, 1⟩, ⟨0, 2, 2, 1⟩],
    Assign.mk 0 2 ⟨0, 0, 0, 2⟩ [⟨0, 1, 1, 2⟩, ⟨0, 2, 2, 2⟩]],
  -- 1x3 * 3x4 -> 1x4
  .exact 1 3 3 4 [
    Assign.mk 0 0 ⟨0, 0, 0, 0⟩ [⟨0, 1, 1, 0⟩, ⟨0, 2, 2, 0⟩],
    Assign.mk 0 1 ⟨0, 0, 0, 1⟩ [⟨0, 1, 1, 1⟩, ⟨0, 2, 2, 1⟩],
    Assign.mk 0 2 ⟨0, 0, 0, 2⟩ [⟨0, 1, 1, 2⟩, ⟨0, 2, 2, 2⟩],
    Assign.mk 0 3 ⟨0, 0, 0, 3⟩ [⟨0, 1, 1, 3⟩, ⟨0, 2, 2, 3⟩]],
  -- 2x3 * 3x1 -> 2x1
  .exact 2 3 3 1 [
    Assign.mk 0 0 ⟨0, 0, 0, 0⟩ [⟨0, 1, 1, 0⟩, ⟨0, 2, 2, 0⟩],
    Assign.mk 1 0 ⟨1, 0, 0, 0⟩ [⟨1, 1, 1, 0⟩, ⟨1, 2, 2, 0⟩]],
  -- 2x3 * 3x2 -> 2x2
  .exact 2 3 3 2 [
    Assign.mk 0 0 ⟨0, 0, 0, 0⟩ [⟨0, 1, 1, 0⟩, ⟨0, 2, 2, 0⟩],
    Assign.mk 0 1 ⟨0, 0, 0, 1⟩ [⟨0, 1, 1, 1⟩, ⟨0, 2, 2, 1⟩],
    Assign.mk 1 0 ⟨1, 0, 0, 0⟩ [⟨1, 1, 1, 0⟩, ⟨1, 2, 2, 0⟩],
    Assign.mk 1 1 ⟨1, 0, 0, 1⟩ [⟨1, 1, 1, 1⟩, ⟨1, 2, 2, 1⟩]],
  -- 2x3 * 3x3 -> 2x3
  .exact 2 3 3 3 [
    Assign.mk 0 0 ⟨0, 0, 0, 0⟩ [⟨0, 1, 1, 0⟩, ⟨0, 2, 2, 0⟩],
    Assign.mk 0 1 ⟨0, 0, 0, 1⟩ [⟨0, 1, 1, 1⟩, ⟨0, 2, 2, 1⟩],
    Assign.mk 0 2 ⟨0, 0, 0, 2⟩ [⟨0, 1, 1, 2⟩, ⟨0, 2, 2, 2⟩],
    Assign.mk 1 0 ⟨1, 0, 0, 0⟩ [⟨1, 1, 1, 0⟩, ⟨1, 2, 2, 0⟩],
    Assign.mk 1 1 ⟨1, 0, 0, 1⟩ [⟨1, 1, 1, 1⟩, ⟨1, 2, 2, 1⟩],
    Assign.mk 1 2 ⟨1, 0, 0, 2⟩ [⟨1, 1, 1, 2⟩, ⟨1, 2, 2, 2⟩]],
  -- 2x3 * 3x4 -> 2x4
  .exact 2 3 3 4 [
    Assign.mk 0 0 ⟨0, 0, 0, 0⟩ [⟨0, 1, 1, 0⟩, ⟨0, 2, 2, 0⟩],
    Assign.mk 0 1 ⟨0, 0, 0, 1⟩ [⟨0, 1, 1, 1⟩, ⟨0, 2, 2, 1⟩],
    Assign.mk 0 2 ⟨0, 0, 0, 2⟩ [⟨0, 1, 1, 2⟩, ⟨0, 2, 2, 2⟩],
    Assign.mk 0 3 ⟨0, 0, 0, 3⟩ [⟨0, 1, 1, 3⟩, ⟨0, 2, 2, 3⟩],
    Assign.mk 1 0 ⟨1, 0, 0, 0⟩ [⟨1, 1, 1, 0⟩, ⟨1, 2, 2, 0⟩],
    Assign.mk 1 1 ⟨1, 0, 0, 1⟩ [⟨1, 1, 1, 1⟩, ⟨1, 2, 2, 1⟩],
    Assign.mk 1 2 ⟨1, 0, 0, 2⟩ [⟨1, 1, 1, 2⟩, ⟨1, 2, 2, 2⟩],
    Assign.mk 1 3 ⟨1, 0, 0, 3⟩ [⟨1, 1, 1, 3⟩, ⟨1, 2, 2, 3⟩]],
  -- 3x3 * 3x1 -> 3x1
  .exact 3 3 3 1 [
    Assign.mk 0 0 ⟨0, 0, 0, 0⟩ [⟨0, 1, 1, 0⟩, ⟨0, 2, 2, 0⟩],
    Assign.mk 1 0 ⟨1, 0, 0, 0⟩ [⟨1, 1, 1, 0⟩, ⟨1, 2, 2, 0⟩],
    Assign.mk 2 0 ⟨2, 0, 0, 0⟩ [⟨2, 1, 1, 0⟩, ⟨2, 2, 2, 0⟩]],
  -- 3x3 * 3x2 -> 3x2
  .exact 3 3 3 2 [
    Assign.mk 0 0 ⟨0, 0, 0, 0⟩ [⟨0, 1, 1, 0⟩, ⟨0, 2, 2, 0⟩],
    Assign.mk 0 1 ⟨0, 0, 0, 1⟩ [⟨0, 1, 1, 1⟩, ⟨0, 2, 2, 1⟩],
    Assign.mk 1 0 ⟨1, 0, 0, 0⟩ [⟨1, 1, 1, 0⟩, ⟨1, 2, 2, 0⟩],
    Assign.mk 1 1 ⟨1, 0, 0, 1⟩ [⟨1, 1, 1, 1⟩, ⟨1, 2, 2, 1⟩],
    Assign.mk 2 0 ⟨2, 0, 0, 0⟩ [⟨2, 1, 1, 0⟩, ⟨2, 2, 2, 0⟩],
    Assign.mk 2 1 ⟨2, 0, 0, 1⟩ [⟨2, 1, 1, 1⟩, ⟨2, 2, 2, 1⟩]],
  -- 3x3 * 3x3 -> 3x3
  .exact 3 3 3 3 [
    Assign.mk 0 0 ⟨0, 0, 0, 0⟩ [⟨0, 1, 1, 0⟩, ⟨0, 2, 2, 0⟩],
    Assign.mk 0 1 ⟨0, 0, 0, 1⟩ [⟨0, 1, 1, 1⟩, ⟨0, 2, 2, 1⟩],
    Assign.mk 0 2 ⟨0, 0, 0, 2⟩ [⟨0, 1, 1, 2⟩, ⟨0, 2, 2, 2⟩],
    Assign.mk 1 0 ⟨1, 0, 0, 0⟩ [⟨1, 1, 1, 0⟩, ⟨1, 2, 2, 0⟩],
    Assign.mk 1 1 ⟨1, 0, 0, 1⟩ [⟨1, 1, 1, 1⟩, ⟨1, 2, 2, 1⟩],
    Assign.mk 1 2 ⟨1, 0, 0, 2⟩ [⟨1, 1, 1, 2⟩, ⟨1, 2, 2, 2⟩],
    Assign.mk 2 0 ⟨2, 0, 0, 0⟩ [⟨2, 1, 1, 0⟩, ⟨2, 2, 2, 0⟩],
    Assign.mk 2 1 ⟨2, 0, 0, 1⟩ [⟨2, 1, 1, 1⟩, ⟨2, 2, 2, 1⟩],
    Assign.mk 2 2 ⟨2, 0, 0, 2⟩ [⟨2, 1, 1, 2⟩, ⟨2, 2, 2, 2⟩]],
  -- 3x3 * 3x4 -> 3x4
  .exact 3 3 3 4 [
    Assign.mk 0 0 ⟨0, 0, 0, 0⟩ [⟨0, 1, 1, 0⟩, ⟨0, 2, 2, 0⟩],
    Assign.mk 0 1 ⟨0, 0, 0, 1⟩ [⟨0, 1, 1, 1⟩, ⟨0, 2, 2, 1⟩],
    Assign.mk 0 2 ⟨0, 0, 0, 2⟩ [⟨0, 1, 1, 2⟩, ⟨0, 2, 2, 2⟩],
    Assign.mk 0 3 ⟨0, 0, 0, 3⟩ [⟨0, 1, 1, 3⟩, ⟨0, 2, 2, 3⟩],
    Assign.mk 1 0 ⟨1, 0, 0, 0⟩ [⟨1, 1, 1, 0⟩, ⟨1, 2, 2, 0⟩],
    Assign.mk 1 1 ⟨1, 0, 0, 1⟩ [⟨1, 1, 1, 1⟩, ⟨1, 2, 2, 1⟩],
    Assign.mk 1 2 ⟨1, 0, 0, 2⟩ [⟨1, 1, 1, 2⟩, ⟨1, 2, 2, 2⟩],
    Assign.mk 1 3 ⟨1, 0, 0, 3⟩ [⟨1, 1, 1, 3⟩, ⟨1, 2, 2, 3⟩],
    Assign.mk 2 0 ⟨2, 0, 0, 0⟩ [⟨2, 1, 1, 0⟩, ⟨2, 2, 2, 0⟩],
    Assign.mk 2 1 ⟨2, 0, 0, 1⟩ [⟨2, 1, 1, 1⟩, ⟨2, 2, 2, 1⟩],
    Assign.mk 2 2 ⟨2, 0, 0, 2⟩ [⟨2, 1, 1, 2⟩, ⟨2, 2, 2, 2⟩],
    Assign.mk 2 3 ⟨2, 0, 0, 3⟩ [⟨2, 1, 1, 3⟩, ⟨2, 2, 2, 3⟩]],
  -- 4x3 * 3x1 -> 4x1
  .exact 4 3 3 1 [
    Assign.mk 0 0 ⟨0, 0, 0, 0⟩ [⟨0, 1, 1, 0⟩, ⟨0, 2, 2, 0⟩],
    Assign.mk 1 0 ⟨1, 0, 0, 0⟩ [⟨1, 1, 1, 0⟩, ⟨1, 2, 2, 0⟩],
    Assign.mk 2 0 ⟨2, 0, 0, 0⟩ [⟨2, 1, 1, 0⟩, ⟨2, 2, 2, 0⟩],
    Assign.mk 3 0 ⟨3, 0, 0, 0⟩ [⟨3, 1, 1, 0⟩, ⟨3, 2, 2, 0⟩]],
  -- 4x3 * 3x2 -> 4x2
  .exact 4 3 3 2 [
    Assign.mk 0 0 ⟨0, 0, 0, 0⟩ [⟨0, 1, 1, 0⟩, ⟨0, 2, 2, 0⟩],
    Assign.mk 0 1 ⟨0, 0, 0, 1⟩ [⟨0, 1, 1, 1⟩, ⟨0, 2, 2, 1⟩],
    Assign.mk 1 0 ⟨1, 0, 0, 0⟩ [⟨1, 1, 1, 0⟩, ⟨1, 2, 2, 0⟩],
    Assign.mk 1 1 ⟨1, 0, 0, 1⟩ [⟨1, 1, 1, 1⟩, ⟨1, 2, 2, 1⟩],
    Assign.mk 2 0 ⟨2, 0, 0, 0⟩ [⟨2, 1, 1, 0⟩, ⟨2, 2, 2, 0⟩],
    Assign.mk 2 1 ⟨2, 0, 0, 1⟩ [⟨2, 1, 1, 1⟩, ⟨2, 2, 2, 1⟩],
    Assign.mk 3 0 ⟨3, 0, 0, 0⟩ [⟨3, 1, 1, 0⟩, ⟨3, 2, 2, 0⟩],
    Assign.mk 3 1 ⟨3, 0, 0, 1⟩ [⟨3, 1, 1, 1⟩, ⟨3, 2, 2, 1⟩]],
  -- 4x3 * 3x3 -> 4x3
  .exact 4 3 3 3 [
    Assign.mk 0 0 ⟨0, 0, 0, 0⟩ [⟨0, 1, 1, 0⟩, ⟨0, 2, 2, 0⟩],
    Assign.mk 0 1 ⟨0, 0, 0, 1⟩ [⟨0, 1, 1, 1⟩, ⟨0, 2, 2, 1⟩],
    Assign.mk 0 2 ⟨0, 0, 0, 2⟩ [⟨0, 1, 1, 2⟩, ⟨0, 2, 2, 2⟩],
    Assign.mk 1 0 ⟨1, 0, 0, 0⟩ [⟨1, 1, 1, 0⟩, ⟨1, 2, 2, 0⟩],
    Assign.mk 1 1 ⟨1, 0, 0, 1⟩ [⟨1, 1, 1, 1⟩, ⟨1, 2, 2, 1⟩],
    Assign.mk 1 2 ⟨1, 0, 0, 2⟩ [⟨1, 1, 1, 2⟩, ⟨1, 2, 2, 2⟩],
    Assign.mk 2 0 ⟨2, 0, 0, 0⟩ [⟨2, 1, 1, 0⟩, ⟨2, 2, 2, 0⟩],
    Assign.mk 2 1 ⟨2, 0, 0, 1⟩ [⟨2, 1, 1, 1⟩, ⟨2, 2, 2, 1⟩],
    Assign.mk 2 2 ⟨2, 0, 0, 2⟩ [⟨2, 1, 1, 2⟩, ⟨2, 2, 2, 2⟩],
    Assign.mk 3 0 ⟨3, 0, 0, 0⟩ [⟨3, 1, 1, 0⟩, ⟨3, 2, 2, 0⟩],
    Assign.mk 3 1 ⟨3, 0, 0, 1⟩ [⟨3, 1, 1, 1⟩, ⟨3, 2, 2, 1⟩],
    Assign.mk 3 2 ⟨3, 0, 0, 2⟩ [⟨3, 1, 1, 2⟩, ⟨3, 2, 2, 2⟩]],
  -- 4x3 * 3x4 -> 4x4
  .exact 4 3 3 4 [
    Assign.mk 0 0 ⟨0, 0, 0, 0⟩ [⟨0, 1, 1, 0⟩, ⟨0, 2, 2, 0⟩],
    Assign.mk 0 1 ⟨0, 0, 0, 1⟩ [⟨0, 1, 1, 1⟩, ⟨0, 2, 2, 1⟩],
    Assign.mk 0 2 ⟨0, 0, 0, 2⟩ [⟨0, 1, 1, 2⟩, ⟨0, 2, 2, 2⟩],
    Assign.mk 0 3 ⟨0, 0, 0, 3⟩ [⟨0, 1, 1, 3⟩, ⟨0, 2, 2, 3⟩],
    Assign.mk 1 0 ⟨1, 0, 0, 0⟩ [⟨1, 1, 1, 0⟩, ⟨1, 2, 2, 0⟩],
    Assign.mk 1 1 ⟨1, 0, 0, 1⟩ [⟨1, 1, 1, 1⟩, ⟨1, 2, 2, 1⟩],
    Assign.mk 1 2 ⟨1, 0, 0, 2⟩ [⟨1, 1, 1, 2⟩, ⟨1, 2, 2, 2⟩],
    Assign.mk 1 3 ⟨1, 0, 0, 3⟩ [⟨1, 1, 1, 3⟩, ⟨1, 2, 2, 3⟩],
    Assign.mk 2 0 ⟨2, 0, 0, 0⟩ [⟨2, 1, 1, 0⟩, ⟨2, 2, 2, 0⟩],
    Assign.mk 2 1 ⟨2, 0, 0, 1⟩ [⟨2, 1, 1, 1⟩, ⟨2, 2, 2, 1⟩],
    Assign.mk 2 2 ⟨2, 0, 0, 2⟩ [⟨2, 1, 1, 2⟩, ⟨2, 2, 2, 2⟩],
    Assign.mk 2 3 ⟨2, 0, 0, 3⟩ [⟨2, 1, 1, 3⟩, ⟨2, 2, 2, 3⟩],
    Assign.mk 3 0 ⟨3, 0, 0, 0⟩ [⟨3, 1, 1, 0⟩, ⟨3, 2, 2, 0⟩],
    Assign.mk 3 1 ⟨3, 0, 0, 1⟩ [⟨3, 1, 1, 1⟩, ⟨3, 2, 2, 1⟩],
    Assign.mk 3 2 ⟨3, 0, 0, 2⟩ [⟨3, 1, 1, 2⟩, ⟨3, 2, 2, 2⟩],
    Assign.mk 3 3 ⟨3, 0, 0, 3⟩ [⟨3, 1, 1, 3⟩, ⟨3, 2, 2, 3⟩]],
  -- Matrices n1x3 * 3xn2
  .loop 3 3
    (Assign.mk .rows .cols ⟨.rows, 0, 0, .cols⟩ [⟨.rows, 1, 1, .cols⟩, ⟨.rows, 2, 2, .cols⟩])]

/-- Transcription of the branches with `_ColsA == 4` of the table for up to 4x4
(`Matrix::Mul`, source lines 3895 to 4155), in source order. -/
def Mul_unrolled_4x4_ColsA4 : List Branch := [
  -- 1x4 * 4x1 -> 1x1
  .exact 1 4 4 1 [
    Assign.mk 0 0 ⟨0, 0, 0, 0⟩ [⟨0, 1, 1, 0⟩, ⟨0, 2, 2, 0⟩, ⟨0, 3, 3, 0⟩]],
  -- 1x4 * 4x2 -> 1x2
  .exact 1 4 4 2 [
    Assign.mk 0 0 ⟨0, 0, 0, 0⟩ [⟨0, 1, 1, 0⟩, ⟨0, 2, 2, 0⟩, ⟨0, 3, 3, 0⟩],
    Assign.mk 0 1 ⟨0, 0, 0, 1⟩ [⟨0, 1, 1, 1⟩, ⟨0, 2, 2, 1⟩, ⟨0, 3, 3, 1⟩]],
  -- 1x4 * 4x3 -> 1x3
  .exact 1 4 4 3 [
    Assign.mk 0 0 ⟨0, 0, 0, 0⟩ [⟨0, 1, 1, 0⟩, ⟨0, 2, 2, 0⟩, ⟨0, 3, 3, 0⟩],
    Assign.mk 0 1 ⟨0, 0, 0, 1⟩ [⟨0, 1, 1, 1⟩, ⟨0, 2, 2, 1⟩, ⟨0, 3, 3, 1⟩],
    Assign.mk 0 2 ⟨0, 0, 0, 2⟩ [⟨0, 1, 1, 2⟩, ⟨0, 2, 2, 2⟩, ⟨0, 3, 3, 2⟩]],
  -- 1x4 * 4x4 -> 1x4
  .exact 1 4 4 4 [
    Assign.mk 0 0 ⟨0, 0, 0, 0⟩ [⟨0, 1, 1, 0⟩, ⟨0, 2, 2, 0⟩, ⟨0, 3, 3, 0⟩],
    Assign.mk 0 1 ⟨0, 0, 0, 1⟩ [⟨0, 1, 1, 1⟩, ⟨0, 2, 2, 1⟩, ⟨0, 3, 3, 1⟩],
    Assign.mk 0 2 ⟨0, 0, 0, 2⟩ [⟨0, 1, 1, 2⟩, ⟨0, 2, 2, 2⟩, ⟨0, 3, 3, 2⟩],
    Assign.mk 0 3 ⟨0, 0, 0, 3⟩ [⟨0, 1, 1, 3⟩, ⟨0, 2, 2, 3⟩, ⟨0, 3, 3, 3⟩]],
  -- 2x4 * 4x1 -> 2x1
  .exact 2 4 4 1 [
    Assign.mk 0 0 ⟨0, 0, 0, 0⟩ [⟨0, 1, 1, 0⟩, ⟨0, 2, 2, 0⟩, ⟨0, 3, 3, 0⟩],
    Assign.mk 1 0 ⟨1, 0, 0, 0⟩ [⟨1, 1, 1, 0⟩, ⟨1, 2, 2, 0⟩, ⟨1, 3, 3, 0⟩]],
  -- 2x4 * 4x2 -> 2x2
  .exact 2 4 4 2 [
    Assign.mk 0 0 ⟨0, 0, 0, 0⟩ [⟨0, 1, 1, 0⟩, ⟨0, 2, 2, 0⟩, ⟨0, 3, 3, 0⟩],
    Assign.mk 0 1 ⟨0, 0, 0, 1⟩ [⟨0, 1, 1, 1⟩, ⟨0, 2, 2, 1⟩, ⟨0, 3, 3, 1⟩],
    Assign.mk 1 0 ⟨1, 0, 0, 0⟩ [⟨1, 1, 1, 0⟩, ⟨1, 2, 2, 0⟩, ⟨1, 3, 3, 0⟩],
    Assign.mk 1 1 ⟨1, 0, 0, 1⟩ [⟨1, 1, 1, 1⟩, ⟨1, 2, 2, 1⟩, ⟨1, 3, 3, 1⟩]],
  -- 2x4 * 4x3 -> 2x3
  .exact 2 4 4 3 [
    Assign.mk 0 0 ⟨0, 0, 0, 0⟩ [⟨0, 1, 1, 0⟩, ⟨0, 2, 2, 0⟩, ⟨0, 3, 3, 0⟩],
    Assign.mk 0 1 ⟨0, 0, 0, 1⟩ [⟨0, 1, 1, 1⟩, ⟨0, 2, 2, 1⟩, ⟨0, 3, 3, 1⟩],
    Assign.mk 0 2 ⟨0, 0, 0, 2⟩ [⟨0, 1, 1, 2⟩, ⟨0, 2, 2, 2⟩, ⟨0, 3, 3, 2⟩],
    Assign.mk 1 0 ⟨1, 0, 0, 0⟩ [⟨1, 1, 1, 0⟩, ⟨1, 2, 2, 0⟩, ⟨1, 3, 3, 0⟩],
    Assign.mk 1 1 ⟨1, 0, 0, 1⟩ [⟨1, 1, 1, 1⟩, ⟨1, 2, 2, 1⟩, ⟨1, 3, 3, 1⟩],
    Assign.mk 1 2 ⟨1, 0, 0, 2⟩ [⟨1, 1, 1, 2⟩, ⟨1, 2, 2, 2⟩, ⟨1, 3, 3, 2⟩]],
  -- 2x4 * 4x4 -> 2x4
  .exact 2 4 4 4 [
    Assign.mk 0 0 ⟨0, 0, 0, 0⟩ [⟨0, 1, 1, 0⟩, ⟨0, 2, 2, 0⟩, ⟨0, 3, 3, 0⟩],
    Assign.mk 0 1 ⟨0, 0, 0, 1⟩ [⟨0, 1, 1, 1⟩, ⟨0, 2, 2, 1⟩, ⟨0, 3, 3, 1⟩],
    Assign.mk 0 2 ⟨0, 0, 0, 2⟩ [⟨0, 1, 1, 2⟩, ⟨0, 2, 2, 2⟩, ⟨0, 3, 3, 2⟩],
    Assign.mk 0 3 ⟨0, 0, 0, 3⟩ [⟨0, 1, 1, 3⟩, ⟨0, 2, 2, 3⟩, ⟨0, 3, 3, 3⟩],
    Assign.mk 1 0 ⟨1, 0, 0, 0⟩ [⟨1, 1, 1, 0⟩, ⟨1, 2, 2, 0⟩, ⟨1, 3, 3, 0⟩],
    Assign.mk 1 1 ⟨1, 0, 0, 1⟩ [⟨1, 1, 1, 1⟩, ⟨1, 2, 2, 1⟩, ⟨1, 3, 3, 1⟩],
    Assign.mk 1 2 ⟨1, 0, 0, 2⟩ [⟨1, 1, 1, 2⟩, ⟨1, 2, 2, 2⟩, ⟨1, 3, 3, 2⟩],
    Assign.mk 1 3 ⟨1, 0, 0, 3⟩ [⟨1, 1, 1, 3⟩, ⟨1, 2, 2, 3⟩, ⟨1, 3, 3, 3⟩]],
  -- 3x4 * 4x1 -> 3x1
  .exact 3 4 4 1 [
    Assign.mk 0 0 ⟨0, 0, 0, 0⟩ [⟨0, 1, 1, 0⟩, ⟨0, 2, 2, 0⟩, ⟨0, 3, 3, 0⟩],
    Assign.mk 1 0 ⟨1, 0, 0, 0⟩ [⟨1, 1, 1, 0⟩, ⟨1, 2, 2, 0⟩, ⟨1, 3, 3, 0⟩],
    Assign.mk 2 0 ⟨2, 0, 0, 0⟩ [⟨2, 1, 1, 0⟩, ⟨2, 2, 2, 0⟩, ⟨2, 3, 3, 0⟩]],
  -- 3x4 * 4x2 -> 3x2
  .exact 3 4 4 2 [
    Assign.mk 0 0 ⟨0, 0, 0, 0⟩ [⟨0, 1, 1, 0⟩, ⟨0, 2, 2, 0⟩, ⟨0, 3, 3, 0⟩],
    Assign.mk 0 1 ⟨0, 0, 0, 1⟩ [⟨0, 1, 1, 1⟩, ⟨0, 2, 2, 1⟩, ⟨0, 3, 3, 1⟩],
    Assign.mk 1 0 ⟨1, 0, 0, 0⟩ [⟨1, 1, 1, 0⟩, ⟨1, 2, 2, 0⟩, ⟨1, 3, 3, 0⟩],
    Assign.mk 1 1 ⟨1, 0, 0, 1⟩ [⟨1, 1, 1, 1⟩, ⟨1, 2, 2, 1⟩, ⟨1, 3, 3, 1⟩],
    Assign.mk 2 0 ⟨2, 0, 0, 0⟩ [⟨2, 1, 1, 0⟩, ⟨2, 2, 2, 0⟩, ⟨2, 3, 3, 0⟩],
    Assign.mk 2 1 ⟨2, 0, 0, 1⟩ [⟨2, 1, 1, 1⟩, ⟨2, 2, 2, 1⟩, ⟨2, 3, 3, 1⟩]],
  -- 3x4 * 4x3 -> 3x3
  .exact 3 4 4 3 [
    Assign.mk 0 0 ⟨0, 0, 0, 0⟩ [⟨0, 1, 1, 0⟩, ⟨0, 2, 2, 0⟩, ⟨0, 3, 3, 0⟩],
    Assign.mk 0 1 ⟨0, 0, 0, 1⟩ [⟨0, 1, 1, 1⟩, ⟨0, 2, 2, 1⟩, ⟨0, 3, 3, 1⟩],
    Assign.mk 0 2 ⟨0, 0, 0, 2⟩ [⟨0, 1, 1, 2⟩, ⟨0, 2, 2, 2⟩, ⟨0, 3, 3, 2⟩],
    Assign.mk 1 0 ⟨1, 0, 0, 0⟩ [⟨1, 1, 1, 0⟩, ⟨1, 2, 2, 0⟩, ⟨1, 3, 3, 0⟩],
    Assign.mk 1 1 ⟨1, 0, 0, 1⟩ [⟨1, 1, 1, 1⟩, ⟨1, 2, 2, 1⟩, ⟨1, 3, 3, 1⟩],
    Assign.mk 1 2 ⟨1, 0, 0, 2⟩ [⟨1, 1, 1, 2⟩, ⟨1, 2, 2, 2⟩, ⟨1, 3, 3, 2⟩],
    Assign.mk 2 0 ⟨2, 0, 0, 0⟩ [⟨2, 1, 1, 0⟩, ⟨2, 2, 2, 0⟩, ⟨2, 3, 3, 0⟩],
    Assign.mk 2 1 ⟨2, 0, 0, 1⟩ [⟨2, 1, 1, 1⟩, ⟨2, 2, 2, 1⟩, ⟨2, 3, 3, 1⟩],
    Assign.mk 2 2 ⟨2, 0, 0, 2⟩ [⟨2, 1, 1, 2⟩, ⟨2, 2, 2, 2⟩, ⟨2, 3, 3, 2⟩]],
  -- 3x4 * 4x4 -> 3x4
  .exact 3 4 4 4 [
    Assign.mk 0 0 ⟨0, 0, 0, 0⟩ [⟨0, 1, 1, 0⟩, ⟨0, 2, 2, 0⟩, ⟨0, 3, 3, 0⟩],
    Assign.mk 0 1 ⟨0, 0, 0, 1⟩ [⟨0, 1, 1, 1⟩, ⟨0, 2, 2, 1⟩, ⟨0, 3, 3, 1⟩],
    Assign.mk 0 2 ⟨0, 0, 0, 2⟩ [⟨0, 1, 1, 2⟩, ⟨0, 2, 2, 2⟩, ⟨0, 3, 3, 2⟩],
    Assign.mk 0 3 ⟨0, 0, 0, 3⟩ [⟨0, 1, 1, 3⟩, ⟨0, 2, 2, 3⟩, ⟨0, 3, 3, 3⟩],
    Assign.mk 1 0 ⟨1, 0, 0, 0⟩ [⟨1, 1, 1, 0⟩, ⟨1, 2, 2, 0⟩, ⟨1, 3, 3, 0⟩],
    Assign.mk 1 1 ⟨1, 0, 0, 1⟩ [⟨1, 1, 1, 1⟩, ⟨1, 2, 2, 1⟩, ⟨1, 3, 3, 1⟩],
    Assign.mk 1 2 ⟨1, 0, 0, 2⟩ [⟨1, 1, 1, 2⟩, ⟨1, 2, 2, 2⟩, ⟨1, 3, 3, 2⟩],
    Assign.mk 1 3 ⟨1, 0, 0, 3⟩ [⟨1, 1, 1, 3⟩, ⟨1, 2, 2, 3⟩, ⟨1, 3, 3, 3⟩],
    Assign.mk 2 0 ⟨2, 0, 0, 0⟩ [⟨2, 1, 1, 0⟩, ⟨2, 2, 2, 0⟩, ⟨2, 3, 3, 0⟩],
    Assign.mk 2 1 ⟨2, 0, 0, 1⟩ [⟨2, 1, 1, 1⟩, ⟨2, 2, 2, 1⟩, ⟨2, 3, 3, 1⟩],
    Assign.mk 2 2 ⟨2, 0, 0, 2⟩ [⟨2, 1, 1, 2⟩, ⟨2, 2, 2, 2⟩, ⟨2, 3, 3, 2⟩],
    Assign.mk 2 3 ⟨2, 0, 0, 3⟩ [⟨2, 1, 1, 3⟩, ⟨2, 2, 2, 3⟩, ⟨2, 3, 3, 3⟩]],
  -- 4x4 * 4x1 -> 4x1
  .exact 4 4 4 1 [
    Assign.mk 0 0 ⟨0, 0, 0, 0⟩ [⟨0, 1, 1, 0⟩, ⟨0, 2, 2, 0⟩, ⟨0, 3, 3, 0⟩],
    Assign.mk 1 0 ⟨1, 0, 0, 0⟩ [⟨1, 1, 1, 0⟩, ⟨1, 2, 2, 0⟩, ⟨1, 3, 3, 0⟩],
    Assign.mk 2 0 ⟨2, 0, 0, 0⟩ [⟨2, 1, 1, 0⟩, ⟨2, 2, 2, 0⟩, ⟨2, 3, 3, 0⟩],
    Assign.mk 3 0 ⟨3, 0, 0, 0⟩ [⟨3, 1, 1, 0⟩, ⟨3, 2, 2, 0⟩, ⟨3, 3, 3, 0⟩]],
  -- 4x4 * 4x2 -> 4x2
  .exact 4 4 4 2 [
    Assign.mk 0 0 ⟨0, 0, 0, 0⟩ [⟨0, 1, 1, 0⟩, ⟨0, 2, 2, 0⟩, ⟨0, 3, 3, 0⟩],
    Assign.mk 0 1 ⟨0, 0, 0, 1⟩ [⟨0, 1, 1, 1⟩, ⟨0, 2, 2, 1⟩, ⟨0, 3, 3, 1⟩],
    Assign.mk 1 0 ⟨1, 0, 0, 0⟩ [⟨1, 1, 1, 0⟩, ⟨1, 2, 2, 0⟩, ⟨1, 3, 3, 0⟩],
    Assign.mk 1 1 ⟨1, 0, 0, 1⟩ [⟨1, 1, 1, 1⟩, ⟨1, 2, 2, 1⟩, ⟨1, 3, 3, 1⟩],
    Assign.mk 2 0 ⟨2, 0, 0, 0⟩ [⟨2, 1, 1, 0⟩, ⟨2, 2, 2, 0⟩, ⟨2, 3, 3, 0⟩],
    Assign.mk 2 1 ⟨2, 0, 0, 1⟩ [⟨2, 1, 1, 1⟩, ⟨2, 2, 2, 1⟩, ⟨2, 3, 3, 1⟩],
    Assign.mk 3 0 ⟨3, 0, 0, 0⟩ [⟨3, 1, 1, 0⟩, ⟨3, 2, 2, 0⟩, ⟨3, 3, 3, 0⟩],
    Assign.mk 3 1 ⟨3, 0, 0, 1⟩ [⟨3, 1, 1, 1⟩, ⟨3, 2, 2, 1⟩, ⟨3, 3, 3, 1⟩]],
  -- 4x4 * 4x3 -> 4x3
  .exact 4 4 4 3 [
    Assign.mk 0 0 ⟨0, 0, 0, 0⟩ [⟨0, 1, 1, 0⟩, ⟨0, 2, 2, 0⟩, ⟨0, 3, 3, 0⟩],
    Assign.mk 0 1 ⟨0, 0, 0, 1⟩ [⟨0, 1, 1, 1⟩, ⟨0, 2, 2, 1⟩, ⟨0, 3, 3, 1⟩],
    Assign.mk 0 2 ⟨0, 0, 0, 2⟩ [⟨0, 1, 1, 2⟩, ⟨0, 2, 2, 2⟩, ⟨0, 3, 3, 2⟩],
    Assign.mk 1 0 ⟨1, 0, 0, 0⟩ [⟨1, 1, 1, 0⟩, ⟨1, 2, 2, 0⟩, ⟨1, 3, 3, 0⟩],
    Assign.mk 1 1 ⟨1, 0, 0, 1⟩ [⟨1, 1, 1, 1⟩, ⟨1, 2, 2, 1⟩, ⟨1, 3, 3, 1⟩],
    Assign.mk 1 2 ⟨1, 0, 0, 2⟩ [⟨1, 1, 1, 2⟩, ⟨1, 2, 2, 2⟩, ⟨1, 3, 3, 2⟩],
    Assign.mk 2 0 ⟨2, 0, 0, 0⟩ [⟨2, 1, 1, 0⟩, ⟨2, 2, 2, 0⟩, ⟨2, 3, 3, 0⟩],
    Assign.mk 2 1 ⟨2, 0, 0, 1⟩ [⟨2, 1, 1, 1⟩, ⟨2, 2, 2, 1⟩, ⟨2, 3, 3, 1⟩],
    Assign.mk 2 2 ⟨2, 0, 0, 2⟩ [⟨2, 1, 1, 2⟩, ⟨2, 2, 2, 2⟩, ⟨2, 3, 3, 2⟩],
    Assign.mk 3 0 ⟨3, 0, 0, 0⟩ [⟨3, 1, 1, 0⟩, ⟨3, 2, 2, 0⟩, ⟨3, 3, 3, 0⟩],
    Assign.mk 3 1 ⟨3, 0, 0, 1⟩ [⟨3, 1, 1, 1⟩, ⟨3, 2, 2, 1⟩, ⟨3, 3, 3, 1⟩],
    Assign.mk 3 2 ⟨3, 0, 0, 2⟩ [⟨3, 1, 1, 2⟩, ⟨3, 2, 2, 2⟩, ⟨3, 3, 3, 2⟩]],
  -- 4x4 * 4x4 -> 4x4
  .exact 4 4 4 4 [
    Assign.mk 0 0 ⟨0, 0, 0, 0⟩ [⟨0, 1, 1, 0⟩, ⟨0, 2, 2, 0⟩, ⟨0, 3, 3, 0⟩],
    Assign.mk 0 1 ⟨0, 0, 0, 1⟩ [⟨0, 1, 1, 1⟩, ⟨0, 2, 2, 1⟩, ⟨0, 3, 3, 1⟩],
    Assign.mk 0 2 ⟨0, 0, 0, 2⟩ [⟨0, 1, 1, 2⟩, ⟨0, 2, 2, 2⟩, ⟨0, 3, 3, 2⟩],
    Assign.mk 0 3 ⟨0, 0, 0, 3⟩ [⟨0, 1, 1, 3⟩, ⟨0, 2, 2, 3⟩, ⟨0, 3, 3, 3⟩],
    Assign.mk 1 0 ⟨1, 0, 0, 0⟩ [⟨1, 1, 1, 0⟩, ⟨1, 2, 2, 0⟩, ⟨1, 3, 3, 0⟩],
    Assign.mk 1 1 ⟨1, 0, 0, 1⟩ [⟨1, 1, 1, 1⟩, ⟨1, 2, 2, 1⟩, ⟨1, 3, 3, 1⟩],
    Assign.mk 1 2 ⟨1, 0, 0, 2⟩ [⟨1, 1, 1, 2⟩, ⟨1, 2, 2, 2⟩, ⟨1, 3, 3, 2⟩],
    Assign.mk 1 3 ⟨1, 0, 0, 3⟩ [⟨1, 1, 1, 3⟩, ⟨1, 2, 2, 3⟩, ⟨1, 3, 3, 3⟩],
    Assign.mk 2 0 ⟨2, 0, 0, 0⟩ [⟨2, 1, 1, 0⟩, ⟨2, 2, 2, 0⟩, ⟨2, 3, 3, 0⟩],
    Assign.mk 2 1 ⟨2, 0, 0, 1⟩ [⟨2, 1, 1, 1⟩, ⟨2, 2, 2, 1⟩, ⟨2, 3, 3, 1⟩],
    Assign.mk 2 2 ⟨2, 0, 0, 2⟩ [⟨2, 1, 1, 2⟩, ⟨2, 2, 2, 2⟩, ⟨2, 3, 3, 2⟩],
    Assign.mk 2 3 ⟨2, 0, 0, 3⟩ [⟨2, 1, 1, 3⟩, ⟨2, 2, 2, 3⟩, ⟨2, 3, 3, 3⟩],
    Assign.mk 3 0 ⟨3, 0, 0, 0⟩ [⟨3, 1, 1, 0⟩, ⟨3, 2, 2, 0⟩, ⟨3, 3, 3, 0⟩],
    Assign.mk 3 1 ⟨3, 0, 0, 1⟩ [⟨3, 1, 1, 1⟩, ⟨3, 2, 2, 1⟩, ⟨3, 3, 3, 1⟩],
    Assign.mk 3 2 ⟨3, 0, 0, 2⟩ [⟨3, 1, 1, 2⟩, ⟨3, 2, 2, 2⟩, ⟨3, 3, 3, 2⟩],
    Assign.mk 3 3 ⟨3, 0, 0, 3⟩ [⟨3, 1, 1, 3⟩, ⟨3, 2, 2, 3⟩, ⟨3, 3, 3, 3⟩]],
  -- Matrices n1x4 * 4xn2
  .loop 4 4
    (Assign.mk .rows .cols ⟨.rows, 0, 0, .cols⟩ [⟨.rows, 1, 1, .cols⟩, ⟨.rows, 2, 2, .cols⟩, ⟨.rows, 3, 3, .cols⟩])]

/-- The whole table compiled for up to 4x4. -/
def Mul_unrolled_4x4 : List Branch :=
  Mul_unrolled_4x4_ColsA1 ++ Mul_unrolled_4x4_ColsA2 ++ Mul_unrolled_4x4_ColsA3 ++ Mul_unrolled_4x4_ColsA4

/-- Transcription of the branches with `_ColsA == 1` of the table for up to 3x3
(`Matrix::Mul`, source lines 4164 to 4291), in source order. -/
def Mul_unrolled_3x3_ColsA1 : List Branch := [
  -- 1x1 * 1x1 -> 1x1
  .exact 1 1 1 1 [
    Assign.mk 0 0 ⟨0, 0, 0, 0⟩ []],
  -- 1x1 * 1x2 -> 1x2
  .exact 1 1 1 2 [
    Assign.mk 0 0 ⟨0, 0, 0, 0⟩ [],
    Assign.mk 0 1 ⟨0, 0, 0, 1⟩ []],
  -- 1x1 * 1x3 -> 1x3
  .exact 1 1 1 3 [
    Assign.mk 0 0 ⟨0, 0, 0, 0⟩ [],
    Assign.mk 0 1 ⟨0, 0, 0, 1⟩ [],
    Assign.mk 0 2 ⟨0, 0, 0, 2⟩ []],
  -- 2x1 * 1x1 -> 2x1
  .exact 2 1 1 1 [
    Assign.mk 0 0 ⟨0, 0, 0, 0⟩ [],
    Assign.mk 1 0 ⟨1, 0, 0, 0⟩ []],
  -- 2x1 * 1x2 -> 2x2
  .exact 2 1 1 2 [
    Assign.mk 0 0 ⟨0, 0, 0, 0⟩ [],
    Assign.mk 0 1 ⟨0, 0, 0, 1⟩ [],
    Assign.mk 1 0 ⟨1, 0, 0, 0⟩ [],
    Assign.mk 1 1 ⟨1, 0, 0, 1⟩ []],
  -- 2x1 * 1x3 -> 2x3
  .exact 2 1 1 3 [
    Assign.mk 0 0 ⟨0, 0, 0, 0⟩ [],
    Assign.mk 0 1 ⟨0, 0, 0, 1⟩ [],
    Assign.mk 0 2 ⟨0, 0, 0, 2⟩ [],
    Assign.mk 1 0 ⟨1, 0, 0, 0⟩ [],
    Assign.mk 1 1 ⟨1, 0, 0, 1⟩ [],
    Assign.mk 1 2 ⟨1, 0, 0, 2⟩ []],
  -- 3x1 * 1x1 -> 3x1
  .exact 3 1 1 1 [
    Assign.mk 0 0 ⟨0, 0, 0, 0⟩ [],
    Assign.mk 1 0 ⟨1, 0, 0, 0⟩ [],
    Assign.mk 2 0 ⟨2, 0, 0, 0⟩ []],
  -- 3x1 * 1x2 -> 3x2
  .exact 3 1 1 2 [
    Assign.mk 0 0 ⟨0, 0, 0, 0⟩ [],
    Assign.mk 0 1 ⟨0, 0, 0, 1⟩ [],
    Assign.mk 1 0 ⟨1, 0, 0, 0⟩ [],
    Assign.mk 1 1 ⟨1, 0, 0, 1⟩ [],
    Assign.mk 2 0 ⟨2, 0, 0, 0⟩ [],
    Assign.mk 2 1 ⟨2, 0, 0, 1⟩ []],
  -- 3x1 * 1x3 -> 3x3
  .exact 3 1 1 3 [
    Assign.mk 0 0 ⟨0, 0, 0, 0⟩ [],
    Assign.mk 0 1 ⟨0, 0, 0, 1⟩ [],
    Assign.mk 0 2 ⟨0, 0, 0, 2⟩ [],
    Assign.mk 1 0 ⟨1, 0, 0, 0⟩ [],
    Assign.mk 1 1 ⟨1, 0, 0, 1⟩ [],
    Assign.mk 1 2 ⟨1, 0, 0, 2⟩ [],
    Assign.mk 2 0 ⟨2, 0, 0, 0⟩ [],
    Assign.mk 2 1 ⟨2, 0, 0, 1⟩ [],
    Assign.mk 2 2 ⟨2, 0, 0, 2⟩ []],
  -- Matrices n1x1 * 1xn2
  .loop 1 1
    (Assign.mk .rows .cols ⟨.rows, 0, 0, .cols⟩ [])]

/-- Transcription of the branches with `_ColsA == 2` of the table for up to 3x3
(`Matrix::Mul`, source lines 4296 to 4423), in source order. -/
def Mul_unrolled_3x3_ColsA2 : List Branch := [
  -- 1x2 * 2x1 -> 1x1
  .exact 1 2 2 1 [
    Assign.mk 0 0 ⟨0, 0, 0, 0⟩ [⟨0, 1, 1, 0⟩]],
  -- 1x2 * 2x2 -> 1x2
  .exact 1 2 2 2 [
    Assign.mk 0 0 ⟨0, 0, 0, 0⟩ [⟨0, 1, 1, 0⟩],
    Assign.mk 0 1 ⟨0, 0, 0, 1⟩ [⟨0, 1, 1, 1⟩]],
  -- 1x2 * 2x3 -> 1x3
  .exact 1 2 2 3 [
    Assign.mk 0 0 ⟨0, 0, 0, 0⟩ [⟨0, 1, 1, 0⟩],
    Assign.mk 0 1 ⟨0, 0, 0, 1⟩ [⟨0, 1, 1, 1⟩],
    Assign.mk 0 2 ⟨0, 0, 0, 2⟩ [⟨0, 1, 1, 2⟩]],
  -- 2x2 * 2x1 -> 2x1
  .exact 2 2 2 1 [
    Assign.mk 0 0 ⟨0, 0, 0, 0⟩ [⟨0, 1, 1, 0⟩],
    Assign.mk 1 0 ⟨1, 0, 0, 0⟩ [⟨1, 1, 1, 0⟩]],
  -- 2x2 * 2x2 -> 2x2
  .exact 2 2 2 2 [
    Assign.mk 0 0 ⟨0, 0, 0, 0⟩ [⟨0, 1, 1, 0⟩],
    Assign.mk 0 1 ⟨0, 0, 0, 1⟩ [⟨0, 1, 1, 1⟩],
    Assign.mk 1 0 ⟨1, 0, 0, 0⟩ [⟨1, 1, 1, 0⟩],
    Assign.mk 1 1 ⟨1, 0, 0, 1⟩ [⟨1, 1, 1, 1⟩]],
  -- 2x2 * 2x3 -> 2x3
  .exact 2 2 2 3 [
    Assign.mk 0 0 ⟨0, 0, 0, 0⟩ [⟨0, 1, 1, 0⟩],
    Assign.mk 0 1 ⟨0, 0, 0, 1⟩ [⟨0, 1, 1, 1⟩],
    Assign.mk 0 2 ⟨0, 0, 0, 2⟩ [⟨0, 1, 1, 2⟩],
    Assign.mk 1 0 ⟨1, 0, 0, 0⟩ [⟨1, 1, 1, 0⟩],
    Assign.mk 1 1 ⟨1, 0, 0, 1⟩ [⟨1, 1, 1, 1⟩],
    Assign.mk 1 2 ⟨1, 0, 0, 2⟩ [⟨1, 1, 1, 2⟩]],
  -- 3x2 * 2x1 -> 3x1
  .exact 3 2 2 1 [
    Assign.mk 0 0 ⟨0, 0, 0, 0⟩ [⟨0, 1, 1, 0⟩],
    Assign.mk 1 0 ⟨1, 0, 0, 0⟩ [⟨1, 1, 1, 0⟩],
    Assign.mk 2 0 ⟨2, 0, 0, 0⟩ [⟨2, 1, 1, 0⟩]],
  -- 3x2 * 2x2 -> 3x2
  .exact 3 2 2 2 [
    Assign.mk 0 0 ⟨0, 0, 0, 0⟩ [⟨0, 1, 1, 0⟩],
    Assign.mk 0 1 ⟨0, 0, 0, 1⟩ [⟨0, 1, 1, 1⟩],
    Assign.mk 1 0 ⟨1, 0, 0, 0⟩ [⟨1, 1, 1, 0⟩],
    Assign.mk 1 1 ⟨1, 0, 0, 1⟩ [⟨1, 1, 1, 1⟩],
    Assign.mk 2 0 ⟨2, 0, 0, 0⟩ [⟨2, 1, 1, 0⟩],
    Assign.mk 2 1 ⟨2, 0, 0, 1⟩ [⟨2, 1, 1, 1⟩]],
  -- 3x2 * 2x3 -> 3x3
  .exact 3 2 2 3 [
    Assign.mk 0 0 ⟨0, 0, 0, 0⟩ [⟨0, 1, 1, 0⟩],
    Assign.mk 0 1 ⟨0, 0, 0, 1⟩ [⟨0, 1, 1, 1⟩],
    Assign.mk 0 2 ⟨0, 0, 0, 2⟩ [⟨0, 1, 1, 2⟩],
    Assign.mk 1 0 ⟨1, 0, 0, 0⟩ [⟨1, 1, 1, 0⟩],
    Assign.mk 1 1 ⟨1, 0, 0, 1⟩ [⟨1, 1, 1, 1⟩],
    Assign.mk 1 2 ⟨1, 0, 0, 2⟩ [⟨1, 1, 1, 2⟩],
    Assign.mk 2 0 ⟨2, 0, 0, 0⟩ [⟨2, 1, 1, 0⟩],
    Assign.mk 2 1 ⟨2, 0, 0, 1⟩ [⟨2, 1, 1, 1⟩],
    Assign.mk 2 2 ⟨2, 0, 0, 2⟩ [⟨2, 1, 1, 2⟩]],
  -- Matrices n1x2 * 2xn2
  .loop 2 2
    (Assign.mk .rows .cols ⟨.rows, 0, 0, .cols⟩ [⟨.rows, 1, 1, .cols⟩])]

/-- Transcription of the branches with `_ColsA == 3` of the table for up to 3x3
(`Matrix::Mul`, source lines 4428 to 4555), in source order. -/
def Mul_unrolled_3x3_ColsA3 : List Branch := [
  -- 1x3 * 3x1 -> 1x1
  .exact 1 3 3 1 [
    Assign.mk 0 0 ⟨0, 0, 0, 0⟩ [⟨0, 1, 1, 0⟩, ⟨0, 2, 2, 0⟩]],
  -- 1x3 * 3x2 -> 1x2
  .exact 1 3 3 2 [
    Assign.mk 0 0 ⟨0, 0, 0, 0⟩ [⟨0, 1, 1, 0⟩, ⟨0, 2, 2, 0⟩],
    Assign.mk 0 1 ⟨0, 0, 0, 1⟩ [⟨0, 1, 1, 1⟩, ⟨0, 2, 2, 1⟩]],
  -- 1x3 * 3x3 -> 1x3
  .exact 1 3 3 3 [
    Assign.mk 0 0 ⟨0, 0, 0, 0⟩ [⟨0, 1, 1, 0⟩, ⟨0, 2, 2, 0⟩],
    Assign.mk 0 1 ⟨0, 0, 0, 1⟩ [⟨0, 1, 1, 1⟩, ⟨0, 2, 2, 1⟩],
    Assign.mk 0 2 ⟨0, 0, 0, 2⟩ [⟨0, 1, 1, 2⟩, ⟨0, 2, 2, 2⟩]],
  -- 2x3 * 3x1 -> 2x1
  .exact 2 3 3 1 [
    Assign.mk 0 0 ⟨0, 0, 0, 0⟩ [⟨0, 1, 1, 0⟩, ⟨0, 2, 2, 0⟩],
    Assign.mk 1 0 ⟨1, 0, 0, 0⟩ [⟨1, 1, 1, 0⟩, ⟨1, 2, 2, 0⟩]],
  -- 2x3 * 3x2 -> 2x2
  .exact 2 3 3 2 [
    Assign.mk 0 0 ⟨0, 0, 0, 0⟩ [⟨0, 1, 1, 0⟩, ⟨0, 2, 2, 0⟩],
    Assign.mk 0 1 ⟨0, 0, 0, 1⟩ [⟨0, 1, 1, 1⟩, ⟨0, 2, 2, 1⟩],
    Assign.mk 1 0 ⟨1, 0, 0, 0⟩ [⟨1, 1, 1, 0⟩, ⟨1, 2, 2, 0⟩],
    Assign.mk 1 1 ⟨1, 0, 0, 1⟩ [⟨1, 1, 1, 1⟩, ⟨1, 2, 2, 1⟩]],
  -- 2x3 * 3x3 -> 2x3
  .exact 2 3 3 3 [
    Assign.mk 0 0 ⟨0, 0, 0, 0⟩ [⟨0, 1, 1, 0⟩, ⟨0, 2, 2, 0⟩],
    Assign.mk 0 1 ⟨0, 0, 0, 1⟩ [⟨0, 1, 1, 1⟩, ⟨0, 2, 2, 1⟩],
    Assign.mk 0 2 ⟨0, 0, 0, 2⟩ [⟨0, 1, 1, 2⟩, ⟨0, 2, 2, 2⟩],
    Assign.mk 1 0 ⟨1, 0, 0, 0⟩ [⟨1, 1, 1, 0⟩, ⟨1, 2, 2, 0⟩],
    Assign.mk 1 1 ⟨1, 0, 0, 1⟩ [⟨1, 1, 1, 1⟩, ⟨1, 2, 2, 1⟩],
    Assign.mk 1 2 ⟨1, 0, 0, 2⟩ [⟨1, 1, 1, 2⟩, ⟨1, 2, 2, 2⟩]],
  -- 3x3 * 3x1 -> 3x1
  .exact 3 3 3 1 [
    Assign.mk 0 0 ⟨0, 0, 0, 0⟩ [⟨0, 1, 1, 0⟩, ⟨0, 2, 2, 0⟩],
    Assign.mk 1 0 ⟨1, 0, 0, 0⟩ [⟨1, 1, 1, 0⟩, ⟨1, 2, 2, 0⟩],
    Assign.mk 2 0 ⟨2, 0, 0, 0⟩ [⟨2, 1, 1, 0⟩, ⟨2, 2, 2, 0⟩]],
  -- 3x3 * 3x2 -> 3x2
  .exact 3 3 3 2 [
    Assign.mk 0 0 ⟨0, 0, 0, 0⟩ [⟨0, 1, 1, 0⟩, ⟨0, 2, 2, 0⟩],
    Assign.mk 0 1 ⟨0, 0, 0, 1⟩ [⟨0, 1, 1, 1⟩, ⟨0, 2, 2, 1⟩],
    Assign.mk 1 0 ⟨1, 0, 0, 0⟩ [⟨1, 1, 1, 0⟩, ⟨1, 2, 2, 0⟩],
    Assign.mk 1 1 ⟨1, 0, 0, 1⟩ [⟨1, 1, 1, 1⟩, ⟨1, 2, 2, 1⟩],
    Assign.mk 2 0 ⟨2, 0, 0, 0⟩ [⟨2, 1, 1, 0⟩, ⟨2, 2, 2, 0⟩],
    Assign.mk 2 1 ⟨2, 0, 0, 1⟩ [⟨2, 1, 1, 1⟩, ⟨2, 2, 2, 1⟩]],
  -- 3x3 * 3x3 -> 3x3
  .exact 3 3 3 3 [
    Assign.mk 0 0 ⟨0, 0, 0, 0⟩ [⟨0, 1, 1, 0⟩, ⟨0, 2, 2, 0⟩],
    Assign.mk 0 1 ⟨0, 0, 0, 1⟩ [⟨0, 1, 1, 1⟩, ⟨0, 2, 2, 1⟩],
    Assign.mk 0 2 ⟨0, 0, 0, 2⟩ [⟨0, 1, 1, 2⟩, ⟨0, 2, 2, 2⟩],
    Assign.mk 1 0 ⟨1, 0, 0, 0⟩ [⟨1, 1, 1, 0⟩, ⟨1, 2, 2, 0⟩],
    Assign.mk 1 1 ⟨1, 0, 0, 1⟩ [⟨1, 1, 1, 1⟩, ⟨1, 2, 2, 1⟩],
    Assign.mk 1 2 ⟨1, 0, 0, 2⟩ [⟨1, 1, 1, 2⟩, ⟨1, 2, 2, 2⟩],
    Assign.mk 2 0 ⟨2, 0, 0, 0⟩ [⟨2, 1, 1, 0⟩, ⟨2, 2, 2, 0⟩],
    Assign.mk 2 1 ⟨2, 0, 0, 1⟩ [⟨2, 1, 1, 1⟩, ⟨2, 2, 2, 1⟩],
    Assign.mk 2 2 ⟨2, 0, 0, 2⟩ [⟨2, 1, 1, 2⟩, ⟨2, 2, 2, 2⟩]],
  -- Matrices n1x3 * 3xn2
  .loop 3 3
    (Assign.mk .rows .cols ⟨.rows, 0, 0, .cols⟩ [⟨.rows, 1, 1, .cols⟩, ⟨.rows, 2, 2, .cols⟩])]

/-- The whole table compiled for up to 3x3. -/
def Mul_unrolled_3x3 : List Branch :=
  Mul_unrolled_3x3_ColsA1 ++ Mul_unrolled_3x3_ColsA2 ++ Mul_unrolled_3x3_ColsA3

/-! ## `Matrix::Mul` -/

/-- The condition of a branch, for the template parameters of the call
(`_RowsB` is `_ColsA`, line 628). -/
def Branch.guard (_RowsA _ColsA _ColsB : Nat) : Branch → Bool
  | .exact rA cA rB cB _ => _RowsA == rA && _ColsA == cA && _ColsA == rB && _ColsB == cB
  | .loop cA rB _ => _ColsA == cA && _ColsA == rB

/-- The product `(A.at(..) * B.at(..))`. -/
def evalTerm (ops : ElemOps E) (A B : Ref) (rows cols : Nat) (t : Term) (s : State E) :
    Except Err (E × State E) :=
  match s.read_at2 A (t.aRow.eval rows cols) (t.aCol.eval rows cols) with
  | .error e => .error e
  | .ok (x, s1) =>
    match s1.read_at2 B (t.bRow.eval rows cols) (t.bCol.eval rows cols) with
    | .error e => .error e
    | .ok (y, s2) => .ok (ops.mul x y, s2)

/-- Add the remaining products to the running value `acc`, from left to right. -/
def evalRest (ops : ElemOps E) (A B : Ref) (rows cols : Nat) :
    List Term → E → State E → Except Err (E × State E)
  | [], acc, s => .ok (acc, s)
  | t :: ts, acc, s =>
    match evalTerm ops A B rows cols t s with
    | .error e => .error e
    | .ok (x, s1) => evalRest ops A B rows cols ts (ops.add acc x) s1

/-- The statement `C.at(cRow, cCol) = _ElemC(first + rest ...);`: the right-hand
side is evaluated, converted, and stored. -/
def execAssign (ops : ElemOps E) (A B C : Ref) (rows cols : Nat) (a : Assign) (s : State E) :
    Except Err (State E) :=
  match evalTerm ops A B rows cols a.first s with
  | .error e => .error e
  | .ok (x, s1) =>
    match evalRest ops A B rows cols a.rest x s1 with
    | .error e => .error e
    | .ok (v, s2) =>
      match s2.at2 C (a.cRow.eval rows cols) (a.cCol.eval rows cols) with
      | .error e => .error e
      | .ok (i, s3) => s3.store C i (ops.conv v)

/-- The statements of an exact-shape branch, in order. -/
def execBody (ops : ElemOps E) (A B C : Ref) : List Assign → State E → Except Err (State E)
  | [], s => .ok s
  | a :: as, s =>
    match execAssign ops A B C 0 0 a s with
    | .error e => .error e
    | .ok s1 => execBody ops A B C as s1

/-- The body of a branch whose condition holds (`_RowsC` is `_RowsA`, `_ColsC` is `_ColsB`). -/
def execBranch (ops : ElemOps E) (_RowsA _ColsB : Nat) (A B C : Ref) :
    Branch → State E → Except Err (State E)
  | .exact _ _ _ _ body, s => execBody ops A B C body s
  | .loop _ _ body, s =>
    forLoop _RowsA (fun rows s =>
      forLoop _ColsB (fun cols s => execAssign ops A B C rows cols body s) s) s

/-- The call `memset(&C[0], 0, n * sizeof(_ElemC))`. -/
def State.memset0 (s : State E) (zero : E) (C : Ref) (n : Nat) : Except Err (State E) :=
  let (i, s1) := s.index C 0
  if i + n ≤ (s1.heap C).p_mat.length then
    .ok (s1.setMat C { s1.heap C with
      p_mat := (s1.heap C).p_mat.take i ++ List.replicate n zero ++ (s1.heap C).p_mat.drop (i + n) })
  else .error .undefined_behaviour

/-- The statement `C[index] += v`. -/
def State.plus_assign_index (s : State E) (ops : ElemOps E) (C : Ref) (index : Nat) (v : E) :
    Except Err (State E) :=
  let (i, s1) := s.index C index
  match s1.load C i with
  | .error e => .error e
  | .ok old => s1.store C i (ops.plus_assign old v)

/-- The generic fallback of `Mul` (lines 4564 to 4571).  The loop state of the two
outer loops is the pair of the variable `index` and the program state. -/
def Mul_fallback (ops : ElemOps E) (_RowsA _ColsA _ColsB : Nat) (A B C : Ref) (s : State E) :
    Except Err (State E) :=
  let _RowsC := _RowsA
  let _ColsC := _ColsB
  match s.memset0 ops.zero C (_ColsC * _RowsC) with
  | .error e => .error e
  | .ok s0 =>
    match forLoop _RowsA (fun rowsA (st : Nat × State E) =>
      forLoop _ColsB (fun colsB (st : Nat × State E) =>
        match forLoop _ColsA (fun rowCol s =>
          match s.read_at2 A rowsA rowCol with
          | .error e => .error e
          | .ok (x, s1) =>
            match s1.read_at2 B rowCol colsB with
            | .error e => .error e
            | .ok (y, s2) => s2.plus_assign_index ops C st.1 (ops.conv (ops.mul x y))) st.2 with
        | .error e => .error e
        | .ok s3 => .ok (st.1 + 1, s3)) st) (0, s0) with
    | .error e => .error e
    | .ok st => .ok st.2

/-- The chain of `if (...) { ...; return; }` statements: the first branch whose
condition holds runs and returns; when none holds, control reaches `rest`. -/
def Mul_unrolled (ops : ElemOps E) (_RowsA _ColsA _ColsB : Nat) (A B C : Ref)
    (rest : State E → Except Err (State E)) : List Branch → State E → Except Err (State E)
  | [], s => rest s
  | br :: brs, s =>
    if br.guard _RowsA _ColsA _ColsB then execBranch ops _RowsA _ColsB A B C br s
    else Mul_unrolled ops _RowsA _ColsA _ColsB A B C rest brs s

/-- The macros that a translation unit defines before it includes the header. -/
structure Build where
  /-- Whether the user defines `_MATRIX_MANUAL_OPTIMISATION` -/
  MATRIX_MANUAL_OPTIMISATION : Bool
  /-- Whether `NDEBUG` is defined -/
  NDEBUG : Bool
  /-- The value of `_MATRIX_LIMIT_MANUAL_OPTIMISATION_TO_N`, when the user defines it -/
  MATRIX_LIMIT_MANUAL_OPTIMISATION_TO_N : Option Int

/-- Whether `_MATRIX_MANUAL_OPTIMISATION` is defined after lines 31 to 33. -/
def Build.manual (b : Build) : Bool :=
  if !b.MATRIX_MANUAL_OPTIMISATION && b.NDEBUG then true else b.MATRIX_MANUAL_OPTIMISATION

/-- The value of `_MATRIX_LIMIT_MANUAL_OPTIMISATION_TO_N` after lines 47 to 49. -/
def Build.limit (b : Build) : Int :=
  match b.MATRIX_LIMIT_MANUAL_OPTIMISATION_TO_N with
  | some n => n
  | none => 4

/-- The block that the `#if` / `#elif` / `#elif` / `#endif` of lines 672, 3096, 4157
and 4559 leaves in `Mul`: the unrolled code for up to 5x5, 4x4 or 3x3, or none. -/
def Build.bound (b : Build) : Option Nat :=
  if b.manual && b.NDEBUG && decide (b.limit > 4) then some 5
  else if b.manual && b.NDEBUG && decide (b.limit > 3) then some 4
  else if (b.manual && !b.NDEBUG) || (b.manual && b.NDEBUG && decide (b.limit > 2)) then some 3
  else none

/-- The unrolled code of the block for up to `N` x `N`. -/
def unrolledTable : Nat → List Branch
  | 5 => Mul_unrolled_5x5
  | 4 => Mul_unrolled_4x4
  | _ => Mul_unrolled_3x3

/-- The unrolled code that the build leaves in `Mul`, if any. -/
def Build.unrolled (b : Build) : Option (List Branch) :=
  b.bound.map unrolledTable

/-- The text of the first warning of `Mul` (lines 635 to 637). -/
def warnA : String :=
  "MATRIX WARNING: You are trying to multiply two Matrices " ++
  "and input A is the same object as output C. If and input is the same as " ++
  "an output, the multiplication may fail and give an invalid result!"

/-- The text of the second warning of `Mul` (lines 639 to 641). -/
def warnB : String :=
  "MATRIX WARNING: You are trying to multiply two Matrices " ++
  "and input B is the same object as output C. If and input is the same as " ++
  "an output, the multiplication may fail and give an invalid result!"

/-- The test of lines 632 to 642 whether an input is the same object as the output. -/
def Mul_alias_check (_RowsA _ColsA _ColsB : Nat) (A B C : Ref) (s : State E) : State E :=
  let _RowsC := _RowsA
  let _ColsC := _ColsB
  if _RowsA == _RowsC && _ColsA == _ColsC then
    let s1 := if A == C then s.print warnA else s
    if B == C then s1.print warnB else s1
  else s

/-- The function `Matrix::Mul<_ElemA, _RowsA, _ColsA, _ElemB, _ColsB, _ElemC>(A, B, C)`
(lines 625 to 4572), as compiled in the build `bld`. -/
def Mul (bld : Build) (ops : ElemOps E) (_RowsA _ColsA _ColsB : Nat) (A B C : Ref)
    (s : State E) : Except Err (State E) :=
  let s1 := Mul_alias_check _RowsA _ColsA _ColsB A B C s
  match bld.unrolled with
  | some table =>
    Mul_unrolled ops _RowsA _ColsA _ColsB A B C
      (Mul_fallback ops _RowsA _ColsA _ColsB A B C) table s1
  | none => Mul_fallback ops _RowsA _ColsA _ColsB A B C s1

/-! ## Members of `Matrix2D` that call, or are compared with, `Mul` -/

/-- The copy constructor `Matrix2D(const Matrix2D&)` (lines 313 to 318), building
the new object at the next free address. -/
def copy_construct (_Rows _Cols : Nat) (src : Ref) (s : State E) : Except Err (Ref × State E) :=
  if _Cols * _Rows ≤ (s.heap src).p_mat.length then
    .ok (s.next, { s.setMat s.next
      { c_rows := _Rows, c_cols := _Cols, p_mat := (s.heap src).p_mat.take (_Cols * _Rows) } with
      next := s.next + 1 })
  else .error .undefined_behaviour

/-- The operator `Matrix2D<_Elem, _Rows, _Cols>::operator *= (Matrix2D<_Elm2, _Rows2, _Cols2>& _mat2)`
(lines 393 to 403).  The two `static_assert`s reject an instantiation at compile time;
the temporary `tmp` is the copy of `*this`; its destruction at the end of the scope is
not modelled (its address is never used again). -/
def operator_mul_assign (bld : Build) (ops : ElemOps E) (_Rows _Cols _Rows2 _Cols2 : Nat)
    (this _mat2 : Ref) (s : State E) : Except Err (State E) :=
  if _Cols ≠ _Rows2 then
    .error (.static_assert "MATRIX ASSERT: Cannot multiply matrices A and B where A.Colums != B.Rows")
  else if _Cols ≠ _Cols2 then
    .error (.static_assert "MATRIX ASSERT: The destination matrix must have the specific dimension if A.Rows x B.Columns!")
  else
    match copy_construct _Rows _Cols this s with
    | .error e => .error e
    | .ok (tmp, s1) => Mul bld ops _Rows _Cols _Cols2 tmp _mat2 this s1

/-- The function `Matrix2D::SameDimensions` (lines 412 to 416). -/
def SameDimensions (_Rows _Cols : Nat) (_mat : Matrix2D E) : Bool :=
  (_Cols == _mat.c_cols) && (_Rows == _mat.c_rows)

/-- The operator `Matrix2D::operator ==` (lines 479 to 485): `memcmp` over the `_Cols * _Rows`
elements, which for integer elements compares the values. -/
def operator_eq [DecidableEq E] (this _mat2 : Matrix2D E) : Bool :=
  if !SameDimensions this.c_rows this.c_cols _mat2 then false
  else decide (this.p_mat.take (this.c_cols * this.c_rows) = _mat2.p_mat.take (this.c_cols * this.c_rows))

/-! ## Vocabulary of the statements -/

/-- The `_Rows` x `_Cols` matrix whose element `(row, column)` is `f row column`. -/
def mkMat (_Rows _Cols : Nat) (f : Nat → Nat → E) : Matrix2D E where
  c_rows := _Rows
  c_cols := _Cols
  p_mat := (List.range (_Rows * _Cols)).map (fun i => f (i / _Cols) (i % _Cols))

/-- The object is a `Matrix2D<_, _Rows, _Cols>` with its buffer of `_Rows * _Cols` elements. -/
def HasShape (m : Matrix2D E) (_Rows _Cols : Nat) : Prop :=
  m.c_rows = _Rows ∧ m.c_cols = _Cols ∧ m.p_mat.length = _Rows * _Cols

/-- The sum `p 0 + p 1 + ... + p (n - 1)` as C++ parses it: `((p 0 + p 1) + p 2) + ...`. -/
def sumLeft (add : E → E → E) (p : Nat → E) (n : Nat) : E :=
  (List.range (n - 1)).foldl (fun acc k => add acc (p (k + 1))) (p 0)

/-- What an unrolled branch stores in `C(r, c)`: the sum of the `_ColsA`
products, converted once. -/
def unrolledValue (ops : ElemOps E) (fa fb : Nat → Nat → E) (_ColsA r c : Nat) : E :=
  ops.conv (sumLeft ops.add (fun k => ops.mul (fa r k) (fb k c)) _ColsA)

/-- What the fallback leaves in `C(r, c)`: starting from zero, every product is
converted and then added with `+=`. -/
def fallbackValue (ops : ElemOps E) (fa fb : Nat → Nat → E) (_ColsA r c : Nat) : E :=
  (List.range _ColsA).foldl
    (fun acc k => ops.plus_assign acc (ops.conv (ops.mul (fa r k) (fb k c)))) ops.zero

/-- The reference triple loop of the specification:
`C(r, c) = sum over k < _ColsA of A(r, k) * B(k, c)`. -/
def Mul_reference {R : Type} [Semiring R] (fa fb : Nat → Nat → R) (_ColsA r c : Nat) : R :=
  ((List.range _ColsA).map (fun k => fa r k * fb k c)).sum

/-- The element `(row, column)` of a matrix, `d` outside the buffer. -/
def Matrix2D.elem (m : Matrix2D E) (d : E) (row column : Nat) : E :=
  m.p_mat.getD (row * m.c_cols + column) d

/-- An accessor call stays inside the matrix it is made on. -/
def Access.inBounds (heap : Ref → Matrix2D E) : Access → Prop
  | .at2 obj row column => row < (heap obj).c_rows ∧ column < (heap obj).c_cols
  | .index obj i => i < (heap obj).c_rows * (heap obj).c_cols


/-! ## The regular pattern of the unrolled tables -/

/-- The statement `C.at(ri, ci) = _ElemC((A.at(ri, 0) * B.at(0, ci)) + ... )` with
`K` products, for `k` from `0` to `K - 1`. -/
def stdAssign (K : Nat) (ri ci : Idx) : Assign :=
  ⟨ri, ci, ⟨ri, .lit 0, .lit 0, ci⟩,
    (List.range (K - 1)).map (fun k => ⟨ri, .lit (k + 1), .lit (k + 1), ci⟩)⟩

/-- The statements for all `(r, c)` with `r < R` and `c < C`, row by row. -/
def stdBody (R K C : Nat) : List Assign :=
  (List.range R).flatMap (fun r => (List.range C).map (fun c => stdAssign K (.lit r) (.lit c)))

/-- The exact-shape branch for `R` x `K` times `K` x `C`. -/
def stdExact (R K C : Nat) : Branch := .exact R K K C (stdBody R K C)

/-- The semi-generic branch for `_ColsA == K`. -/
def stdLoop (K : Nat) : Branch := .loop K K (stdAssign K .rows .cols)

/-- The branches with `_ColsA == K` of the table for up to `N` x `N`. -/
def stdGroup (N K : Nat) : List Branch :=
  (List.range N).flatMap (fun r => (List.range N).map (fun c => stdExact (r + 1) K (c + 1)))
    ++ [stdLoop K]

/-- The table for up to `N` x `N`. -/
def stdTable (N : Nat) : List Branch :=
  (List.range N).flatMap (fun k => stdGroup N (k + 1))


/-! ## Closed forms of single steps -/

/-- Append several accessor calls to the ghost record. -/
def State.logs (s : State E) (l : List Access) : State E :=
  { s with calls := s.calls ++ l }

/-- The accessor calls of one product `(A.at(r, k) * B.at(k, c))`. -/
def productCalls (A B : Ref) (r c k : Nat) : List Access :=
  [.at2 A r k, .at2 B k c]

/-- The accessor calls of the statement `stdAssign K` for the cell `(r, c)`, in order. -/
def assignCalls (A B C : Ref) (K r c : Nat) : List Access :=
  productCalls A B r c 0 ++
    ((List.range (K - 1)).flatMap (fun k => productCalls A B r c (k + 1)) ++ [.at2 C r c])

/-- The value that the statement `stdAssign K` for the cell `(r, c)` stores, read
from the objects `mA` and `mB`. -/
def assignValue (ops : ElemOps E) (d : E) (mA mB : Matrix2D E) (K r c : Nat) : E :=
  ops.conv (sumLeft ops.add (fun k => ops.mul (mA.elem d r k) (mB.elem d k c)) K)

/-- The state after the statement `stdAssign K` for the cell `(r, c)`. -/
def assignResult (ops : ElemOps E) (d : E) (A B C : Ref) (K r c : Nat) (s : State E) : State E :=
  (s.logs (assignCalls A B C K r c)).setMat C
    { s.heap C with
      p_mat := (s.heap C).p_mat.set (r * (s.heap C).c_cols + c)
        (assignValue ops d (s.heap A) (s.heap B) K r c) }

/-- The accessor call is `obj.at(row, column)`, not `obj[index]`. -/
def Access.isAt2 : Access → Prop
  | .at2 _ _ _ => True
  | .index _ _ => False

/-- The first `n` cells of the object `C` hold `val`, the object has its shape, and
no other object differs from the one in `s0`. -/
def Filled (s0 : State E) (C : Ref) (RA CB : Nat) (val : Nat → Nat → E) (n : Nat)
    (s : State E) : Prop :=
  (∀ o, o ≠ C → s.heap o = s0.heap o) ∧ HasShape (s.heap C) RA CB ∧
  ∀ i, i < n → (s.heap C).p_mat[i]? = some (val (i / CB) (i % CB))

/-- A branch that follows the regular pattern, for the shape of the call. -/
def IsStd (br : Branch) (RA K CB : Nat) : Prop :=
  br = stdExact RA K CB ∨ br = stdLoop K

/-- The state `s` comes from `s0` by steps that keep the shape of every object,
print nothing, create no object, and make exactly the accessor calls `l`. -/
def ExtendsBy (l : List Access) (s0 s : State E) : Prop :=
  (∀ o, (s.heap o).c_rows = (s0.heap o).c_rows ∧ (s.heap o).c_cols = (s0.heap o).c_cols ∧
    (s.heap o).p_mat.length = (s0.heap o).p_mat.length) ∧
  s.cerr = s0.cerr ∧ s.next = s0.next ∧ s.calls = s0.calls ++ l

/-- The accessor calls of one step `C[index] += _ElemC(A.at(r, k) * B.at(k, c))`. -/
def accumCalls (A B C : Ref) (r c idx k : Nat) : List Access :=
  [.at2 A r k, .at2 B k c, .index C idx]

/-- The accessor calls of the generic fallback, in order: `&C[0]` for the `memset`,
then for every row `r`, column `c` and `k` the calls of one accumulation into
`C[r * _ColsB + c]`. -/
def fallbackCalls (A B C : Ref) (RA K CB : Nat) : List Access :=
  [.index C 0] ++ (List.range RA).flatMap (fun r => (List.range CB).flatMap (fun c =>
    (List.range K).flatMap (fun k => accumCalls A B C r c (r * CB + c) k)))

/-- The state after one step `C[idx] += _ElemC(A.at(r, k) * B.at(k, c))`. -/
def accumResult (ops : ElemOps E) (d : E) (A B C : Ref) (r c idx k : Nat) (s : State E) :
    State E :=
  (s.logs (accumCalls A B C r c idx k)).setMat C
    { s.heap C with
      p_mat := (s.heap C).p_mat.set idx
        (ops.plus_assign ((s.heap C).p_mat.getD idx d)
          (ops.conv (ops.mul ((s.heap A).elem d r k) ((s.heap B).elem d k c)))) }

/-- The value in a cell of `C` after the first `n` accumulations of the fallback. -/
def accumValue (ops : ElemOps E) (d : E) (mA mB : Matrix2D E) (n r c : Nat) : E :=
  (List.range n).foldl
    (fun acc k => ops.plus_assign acc (ops.conv (ops.mul (mA.elem d r k) (mB.elem d k c)))) ops.zero

/-- The accessor calls of a regular branch, in order: for every row `r` and
column `c` the calls of the statement for the cell `(r, c)`. -/
def branchCalls (A B C : Ref) (RA K CB : Nat) : List Access :=
  (List.range RA).flatMap (fun r => (List.range CB).flatMap (fun c => assignCalls A B C K r c))

/-! ## Concrete builds and states -/

/-- A debug build that defines no configuration flag: nothing is unrolled. -/
def debugBuild : Build := ⟨false, false, none⟩

/-- The build of `Source.cpp`: `_MATRIX_MANUAL_OPTIMISATION` and the limit 3 are
defined, `NDEBUG` is not. -/
def sourceBuild : Build := ⟨true, false, some 3⟩

/-- A release build that defines nothing but `NDEBUG`: unrolled up to 4x4. -/
def releaseBuild : Build := ⟨false, true, none⟩

/-- The element `(r, c)` of the example input `A`; for two columns `[[1, 2], [3, 4]]`. -/
def exampleA (cols : Nat) (r c : Nat) : Int := (r * cols + c + 1 : Nat)

/-- The element `(r, c)` of the example input `B`; for two columns `[[5, 6], [7, 8]]`. -/
def exampleB (cols : Nat) (r c : Nat) : Int := (r * cols + c + 5 : Nat)

/-- Three integer objects: `A` (`RA` x `K`) at address 0, `B` (`K` x `CB`) at
address 1 and an output `C` (`RA` x `CB`) full of nines at address 2. -/
def exampleState (RA K CB : Nat) : State Int where
  heap := fun o =>
    if o = 0 then mkMat RA K (exampleA K)
    else if o = 1 then mkMat K CB (exampleB CB)
    else mkMat RA CB (fun _ _ => 9)
  cerr := []
  calls := []
  next := 3

/-- The objects `A = [[1/2, 1/2]]` at address 0, `B = [[1], [1]]` at address 1 and
an integer output `C = [[7]]` at address 2. -/
def halvesState : State ℚ where
  heap := fun o =>
    if o = 0 then mkMat 1 2 (fun _ _ => 1 / 2)
    else if o = 1 then mkMat 2 1 (fun _ _ => 1)
    else mkMat 1 1 (fun _ _ => 7)
  cerr := []
  calls := []
  next := 3

/-- The state with `A = [[1, 2], [3, 4]]` at address 0, the 2x2 identity matrix at
address 1 and an output full of nines at address 2. -/
def identityState : State Int where
  heap := fun o =>
    if o = 0 then mkMat 2 2 (exampleA 2)
    else if o = 1 then mkMat 2 2 (fun r c => if r = c then 1 else 0)
    else mkMat 2 2 (fun _ _ => 9)
  cerr := []
  calls := []
  next := 3


/-! ## The three accessors of an element -/

/-- The call `obj.at(index)` (line 103): the position `index` in `p_mat`, unchecked.
`Mul` never makes this call, so it is not entered in the ghost record. -/
def State.at1 (s : State E) (_obj : Ref) (index : Nat) : Nat × State E :=
  (index, s)

/-- The three ways in which the class denotes an element of a matrix. -/
inductive Accessor where
  /-- The call `at(row, column)` (line 104) -/
  | at2 (row column : Nat)
  /-- The call `at(index)` (line 103) -/
  | at1 (index : Nat)
  /-- The call `operator[](index)` (line 102) -/
  | index (index : Nat)
deriving DecidableEq, Repr

/-- The position in `p_mat` of the element that an accessor call on `obj` returns
a reference to. -/
def State.ref (s : State E) (obj : Ref) : Accessor → Except Err (Nat × State E)
  | .at2 row column => s.at2 obj row column
  | .at1 i => .ok (s.at1 obj i)
  | .index i => .ok (s.index obj i)

/-- Reading the element that an accessor call denotes. -/
def State.read (s : State E) (obj : Ref) (a : Accessor) : Except Err (E × State E) :=
  match s.ref obj a with
  | .error e => .error e
  | .ok (i, s1) =>
    match s1.load obj i with
    | .error e => .error e
    | .ok v => .ok (v, s1)

/-- Writing `v` to the element that an accessor call denotes. -/
def State.write (s : State E) (obj : Ref) (a : Accessor) (v : E) : Except Err (State E) :=
  match s.ref obj a with
  | .error e => .error e
  | .ok (i, s1) => s1.store obj i v

/-! ## Comparison -/

/-- The operator `Matrix2D::operator !=` (lines 487 to 493): true when `memcmp` over
the `_Cols * _Rows` elements is not zero. -/
def operator_ne [DecidableEq E] (this _mat2 : Matrix2D E) : Bool :=
  if !SameDimensions this.c_rows this.c_cols _mat2 then true
  else decide (this.p_mat.take (this.c_cols * this.c_rows) ≠
    _mat2.p_mat.take (this.c_cols * this.c_rows))

/-! ## Constructors and assignments -/

/-- The expression `new _Elem[n]`: a buffer of `n` elements whose content `junk` is
indeterminate. -/
def new_array (n : Nat) (junk : Nat → E) : List E :=
  (List.range n).map junk

/-- The statement `p_mat[i] = v` on the buffer of the object under construction. -/
def bufStore (p_mat : List E) (i : Nat) (v : E) : Except Err (List E) :=
  if i < p_mat.length then .ok (p_mat.set i v) else .error .undefined_behaviour

/-- The call `memset(p_mat + i, 0, n * sizeof(_Elem))` on the buffer of the object
under construction. -/
def bufMemset0 (p_mat : List E) (i n : Nat) (zero : E) : Except Err (List E) :=
  if i + n ≤ p_mat.length then
    .ok (p_mat.take i ++ List.replicate n zero ++ p_mat.drop (i + n))
  else .error .undefined_behaviour

/-- The text that the nested-list constructor writes when it has counted `i` elements. -/
def countDiagnostic (i c_elements : Nat) : String :=
  "ERROR! Initializing matrix with " ++ toString i ++ " elements, " ++
    toString c_elements ++ " expected!"

/-- The body of the two loops of the nested-list constructor (lines 337 and 338), on the
pair of `i` and `p_mat`: `if (i < c_elements) p_mat[i++] = element; else i++;`. -/
def init_list_step (c_elements : Nat) (st : Nat × List E) (element : E) :
    Except Err (Nat × List E) :=
  if st.1 < c_elements then
    match bufStore st.2 st.1 element with
    | .error e => .error e
    | .ok p_mat => .ok (st.1 + 1, p_mat)
  else .ok (st.1 + 1, st.2)

/-- The constructor `Matrix2D(const std::initializer_list<std::initializer_list<_Elem>>)`
(lines 329 to 343).  The loop state is the pair of `i` and `p_mat`; the second component
of the result is the text written to `std::cout`, one entry per line. -/
def construct_init_list (_Rows _Cols : Nat) (zero : E) (lists : List (List E))
    (junk : Nat → E) : Except Err (Matrix2D E × List String) :=
  let c_elements := _Rows * _Cols
  match lists.foldlM (fun st list => list.foldlM (init_list_step c_elements) st)
      (0, new_array (_Rows * _Cols) junk) with
  | .error e => .error e
  | .ok (i, p_mat) =>
    let out := if i != c_elements then [countDiagnostic i c_elements] else []
    if i < c_elements then
      match bufMemset0 p_mat i (c_elements - i) zero with
      | .error e => .error e
      | .ok p_mat => .ok ({ c_rows := _Rows, c_cols := _Cols, p_mat := p_mat }, out)
    else .ok ({ c_rows := _Rows, c_cols := _Cols, p_mat := p_mat }, out)

/-- The constructor `template <typename _ElemB> Matrix2D(const _ElemB init)` (lines 304
to 311), with `conv` the conversion `_Elem(init)`. -/
def construct_const {F : Type} (_Rows _Cols : Nat) (conv : F → E) (init : F)
    (junk : Nat → E) : Except Err (Matrix2D E) :=
  let c_elements := _Rows * _Cols
  match forLoop c_elements (fun i p_mat => bufStore p_mat i (conv init))
      (new_array (_Rows * _Cols) junk) with
  | .error e => .error e
  | .ok p_mat => .ok { c_rows := _Rows, c_cols := _Cols, p_mat := p_mat }

/-- The operator `Matrix2D& operator = (const _Elem val)` (lines 435 to 441); the
argument of the call is converted to `_Elem` before the operator runs. -/
def operator_assign_const (_Rows _Cols : Nat) (this : Ref) (val : E) (s : State E) :
    Except Err (State E) :=
  forLoop (_Rows * _Cols) (fun i s => s.store this i val) s

/-- The constructor `template <typename _ElemB> Matrix2D(Matrix2D<_ElemB, _Rows, _Cols>&)`
(lines 320 to 327), building the new object at the next free address: every element
is `_Elem(_initilizer[i])`, with `conv` that conversion.  It is also the constructor
that `Matrix2D X = Y` selects for a non-const `Y` of the same type (then `conv` is the
identity), as in `alsoAllPrime = allPrime` of `Source.cpp`. -/
def convert_construct (_Rows _Cols : Nat) (conv : E → E) (src : Ref) (junk : Nat → E)
    (s : State E) : Except Err (Ref × State E) :=
  let this := s.next
  let s0 : State E :=
    { s.setMat this { c_rows := _Rows, c_cols := _Cols, p_mat := new_array (_Rows * _Cols) junk }
      with next := s.next + 1 }
  match forLoop (_Cols * _Rows) (fun i s =>
      let (j, s1) := s.index src i
      match s1.load src j with
      | .error e => .error e
      | .ok v => s1.store this i (conv v)) s0 with
  | .error e => .error e
  | .ok s2 => .ok (this, s2)

/-- The operator `Matrix2D& operator = (const Matrix2D& _mat2)` (lines 418 to 425):
`memcpy` of `_Cols * _Rows` elements into the buffer of `*this`, which is not `NULL`
for an object that owns a buffer.  When `_mat2` is `*this` itself the source and the
destination coincide, and the copy is taken to leave the buffer as it is. -/
def operator_assign (_Rows _Cols : Nat) (this _mat2 : Ref) (s : State E) :
    Except Err (State E) :=
  let n := _Cols * _Rows
  if n ≤ (s.heap _mat2).p_mat.length ∧ n ≤ (s.heap this).p_mat.length then
    .ok (s.setMat this { s.heap this with
      p_mat := (s.heap _mat2).p_mat.take n ++ (s.heap this).p_mat.drop n })
  else .error .undefined_behaviour

/-- The expression `X = Y` for a matrix `Y` of another element type: the converting
constructor builds a temporary from `Y`, which `operator =` copies into `X`.  The
destruction of the temporary is not modelled (its address is never used again). -/
def operator_assign_converted (_Rows _Cols : Nat) (conv : E → E) (this _mat2 : Ref)
    (junk : Nat → E) (s : State E) : Except Err (State E) :=
  match convert_construct _Rows _Cols conv _mat2 junk s with
  | .error e => .error e
  | .ok (tmp, s1) => operator_assign _Rows _Cols this tmp s1

/-! ## Further examples -/

/-- A release build that sets the limit to 5: unrolled up to 5x5. -/
def fullBuild : Build := ⟨false, true, some 5⟩

/-- The 2 x 6 matrix `allPrime` of `Source.cpp`, as the nested list of its initialiser. -/
def allPrimeLists : List (List Int) :=
  [[2, 3, 5, 7, 11, 13], [17, 19, 23, 29, 31, 37]]

/-- The elements of `allPrime` in row-major order. -/
def allPrimeFlat : List Int :=
  [2, 3, 5, 7, 11, 13, 17, 19, 23, 29, 31, 37]

/-- The state with the 2x2 zero matrix at address 0, `B = [[5, 6], [7, 8]]` at address 1
and an output full of nines at address 2. -/
def zeroState : State Int where
  heap := fun o =>
    if o = 0 then mkMat 2 2 (fun _ _ => 0)
    else if o = 1 then mkMat 2 2 (exampleB 2)
    else mkMat 2 2 (fun _ _ => 9)
  cerr := []
  calls := []
  next := 3

/-! ## The tiers of `Mul` -/

/-- The three kinds of code that `Mul` can run for a shape. -/
inductive Tier where
  /-- An `if` on all of `_RowsA`, `_ColsA`, `_RowsB` and `_ColsB`, with straight-line code -/
  | exact_shape
  /-- An `if` on `_ColsA` and `_RowsB` only, with two loops over the cells of `C` -/
  | semi_generic
  /-- The `memset` and the three loops at the end of `Mul` -/
  | fallback
deriving DecidableEq, Repr

/-- The kind of a branch of the unrolled code. -/
def Branch.tier : Branch → Tier
  | .exact _ _ _ _ _ => .exact_shape
  | .loop _ _ _ => .semi_generic

/-- The tier that `Mul` runs for a shape in a build: the kind of the first branch of
the unrolled code whose condition holds; the fallback when none holds, or when the
build leaves no unrolled code in `Mul`. -/
def Mul_tier (bld : Build) (_RowsA _ColsA _ColsB : Nat) : Tier :=
  match bld.unrolled with
  | none => .fallback
  | some table =>
    match table.find? (fun br => br.guard _RowsA _ColsA _ColsB) with
    | some br => br.tier
    | none => .fallback

/-- The unrolling bound that the `#if` chain of `Mul` derives from the configuration:
in a release build the largest of 5, 4, 3 that the limit reaches, in a debug build 3
whatever the limit, and none without `_MATRIX_MANUAL_OPTIMISATION` or for a limit
below 3. -/
def Build.effective (b : Build) : Option Nat :=
  if b.manual then
    if b.NDEBUG then
      if b.limit > 4 then some 5
      else if b.limit > 3 then some 4
      else if b.limit > 2 then some 3
      else none
    else some 3
  else none

/-- A debug build that defines `_MATRIX_MANUAL_OPTIMISATION` and leaves the limit at
its default 4. -/
def debugManualBuild : Build := ⟨true, false, none⟩

/-- A release build that sets the limit to 2. -/
def limit2Build : Build := ⟨true, true, some 2⟩

/-- A release build that sets the limit to 6. -/
def limit6Build : Build := ⟨true, true, some 6⟩

/-- Products are integers, `_ElemC` is an unsigned type of `w` bits: `_ElemC(v)` and
`+=` wrap around modulo `2 ^ w`. -/
def wrapOps (w : Nat) : ElemOps Int where
  mul := fun x y => x * y
  add := fun x y => x + y
  conv := fun x => x % 2 ^ w
  plus_assign := fun x y => (x + y) % 2 ^ w
  zero := 0

/-! ## Arithmetic of `size_t`, an unsigned type of `w` bits -/

/-- The sum `x + y` in `size_t`. -/
def size_add (w x y : Nat) : Nat := (x + y) % 2 ^ w

/-- The difference `x - y` in `size_t`: it wraps around when `y` exceeds `x`. -/
def size_sub (w x y : Nat) : Nat := (x + (2 ^ w - y % 2 ^ w)) % 2 ^ w

/-- The product `x * y` in `size_t`. -/
def size_mul (w x y : Nat) : Nat := (x * y) % 2 ^ w

/-! ## The rotations -/

/-- The statement `B[i] = _ElemB(A[j])`, with `conv` the conversion `_ElemB(v)`; the
right operand is evaluated first. -/
def State.assign_index (s : State E) (conv : E → E) (B : Ref) (i : Nat) (A : Ref) (j : Nat) :
    Except Err (State E) :=
  let (j1, s1) := s.index A j
  match s1.load A j1 with
  | .error e => .error e
  | .ok v =>
    let (i1, s2) := s1.index B i
    s2.store B i1 (conv v)

/-- The function `Matrix::Transpose90deg` (lines 4679 to 4695), with `size_t` of `w` bits. -/
def Transpose90deg (w : Nat) (conv : E → E) (_Rows _Cols : Nat) (A B : Ref) (s : State E) :
    Except Err (State E) :=
  let c_width := size_mul w _Rows _Cols
  let a := _Cols
  let b := _Rows
  forLoop c_width (fun i s =>
    s.assign_index conv B i A
      (size_add w
        (size_add w (size_sub w (size_sub w (size_mul w a b) a) (size_mul w a i))
          (size_mul w (i / b) (size_mul w b a)))
        (i / b))) s

/-- The function `Matrix::Transpose180deg` (lines 4697 to 4704), with `size_t` of `w` bits. -/
def Transpose180deg (w : Nat) (conv : E → E) (_Rows _Cols : Nat) (A B : Ref) (s : State E) :
    Except Err (State E) :=
  let c_width := size_mul w _Rows _Cols
  forLoop c_width (fun i s =>
    s.assign_index conv B i A (size_sub w (size_sub w c_width 1) i)) s

/-- The function `Matrix::Transpose270deg` (lines 4706 to 4720), with `size_t` of `w` bits. -/
def Transpose270deg (w : Nat) (conv : E → E) (_Rows _Cols : Nat) (A B : Ref) (s : State E) :
    Except Err (State E) :=
  let c_width := size_mul w _Rows _Cols
  let a := _Cols
  let b := _Rows
  forLoop c_width (fun i s =>
    s.assign_index conv B i A
      (size_add w
        (size_sub w (size_mul w i a) (size_mul w (i / b) (size_add w (size_mul w b a) 1)))
        (size_sub w a 1))) s

/-- The state with `A = [[1, 2, 3], [4, 5, 6]]` at address 0, a 3 x 2 matrix of nines at
address 1 and a 2 x 3 matrix of nines at address 2. -/
def rotateState : State Int where
  heap := fun o =>
    if o = 0 then mkMat 2 3 (exampleA 3)
    else if o = 1 then mkMat 3 2 (fun _ _ => 9)
    else mkMat 2 3 (fun _ _ => 9)
  cerr := []
  calls := []
  next := 3
/-! ## The index expressions of the rotations -/

/-- The difference `((a * b) - a) - (a * i)` at the head of the index expression of
`Transpose90deg` (line 4692), in `size_t` arithmetic of `w` bits, with `a = _Cols` and
`b = _Rows`. -/
def Transpose90deg_difference (w _Rows _Cols i : Nat) : Nat :=
  let a := _Cols
  let b := _Rows
  size_sub w (size_sub w (size_mul w a b) a) (size_mul w a i)

/-- The index expression `(((a * b) - a) - (a * i)) + ((i / b) * (b * a)) + (i / b)` of
`Transpose90deg` (line 4692), evaluated from left to right in `size_t` arithmetic. -/
def Transpose90deg_source (w _Rows _Cols i : Nat) : Nat :=
  let a := _Cols
  let b := _Rows
  size_add w
    (size_add w (Transpose90deg_difference w _Rows _Cols i)
      (size_mul w (i / b) (size_mul w b a)))
    (i / b)

/-- The difference `(i * a) - ((i / b) * (b * a + 1))` at the head of the index expression
of `Transpose270deg` (line 4719), in `size_t` arithmetic of `w` bits. -/
def Transpose270deg_difference (w _Rows _Cols i : Nat) : Nat :=
  let a := _Cols
  let b := _Rows
  size_sub w (size_mul w i a) (size_mul w (i / b) (size_add w (size_mul w b a) 1))

/-- The index expression `(i * a) - ((i / b) * (b * a + 1)) + (a - 1)` of
`Transpose270deg` (line 4719), evaluated from left to right in `size_t` arithmetic. -/
def Transpose270deg_source (w _Rows _Cols i : Nat) : Nat :=
  let a := _Cols
  size_add w (Transpose270deg_difference w _Rows _Cols i) (size_sub w a 1)

/-! ## Element-by-element functions -/

/-- The statement `C[i] = _ElemC(A[i] op B[i])`: both operands are read through
`operator[]`, combined, converted, and stored through `C[i]`. -/
def State.assign_binop (s : State E) (conv : E → E) (op : E → E → E) (C A B : Ref) (i : Nat) :
    Except Err (State E) :=
  let (ia, s1) := s.index A i
  match s1.load A ia with
  | .error e => .error e
  | .ok x =>
    let (ib, s2) := s1.index B i
    match s2.load B ib with
    | .error e => .error e
    | .ok y =>
      let (ic, s3) := s2.index C i
      s3.store C ic (conv (op x y))

/-- The function `Matrix::Add(A, B, C)` (lines 4574 to 4579):
`for (i < _Rows * _Cols) C[i] = _ElemC(A[i] + B[i])`. -/
def Add (w : Nat) (ops : ElemOps E) (_Rows _Cols : Nat) (A B C : Ref) (s : State E) :
    Except Err (State E) :=
  forLoop (size_mul w _Rows _Cols) (fun i s => s.assign_binop ops.conv ops.add C A B i) s

/-- The function `Matrix::Sub(A, B, C)` (lines 4588 to 4593):
`for (i < _Rows * _Cols) C[i] = _ElemC(A[i] - B[i])`, with `sub` the subtraction of the
element types. -/
def Sub (w : Nat) (ops : ElemOps E) (sub : E → E → E) (_Rows _Cols : Nat) (A B C : Ref)
    (s : State E) : Except Err (State E) :=
  forLoop (size_mul w _Rows _Cols) (fun i s => s.assign_binop ops.conv sub C A B i) s

/-- The function `Matrix::MulEBE(A, B, C)` (lines 4609 to 4614):
`for (i < _Rows * _Cols) C[i] = _ElemC(A[i] * B[i])`. -/
def MulEBE (w : Nat) (ops : ElemOps E) (_Rows _Cols : Nat) (A B C : Ref) (s : State E) :
    Except Err (State E) :=
  forLoop (size_mul w _Rows _Cols) (fun i s => s.assign_binop ops.conv ops.mul C A B i) s

/-! ## The example of the comment in `Mul` -/

set_option linter.unusedVariables false in
/-- Modelled from the comment of lines 644 to 669, not from code: the matrix `C` that the
reminder gives for `A = [[a, b, c], [d, e, f]]` and `B = [[g, h, i], [j, k, l], [m, n, o]]`,
in row-major order. -/
def Mul_reminder {R : Type} [Semiring R] (a b c d e f g h i j k l m n o : R) : Matrix2D R :=
  ⟨2, 3, [a * g + b * i + c * k, a * h + b * k + c * n, a * i + b * l + c * o,
    d * g + e * i + f * k, d * h + e * k + f * n, d * i + e * l + f * o]⟩

/-- The state with `A = [[a, b, c], [d, e, f]]` at address 0,
`B = [[g, h, i], [j, k, l], [m, n, o]]` at address 1 and a 2 x 3 output full of zeros at
address 2. -/
def reminderState {R : Type} [Semiring R] (a b c d e f g h i j k l m n o : R) : State R where
  heap := fun x =>
    if x = 0 then ⟨2, 3, [a, b, c, d, e, f]⟩
    else if x = 1 then ⟨3, 3, [g, h, i, j, k, l, m, n, o]⟩
    else ⟨2, 3, [0, 0, 0, 0, 0, 0]⟩
  cerr := []
  calls := []
  next := 3

/-! ## Further examples -/

/-- The state with `A` (2 x 2) at address 0, `B` (2 x 6) at address 1, `D` (6 x 1) at
address 2 and outputs full of nines at the addresses 3 (2 x 6), 4 (2 x 1), 5 (2 x 1) and
6 (2 x 1). -/
def assocState : State Int where
  heap := fun x =>
    if x = 0 then mkMat 2 2 (exampleA 2)
    else if x = 1 then mkMat 2 6 (exampleB 6)
    else if x = 2 then mkMat 6 1 (exampleA 1)
    else if x = 3 then mkMat 2 6 (fun _ _ => 9)
    else mkMat 2 1 (fun _ _ => 9)
  cerr := []
  calls := []
  next := 7

/-- The ragged nested list `{{1, 2, 3}, {4}}`. -/
def raggedLists : List (List Int) := [[1, 2, 3], [4]]

/-! ## The generator of the unrolled branches

The program `dev_unroll_multiplication_loops.cpp` writes C++ text to `std::cout`.  The
text is modelled as the list of the characters written, in order. -/

/-- The characters that `std::cout << s` writes for a string or character literal `s`. -/
def cout_str (s : String) : List Char := s.toList

/-- The characters that `std::cout << n` writes for a `size_t` value `n`: its decimal
digits. -/
def cout_num (n : Nat) : List Char := (toString n).toList

/-- The character that `std::cout << std::endl` writes. -/
def cout_endl : List Char := cout_str "\n"

/-- The constant `tab` of the generator (line 6). -/
def tab : List Char := cout_str "    "

/-- The function `GenerateInlineCodeMAT_MUL(max)` (lines 4 to 76 of
`dev_unroll_multiplication_loops.cpp`): the characters that it writes to `std::cout`,
insertion by insertion.  The loop variables stay below `max`, so `i + 1`, `k + 1` and
`c + 1` do not wrap around; the counter `index` of the loop over `rowsA` is never
printed. -/
def GenerateInlineCodeMAT_MUL (max : Nat) : List Char :=
  (List.range max).flatMap (fun i =>
    let _ColsA := i + 1
    let _RowsB := _ColsA
    (List.range max).flatMap (fun k =>
      let _RowsA := k + 1
      cout_str "// " ++ cout_num _RowsA ++ cout_str "x" ++ cout_num _ColsA ++ cout_str " * " ++
        cout_num _RowsB ++ cout_str "xn" ++ cout_endl ++
      cout_str "if (true)" ++ cout_endl ++
      cout_str "\x7b" ++ cout_endl ++
      (List.range max).flatMap (fun c =>
        let _ColsB := c + 1
        let _RowsC := _RowsA
        let _ColsC := _ColsB
        tab ++ cout_str "// " ++ cout_num _RowsA ++ cout_str "x" ++ cout_num _ColsA ++
          cout_str " * " ++ cout_num _RowsB ++ cout_str "x" ++ cout_num _ColsB ++
          cout_str " -> " ++ cout_num _RowsC ++ cout_str "x" ++ cout_num _ColsC ++ cout_endl ++
        tab ++ cout_str "if (_RowsA == " ++ cout_num _RowsA ++ cout_str " and _ColsA == " ++
          cout_num _ColsA ++ cout_str " and _RowsB == " ++ cout_num _RowsB ++
          cout_str " and _ColsB == " ++ cout_num _ColsB ++ cout_str ")" ++ cout_endl ++
        tab ++ cout_str "\x7b" ++ cout_endl ++
        (List.range _RowsA).flatMap (fun rowsA =>
          (List.range _ColsB).flatMap (fun colsB =>
            tab ++ tab ++ cout_str "C.at(" ++ cout_num rowsA ++ cout_str ", " ++
              cout_num colsB ++ cout_str ") = _ElemC(" ++
            (List.range _ColsA).flatMap (fun rowCol =>
              cout_str "(A.at(" ++ cout_num rowsA ++ cout_str ", " ++ cout_num rowCol ++
                cout_str ") * B.at(" ++ cout_num rowCol ++ cout_str ", " ++ cout_num colsB ++
                cout_str "))" ++
              (if rowCol < (_ColsA - 1) then cout_str " + " else [])) ++
            cout_str ");" ++ cout_endl) ++
          cout_endl) ++
        tab ++ tab ++ cout_str "return;" ++ cout_endl ++
        tab ++ cout_str "\x7d" ++
        cout_endl ++ cout_endl) ++
      cout_str "\x7d" ++ cout_endl ++ cout_endl) ++
    cout_str "// Matrices n1x" ++ cout_num _ColsA ++ cout_str " * " ++ cout_num _RowsB ++
      cout_str "xn2" ++ cout_endl ++
    cout_str "if (_ColsA == " ++ cout_num _ColsA ++ cout_str " and _RowsB == " ++
      cout_num _RowsB ++ cout_str ")" ++ cout_endl ++
    cout_str "\x7b" ++ cout_endl ++
    tab ++ cout_str "for (size_t rows = 0; rows < _RowsC; rows++)" ++ cout_endl ++
    tab ++ tab ++ cout_str "for (size_t cols = 0; cols < _ColsC; cols++)" ++ cout_endl ++
    tab ++ tab ++ tab ++ cout_str "C.at(rows, cols) = _ElemC(" ++
    (List.range _ColsA).flatMap (fun c =>
      cout_str "(A.at(rows, " ++ cout_num c ++ cout_str ") * B.at(" ++ cout_num c ++
        cout_str ", cols))" ++
      (if c < _ColsA - 1 then cout_str " + " else [])) ++
    cout_str ");" ++ cout_endl ++
    tab ++ cout_str "return;" ++ cout_endl ++
    cout_str "\x7d" ++ cout_endl ++ cout_endl)

/-! ### The generated text as a syntax tree -/

/-- The text of an argument of `at`. -/
def Idx.text : Idx → List Char
  | .lit n => cout_num n
  | .rows => cout_str "rows"
  | .cols => cout_str "cols"

/-- The text `(A.at(aRow, aCol) * B.at(bRow, bCol))` of a product. -/
def Term.text (t : Term) : List Char :=
  cout_str "(A.at(" ++ t.aRow.text ++ cout_str ", " ++ t.aCol.text ++ cout_str ") * B.at(" ++
    t.bRow.text ++ cout_str ", " ++ t.bCol.text ++ cout_str "))"

/-- The text `C.at(cRow, cCol) = _ElemC(first + rest_0 + ...);` of a statement. -/
def Assign.text (a : Assign) : List Char :=
  cout_str "C.at(" ++ a.cRow.text ++ cout_str ", " ++ a.cCol.text ++ cout_str ") = _ElemC(" ++
    a.first.text ++ a.rest.flatMap (fun t => cout_str " + " ++ t.text) ++ cout_str ");"

/-- One exact-shape branch of the generated text: the numbers of its comment and of its
condition, and its statements row by row. -/
structure GenExact where
  rA : Nat
  cA : Nat
  rB : Nat
  cB : Nat
  rC : Nat
  cC : Nat
  rows : List (List Assign)

/-- One block `if (true)` of the generated text, with the numbers of its comment and the
exact-shape branches inside. -/
structure GenBlock where
  rA : Nat
  cA : Nat
  rB : Nat
  branches : List GenExact

/-- One semi-generic branch of the generated text. -/
structure GenLoop where
  cA : Nat
  rB : Nat
  body : Assign

/-- The text generated for one value of `_ColsA`: the blocks, one per `_RowsA`, and the
semi-generic branch. -/
structure GenGroup where
  blocks : List GenBlock
  loop : GenLoop

/-- The text of an exact-shape branch: a comment, the condition, and between braces one
line per statement with an empty line after each row, then `return;`. -/
def GenExact.text (b : GenExact) : List Char :=
  tab ++ cout_str "// " ++ cout_num b.rA ++ cout_str "x" ++ cout_num b.cA ++ cout_str " * " ++
    cout_num b.rB ++ cout_str "x" ++ cout_num b.cB ++ cout_str " -> " ++ cout_num b.rC ++
    cout_str "x" ++ cout_num b.cC ++ cout_endl ++
  tab ++ cout_str "if (_RowsA == " ++ cout_num b.rA ++ cout_str " and _ColsA == " ++
    cout_num b.cA ++ cout_str " and _RowsB == " ++ cout_num b.rB ++ cout_str " and _ColsB == " ++
    cout_num b.cB ++ cout_str ")" ++ cout_endl ++
  tab ++ cout_str "\x7b" ++ cout_endl ++
  b.rows.flatMap (fun row =>
    row.flatMap (fun a => tab ++ tab ++ a.text ++ cout_endl) ++ cout_endl) ++
  tab ++ tab ++ cout_str "return;" ++ cout_endl ++
  tab ++ cout_str "\x7d" ++ cout_endl ++ cout_endl

/-- The text of a block: a comment, `if (true)`, and the branches between braces. -/
def GenBlock.text (b : GenBlock) : List Char :=
  cout_str "// " ++ cout_num b.rA ++ cout_str "x" ++ cout_num b.cA ++ cout_str " * " ++
    cout_num b.rB ++ cout_str "xn" ++ cout_endl ++
  cout_str "if (true)" ++ cout_endl ++
  cout_str "\x7b" ++ cout_endl ++
  b.branches.flatMap GenExact.text ++
  cout_str "\x7d" ++ cout_endl ++ cout_endl

/-- The text of a semi-generic branch: a comment, the condition, and between braces the
two `for` loops around the statement, then `return;`. -/
def GenLoop.text (l : GenLoop) : List Char :=
  cout_str "// Matrices n1x" ++ cout_num l.cA ++ cout_str " * " ++ cout_num l.rB ++
    cout_str "xn2" ++ cout_endl ++
  cout_str "if (_ColsA == " ++ cout_num l.cA ++ cout_str " and _RowsB == " ++ cout_num l.rB ++
    cout_str ")" ++ cout_endl ++
  cout_str "\x7b" ++ cout_endl ++
  tab ++ cout_str "for (size_t rows = 0; rows < _RowsC; rows++)" ++ cout_endl ++
  tab ++ tab ++ cout_str "for (size_t cols = 0; cols < _ColsC; cols++)" ++ cout_endl ++
  tab ++ tab ++ tab ++ l.body.text ++ cout_endl ++
  tab ++ cout_str "return;" ++ cout_endl ++
  cout_str "\x7d" ++ cout_endl ++ cout_endl

/-- The text of a group: its blocks, then its semi-generic branch. -/
def GenGroup.text (g : GenGroup) : List Char :=
  g.blocks.flatMap GenBlock.text ++ g.loop.text

/-- The branch of `Mul` that an exact-shape branch of the generated text is. -/
def GenExact.branch (b : GenExact) : Branch := .exact b.rA b.cA b.rB b.cB b.rows.flatten

/-- The branch of `Mul` that a semi-generic branch of the generated text is. -/
def GenLoop.branch (l : GenLoop) : Branch := .loop l.cA l.rB l.body

/-- The branches of a group, in the order of the text. -/
def GenGroup.branches (g : GenGroup) : List Branch :=
  g.blocks.flatMap (fun b => b.branches.map GenExact.branch) ++ [g.loop.branch]

/-- Modelled from the specification: the exact-shape branch for `R` x `K` times `K` x `C`,
with the statement for `C.at(r, c)` in row `r` and the products for `k` from `0` to
`K - 1` in each statement. -/
def genExact (R K C : Nat) : GenExact :=
  ⟨R, K, K, C, R, C,
    (List.range R).map (fun r => (List.range C).map (fun c => stdAssign K (.lit r) (.lit c)))⟩

/-- Modelled from the specification: what `GenerateInlineCodeMAT_MUL(max)` is to emit.
For every `_ColsA` from 1 to `max`: for every `_RowsA` from 1 to `max` a block with the
exact-shape branch of every `_ColsB` from 1 to `max`, and then the semi-generic branch of
`_ColsA`. -/
def generatedGroups (max : Nat) : List GenGroup :=
  (List.range max).map (fun i =>
    ⟨(List.range max).map (fun k =>
        ⟨k + 1, i + 1, i + 1, (List.range max).map (fun c => genExact (k + 1) (i + 1) (c + 1))⟩),
      ⟨i + 1, i + 1, stdAssign (i + 1) .rows .cols⟩⟩)

/-- The text that the generator writes for `max = 1`. -/
def generatedText1 : String :=
  "// 1x1 * 1xn\n" ++
  "if (true)\n" ++
  "\x7b\n" ++
  "    // 1x1 * 1x1 -> 1x1\n" ++
  "    if (_RowsA == 1 and _ColsA == 1 and _RowsB == 1 and _ColsB == 1)\n" ++
  "    \x7b\n" ++
  "        C.at(0, 0) = _ElemC((A.at(0, 0) * B.at(0, 0)));\n" ++
  "\n" ++
  "        return;\n" ++
  "    \x7d\n" ++
  "\n" ++
  "\x7d\n" ++
  "\n" ++
  "// Matrices n1x1 * 1xn2\n" ++
  "if (_ColsA == 1 and _RowsB == 1)\n" ++
  "\x7b\n" ++
  "    for (size_t rows = 0; rows < _RowsC; rows++)\n" ++
  "        for (size_t cols = 0; cols < _ColsC; cols++)\n" ++
  "            C.at(rows, cols) = _ElemC((A.at(rows, 0) * B.at(0, cols)));\n" ++
  "    return;\n" ++
  "\x7d\n" ++
  "\n"

/-! ## Loops -/

theorem forLoop_zero {σ : Type} (body : Nat → σ → Except Err σ) (s : σ) :
    forLoop 0 body s = .ok s := rfl

theorem forLoop_succ {σ : Type} (n : Nat) (body : Nat → σ → Except Err σ) (s : σ) :
    forLoop (n + 1) body s =
      match forLoop n body s with
      | .error e => .error e
      | .ok s1 => body n s1 := by
  unfold forLoop
  rw [List.range_succ, List.foldlM_append]
  cases h : List.foldlM (fun s i => body i s) s (List.range n) with
  | error e => rfl
  | ok s1 =>
    show (List.foldlM (fun s i => body i s) s1 [n]) = body n s1
    simp [List.foldlM]

/-- The loop rule: an invariant that every iteration re-establishes holds at the
end, and the loop does not fail. -/
theorem forLoop_inv {σ : Type} (Inv : Nat → σ → Prop) (n : Nat)
    (body : Nat → σ → Except Err σ) (s : σ) (h0 : Inv 0 s)
    (hstep : ∀ i t, i < n → Inv i t → ∃ t1, body i t = .ok t1 ∧ Inv (i + 1) t1) :
    ∃ t, forLoop n body s = .ok t ∧ Inv n t := by
  induction n with
  | zero => exact ⟨s, rfl, h0⟩
  | succ n ih =>
    obtain ⟨t, ht, hI⟩ := ih (fun i t hi => hstep i t (Nat.lt_succ_of_lt hi))
    obtain ⟨t1, ht1, hI1⟩ := hstep n t (Nat.lt_succ_self n) hI
    exact ⟨t1, by rw [forLoop_succ, ht]; exact ht1, hI1⟩

/-- Two nested loops over the cells of an `R` x `C` matrix, with an invariant in
the number of cells done. -/
theorem nested_inv {σ : Type} (P : Nat → σ → Prop) (R C : Nat)
    (cell : Nat → Nat → σ → Except Err σ) (s : σ) (h0 : P 0 s)
    (hstep : ∀ i j t, i < R → j < C → P (i * C + j) t →
      ∃ t1, cell i j t = .ok t1 ∧ P (i * C + j + 1) t1) :
    ∃ t, forLoop R (fun i t => forLoop C (fun j t => cell i j t) t) s = .ok t ∧ P (R * C) t := by
  apply forLoop_inv (fun i t => P (i * C) t) R _ s (by simpa using h0)
  intro i t hi hP
  have := forLoop_inv (fun j t => P (i * C + j) t) C (fun j t => cell i j t) t (by simpa using hP)
    (fun j t hj hPj => hstep i j t hi hj hPj)
  obtain ⟨t1, ht1, hP1⟩ := this
  exact ⟨t1, ht1, by rw [Nat.succ_mul]; exact hP1⟩

/-! ## The state after a primitive step -/

@[simp] theorem State.log_heap (s : State E) (x : Access) : (s.log x).heap = s.heap := rfl
@[simp] theorem State.log_cerr (s : State E) (x : Access) : (s.log x).cerr = s.cerr := rfl
@[simp] theorem State.log_next (s : State E) (x : Access) : (s.log x).next = s.next := rfl
@[simp] theorem State.log_calls (s : State E) (x : Access) :
    (s.log x).calls = s.calls ++ [x] := rfl

@[simp] theorem State.print_heap (s : State E) (m : String) : (s.print m).heap = s.heap := rfl
@[simp] theorem State.print_cerr (s : State E) (m : String) :
    (s.print m).cerr = s.cerr ++ [m] := rfl
@[simp] theorem State.print_next (s : State E) (m : String) : (s.print m).next = s.next := rfl
@[simp] theorem State.print_calls (s : State E) (m : String) : (s.print m).calls = s.calls := rfl

@[simp] theorem State.setMat_heap_self (s : State E) (o : Ref) (m : Matrix2D E) :
    (s.setMat o m).heap o = m := by simp [State.setMat]
theorem State.setMat_heap_ne (s : State E) (o o1 : Ref) (m : Matrix2D E) (h : o1 ≠ o) :
    (s.setMat o m).heap o1 = s.heap o1 := by simp [State.setMat, h]
@[simp] theorem State.setMat_cerr (s : State E) (o : Ref) (m : Matrix2D E) :
    (s.setMat o m).cerr = s.cerr := rfl
@[simp] theorem State.setMat_next (s : State E) (o : Ref) (m : Matrix2D E) :
    (s.setMat o m).next = s.next := rfl
@[simp] theorem State.setMat_calls (s : State E) (o : Ref) (m : Matrix2D E) :
    (s.setMat o m).calls = s.calls := rfl

/-! ## Row-major positions -/

theorem pos_lt {R C r c : Nat} (hr : r < R) (hc : c < C) : r * C + c < R * C := by
  calc r * C + c < r * C + C := by omega
    _ = (r + 1) * C := by rw [Nat.succ_mul]
    _ ≤ R * C := Nat.mul_le_mul_right C hr

theorem pos_div {C r c : Nat} (hc : c < C) : (r * C + c) / C = r := by
  have hC : 0 < C := by omega
  rw [Nat.mul_comm, Nat.mul_add_div hC, Nat.div_eq_of_lt hc, Nat.add_zero]

theorem pos_mod {C r c : Nat} (hc : c < C) : (r * C + c) % C = c := by
  rw [Nat.mul_comm, Nat.mul_add_mod, Nat.mod_eq_of_lt hc]

theorem POS_XY_ok {R C r c : Nat} (hr : r < R) (hc : c < C) :
    POS_XY R C r c = .ok (r * C + c) := by
  unfold POS_XY
  rw [if_neg (by omega), if_neg (by omega)]

theorem mkMat_shape (R C : Nat) (f : Nat → Nat → E) : HasShape (mkMat R C f) R C := by
  simp [HasShape, mkMat]

theorem mkMat_get {R C r c : Nat} (f : Nat → Nat → E) (hr : r < R) (hc : c < C) :
    (mkMat R C f).p_mat[r * C + c]? = some (f r c) := by
  simp [mkMat, pos_lt hr hc, pos_div hc, pos_mod hc]

theorem elem_mkMat {R C r c : Nat} (f : Nat → Nat → E) (d : E) (hr : r < R) (hc : c < C) :
    (mkMat R C f).elem d r c = f r c := by
  have h := mkMat_get f hr hc
  unfold Matrix2D.elem
  rw [List.getD_eq_getElem?_getD]
  show ((mkMat R C f).p_mat[r * C + c]?).getD d = f r c
  rw [h]; rfl

/-- A matrix of the right shape whose first `R * C` cells hold `f` is `mkMat R C f`. -/
theorem eq_mkMat {R C : Nat} (m : Matrix2D E) (f : Nat → Nat → E) (hs : HasShape m R C)
    (h : ∀ i, i < R * C → m.p_mat[i]? = some (f (i / C) (i % C))) : m = mkMat R C f := by
  obtain ⟨h1, h2, h3⟩ := hs
  cases m with
  | mk rows cols buf =>
    simp only at h1 h2 h3 h
    subst h1 h2
    simp only [mkMat, Matrix2D.mk.injEq, true_and]
    apply List.ext_getElem?
    intro i
    by_cases hi : i < rows * cols
    · rw [h i hi]; simp [hi]
    · rw [List.getElem?_eq_none (by omega), List.getElem?_eq_none (by simp; omega)]

/-! ## Reading and writing through `at` -/

theorem read_at2_ok (s : State E) (d : E) {o : Ref} {R C r c : Nat}
    (hs : HasShape (s.heap o) R C) (hr : r < R) (hc : c < C) :
    s.read_at2 o r c = .ok ((s.heap o).elem d r c, s.log (.at2 o r c)) := by
  obtain ⟨h1, h2, h3⟩ := hs
  have hlt : r * C + c < (s.heap o).p_mat.length := by rw [h3]; exact pos_lt hr hc
  unfold State.read_at2 State.at2
  rw [h1, h2, POS_XY_ok hr hc]
  simp only [State.load, State.log_heap]
  rw [List.getElem?_eq_getElem hlt]
  simp only [Matrix2D.elem, h2]
  rw [List.getD_eq_getElem _ _ hlt]

theorem at2_ok (s : State E) {o : Ref} {R C r c : Nat}
    (hs : HasShape (s.heap o) R C) (hr : r < R) (hc : c < C) :
    s.at2 o r c = .ok (r * C + c, s.log (.at2 o r c)) := by
  obtain ⟨h1, h2, _⟩ := hs
  unfold State.at2
  rw [h1, h2, POS_XY_ok hr hc]

theorem store_ok (s : State E) {o : Ref} {i : Nat} (v : E) (hi : i < (s.heap o).p_mat.length) :
    s.store o i v = .ok (s.setMat o { s.heap o with p_mat := (s.heap o).p_mat.set i v }) := by
  unfold State.store
  rw [if_pos hi]

/-- Every matrix of a given shape is `mkMat` of its own elements, so that a
hypothesis `heap A = mkMat R C f` covers every matrix of that shape. -/
theorem HasShape.eq_mkMat_elem {R C : Nat} {m : Matrix2D E} (hs : HasShape m R C) (d : E) :
    m = mkMat R C (m.elem d) := by
  apply eq_mkMat m _ hs
  intro i hi
  have hlt : i < m.p_mat.length := by rw [hs.2.2]; exact hi
  unfold Matrix2D.elem
  rw [hs.2.1, Nat.div_add_mod' i C, List.getD_eq_getElem _ _ hlt, List.getElem?_eq_getElem hlt]

/-! ## One statement of an unrolled branch -/

@[simp] theorem State.logs_heap (s : State E) (l : List Access) : (s.logs l).heap = s.heap := rfl
@[simp] theorem State.logs_cerr (s : State E) (l : List Access) : (s.logs l).cerr = s.cerr := rfl
@[simp] theorem State.logs_next (s : State E) (l : List Access) : (s.logs l).next = s.next := rfl
@[simp] theorem State.logs_calls (s : State E) (l : List Access) :
    (s.logs l).calls = s.calls ++ l := rfl

theorem State.log_eq_logs (s : State E) (x : Access) : s.log x = s.logs [x] := rfl

theorem State.logs_logs (s : State E) (l l1 : List Access) :
    (s.logs l).logs l1 = s.logs (l ++ l1) := by
  simp [State.logs, List.append_assoc]

theorem State.logs_nil (s : State E) : s.logs [] = s := by
  simp [State.logs]

@[simp] theorem Idx.eval_lit (rows cols n : Nat) : (Idx.lit n).eval rows cols = n := rfl
@[simp] theorem Idx.eval_rows (rows cols : Nat) : Idx.rows.eval rows cols = rows := rfl
@[simp] theorem Idx.eval_cols (rows cols : Nat) : Idx.cols.eval rows cols = cols := rfl

theorem evalTerm_ok (ops : ElemOps E) (d : E) (s : State E) {A B : Ref} {RA K CB : Nat}
    (rows cols : Nat) (t : Term)
    (hA : HasShape (s.heap A) RA K) (hB : HasShape (s.heap B) K CB)
    (h1 : t.aRow.eval rows cols < RA) (h2 : t.aCol.eval rows cols < K)
    (h3 : t.bRow.eval rows cols < K) (h4 : t.bCol.eval rows cols < CB) :
    evalTerm ops A B rows cols t s =
      .ok (ops.mul ((s.heap A).elem d (t.aRow.eval rows cols) (t.aCol.eval rows cols))
            ((s.heap B).elem d (t.bRow.eval rows cols) (t.bCol.eval rows cols)),
          s.logs [.at2 A (t.aRow.eval rows cols) (t.aCol.eval rows cols),
                  .at2 B (t.bRow.eval rows cols) (t.bCol.eval rows cols)]) := by
  unfold evalTerm
  rw [read_at2_ok s d hA h1 h2]
  simp only
  rw [read_at2_ok _ d (by simpa using hB) h3 h4]
  simp [State.log_eq_logs, State.logs_logs]

theorem evalRest_std (ops : ElemOps E) (d : E) {A B : Ref} {RA K CB : Nat}
    (rows cols r c : Nat) (ri ci : Idx) (hri : ri.eval rows cols = r) (hci : ci.eval rows cols = c)
    (hr : r < RA) (hc : c < CB) (mA mB : Matrix2D E)
    (hA : HasShape mA RA K) (hB : HasShape mB K CB) :
    ∀ (l : List Nat) (acc : E) (s : State E), (∀ k ∈ l, k + 1 < K) →
      s.heap A = mA → s.heap B = mB →
      evalRest ops A B rows cols
          (l.map (fun k => (⟨ri, .lit (k + 1), .lit (k + 1), ci⟩ : Term))) acc s =
        .ok (l.foldl (fun acc k => ops.add acc (ops.mul (mA.elem d r (k + 1)) (mB.elem d (k + 1) c))) acc,
          s.logs (l.flatMap (fun k => productCalls A B r c (k + 1)))) := by
  intro l
  induction l with
  | nil => intro acc s _ _ _; simp [evalRest, State.logs_nil]
  | cons k l ih =>
    intro acc s hl hsA hsB
    have hk : k + 1 < K := hl k (List.mem_cons_self _ _)
    simp only [List.map_cons, evalRest]
    rw [evalTerm_ok ops d s rows cols _ (by rw [hsA]; exact hA) (by rw [hsB]; exact hB)
      (by simpa [hri] using hr) (by simpa using hk) (by simpa using hk)
      (by simpa [hci] using hc)]
    simp only
    rw [ih _ _ (fun k1 hk1 => hl k1 (List.mem_cons_of_mem _ hk1)) (by simpa using hsA)
      (by simpa using hsB)]
    simp [State.logs_logs, hri, hci, hsA, hsB, productCalls]

/-- The statement `stdAssign K` succeeds on objects of the right shapes. -/
theorem execAssign_std (ops : ElemOps E) (d : E) {A B C : Ref} {RA K CB : Nat}
    (rows cols r c : Nat) (ri ci : Idx) (hri : ri.eval rows cols = r) (hci : ci.eval rows cols = c)
    (s : State E) (hr : r < RA) (hc : c < CB) (hK : 1 ≤ K)
    (hA : HasShape (s.heap A) RA K) (hB : HasShape (s.heap B) K CB)
    (hC : HasShape (s.heap C) RA CB) :
    execAssign ops A B C rows cols (stdAssign K ri ci) s =
      .ok (assignResult ops d A B C K r c s) := by
  unfold execAssign stdAssign
  simp only
  rw [evalTerm_ok ops d s rows cols _ hA hB (by simpa [hri] using hr) (by simpa using hK)
    (by simpa using hK) (by simpa [hci] using hc)]
  simp only
  rw [evalRest_std ops d rows cols r c ri ci hri hci hr hc (s.heap A) (s.heap B) hA hB
    (List.range (K - 1)) _ _ (by intro k hk; rw [List.mem_range] at hk; omega) (by rfl) (by rfl)]
  simp only
  rw [at2_ok _ (by simpa using hC) (by simpa [hri] using hr) (by simpa [hci] using hc)]
  simp only
  rw [store_ok _ _ (by simp [hri, hci, hC.2.2, pos_lt hr hc])]
  simp [assignResult, assignValue, sumLeft, assignCalls, State.log_eq_logs, State.logs_logs, hri, hci,
    productCalls, hC.2.1, State.setMat, State.logs]

/-! ## Invariants of the loops over the cells of `C` -/

theorem ExtendsBy.refl (s : State E) : ExtendsBy [] s s :=
  ⟨fun _ => ⟨rfl, rfl, rfl⟩, rfl, rfl, by simp⟩

theorem ExtendsBy.trans {l l1 : List Access} {s0 s s1 : State E} (h : ExtendsBy l s0 s)
    (h1 : ExtendsBy l1 s s1) : ExtendsBy (l ++ l1) s0 s1 := by
  obtain ⟨a1, a2, a3, a4⟩ := h
  obtain ⟨b1, b2, b3, b4⟩ := h1
  refine ⟨fun o => ?_, by rw [b2, a2], by rw [b3, a3], by rw [b4, a4, List.append_assoc]⟩
  obtain ⟨c1, c2, c3⟩ := a1 o
  obtain ⟨d1, d2, d3⟩ := b1 o
  exact ⟨by rw [d1, c1], by rw [d2, c2], by rw [d3, c3]⟩

theorem ExtendsBy.shape {l : List Access} {s0 s : State E} (h : ExtendsBy l s0 s) {o : Ref}
    {R C : Nat} (hs : HasShape (s0.heap o) R C) : HasShape (s.heap o) R C := by
  obtain ⟨h1, h2, h3⟩ := h.1 o
  obtain ⟨g1, g2, g3⟩ := hs
  exact ⟨by rw [h1, g1], by rw [h2, g2], by rw [h3, g3]⟩

/-- A step that logs the calls `l` and replaces the buffer of `C` by one of the
same length. -/
theorem ExtendsBy.step (s : State E) (C : Ref) (l : List Access) (buf : List E)
    (hbuf : buf.length = (s.heap C).p_mat.length) :
    ExtendsBy l s ((s.logs l).setMat C { s.heap C with p_mat := buf }) := by
  refine ⟨fun o => ?_, rfl, rfl, rfl⟩
  by_cases ho : o = C
  · subst ho
    rw [State.setMat_heap_self]
    exact ⟨rfl, rfl, hbuf⟩
  · rw [State.setMat_heap_ne _ _ _ _ ho]
    exact ⟨rfl, rfl, rfl⟩

/-- The loop rule for the ghost record: the calls of a loop are those of its
iterations, in order. -/
theorem forLoop_extendsBy {σ : Type} (proj : σ → State E) (J : Nat → σ → Prop) (n : Nat)
    (body : Nat → σ → Except Err σ) (calls : Nat → List Access) (s : σ) (hJ : J 0 s)
    (hstep : ∀ i t l, i < n → J i t → ExtendsBy l (proj s) (proj t) →
      ∃ t1, body i t = .ok t1 ∧ J (i + 1) t1 ∧ ExtendsBy (calls i) (proj t) (proj t1)) :
    ∃ t, forLoop n body s = .ok t ∧ J n t ∧
      ExtendsBy ((List.range n).flatMap calls) (proj s) (proj t) := by
  have := forLoop_inv
    (fun i t => J i t ∧ ExtendsBy ((List.range i).flatMap calls) (proj s) (proj t)) n body s
    ⟨hJ, ExtendsBy.refl _⟩
    (fun i t hi hP => by
      obtain ⟨t1, h1, h2, h3⟩ := hstep i t _ hi hP.1 hP.2
      refine ⟨t1, h1, h2, ?_⟩
      rw [List.range_succ, List.flatMap_append]
      simpa using hP.2.trans h3)
  exact this

theorem assignCalls_ok {A B C : Ref} {RA K CB r c : Nat} (heap : Ref → Matrix2D E)
    (hA : HasShape (heap A) RA K) (hB : HasShape (heap B) K CB) (hC : HasShape (heap C) RA CB)
    (hr : r < RA) (hc : c < CB) (hK : 1 ≤ K) :
    ∀ x ∈ assignCalls A B C K r c, Access.inBounds heap x ∧ x.isAt2 := by
  intro x hx
  simp only [assignCalls, productCalls, List.mem_append, List.mem_cons, List.mem_singleton,
    List.mem_flatMap, List.mem_range, List.not_mem_nil, or_false] at hx
  rcases hx with (hx | hx) | ⟨k, hk, hx | hx⟩ | hx <;> subst hx <;>
    simp [Access.inBounds, Access.isAt2, hA.1, hA.2.1, hB.1, hB.2.1, hC.1, hC.2.1, hr, hc] <;> omega

theorem branchCalls_ok {A B C : Ref} {RA K CB : Nat} (heap : Ref → Matrix2D E)
    (hA : HasShape (heap A) RA K) (hB : HasShape (heap B) K CB) (hC : HasShape (heap C) RA CB)
    (hK : 1 ≤ K) :
    ∀ x ∈ branchCalls A B C RA K CB, Access.inBounds heap x ∧ x.isAt2 := by
  intro x hx
  simp only [branchCalls, List.mem_flatMap, List.mem_range] at hx
  obtain ⟨r, hr, c, hc, hx⟩ := hx
  exact assignCalls_ok heap hA hB hC hr hc hK x hx

theorem branchCalls_writes (A B C : Ref) {RA K CB r c : Nat} (hr : r < RA) (hc : c < CB) :
    Access.at2 C r c ∈ branchCalls A B C RA K CB := by
  simp only [branchCalls, assignCalls, List.mem_flatMap, List.mem_range, List.mem_append,
    List.mem_singleton]
  exact ⟨r, hr, c, hc, Or.inr (Or.inr rfl)⟩

/-- The two loops of a branch whose cell step is the statement `stdAssign K`:
they do not fail, whichever objects coincide, and make the calls `branchCalls`. -/
theorem cells_extendsBy (ops : ElemOps E) (d : E) {A B C : Ref} {RA K CB : Nat}
    (cell : Nat → Nat → State E → Except Err (State E))
    (hcell : ∀ r c s, r < RA → c < CB → HasShape (s.heap A) RA K → HasShape (s.heap B) K CB →
      HasShape (s.heap C) RA CB → cell r c s = .ok (assignResult ops d A B C K r c s))
    (s : State E) (hA : HasShape (s.heap A) RA K) (hB : HasShape (s.heap B) K CB)
    (hC : HasShape (s.heap C) RA CB) :
    ∃ t, forLoop RA (fun r t => forLoop CB (fun c t => cell r c t) t) s = .ok t ∧
      ExtendsBy (branchCalls A B C RA K CB) s t := by
  obtain ⟨t, ht, _, hE⟩ := forLoop_extendsBy (fun s : State E => s) (fun _ _ => True) RA
    (fun r t => forLoop CB (fun c t => cell r c t) t)
    (fun r => (List.range CB).flatMap (fun c => assignCalls A B C K r c)) s trivial
    (fun i t l hi _ hE => by
      obtain ⟨t1, h1, _, h3⟩ := forLoop_extendsBy (fun s : State E => s) (fun _ _ => True) CB
        (fun c t => cell i c t) (fun c => assignCalls A B C K i c) t trivial
        (fun j t1 l1 hj _ hE1 => by
          have hs := hE.trans hE1
          refine ⟨_, hcell i j t1 hi hj (hs.shape hA) (hs.shape hB) (hs.shape hC), trivial, ?_⟩
          exact ExtendsBy.step t1 C _ _ (by simp))
      exact ⟨t1, h1, trivial, h3⟩)
  exact ⟨t, ht, hE⟩

theorem assignResult_filled (ops : ElemOps E) (d : E) {A B C : Ref} {RA K CB r c : Nat}
    {s0 s : State E} (hAC : A ≠ C) (hBC : B ≠ C) (hr : r < RA) (hc : c < CB)
    (h : Filled s0 C RA CB (assignValue ops d (s0.heap A) (s0.heap B) K) (r * CB + c) s) :
    Filled s0 C RA CB (assignValue ops d (s0.heap A) (s0.heap B) K) (r * CB + c + 1)
      (assignResult ops d A B C K r c s) := by
  obtain ⟨h1, h2, h3⟩ := h
  have hlt : r * CB + c < (s.heap C).p_mat.length := by rw [h2.2.2]; exact pos_lt hr hc
  unfold assignResult
  refine ⟨?_, ?_, ?_⟩
  · intro o ho
    rw [State.setMat_heap_ne _ _ _ _ ho]
    exact h1 o ho
  · simp only [State.setMat_heap_self]
    exact ⟨h2.1, h2.2.1, by simp [h2.2.2]⟩
  · intro i hi
    simp only [State.setMat_heap_self, State.logs_heap, h2.2.1]
    by_cases hin : i = r * CB + c
    · subst hin
      rw [List.getElem?_set_self hlt, pos_div hc, pos_mod hc, h1 A hAC, h1 B hBC]
    · rw [List.getElem?_set_ne (fun h => hin h.symm)]
      exact h3 i (by omega)

/-- The two loops of a branch whose cell step is the statement `stdAssign K`, when
the output is a different object from both inputs: `C` is filled, nothing else changes. -/
theorem cells_filled (ops : ElemOps E) (d : E) {A B C : Ref} {RA K CB : Nat}
    (cell : Nat → Nat → State E → Except Err (State E))
    (hcell : ∀ r c s, r < RA → c < CB → HasShape (s.heap A) RA K → HasShape (s.heap B) K CB →
      HasShape (s.heap C) RA CB → cell r c s = .ok (assignResult ops d A B C K r c s))
    (s : State E) (hA : HasShape (s.heap A) RA K) (hB : HasShape (s.heap B) K CB)
    (hC : HasShape (s.heap C) RA CB) (hAC : A ≠ C) (hBC : B ≠ C) :
    ∃ t, forLoop RA (fun r t => forLoop CB (fun c t => cell r c t) t) s = .ok t ∧
      t.heap C = mkMat RA CB (assignValue ops d (s.heap A) (s.heap B) K) ∧
      ∀ o, o ≠ C → t.heap o = s.heap o := by
  have := nested_inv (Filled s C RA CB (assignValue ops d (s.heap A) (s.heap B) K))
    RA CB cell s ⟨fun _ _ => rfl, hC, fun i hi => absurd hi (Nat.not_lt_zero i)⟩
    (fun i j t hi hj hP => ⟨_, hcell i j t hi hj (by rw [hP.1 A hAC]; exact hA)
      (by rw [hP.1 B hBC]; exact hB) hP.2.1, assignResult_filled ops d hAC hBC hi hj hP⟩)
  obtain ⟨t, ht, h1, h2, h3⟩ := this
  exact ⟨t, ht, eq_mkMat _ _ h2 h3, h1⟩

/-! ## The bodies of the branches as loops -/

theorem execBody_append (ops : ElemOps E) (A B C : Ref) (l1 l2 : List Assign) (s : State E) :
    execBody ops A B C (l1 ++ l2) s =
      match execBody ops A B C l1 s with
      | .error e => .error e
      | .ok s1 => execBody ops A B C l2 s1 := by
  induction l1 generalizing s with
  | nil => rfl
  | cons a l ih =>
    simp only [List.cons_append, execBody]
    cases execAssign ops A B C 0 0 a s with
    | error e => rfl
    | ok s1 => exact ih s1

theorem execBody_map_range (ops : ElemOps E) (A B C : Ref) (f : Nat → Assign) (n : Nat)
    (s : State E) :
    execBody ops A B C ((List.range n).map f) s =
      forLoop n (fun i s => execAssign ops A B C 0 0 (f i) s) s := by
  induction n with
  | zero => rfl
  | succ n ih =>
    rw [List.range_succ, List.map_append, execBody_append, forLoop_succ, ih]
    cases forLoop n (fun i s => execAssign ops A B C 0 0 (f i) s) s with
    | error e => rfl
    | ok s1 =>
      simp only [List.map_cons, List.map_nil, execBody]
      cases execAssign ops A B C 0 0 (f n) s1 <;> rfl

theorem execBody_flatMap_range (ops : ElemOps E) (A B C : Ref) (g : Nat → List Assign)
    (n : Nat) (s : State E) :
    execBody ops A B C ((List.range n).flatMap g) s =
      forLoop n (fun i s => execBody ops A B C (g i) s) s := by
  induction n with
  | zero => rfl
  | succ n ih =>
    rw [List.range_succ, List.flatMap_append, execBody_append, forLoop_succ, ih]
    cases forLoop n (fun i s => execBody ops A B C (g i) s) s with
    | error e => rfl
    | ok s1 => simp

/-- The body of an exact-shape branch is the two loops of the semi-generic branch,
written out. -/
theorem execBody_stdBody (ops : ElemOps E) (A B C : Ref) (R K Cc : Nat) (s : State E) :
    execBody ops A B C (stdBody R K Cc) s =
      forLoop R (fun r s => forLoop Cc (fun c s =>
        execAssign ops A B C 0 0 (stdAssign K (.lit r) (.lit c)) s) s) s := by
  unfold stdBody
  rw [execBody_flatMap_range]
  simp only [execBody_map_range]

theorem execBranch_std (ops : ElemOps E) (d : E) {A B C : Ref} {RA K CB : Nat} {br : Branch}
    (hbr : IsStd br RA K CB) :
    ∃ cell : Nat → Nat → State E → Except Err (State E),
      (∀ s, execBranch ops RA CB A B C br s =
        forLoop RA (fun r t => forLoop CB (fun c t => cell r c t) t) s) ∧
      (1 ≤ K → ∀ r c s, r < RA → c < CB → HasShape (s.heap A) RA K → HasShape (s.heap B) K CB →
        HasShape (s.heap C) RA CB → cell r c s = .ok (assignResult ops d A B C K r c s)) := by
  rcases hbr with h | h
  · refine ⟨fun r c s => execAssign ops A B C 0 0 (stdAssign K (.lit r) (.lit c)) s, ?_, ?_⟩
    · intro s
      rw [h, stdExact]
      exact execBody_stdBody ops A B C RA K CB s
    · intro hK r c s hr hc hA hB hC
      exact execAssign_std ops d 0 0 r c (.lit r) (.lit c) rfl rfl s hr hc hK hA hB hC
  · refine ⟨fun r c s => execAssign ops A B C r c (stdAssign K .rows .cols) s, ?_, ?_⟩
    · intro s
      rw [h, stdLoop]
      rfl
    · intro hK r c s hr hc hA hB hC
      exact execAssign_std ops d r c r c .rows .cols rfl rfl s hr hc hK hA hB hC

/-- A regular branch does not fail, whichever objects coincide, and makes the
calls `branchCalls`: only `at` calls, all of them in range. -/
theorem execBranch_extendsBy (ops : ElemOps E) {A B C : Ref} {RA K CB : Nat} {br : Branch}
    (hbr : IsStd br RA K CB) (s : State E) (hA : HasShape (s.heap A) RA K)
    (hB : HasShape (s.heap B) K CB) (hC : HasShape (s.heap C) RA CB) (hK : 1 ≤ K) :
    ∃ t, execBranch ops RA CB A B C br s = .ok t ∧
      ExtendsBy (branchCalls A B C RA K CB) s t := by
  obtain ⟨cell, h1, h2⟩ := execBranch_std (A := A) (B := B) (C := C) ops ops.zero hbr
  rw [h1]
  exact cells_extendsBy ops ops.zero cell (h2 hK) s hA hB hC

/-- A regular branch fills `C` when `C` is a different object from `A` and `B`. -/
theorem execBranch_filled (ops : ElemOps E) {A B C : Ref} {RA K CB : Nat} {br : Branch}
    (hbr : IsStd br RA K CB) (s : State E) (hA : HasShape (s.heap A) RA K)
    (hB : HasShape (s.heap B) K CB) (hC : HasShape (s.heap C) RA CB) (hK : 1 ≤ K)
    (hAC : A ≠ C) (hBC : B ≠ C) :
    ∃ t, execBranch ops RA CB A B C br s = .ok t ∧
      t.heap C = mkMat RA CB (assignValue ops ops.zero (s.heap A) (s.heap B) K) ∧
      ∀ o, o ≠ C → t.heap o = s.heap o := by
  obtain ⟨cell, h1, h2⟩ := execBranch_std (A := A) (B := B) (C := C) ops ops.zero hbr
  rw [h1]
  exact cells_filled ops ops.zero cell (h2 hK) s hA hB hC hAC hBC

/-! ## The chain of branches -/

theorem Mul_unrolled_find (ops : ElemOps E) (RA K CB : Nat) (A B C : Ref)
    (rest : State E → Except Err (State E)) (table : List Branch) (s : State E) :
    Mul_unrolled ops RA K CB A B C rest table s =
      match table.find? (fun br => br.guard RA K CB) with
      | some br => execBranch ops RA CB A B C br s
      | none => rest s := by
  induction table with
  | nil => rfl
  | cons br brs ih =>
    simp only [Mul_unrolled, List.find?_cons]
    cases h : br.guard RA K CB with
    | true => simp
    | false => simpa using ih

theorem mem_stdTable (N : Nat) (br : Branch) :
    br ∈ stdTable N ↔
      (∃ r k c, r < N ∧ k < N ∧ c < N ∧ br = stdExact (r + 1) (k + 1) (c + 1)) ∨
      (∃ k, k < N ∧ br = stdLoop (k + 1)) := by
  simp only [stdTable, stdGroup, List.mem_flatMap, List.mem_range, List.mem_append, List.mem_map,
    List.mem_singleton]
  constructor
  · rintro ⟨k, hk, ⟨r, hr, c, hc, h⟩ | h⟩
    · exact Or.inl ⟨r, k, c, hr, hk, hc, h.symm⟩
    · exact Or.inr ⟨k, hk, h⟩
  · rintro (⟨r, k, c, hr, hk, hc, h⟩ | ⟨k, hk, h⟩)
    · exact ⟨k, hk, Or.inl ⟨r, hr, c, hc, h.symm⟩⟩
    · exact ⟨k, hk, Or.inr h⟩

theorem guard_stdExact (r k c RA K CB : Nat) :
    (stdExact r k c).guard RA K CB = true ↔ RA = r ∧ K = k ∧ CB = c := by
  simp only [stdExact, Branch.guard, Bool.and_eq_true, beq_iff_eq]
  constructor
  · rintro ⟨⟨⟨h1, h2⟩, _⟩, h4⟩; exact ⟨h1, h2, h4⟩
  · rintro ⟨h1, h2, h3⟩; exact ⟨⟨⟨h1, h2⟩, h2⟩, h3⟩

theorem guard_stdLoop (k RA K CB : Nat) :
    (stdLoop k).guard RA K CB = true ↔ K = k := by
  simp [stdLoop, Branch.guard]

/-- Which branch of a regular table runs: none when `_ColsA` is above the bound,
and otherwise a regular branch for the shape of the call, which is the
semi-generic one when `_RowsA` or `_ColsB` is above the bound. -/
theorem find_stdTable (N RA K CB : Nat) (hK : 1 ≤ K) :
    (N < K ∧ (stdTable N).find? (fun br => br.guard RA K CB) = none) ∨
    (K ≤ N ∧ ∃ br, (stdTable N).find? (fun br => br.guard RA K CB) = some br ∧
      IsStd br RA K CB ∧ (N < RA ∨ N < CB → br = stdLoop K)) := by
  cases h : (stdTable N).find? (fun br => br.guard RA K CB) with
  | none =>
    rw [List.find?_eq_none] at h
    by_cases hKN : K ≤ N
    · exfalso
      have hm : stdLoop K ∈ stdTable N :=
        (mem_stdTable N _).mpr (Or.inr ⟨K - 1, by omega, by congr 1; omega⟩)
      exact h _ hm ((guard_stdLoop K RA K CB).mpr rfl)
    · exact Or.inl ⟨by omega, rfl⟩
  | some br =>
    have hg : br.guard RA K CB = true := List.find?_some h
    have hm : br ∈ stdTable N := List.mem_of_find?_eq_some h
    rcases (mem_stdTable N br).mp hm with ⟨r, k, c, hr, hk, hc, hbr⟩ | ⟨k, hk, hbr⟩
    · subst hbr
      obtain ⟨h1, h2, h3⟩ := (guard_stdExact _ _ _ _ _ _).mp hg
      subst h1 h2 h3
      exact Or.inr ⟨by omega, _, rfl, Or.inl rfl, fun hN => absurd hN (by omega)⟩
    · subst hbr
      have h2 := (guard_stdLoop _ _ _ _).mp hg
      subst h2
      exact Or.inr ⟨by omega, _, rfl, Or.inr rfl, fun _ => rfl⟩

/-! ## The generic fallback -/

theorem memset0_ok (s : State E) (zero : E) {C : Ref} {RA CB : Nat}
    (hC : HasShape (s.heap C) RA CB) :
    s.memset0 zero C (CB * RA) =
      .ok ((s.logs [.index C 0]).setMat C
        { s.heap C with p_mat := List.replicate (RA * CB) zero }) := by
  obtain ⟨_, _, h3⟩ := hC
  unfold State.memset0 State.index
  rw [Nat.mul_comm CB RA]
  simp only [State.log_heap, Nat.zero_add]
  rw [if_pos (by rw [h3])]
  have hd : (s.heap C).p_mat.drop (RA * CB) = [] :=
    List.drop_eq_nil_of_le (by rw [h3])
  simp [hd, State.log_eq_logs]

theorem accum_ok (ops : ElemOps E) (d : E) {A B C : Ref} {RA K CB : Nat} (r c k idx : Nat)
    (s : State E) (hr : r < RA) (hk : k < K) (hc : c < CB) (hidx : idx < RA * CB)
    (hA : HasShape (s.heap A) RA K) (hB : HasShape (s.heap B) K CB)
    (hC : HasShape (s.heap C) RA CB) :
    (match s.read_at2 A r k with
      | .error e => .error e
      | .ok (x, s1) =>
        match s1.read_at2 B k c with
        | .error e => .error e
        | .ok (y, s2) => s2.plus_assign_index ops C idx (ops.conv (ops.mul x y)) :
        Except Err (State E)) =
      .ok (accumResult ops d A B C r c idx k s) := by
  have hlt : idx < (s.heap C).p_mat.length := by rw [hC.2.2]; exact hidx
  rw [read_at2_ok s d hA hr hk]
  simp only
  rw [read_at2_ok _ d (by simpa using hB) hk hc]
  simp only [State.plus_assign_index, State.index, State.load, State.log_heap]
  rw [List.getElem?_eq_getElem hlt]
  simp only
  rw [store_ok _ _ (by simpa using hlt)]
  simp [accumResult, accumCalls, State.log_eq_logs, State.logs_logs, State.setMat, State.logs,
    List.getElem?_eq_getElem hlt]

/-- The generic fallback does not fail on objects of the right shapes, whichever
of them coincide, and makes exactly the calls `fallbackCalls`. -/
theorem Mul_fallback_extendsBy (ops : ElemOps E) {A B C : Ref} {RA K CB : Nat} (s : State E)
    (hA : HasShape (s.heap A) RA K) (hB : HasShape (s.heap B) K CB)
    (hC : HasShape (s.heap C) RA CB) :
    ∃ t, Mul_fallback ops RA K CB A B C s = .ok t ∧
      ExtendsBy (fallbackCalls A B C RA K CB) s t := by
  unfold Mul_fallback
  simp only
  rw [memset0_ok s ops.zero hC]
  simp only
  have h0 : ExtendsBy [.index C 0] s
      ((s.logs [.index C 0]).setMat C { s.heap C with p_mat := List.replicate (RA * CB) ops.zero }) :=
    ExtendsBy.step s C _ _ (by simp [hC.2.2])
  generalize (s.logs [.index C 0]).setMat C
    { s.heap C with p_mat := List.replicate (RA * CB) ops.zero } = s0 at h0
  have hA0 := h0.shape hA
  have hB0 := h0.shape hB
  have hC0 := h0.shape hC
  obtain ⟨t, ht, _, hE⟩ := forLoop_extendsBy (fun st : Nat × State E => st.2)
    (fun i st => st.1 = i * CB) RA _
    (fun r => (List.range CB).flatMap (fun c =>
      (List.range K).flatMap (fun k => accumCalls A B C r c (r * CB + c) k)))
    (0, s0) (by simp)
    (fun i st l hi hJ hE => by
      obtain ⟨t1, h1, h2, h3⟩ := forLoop_extendsBy (fun st : Nat × State E => st.2)
        (fun j st => st.1 = i * CB + j) CB
        (fun colsB (st : Nat × State E) =>
          match forLoop K (fun rowCol s =>
            match s.read_at2 A i rowCol with
            | .error e => .error e
            | .ok (x, s1) =>
              match s1.read_at2 B rowCol colsB with
              | .error e => .error e
              | .ok (y, s2) => s2.plus_assign_index ops C st.1 (ops.conv (ops.mul x y))) st.2 with
          | .error e => .error e
          | .ok s3 => .ok (st.1 + 1, s3))
        (fun c => (List.range K).flatMap (fun k => accumCalls A B C i c (i * CB + c) k))
        st (by simpa using hJ)
        (fun j st1 l1 hj hJ1 hE1 => by
          obtain ⟨t2, g1, _, g3⟩ := forLoop_extendsBy (fun s : State E => s) (fun _ _ => True) K
            (fun rowCol s =>
              match s.read_at2 A i rowCol with
              | .error e => .error e
              | .ok (x, s1) =>
                match s1.read_at2 B rowCol j with
                | .error e => .error e
                | .ok (y, s2) => s2.plus_assign_index ops C st1.1 (ops.conv (ops.mul x y)))
            (fun k => accumCalls A B C i j (i * CB + j) k) st1.2 trivial
            (fun k s2 l2 hk _ hE2 => by
              have hs2 := (hE.trans hE1).trans hE2
              refine ⟨_, accum_ok ops ops.zero i j k st1.1 s2 hi hk hj
                (by rw [hJ1]; exact pos_lt hi hj) (hs2.shape hA0) (hs2.shape hB0)
                (hs2.shape hC0), trivial, ?_⟩
              rw [hJ1]
              exact ExtendsBy.step s2 C _ _ (by simp))
          refine ⟨(st1.1 + 1, t2), ?_, by simp [hJ1]; omega, g3⟩
          simp only [g1])
      exact ⟨t1, h1, by show t1.1 = (i + 1) * CB; rw [h2, Nat.succ_mul], h3⟩)
  split
  · next e heq => exact absurd (heq.symm.trans ht) (by simp)
  · next st heq =>
    have hst : st = t := Except.ok.inj (heq.symm.trans ht)
    subst hst
    exact ⟨_, rfl, h0.trans hE⟩

theorem accumResult_step (ops : ElemOps E) (d : E) {A B C : Ref} {RA CB r c k K : Nat}
    {s0 s : State E} (hAC : A ≠ C) (hBC : B ≠ C) (hr : r < RA) (hc : c < CB)
    (h1 : Filled s0 C RA CB (accumValue ops d (s0.heap A) (s0.heap B) K) (r * CB + c) s)
    (h2 : ∀ i, r * CB + c < i → i < RA * CB → (s.heap C).p_mat[i]? = some ops.zero)
    (h3 : (s.heap C).p_mat[r * CB + c]? = some (accumValue ops d (s0.heap A) (s0.heap B) k r c)) :
    Filled s0 C RA CB (accumValue ops d (s0.heap A) (s0.heap B) K) (r * CB + c)
        (accumResult ops d A B C r c (r * CB + c) k s) ∧
      (∀ i, r * CB + c < i → i < RA * CB →
        ((accumResult ops d A B C r c (r * CB + c) k s).heap C).p_mat[i]? = some ops.zero) ∧
      ((accumResult ops d A B C r c (r * CB + c) k s).heap C).p_mat[r * CB + c]? =
        some (accumValue ops d (s0.heap A) (s0.heap B) (k + 1) r c) := by
  obtain ⟨f1, f2, f3⟩ := h1
  have hlt : r * CB + c < (s.heap C).p_mat.length := by rw [f2.2.2]; exact pos_lt hr hc
  unfold accumResult
  refine ⟨⟨?_, ?_, ?_⟩, ?_, ?_⟩
  · intro o ho
    rw [State.setMat_heap_ne _ _ _ _ ho]
    exact f1 o ho
  · rw [State.setMat_heap_self]
    exact ⟨f2.1, f2.2.1, by simp [f2.2.2]⟩
  · intro i hi
    rw [State.setMat_heap_self]
    simp only
    rw [List.getElem?_set_ne (by omega)]
    exact f3 i hi
  · intro i hi hi2
    rw [State.setMat_heap_self]
    simp only
    rw [List.getElem?_set_ne (by omega)]
    exact h2 i hi hi2
  · rw [State.setMat_heap_self]
    simp only
    rw [List.getElem?_set_self hlt, List.getD_eq_getElem?_getD, h3, f1 A hAC, f1 B hBC]
    simp [accumValue, List.range_succ, List.foldl_append]

/-- The generic fallback, when the output is a different object from both inputs:
every cell of `C` ends with the accumulated sum, whatever `C` held before, and
nothing else changes. -/
theorem Mul_fallback_filled (ops : ElemOps E) {A B C : Ref} {RA K CB : Nat} (s : State E)
    (hA : HasShape (s.heap A) RA K) (hB : HasShape (s.heap B) K CB)
    (hC : HasShape (s.heap C) RA CB) (hAC : A ≠ C) (hBC : B ≠ C) :
    ∃ t, Mul_fallback ops RA K CB A B C s = .ok t ∧
      t.heap C = mkMat RA CB (accumValue ops ops.zero (s.heap A) (s.heap B) K) ∧
      ∀ o, o ≠ C → t.heap o = s.heap o := by
  unfold Mul_fallback
  simp only
  rw [memset0_ok s ops.zero hC]
  simp only
  have key := nested_inv
    (fun n (st : Nat × State E) => st.1 = n ∧
      Filled s C RA CB (accumValue ops ops.zero (s.heap A) (s.heap B) K) n st.2 ∧
      ∀ i, n ≤ i → i < RA * CB → (st.2.heap C).p_mat[i]? = some ops.zero)
    RA CB
    (fun rowsA colsB (st : Nat × State E) =>
      match forLoop K (fun rowCol s =>
        match s.read_at2 A rowsA rowCol with
        | .error e => .error e
        | .ok (x, s1) =>
          match s1.read_at2 B rowCol colsB with
          | .error e => .error e
          | .ok (y, s2) => s2.plus_assign_index ops C st.1 (ops.conv (ops.mul x y))) st.2 with
      | .error e => .error e
      | .ok s3 => .ok (st.1 + 1, s3))
    (0, (s.logs [.index C 0]).setMat C { s.heap C with p_mat := List.replicate (RA * CB) ops.zero })
    ⟨rfl, ⟨fun o ho => by rw [State.setMat_heap_ne _ _ _ _ ho]; rfl,
        by rw [State.setMat_heap_self]; exact ⟨hC.1, hC.2.1, by simp⟩,
        fun i hi => absurd hi (Nat.not_lt_zero i)⟩,
      fun i _ hi => by
        rw [State.setMat_heap_self]
        simp [hi]⟩
    (fun i j st hi hj hP => by
      obtain ⟨p1, p2, p3⟩ := hP
      have hinv := forLoop_inv
        (fun k (t : State E) =>
          Filled s C RA CB (accumValue ops ops.zero (s.heap A) (s.heap B) K) (i * CB + j) t ∧
          (∀ m, i * CB + j < m → m < RA * CB → (t.heap C).p_mat[m]? = some ops.zero) ∧
          (t.heap C).p_mat[i * CB + j]? =
            some (accumValue ops ops.zero (s.heap A) (s.heap B) k i j))
        K
        (fun rowCol s =>
          match s.read_at2 A i rowCol with
          | .error e => .error e
          | .ok (x, s1) =>
            match s1.read_at2 B rowCol j with
            | .error e => .error e
            | .ok (y, s2) => s2.plus_assign_index ops C st.1 (ops.conv (ops.mul x y)))
        st.2
        ⟨p2, fun m hm hm2 => p3 m (by omega) hm2, by
          rw [p3 _ (Nat.le_refl _) (pos_lt hi hj)]; rfl⟩
        (fun k t hk hQ => by
          obtain ⟨q1, q2, q3⟩ := hQ
          refine ⟨_, accum_ok ops ops.zero i j k st.1 t hi hk hj (by rw [p1]; exact pos_lt hi hj)
            (by rw [q1.1 A hAC]; exact hA) (by rw [q1.1 B hBC]; exact hB) q1.2.1, ?_⟩
          rw [p1]
          exact accumResult_step ops ops.zero hAC hBC hi hj q1 q2 q3)
      obtain ⟨t, ht, q1, q2, q3⟩ := hinv
      refine ⟨(st.1 + 1, t), by simp only [ht], by simp [p1], ⟨q1.1, q1.2.1, ?_⟩, ?_⟩
      · intro m hm
        by_cases hmn : m = i * CB + j
        · subst hmn
          rw [q3, pos_div hj, pos_mod hj]
        · exact q1.2.2 m (by omega)
      · intro m hm hm2
        exact q2 m (by omega) hm2)
  obtain ⟨t, ht, _, ⟨f1, f2, f3⟩, _⟩ := key
  split
  · next e heq => exact absurd (heq.symm.trans ht) (by simp)
  · next st heq =>
    have hst : st = t := Except.ok.inj (heq.symm.trans ht)
    subst hst
    exact ⟨_, rfl, eq_mkMat _ _ f2 f3, f1⟩

/-! ## The tables of the source follow the regular pattern -/

set_option maxRecDepth 100000 in
theorem Mul_unrolled_3x3_eq : Mul_unrolled_3x3 = stdTable 3 := by decide

set_option maxRecDepth 100000 in
theorem Mul_unrolled_4x4_eq : Mul_unrolled_4x4 = stdTable 4 := by decide

set_option maxRecDepth 100000 in
theorem Mul_unrolled_5x5_eq : Mul_unrolled_5x5 = stdTable 5 := by decide

theorem Build.bound_cases (b : Build) :
    b.bound = none ∨ b.bound = some 3 ∨ b.bound = some 4 ∨ b.bound = some 5 := by
  unfold Build.bound
  split
  · simp
  · split
    · simp
    · split <;> simp

theorem Build.bound_some {b : Build} {N : Nat} (h : b.bound = some N) :
    N = 3 ∨ N = 4 ∨ N = 5 := by
  rcases b.bound_cases with h1 | h1 | h1 | h1 <;> rw [h1] at h <;> simp at h <;> omega

theorem unrolledTable_eq {N : Nat} (h : N = 3 ∨ N = 4 ∨ N = 5) :
    unrolledTable N = stdTable N := by
  rcases h with h | h | h <;> subst h
  · exact Mul_unrolled_3x3_eq
  · exact Mul_unrolled_4x4_eq
  · exact Mul_unrolled_5x5_eq

theorem Build.unrolled_some {b : Build} {N : Nat} (h : b.bound = some N) :
    b.unrolled = some (stdTable N) := by
  unfold Build.unrolled
  rw [h, Option.map_some', unrolledTable_eq (Build.bound_some h)]

theorem Build.unrolled_none {b : Build} (h : b.bound = none) : b.unrolled = none := by
  unfold Build.unrolled
  rw [h]; rfl

set_option maxRecDepth 100000 in
/-- In each of the three tables, the first branch whose condition holds for a
shape within the bound is the exact-shape branch of that shape. -/
theorem find_exact {N : Nat} (h : N = 3 ∨ N = 4 ∨ N = 5) :
    ∀ RA, RA < N → ∀ K, K < N → ∀ CB, CB < N →
      (stdTable N).find? (fun br => br.guard (RA + 1) (K + 1) (CB + 1)) =
        some (stdExact (RA + 1) (K + 1) (CB + 1)) := by
  rcases h with h | h | h <;> subst h <;> decide

/-! ## The aliasing test -/

@[simp] theorem Mul_alias_check_heap (RA K CB : Nat) (A B C : Ref) (s : State E) :
    (Mul_alias_check RA K CB A B C s).heap = s.heap := by
  unfold Mul_alias_check
  simp only
  split <;> [split <;> split; skip] <;> rfl

@[simp] theorem Mul_alias_check_calls (RA K CB : Nat) (A B C : Ref) (s : State E) :
    (Mul_alias_check RA K CB A B C s).calls = s.calls := by
  unfold Mul_alias_check
  simp only
  split <;> [split <;> split; skip] <;> rfl

@[simp] theorem Mul_alias_check_next (RA K CB : Nat) (A B C : Ref) (s : State E) :
    (Mul_alias_check RA K CB A B C s).next = s.next := by
  unfold Mul_alias_check
  simp only
  split <;> [split <;> split; skip] <;> rfl

theorem Mul_alias_check_distinct (RA K CB : Nat) {A B C : Ref} (s : State E)
    (hAC : A ≠ C) (hBC : B ≠ C) : Mul_alias_check RA K CB A B C s = s := by
  unfold Mul_alias_check
  simp [hAC, hBC]

theorem Mul_alias_check_same (RA K : Nat) (A B : Ref) (s : State E) :
    (Mul_alias_check RA K K A B A s).cerr =
      s.cerr ++ [warnA] ++ (if B = A then [warnB] else []) := by
  unfold Mul_alias_check
  by_cases h : B = A <;> simp [h]

/-! ## Which code `Mul` runs -/

theorem Mul_eq_fallback (bld : Build) (ops : ElemOps E) (RA K CB : Nat) (A B C : Ref)
    (s : State E) (hK : 1 ≤ K) (h : bld.bound = none ∨ ∃ N, bld.bound = some N ∧ N < K) :
    Mul bld ops RA K CB A B C s =
      Mul_fallback ops RA K CB A B C (Mul_alias_check RA K CB A B C s) := by
  unfold Mul
  rcases h with h | ⟨N, hN, hlt⟩
  · rw [Build.unrolled_none h]
  · rw [Build.unrolled_some hN]
    simp only
    rw [Mul_unrolled_find]
    rcases find_stdTable N RA K CB hK with ⟨_, hf⟩ | ⟨hle, _⟩
    · rw [hf]
    · omega

theorem Mul_eq_branch (bld : Build) (ops : ElemOps E) (RA K CB : Nat) (A B C : Ref)
    (s : State E) {N : Nat} (hN : bld.bound = some N) (hK : 1 ≤ K) (hKN : K ≤ N) :
    ∃ br, (unrolledTable N).find? (fun br => br.guard RA K CB) = some br ∧ IsStd br RA K CB ∧
      (N < RA ∨ N < CB → br = stdLoop K) ∧
      Mul bld ops RA K CB A B C s =
        execBranch ops RA CB A B C br (Mul_alias_check RA K CB A B C s) := by
  unfold Mul
  rw [Build.unrolled_some hN, unrolledTable_eq (Build.bound_some hN)]
  simp only
  rw [Mul_unrolled_find]
  rcases find_stdTable N RA K CB hK with ⟨hlt, _⟩ | ⟨_, br, hf, hstd, hloop⟩
  · omega
  · exact ⟨br, hf, hstd, hloop, by rw [hf]⟩

/-! ## The values stored -/

theorem mkMat_congr {R C : Nat} {f g : Nat → Nat → E}
    (h : ∀ r c, r < R → c < C → f r c = g r c) : mkMat R C f = mkMat R C g := by
  unfold mkMat
  congr 1
  apply List.map_congr_left
  intro i hi
  rw [List.mem_range] at hi
  have hC : 0 < C := by
    rcases Nat.eq_zero_or_pos C with h0 | h0
    · subst h0; simp at hi
    · exact h0
  exact h _ _ ((Nat.div_lt_iff_lt_mul hC).mpr hi) (Nat.mod_lt _ hC)

theorem sumLeft_congr (add : E → E → E) {p q : Nat → E} {n : Nat} (hn : 1 ≤ n)
    (h : ∀ k, k < n → p k = q k) : sumLeft add p n = sumLeft add q n := by
  unfold sumLeft
  rw [h 0 (by omega)]
  apply List.foldl_ext
  intro a k hk
  rw [List.mem_range] at hk
  rw [h (k + 1) (by omega)]

theorem assignValue_mkMat (ops : ElemOps E) (d : E) {RA K CB r c : Nat}
    (fa fb : Nat → Nat → E) (hr : r < RA) (hc : c < CB) (hK : 1 ≤ K) :
    assignValue ops d (mkMat RA K fa) (mkMat K CB fb) K r c = unrolledValue ops fa fb K r c := by
  unfold assignValue unrolledValue
  congr 1
  apply sumLeft_congr ops.add hK
  intro k hk
  rw [elem_mkMat fa d hr hk, elem_mkMat fb d hk hc]

theorem accumValue_mkMat (ops : ElemOps E) (d : E) {RA K CB r c : Nat}
    (fa fb : Nat → Nat → E) (hr : r < RA) (hc : c < CB) :
    accumValue ops d (mkMat RA K fa) (mkMat K CB fb) K r c = fallbackValue ops fa fb K r c := by
  unfold accumValue fallbackValue
  apply List.foldl_ext
  intro a k hk
  rw [List.mem_range] at hk
  rw [elem_mkMat fa d hr hk, elem_mkMat fb d hk hc]

theorem sumLeft_succ (add : E → E → E) (p : Nat → E) (n : Nat) :
    sumLeft add p (n + 2) = add (sumLeft add p (n + 1)) (p (n + 1)) := by
  simp [sumLeft, List.range_succ, List.foldl_append]

theorem unrolledValue_ring {R : Type} [Semiring R] (fa fb : Nat → Nat → R) {K : Nat}
    (hK : 1 ≤ K) (r c : Nat) :
    unrolledValue (ringOps R) fa fb K r c = Mul_reference fa fb K r c := by
  obtain ⟨n, rfl⟩ : ∃ n, K = n + 1 := ⟨K - 1, by omega⟩
  unfold unrolledValue Mul_reference
  show sumLeft (fun x y => x + y) (fun k => fa r k * fb k c) (n + 1) = _
  induction n with
  | zero => simp [sumLeft, List.range_succ]
  | succ n ih =>
    rw [sumLeft_succ, ih (by omega), List.range_succ (n + 1), List.map_append, List.sum_append]
    simp

theorem fallbackValue_ring {R : Type} [Semiring R] (fa fb : Nat → Nat → R) (K r c : Nat) :
    fallbackValue (ringOps R) fa fb K r c = Mul_reference fa fb K r c := by
  unfold fallbackValue Mul_reference
  show List.foldl (fun acc k => acc + fa r k * fb k c) 0 (List.range K) = _
  induction K with
  | zero => simp
  | succ n ih =>
    rw [List.range_succ, List.foldl_append, ih, List.map_append, List.sum_append]
    simp

theorem fallbackCalls_ok {A B C : Ref} {RA K CB : Nat} (heap : Ref → Matrix2D E)
    (hA : HasShape (heap A) RA K) (hB : HasShape (heap B) K CB) (hC : HasShape (heap C) RA CB)
    (hRA : 1 ≤ RA) (hCB : 1 ≤ CB) :
    ∀ x ∈ fallbackCalls A B C RA K CB, Access.inBounds heap x := by
  intro x hx
  simp only [fallbackCalls, accumCalls, List.mem_append, List.mem_singleton, List.mem_flatMap,
    List.mem_range, List.mem_cons, List.not_mem_nil, or_false] at hx
  rcases hx with hx | ⟨r, hr, c, hc, k, hk, hx | hx | hx⟩ <;> subst hx
  · simp only [Access.inBounds, hC.1, hC.2.1]
    exact Nat.mul_pos hRA hCB
  · simp only [Access.inBounds, hA.1, hA.2.1]
    exact ⟨hr, hk⟩
  · simp only [Access.inBounds, hB.1, hB.2.1]
    exact ⟨hk, hc⟩
  · simp only [Access.inBounds, hC.1, hC.2.1]
    exact pos_lt hr hc

/-! ## What `Mul` does, by tier -/

/-- When `_ColsA` is within the bound of the build and `C` is a different object
from `A` and `B`, an unrolled branch runs. -/
theorem Mul_unrolled_spec (bld : Build) (ops : ElemOps E) {RA K CB N : Nat} {A B C : Ref}
    (s : State E) (fa fb : Nat → Nat → E) (hN : bld.bound = some N) (hK : 1 ≤ K) (hKN : K ≤ N)
    (hAC : A ≠ C) (hBC : B ≠ C)
    (hA : s.heap A = mkMat RA K fa) (hB : s.heap B = mkMat K CB fb)
    (hC : HasShape (s.heap C) RA CB) :
    ∃ br t, (unrolledTable N).find? (fun br => br.guard RA K CB) = some br ∧
      IsStd br RA K CB ∧ (N < RA ∨ N < CB → br = stdLoop K) ∧
      Mul bld ops RA K CB A B C s = .ok t ∧ execBranch ops RA CB A B C br s = .ok t ∧
      t.heap C = mkMat RA CB (unrolledValue ops fa fb K) ∧
      (∀ o, o ≠ C → t.heap o = s.heap o) ∧
      ExtendsBy (branchCalls A B C RA K CB) s t := by
  obtain ⟨br, hf, hstd, hloop, hM⟩ := Mul_eq_branch bld ops RA K CB A B C s hN hK hKN
  rw [Mul_alias_check_distinct RA K CB s hAC hBC] at hM
  have hA1 : HasShape (s.heap A) RA K := by rw [hA]; exact mkMat_shape _ _ _
  have hB1 : HasShape (s.heap B) K CB := by rw [hB]; exact mkMat_shape _ _ _
  obtain ⟨t, ht, h1, h2⟩ := execBranch_filled ops hstd s hA1 hB1 hC hK hAC hBC
  obtain ⟨t1, ht1, h3⟩ := execBranch_extendsBy ops hstd s hA1 hB1 hC hK
  have : t1 = t := Except.ok.inj (ht1.symm.trans ht)
  subst this
  refine ⟨br, t1, hf, hstd, hloop, by rw [hM, ht], ht, ?_, h2, h3⟩
  rw [h1, hA, hB]
  exact mkMat_congr (fun r c hr hc => assignValue_mkMat ops _ fa fb hr hc hK)

/-- When `_ColsA` is above the bound of the build, or nothing is unrolled, and `C`
is a different object from `A` and `B`, the generic fallback runs. -/
theorem Mul_fallback_spec (bld : Build) (ops : ElemOps E) {RA K CB : Nat} {A B C : Ref}
    (s : State E) (fa fb : Nat → Nat → E) (hK : 1 ≤ K)
    (h : bld.bound = none ∨ ∃ N, bld.bound = some N ∧ N < K)
    (hAC : A ≠ C) (hBC : B ≠ C)
    (hA : s.heap A = mkMat RA K fa) (hB : s.heap B = mkMat K CB fb)
    (hC : HasShape (s.heap C) RA CB) :
    ∃ t, Mul bld ops RA K CB A B C s = .ok t ∧ Mul_fallback ops RA K CB A B C s = .ok t ∧
      t.heap C = mkMat RA CB (fallbackValue ops fa fb K) ∧
      (∀ o, o ≠ C → t.heap o = s.heap o) ∧
      ExtendsBy (fallbackCalls A B C RA K CB) s t := by
  have hM := Mul_eq_fallback bld ops RA K CB A B C s hK h
  rw [Mul_alias_check_distinct RA K CB s hAC hBC] at hM
  have hA1 : HasShape (s.heap A) RA K := by rw [hA]; exact mkMat_shape _ _ _
  have hB1 : HasShape (s.heap B) K CB := by rw [hB]; exact mkMat_shape _ _ _
  obtain ⟨t, ht, h1, h2⟩ := Mul_fallback_filled ops s hA1 hB1 hC hAC hBC
  obtain ⟨t1, ht1, h3⟩ := Mul_fallback_extendsBy ops s hA1 hB1 hC
  have : t1 = t := Except.ok.inj (ht1.symm.trans ht)
  subst this
  refine ⟨t1, by rw [hM, ht], ht, ?_, h2, h3⟩
  rw [h1, hA, hB]
  exact mkMat_congr (fun r c hr hc => accumValue_mkMat ops _ fa fb hr hc)

/-- Every build falls under one of the two cases. -/
theorem Build.tier_cases (bld : Build) (K : Nat) :
    (∃ N, bld.bound = some N ∧ K ≤ N) ∨
    (bld.bound = none ∨ ∃ N, bld.bound = some N ∧ N < K) := by
  cases h : bld.bound with
  | none => exact Or.inr (Or.inl rfl)
  | some N =>
    by_cases hk : K ≤ N
    · exact Or.inl ⟨N, rfl, hk⟩
    · exact Or.inr (Or.inr ⟨N, rfl, by omega⟩)

/-- In every build and whichever objects coincide, `Mul` returns, keeps the shape
of every object, creates none, prints nothing after the aliasing test, and makes
the accessor calls of a regular branch or those of the fallback. -/
theorem Mul_returns (bld : Build) (ops : ElemOps E) {RA K CB : Nat} {A B C : Ref} (s : State E)
    (hK : 1 ≤ K) (hA : HasShape (s.heap A) RA K) (hB : HasShape (s.heap B) K CB)
    (hC : HasShape (s.heap C) RA CB) :
    ∃ t l, Mul bld ops RA K CB A B C s = .ok t ∧
      ExtendsBy l (Mul_alias_check RA K CB A B C s) t ∧
      (l = branchCalls A B C RA K CB ∨ l = fallbackCalls A B C RA K CB) := by
  rcases bld.tier_cases K with ⟨N, hN, hKN⟩ | h
  · obtain ⟨br, _, hstd, _, hM⟩ := Mul_eq_branch bld ops RA K CB A B C s hN hK hKN
    obtain ⟨t, ht, hE⟩ := execBranch_extendsBy ops hstd (Mul_alias_check RA K CB A B C s)
      (by simpa using hA) (by simpa using hB) (by simpa using hC) hK
    exact ⟨t, _, by rw [hM, ht], hE, Or.inl rfl⟩
  · have hM := Mul_eq_fallback bld ops RA K CB A B C s hK h
    obtain ⟨t, ht, hE⟩ := Mul_fallback_extendsBy ops (Mul_alias_check RA K CB A B C s)
      (A := A) (B := B) (C := C) (by simpa using hA) (by simpa using hB) (by simpa using hC)
    exact ⟨t, _, by rw [hM, ht], hE, Or.inr rfl⟩

/-! ## Integer matrices -/

/-- For integer matrices and an output that is a different object from both
inputs, `Mul` leaves the reference product in `C` in every build, and changes
no other object. -/
theorem Mul_ring {R : Type} [Semiring R] (bld : Build) {RA K CB : Nat} (hK : 1 ≤ K)
    {A B C : Ref} (hAC : A ≠ C) (hBC : B ≠ C) (s : State R) (fa fb : Nat → Nat → R)
    (hA : s.heap A = mkMat RA K fa) (hB : s.heap B = mkMat K CB fb)
    (hC : HasShape (s.heap C) RA CB) :
    ∃ t, Mul bld (ringOps R) RA K CB A B C s = .ok t ∧
      t.heap C = mkMat RA CB (Mul_reference fa fb K) ∧ ∀ o, o ≠ C → t.heap o = s.heap o := by
  rcases bld.tier_cases K with ⟨N, hN, hKN⟩ | h
  · obtain ⟨_, t, _, _, _, ht, _, h1, h2, _⟩ :=
      Mul_unrolled_spec bld (ringOps R) s fa fb hN hK hKN hAC hBC hA hB hC
    refine ⟨t, ht, ?_, h2⟩
    rw [h1]
    exact mkMat_congr (fun r c _ _ => unrolledValue_ring fa fb hK r c)
  · obtain ⟨t, ht, _, h1, h2, _⟩ :=
      Mul_fallback_spec bld (ringOps R) s fa fb hK h hAC hBC hA hB hC
    refine ⟨t, ht, ?_, h2⟩
    rw [h1]
    exact mkMat_congr (fun r c _ _ => fallbackValue_ring fa fb K r c)

theorem sum_identity {R : Type} [Semiring R] (f : Nat → R) (c n : Nat) :
    ((List.range n).map (fun k => f k * (if k = c then 1 else 0))).sum =
      if c < n then f c else 0 := by
  induction n with
  | zero => simp
  | succ n ih =>
    rw [List.range_succ, List.map_append, List.sum_append, ih]
    by_cases h1 : c < n
    · have h2 : n ≠ c := by omega
      simp [h1, h2, Nat.lt_succ_of_lt h1]
    · by_cases h2 : n = c
      · subst h2; simp
      · have h3 : ¬ c < n + 1 := by omega
        simp [h1, h2, h3]

theorem operator_eq_self {R : Type} [DecidableEq R] (m : Matrix2D R) : operator_eq m m = true := by
  simp [operator_eq, SameDimensions]

theorem mkMat_take {R : Type} (Rows Cols : Nat) (f : Nat → Nat → R) :
    (⟨Rows, Cols, (mkMat Rows Cols f).p_mat.take (Cols * Rows)⟩ : Matrix2D R) =
      mkMat Rows Cols f := by
  have h : (mkMat Rows Cols f).p_mat.length ≤ Cols * Rows := by
    simp [mkMat, Nat.mul_comm]
  rw [List.take_of_length_le h]
  rfl

/-! ## The multiplication dispatcher: the tiers -/

/-- C1, tier equivalence.  For every build `bld` (unrolled up to 5x5, 4x4 or 3x3, or
nothing unrolled), every shape with `_ColsA >= 1`, integer matrices `A` and `B` (elements
in any semiring, e.g. the integers or the integers modulo `2 ^ w`) and an output `C` that
is a different object from `A` and `B`, whatever `C` held before: `Mul` returns, and the
matrix it leaves in `C` is the reference triple loop,
`C(r, c) = sum over k < _ColsA of A(r, k) * B(k, c)`; it is therefore the same in every
build. -/
theorem Mul_tier_equivalence {R : Type} [Semiring R] (bld : Build) {RA K CB : Nat}
    (hK : 1 ≤ K) {A B C : Ref} (hAC : C ≠ A) (hBC : C ≠ B) (s : State R)
    (fa fb : Nat → Nat → R) (hA : s.heap A = mkMat RA K fa) (hB : s.heap B = mkMat K CB fb)
    (hC : HasShape (s.heap C) RA CB) :
    ∃ t, Mul bld (ringOps R) RA K CB A B C s = .ok t ∧
      t.heap C = mkMat RA CB (Mul_reference fa fb K) := by
  obtain ⟨t, h1, h2, _⟩ := Mul_ring bld hK (Ne.symm hAC) (Ne.symm hBC) s fa fb hA hB hC
  exact ⟨t, h1, h2⟩

/-- Witness of C1: `[[1, 2], [3, 4]] * [[5, 6], [7, 8]]` in the build of `Source.cpp`. -/
theorem Mul_tier_equivalence_witness :
    ∃ t, Mul sourceBuild (ringOps Int) 2 2 2 0 1 2 (exampleState 2 2 2) = .ok t ∧
      t.heap 2 = mkMat 2 2 (Mul_reference (exampleA 2) (exampleB 2) 2) :=
  Mul_tier_equivalence sourceBuild (by decide) (by decide) (by decide) (exampleState 2 2 2)
    (exampleA 2) (exampleB 2) rfl rfl (mkMat_shape 2 2 (fun _ _ => (9 : Int)))

/-- C2, tier 1.  In a build with unrolling bound `N` (3, 4 or 5) and for a shape with
`_RowsA`, `_ColsA` and `_ColsB` all in `[1, N]`, with `C` a different object from `A` and
`B`: the first branch of the table of the source whose condition holds is the exact-shape
branch of that shape; `Mul` runs it and returns; afterwards every element `C(r, c)` holds
the conversion, applied once, of the sum `A(r,0)*B(0,c) + ... + A(r,_ColsA-1)*B(_ColsA-1,c)`
taken from left to right, whatever `C` held before; and the accessor calls made are, for
every cell in row-major order, the `2 * _ColsA` reads in ascending `k` and then the one
call `C.at(r, c)`, so that every element of `C` is written. -/
theorem Mul_tier1_exact_shape (bld : Build) (ops : ElemOps E) {N RA K CB : Nat}
    (hN : bld.bound = some N) (hRA1 : 1 ≤ RA) (hRA : RA ≤ N) (hK1 : 1 ≤ K) (hK : K ≤ N)
    (hCB1 : 1 ≤ CB) (hCB : CB ≤ N) {A B C : Ref} (hAC : C ≠ A) (hBC : C ≠ B) (s : State E)
    (fa fb : Nat → Nat → E) (hA : s.heap A = mkMat RA K fa) (hB : s.heap B = mkMat K CB fb)
    (hC : HasShape (s.heap C) RA CB) :
    (unrolledTable N).find? (fun br => br.guard RA K CB) = some (stdExact RA K CB) ∧
    ∃ t, Mul bld ops RA K CB A B C s = .ok t ∧
      execBranch ops RA CB A B C (stdExact RA K CB) s = .ok t ∧
      t.heap C = mkMat RA CB (unrolledValue ops fa fb K) ∧
      t.calls = s.calls ++ branchCalls A B C RA K CB ∧
      ∀ r c, r < RA → c < CB → Access.at2 C r c ∈ branchCalls A B C RA K CB := by
  have hfind : (unrolledTable N).find? (fun br => br.guard RA K CB) =
      some (stdExact RA K CB) := by
    rw [unrolledTable_eq (Build.bound_some hN)]
    have := find_exact (Build.bound_some hN) (RA - 1) (by omega) (K - 1) (by omega)
      (CB - 1) (by omega)
    rwa [Nat.sub_add_cancel hRA1, Nat.sub_add_cancel hK1, Nat.sub_add_cancel hCB1] at this
  obtain ⟨br, t, hf, _, _, ht, hb, h1, _, h3⟩ :=
    Mul_unrolled_spec bld ops s fa fb hN hK1 hK (Ne.symm hAC) (Ne.symm hBC) hA hB hC
  have hbr : br = stdExact RA K CB := Option.some.inj (hf.symm.trans hfind)
  subst hbr
  exact ⟨hfind, t, ht, hb, h1, h3.2.2.2, fun r c hr hc => branchCalls_writes A B C hr hc⟩

/-- Witness of C2: the 2x2 * 2x2 branch of the table for up to 3x3. -/
theorem Mul_tier1_exact_shape_witness :
    (unrolledTable 3).find? (fun br => br.guard 2 2 2) = some (stdExact 2 2 2) ∧
    ∃ t, Mul sourceBuild (ringOps Int) 2 2 2 0 1 2 (exampleState 2 2 2) = .ok t ∧
      execBranch (ringOps Int) 2 2 0 1 2 (stdExact 2 2 2) (exampleState 2 2 2) = .ok t ∧
      t.heap 2 = mkMat 2 2 (unrolledValue (ringOps Int) (exampleA 2) (exampleB 2) 2) ∧
      t.calls = (exampleState 2 2 2).calls ++ branchCalls 0 1 2 2 2 2 ∧
      ∀ r c, r < 2 → c < 2 → Access.at2 2 r c ∈ branchCalls 0 1 2 2 2 2 :=
  Mul_tier1_exact_shape sourceBuild (ringOps Int) (N := 3) (by decide) (by decide) (by decide)
    (by decide) (by decide) (by decide) (by decide) (by decide) (by decide) (exampleState 2 2 2)
    (exampleA 2) (exampleB 2) rfl rfl (mkMat_shape 2 2 (fun _ _ => (9 : Int)))

/-- C3, tier 2.  In a build with unrolling bound `N` (3, 4 or 5), for `_ColsA` in
`[1, N]` and a shape that no exact-shape branch matches (`_RowsA > N` or `_ColsB > N`),
with `C` a different object from `A` and `B`: the first branch of the table of the source
whose condition holds is the semi-generic branch for `_ColsA`; `Mul` runs it and returns
its result, so the fallback does not run (no `C[index]` call is made, in particular not
the `&C[0]` of the `memset`); afterwards every element `C(r, c)` holds the conversion of
the full sum over `k < _ColsA` of `A(r, k) * B(k, c)`. -/
theorem Mul_tier2_semi_generic (bld : Build) (ops : ElemOps E) {N RA K CB : Nat}
    (hN : bld.bound = some N) (hK1 : 1 ≤ K) (hK : K ≤ N) (hbig : N < RA ∨ N < CB)
    {A B C : Ref} (hAC : C ≠ A) (hBC : C ≠ B) (s : State E)
    (fa fb : Nat → Nat → E) (hA : s.heap A = mkMat RA K fa) (hB : s.heap B = mkMat K CB fb)
    (hC : HasShape (s.heap C) RA CB) :
    (unrolledTable N).find? (fun br => br.guard RA K CB) = some (stdLoop K) ∧
    ∃ t, Mul bld ops RA K CB A B C s = .ok t ∧
      execBranch ops RA CB A B C (stdLoop K) s = .ok t ∧
      t.heap C = mkMat RA CB (unrolledValue ops fa fb K) ∧
      t.calls = s.calls ++ branchCalls A B C RA K CB ∧
      ∀ x ∈ branchCalls A B C RA K CB, x.isAt2 := by
  obtain ⟨br, t, hf, _, hloop, ht, hb, h1, _, h3⟩ :=
    Mul_unrolled_spec bld ops s fa fb hN hK1 hK (Ne.symm hAC) (Ne.symm hBC) hA hB hC
  have hbr : br = stdLoop K := hloop hbig
  subst hbr
  have hA1 : HasShape (s.heap A) RA K := by rw [hA]; exact mkMat_shape _ _ _
  have hB1 : HasShape (s.heap B) K CB := by rw [hB]; exact mkMat_shape _ _ _
  exact ⟨hf, t, ht, hb, h1, h3.2.2.2,
    fun x hx => (branchCalls_ok s.heap hA1 hB1 hC hK1 x hx).2⟩

/-- Witness of C3: a 4x2 * 2x1 product in the build with bound 3. -/
theorem Mul_tier2_semi_generic_witness :
    (unrolledTable 3).find? (fun br => br.guard 4 2 1) = some (stdLoop 2) ∧
    ∃ t, Mul sourceBuild (ringOps Int) 4 2 1 0 1 2 (exampleState 4 2 1) = .ok t ∧
      execBranch (ringOps Int) 4 1 0 1 2 (stdLoop 2) (exampleState 4 2 1) = .ok t ∧
      t.heap 2 = mkMat 4 1 (unrolledValue (ringOps Int) (exampleA 2) (exampleB 1) 2) ∧
      t.calls = (exampleState 4 2 1).calls ++ branchCalls 0 1 2 4 2 1 ∧
      ∀ x ∈ branchCalls 0 1 2 4 2 1, x.isAt2 :=
  Mul_tier2_semi_generic sourceBuild (ringOps Int) (N := 3) (by decide) (by decide) (by decide)
    (by decide) (by decide) (by decide) (exampleState 4 2 1)
    (exampleA 2) (exampleB 1) rfl rfl (mkMat_shape 4 1 (fun _ _ => (9 : Int)))

/-- C4, tier 3.  Whenever the generic fallback is what `Mul` runs (nothing is unrolled
in the build, or `_ColsA` is above the unrolling bound), for `A`, `B` and `C` of the same
integer element type with `C` a different object from `A` and `B`, and for any previous
contents of `C`: `Mul` is the fallback and returns; the `memset` clears `C` (it leaves the
all-zero matrix) before any product is read; the result is
`C(r, c) = sum over k < _ColsA of A(r, k) * B(k, c)`; and the accessor calls are `&C[0]`
followed, for every `r`, `c`, `k` in loop order, by `A.at(r, k)`, `B.at(k, c)` and
`C[r * _ColsB + c]`: the variable `index` equals `r * _ColsB + c` at every accumulation. -/
theorem Mul_tier3_fallback {R : Type} [Semiring R] (bld : Build) {RA K CB : Nat} (hK : 1 ≤ K)
    (h : bld.bound = none ∨ ∃ N, bld.bound = some N ∧ N < K)
    {A B C : Ref} (hAC : C ≠ A) (hBC : C ≠ B) (s : State R)
    (fa fb : Nat → Nat → R) (hA : s.heap A = mkMat RA K fa) (hB : s.heap B = mkMat K CB fb)
    (hC : HasShape (s.heap C) RA CB) :
    (∃ s0, s.memset0 0 C (CB * RA) = .ok s0 ∧ s0.heap C = mkMat RA CB (fun _ _ => 0)) ∧
    ∃ t, Mul bld (ringOps R) RA K CB A B C s = .ok t ∧
      Mul_fallback (ringOps R) RA K CB A B C s = .ok t ∧
      t.heap C = mkMat RA CB (Mul_reference fa fb K) ∧
      t.calls = s.calls ++ fallbackCalls A B C RA K CB := by
  constructor
  · refine ⟨_, memset0_ok s 0 hC, ?_⟩
    rw [State.setMat_heap_self]
    simp [mkMat, hC.1, hC.2.1]
  · obtain ⟨t, ht, hf, h1, _, h3⟩ :=
      Mul_fallback_spec bld (ringOps R) s fa fb hK h (Ne.symm hAC) (Ne.symm hBC) hA hB hC
    refine ⟨t, ht, hf, ?_, h3.2.2.2⟩
    rw [h1]
    exact mkMat_congr (fun r c _ _ => fallbackValue_ring fa fb K r c)

/-- Witness of C4: `[[1, 2], [3, 4]] * [[5, 6], [7, 8]]` in a build that unrolls nothing. -/
theorem Mul_tier3_fallback_witness :
    (∃ s0, (exampleState 2 2 2).memset0 0 2 (2 * 2) = .ok s0 ∧
      s0.heap 2 = mkMat 2 2 (fun _ _ => 0)) ∧
    ∃ t, Mul debugBuild (ringOps Int) 2 2 2 0 1 2 (exampleState 2 2 2) = .ok t ∧
      Mul_fallback (ringOps Int) 2 2 2 0 1 2 (exampleState 2 2 2) = .ok t ∧
      t.heap 2 = mkMat 2 2 (Mul_reference (exampleA 2) (exampleB 2) 2) ∧
      t.calls = (exampleState 2 2 2).calls ++ fallbackCalls 0 1 2 2 2 2 :=
  Mul_tier3_fallback debugBuild (by decide) (Or.inl (by decide)) (by decide) (by decide)
    (exampleState 2 2 2) (exampleA 2) (exampleB 2) rfl rfl (mkMat_shape 2 2 (fun _ _ => (9 : Int)))

/-! ## Conversions, `operator *=`, aliasing, safety, identity -/

theorem truncOps_conv_half : truncOps.conv (1 / 2 * 1) = 0 := by
  have h : ⌊(1 / 2 * 1 : ℚ)⌋ = 0 := by
    rw [Int.floor_eq_iff]; constructor <;> norm_num
  simp only [truncOps]
  rw [if_pos (by norm_num), h]
  norm_num

theorem truncOps_conv_one : truncOps.conv (1 / 2 * 1 + 1 / 2 * 1) = 1 := by
  have h : ⌊(1 / 2 * 1 + 1 / 2 * 1 : ℚ)⌋ = 1 := by
    rw [Int.floor_eq_iff]; constructor <;> norm_num
  simp only [truncOps]
  rw [if_pos (by norm_num), h]
  norm_num

/-- C5, a defect of the fallback.  With rational products and an integer `C`
(truncation), for `A = [[1/2, 1/2]]` and `B = [[1], [1]]`: the fallback (debug build
without flags) converts every product before adding it and leaves `C = [[0]]`; the
unrolled 1x2 * 2x1 branch (build of `Source.cpp`) converts the complete sum once and
leaves `C = [[1]]`, which is the conversion of the sum `1/2 * 1 + 1/2 * 1`. -/
theorem Mul_fallback_converts_each_product :
    (∃ t, Mul debugBuild truncOps 1 2 1 0 1 2 halvesState = .ok t ∧ (t.heap 2).p_mat = [0]) ∧
    (∃ t, Mul sourceBuild truncOps 1 2 1 0 1 2 halvesState = .ok t ∧ (t.heap 2).p_mat = [1]) ∧
    truncOps.conv (1 / 2 * 1 + 1 / 2 * 1) = 1 := by
  refine ⟨?_, ?_, truncOps_conv_one⟩
  · obtain ⟨t, ht, _, h1, _⟩ := @Mul_fallback_spec ℚ debugBuild truncOps 1 2 1
      0 1 2 halvesState (fun _ _ => 1 / 2) (fun _ _ => 1) (by decide)
      (Or.inl (by decide)) (by decide) (by decide) rfl rfl (mkMat_shape 1 1 (fun _ _ => (7 : ℚ)))
    refine ⟨t, ht, ?_⟩
    rw [h1]
    show [truncOps.plus_assign (truncOps.plus_assign truncOps.zero
      (truncOps.conv (truncOps.mul (1 / 2) 1))) (truncOps.conv (truncOps.mul (1 / 2) 1))] = [0]
    have hc : truncOps.conv (truncOps.mul (1 / 2) 1) = 0 := truncOps_conv_half
    rw [hc]
    show [(0 : ℚ) + 0 + 0] = [0]
    norm_num
  · obtain ⟨_, t, _, _, _, ht, _, h1, _⟩ := @Mul_unrolled_spec ℚ sourceBuild truncOps 1
      2 1 3 0 1 2 halvesState (fun _ _ => 1 / 2)
      (fun _ _ => 1) (by decide) (by decide) (by decide) (by decide) (by decide) rfl rfl
      (mkMat_shape 1 1 (fun _ _ => (7 : ℚ)))
    refine ⟨t, ht, ?_⟩
    rw [h1]
    show [truncOps.conv (truncOps.add (truncOps.mul (1 / 2) 1) (truncOps.mul (1 / 2) 1))] = [1]
    have hc : truncOps.conv (truncOps.add (truncOps.mul (1 / 2) 1) (truncOps.mul (1 / 2) 1)) = 1 :=
      truncOps_conv_one
    rw [hc]

set_option maxRecDepth 100000 in
/-- C6, a defect of `operator *=`.  For `X = [[1, 2], [3, 4]]`, whose square is
`[[7, 10], [15, 22]]`, the statement `X *= X` leaves `[[7, 10], [33, 46]]` in the build
of `Source.cpp` and the zero matrix in a build that unrolls nothing, and prints the
warning that input `B` is the output `C`: only the left operand is copied, the right
operand `_mat2` is still the object that `Mul` overwrites. -/
theorem operator_mul_assign_self_wrong :
    (operator_mul_assign sourceBuild (ringOps Int) 2 2 2 2 0 0 (exampleState 2 2 2)).toOption.map
        (fun t => ((t.heap 0).p_mat, t.cerr)) = some ([7, 10, 33, 46], [warnB]) ∧
    (operator_mul_assign debugBuild (ringOps Int) 2 2 2 2 0 0 (exampleState 2 2 2)).toOption.map
        (fun t => ((t.heap 0).p_mat, t.cerr)) = some ([0, 0, 0, 0], [warnB]) ∧
    (mkMat 2 2 (Mul_reference (exampleA 2) (exampleA 2) 2)).p_mat = [7, 10, 15, 22] := by
  decide

/-- C7, `operator *=` with a distinct right operand.  For every integer matrix `X`
(`_Rows` x `_Cols`, `_Cols >= 1`) and every square integer matrix `Y` (`_Cols` x `_Cols`)
that is a different object from `X`, both live in a state whose next free address is
`s.next`: `X *= Y` returns, afterwards
`X(r, c) = sum over k < _Cols of X_old(r, k) * Y(k, c)`, and `Y` is unchanged. -/
theorem operator_mul_assign_distinct {R : Type} [Semiring R] (bld : Build) {Rows Cols : Nat}
    (hCols : 1 ≤ Cols) {this mat2 : Ref} (hne : this ≠ mat2) (s : State R)
    (hthis : this < s.next) (hmat2 : mat2 < s.next) (fx fy : Nat → Nat → R)
    (hX : s.heap this = mkMat Rows Cols fx) (hY : s.heap mat2 = mkMat Cols Cols fy) :
    ∃ t, operator_mul_assign bld (ringOps R) Rows Cols Cols Cols this mat2 s = .ok t ∧
      t.heap this = mkMat Rows Cols (Mul_reference fx fy Cols) ∧
      t.heap mat2 = s.heap mat2 := by
  have h1 : this ≠ s.next := Nat.ne_of_lt hthis
  have h2 : mat2 ≠ s.next := Nat.ne_of_lt hmat2
  unfold operator_mul_assign copy_construct
  rw [if_neg (by simp), if_neg (by simp), if_pos (by rw [hX]; simp [mkMat, Nat.mul_comm])]
  simp only
  obtain ⟨t, ht, h3, h4⟩ := @Mul_ring R _ bld Rows Cols Cols hCols s.next mat2 this
    (Ne.symm h1) (Ne.symm hne)
    { s.setMat s.next ⟨Rows, Cols, (s.heap this).p_mat.take (Cols * Rows)⟩ with
      next := s.next + 1 } fx fy
    (by show (s.setMat s.next _).heap s.next = _
        rw [State.setMat_heap_self, hX, mkMat_take])
    (by show (s.setMat s.next _).heap mat2 = _
        rw [State.setMat_heap_ne _ _ _ _ h2, hY])
    (by show HasShape ((s.setMat s.next _).heap this) Rows Cols
        rw [State.setMat_heap_ne _ _ _ _ h1, hX]; exact mkMat_shape _ _ _)
  refine ⟨t, ht, h3, ?_⟩
  rw [h4 mat2 (Ne.symm hne)]
  show (s.setMat s.next _).heap mat2 = _
  rw [State.setMat_heap_ne _ _ _ _ h2]

/-- Witness of C7: `X = [[1, 2], [3, 4]]` at address 0 and `Y = [[5, 6], [7, 8]]` at
address 1. -/
theorem operator_mul_assign_distinct_witness :
    ∃ t, operator_mul_assign sourceBuild (ringOps Int) 2 2 2 2 0 1 (exampleState 2 2 2) = .ok t ∧
      t.heap 0 = mkMat 2 2 (Mul_reference (exampleA 2) (exampleB 2) 2) ∧
      t.heap 1 = (exampleState 2 2 2).heap 1 :=
  operator_mul_assign_distinct sourceBuild (by decide) (by decide) (exampleState 2 2 2)
    (by decide) (by decide) (exampleA 2) (exampleB 2) rfl rfl

theorem fallbackCalls_index {A B C : Ref} {RA K CB : Nat} (hRA : 1 ≤ RA) (hCB : 1 ≤ CB)
    (o : Ref) (i : Nat) (h : Access.index o i ∈ fallbackCalls A B C RA K CB) :
    o = C ∧ i < RA * CB := by
  simp only [fallbackCalls, accumCalls, List.mem_append, List.mem_singleton, List.mem_flatMap,
    List.mem_range, List.mem_cons, List.not_mem_nil, or_false, Access.index.injEq,
    false_or] at h
  rcases h with ⟨h1, h2⟩ | ⟨r, hr, c, hc, k, _, h | h | ⟨h1, h2⟩⟩
  · subst h1 h2
    exact ⟨rfl, Nat.mul_pos hRA hCB⟩
  · exact Access.noConfusion h
  · exact Access.noConfusion h
  · subst h1 h2
    exact ⟨rfl, pos_lt hr hc⟩

/-- C9, `Mul` cannot fail at run time.  For every build, every element arithmetic, every
shape with all dimensions `>= 1` and objects of these shapes (whichever of them are the
same object): `Mul` returns normally; every `at(row, column)` call it makes has
`row < _Rows` and `column < _Cols` of the matrix it is called on, so that `POS_XY` takes
neither of its two throwing branches; and every `operator[]` call is made on `C` with a
linear index `< _RowsA * _ColsB`. -/
theorem Mul_cannot_fail (bld : Build) (ops : ElemOps E) {RA K CB : Nat} {A B C : Ref}
    (s : State E) (hRA : 1 ≤ RA) (hK : 1 ≤ K) (hCB : 1 ≤ CB)
    (hA : HasShape (s.heap A) RA K) (hB : HasShape (s.heap B) K CB)
    (hC : HasShape (s.heap C) RA CB) :
    ∃ t l, Mul bld ops RA K CB A B C s = .ok t ∧ t.calls = s.calls ++ l ∧
      (∀ o row col, Access.at2 o row col ∈ l →
        row < (s.heap o).c_rows ∧ col < (s.heap o).c_cols ∧
        POS_XY (s.heap o).c_rows (s.heap o).c_cols row col =
          .ok (row * (s.heap o).c_cols + col)) ∧
      (∀ o i, Access.index o i ∈ l → o = C ∧ i < RA * CB) := by
  obtain ⟨t, l, ht, hE, hl⟩ := Mul_returns bld ops s hK hA hB hC
  refine ⟨t, l, ht, by rw [hE.2.2.2, Mul_alias_check_calls], ?_, ?_⟩
  · intro o row col hx
    have hin : Access.inBounds s.heap (Access.at2 o row col) := by
      rcases hl with hl | hl <;> subst hl
      · exact (branchCalls_ok s.heap hA hB hC hK _ hx).1
      · exact fallbackCalls_ok s.heap hA hB hC hRA hCB _ hx
    exact ⟨hin.1, hin.2, POS_XY_ok hin.1 hin.2⟩
  · intro o i hx
    rcases hl with hl | hl <;> subst hl
    · exact absurd (branchCalls_ok s.heap hA hB hC hK _ hx).2 (by simp [Access.isAt2])
    · exact fallbackCalls_index hRA hCB o i hx

/-- Witness of C9: `Mul(A, B, A)` on 2x2 integer matrices in a build that unrolls nothing. -/
theorem Mul_cannot_fail_witness :
    ∃ t l, Mul debugBuild (ringOps Int) 2 2 2 0 1 0 (exampleState 2 2 2) = .ok t ∧
      t.calls = (exampleState 2 2 2).calls ++ l ∧
      (∀ o row col, Access.at2 o row col ∈ l →
        row < ((exampleState 2 2 2).heap o).c_rows ∧ col < ((exampleState 2 2 2).heap o).c_cols ∧
        POS_XY ((exampleState 2 2 2).heap o).c_rows ((exampleState 2 2 2).heap o).c_cols row col =
          .ok (row * ((exampleState 2 2 2).heap o).c_cols + col)) ∧
      (∀ o i, Access.index o i ∈ l → o = 0 ∧ i < 2 * 2) :=
  Mul_cannot_fail debugBuild (ringOps Int) (exampleState 2 2 2) (by decide) (by decide)
    (by decide) (mkMat_shape 2 2 (exampleA 2)) (mkMat_shape 2 2 (exampleB 2))
    (mkMat_shape 2 2 (exampleA 2))

/-- C10, identity.  For every build, every `m` and `n >= 1` and every integer matrix `A`
(`m` x `n`): multiplying `A` by the `n` x `n` identity matrix with `Mul` into a separate
`m` x `n` matrix `C` returns and leaves `C` equal to `A`: `C == A` returns true. -/
theorem Mul_identity {R : Type} [Semiring R] [DecidableEq R] (bld : Build) {m n : Nat}
    (hn : 1 ≤ n) {A B C : Ref} (hAC : C ≠ A) (hBC : C ≠ B) (s : State R)
    (fa : Nat → Nat → R) (hA : s.heap A = mkMat m n fa)
    (hB : s.heap B = mkMat n n (fun r c => if r = c then 1 else 0))
    (hC : HasShape (s.heap C) m n) :
    ∃ t, Mul bld (ringOps R) m n n A B C s = .ok t ∧
      operator_eq (t.heap C) (t.heap A) = true ∧ t.heap C = s.heap A := by
  obtain ⟨t, ht, h1, h2⟩ := Mul_ring bld hn (Ne.symm hAC) (Ne.symm hBC) s fa _ hA hB hC
  have hCA : t.heap C = s.heap A := by
    rw [h1, hA]
    apply mkMat_congr
    intro r c _ hc
    unfold Mul_reference
    rw [sum_identity (fun k => fa r k) c n, if_pos hc]
  refine ⟨t, ht, ?_, hCA⟩
  rw [hCA, h2 A (Ne.symm hAC)]
  exact operator_eq_self _

/-- Witness of C10: `[[1, 2], [3, 4]]` times the 2x2 identity in a release build. -/
theorem Mul_identity_witness :
    ∃ t, Mul releaseBuild (ringOps Int) 2 2 2 0 1 2 identityState = .ok t ∧
      operator_eq (t.heap 2) (t.heap 0) = true ∧ t.heap 2 = identityState.heap 0 :=
  Mul_identity releaseBuild (by decide) (by decide) (by decide) identityState (exampleA 2)
    rfl rfl (mkMat_shape 2 2 (fun _ _ => (9 : Int)))

/-! ## Zero propagation, the worked example, and the bounds check of `at(row, column)` -/

/-- The reference sum is zero when either factor is zero on the cells that it reads. -/
theorem Mul_reference_zero {R : Type} [Semiring R] (fa fb : Nat → Nat → R) (K r c : Nat)
    (h : (∀ k, k < K → fa r k = 0) ∨ (∀ k, k < K → fb k c = 0)) :
    Mul_reference fa fb K r c = 0 := by
  unfold Mul_reference
  apply List.sum_eq_zero
  intro x hx
  rw [List.mem_map] at hx
  obtain ⟨k, hk, rfl⟩ := hx
  rw [List.mem_range] at hk
  rcases h with h | h
  · rw [h k hk, zero_mul]
  · rw [h k hk, mul_zero]

/-- C11, zero propagation.  For every build, every shape with `_ColsA >= 1` and integer
matrices `A` (`_RowsA` x `_ColsA`) and `B` (`_ColsA` x `_ColsB`) (elements in any
semiring), with `C` a different object from `A` and `B`: if every element of `A` is
zero or every element of `B` is zero, then `Mul` returns and leaves every element of
`C` zero, whatever `C` held before and whichever tier the build and the shape select. -/
theorem Mul_zero_propagation {R : Type} [Semiring R] (bld : Build) {RA K CB : Nat}
    (hK : 1 ≤ K) {A B C : Ref} (hAC : C ≠ A) (hBC : C ≠ B) (s : State R)
    (hA : HasShape (s.heap A) RA K) (hB : HasShape (s.heap B) K CB)
    (hC : HasShape (s.heap C) RA CB)
    (hzero : s.heap A = mkMat RA K (fun _ _ => 0) ∨ s.heap B = mkMat K CB (fun _ _ => 0)) :
    ∃ t, Mul bld (ringOps R) RA K CB A B C s = .ok t ∧
      t.heap C = mkMat RA CB (fun _ _ => 0) := by
  obtain ⟨t, h1, h2, _⟩ := Mul_ring bld hK (Ne.symm hAC) (Ne.symm hBC) s
    ((s.heap A).elem 0) ((s.heap B).elem 0) (hA.eq_mkMat_elem 0) (hB.eq_mkMat_elem 0) hC
  refine ⟨t, h1, ?_⟩
  rw [h2]
  apply mkMat_congr
  intro r c hr hc
  apply Mul_reference_zero
  rcases hzero with h | h
  · left
    intro k hk
    rw [h]
    exact elem_mkMat _ 0 hr hk
  · right
    intro k hk
    rw [h]
    exact elem_mkMat _ 0 hk hc

/-- Witness of C11: the 2x2 zero matrix times `[[5, 6], [7, 8]]`, unrolled up to 5x5. -/
theorem Mul_zero_propagation_witness :
    ∃ t, Mul fullBuild (ringOps Int) 2 2 2 0 1 2 zeroState = .ok t ∧
      t.heap 2 = mkMat 2 2 (fun _ _ => 0) :=
  Mul_zero_propagation fullBuild (by decide) (by decide) (by decide) zeroState
    (mkMat_shape 2 2 (fun _ _ => (0 : Int))) (mkMat_shape 2 2 (exampleB 2))
    (mkMat_shape 2 2 (fun _ _ => (9 : Int))) (Or.inl rfl)

set_option maxRecDepth 100000 in
/-- C12, worked example.  For `A = [[1, 2], [3, 4]]` and `B = [[5, 6], [7, 8]]` and an
output `C` that held nines: the branch that the table of the source (build of
`Source.cpp`) selects for the shape is the 2x2 * 2x2 branch of lines 4338 to 4348;
running that branch leaves `C = [[19, 22], [43, 50]]`; so does the generic fallback; and
so does `Mul` in the build of `Source.cpp`, in release builds unrolled up to 4x4 and up
to 5x5, and in a debug build (fallback only). -/
theorem Mul_worked_example :
    (exampleState 2 2 2).heap 0 = ⟨2, 2, [1, 2, 3, 4]⟩ ∧
    (exampleState 2 2 2).heap 1 = ⟨2, 2, [5, 6, 7, 8]⟩ ∧
    Mul_unrolled_3x3.find? (fun br => br.guard 2 2 2) =
      some (.exact 2 2 2 2 [
        Assign.mk 0 0 ⟨0, 0, 0, 0⟩ [⟨0, 1, 1, 0⟩],
        Assign.mk 0 1 ⟨0, 0, 0, 1⟩ [⟨0, 1, 1, 1⟩],
        Assign.mk 1 0 ⟨1, 0, 0, 0⟩ [⟨1, 1, 1, 0⟩],
        Assign.mk 1 1 ⟨1, 0, 0, 1⟩ [⟨1, 1, 1, 1⟩]]) ∧
    (execBranch (ringOps Int) 2 2 0 1 2 (.exact 2 2 2 2 [
        Assign.mk 0 0 ⟨0, 0, 0, 0⟩ [⟨0, 1, 1, 0⟩],
        Assign.mk 0 1 ⟨0, 0, 0, 1⟩ [⟨0, 1, 1, 1⟩],
        Assign.mk 1 0 ⟨1, 0, 0, 0⟩ [⟨1, 1, 1, 0⟩],
        Assign.mk 1 1 ⟨1, 0, 0, 1⟩ [⟨1, 1, 1, 1⟩]]) (exampleState 2 2 2)).toOption.map
      (fun t => t.heap 2) = some ⟨2, 2, [19, 22, 43, 50]⟩ ∧
    (Mul_fallback (ringOps Int) 2 2 2 0 1 2 (exampleState 2 2 2)).toOption.map
      (fun t => t.heap 2) = some ⟨2, 2, [19, 22, 43, 50]⟩ ∧
    (Mul sourceBuild (ringOps Int) 2 2 2 0 1 2 (exampleState 2 2 2)).toOption.map
      (fun t => t.heap 2) = some ⟨2, 2, [19, 22, 43, 50]⟩ ∧
    (Mul releaseBuild (ringOps Int) 2 2 2 0 1 2 (exampleState 2 2 2)).toOption.map
      (fun t => t.heap 2) = some ⟨2, 2, [19, 22, 43, 50]⟩ ∧
    (Mul fullBuild (ringOps Int) 2 2 2 0 1 2 (exampleState 2 2 2)).toOption.map
      (fun t => t.heap 2) = some ⟨2, 2, [19, 22, 43, 50]⟩ ∧
    (Mul debugBuild (ringOps Int) 2 2 2 0 1 2 (exampleState 2 2 2)).toOption.map
      (fun t => t.heap 2) = some ⟨2, 2, [19, 22, 43, 50]⟩ := by
  decide

/-- The function `POS_XY` throws exactly when `row > _Rows` or `column > _Cols`. -/
theorem POS_XY_error_iff (Rows Cols row column : Nat) :
    (∃ e, POS_XY Rows Cols row column = .error e) ↔ (row > Rows ∨ column > Cols) := by
  unfold POS_XY
  by_cases h1 : column > Cols
  · rw [if_pos h1]
    exact ⟨fun _ => Or.inr h1, fun _ => ⟨_, rfl⟩⟩
  · rw [if_neg h1]
    by_cases h2 : row > Rows
    · rw [if_pos h2]
      exact ⟨fun _ => Or.inl h2, fun _ => ⟨_, rfl⟩⟩
    · rw [if_neg h2]
      constructor
      · rintro ⟨e, he⟩
        cases he
      · rintro (h | h)
        · exact absurd h h2
        · exact absurd h h1

set_option maxRecDepth 100000 in
/-- C13, the bounds check of `at(row, column)` is off by one.  The check of `POS_XY`
throws exactly when `row > _Rows` or `column > _Cols`, so for every shape `at(_Rows, 0)`
and `at(0, _Cols)` pass it and denote the positions `_Rows * _Cols` and `_Cols`.  On
`A = [[1, 2], [3, 4]]`: `at(0, 2)` reads 3, the element `(1, 0)`; `at(2, 0)` and
`at(2, 2)` are accesses outside the buffer of 4 elements, with no exception; only from
`at(3, 0)` and `at(0, 3)` on does it throw. -/
theorem at2_bounds_check_off_by_one :
    (∀ Rows Cols row column : Nat,
      (∃ e, POS_XY Rows Cols row column = .error e) ↔ (row > Rows ∨ column > Cols)) ∧
    (∀ Rows Cols : Nat, POS_XY Rows Cols Rows 0 = .ok (Rows * Cols + 0) ∧
      POS_XY Rows Cols 0 Cols = .ok (0 * Cols + Cols)) ∧
    ((exampleState 2 2 2).read 0 (.at2 0 2)).toOption.map Prod.fst = some 3 ∧
    ((exampleState 2 2 2).ref 0 (.at2 2 0)).toOption.map Prod.fst = some 4 ∧
    ((exampleState 2 2 2).ref 0 (.at2 2 2)).toOption.map Prod.fst = some 6 ∧
    ((exampleState 2 2 2).heap 0).p_mat.length = 4 ∧
    (exampleState 2 2 2).read 0 (.at2 2 0) = .error .undefined_behaviour ∧
    (exampleState 2 2 2).read 0 (.at2 2 2) = .error .undefined_behaviour ∧
    (exampleState 2 2 2).read 0 (.at2 3 0) = .error (.runtime_error "Y out of range!") ∧
    (exampleState 2 2 2).read 0 (.at2 0 3) = .error (.runtime_error "X out of range!") := by
  refine ⟨POS_XY_error_iff, ?_, by decide, by decide, by decide, by decide, rfl, rfl, rfl, rfl⟩
  intro Rows Cols
  unfold POS_XY
  constructor
  · rw [if_neg (by omega), if_neg (by omega)]
  · rw [if_neg (by omega), if_neg (by omega)]

/-! ## The accessors `at(index)` and `operator[]`, row-major addressing, equality -/

theorem load_ok (s : State E) {o : Ref} {i : Nat} (hi : i < (s.heap o).p_mat.length) :
    s.load o i = .ok ((s.heap o).p_mat.get ⟨i, hi⟩) := by
  unfold State.load
  rw [List.getElem?_eq_getElem hi]
  rfl

theorem load_outside (s : State E) {o : Ref} {i : Nat} (hi : (s.heap o).p_mat.length ≤ i) :
    s.load o i = .error .undefined_behaviour := by
  unfold State.load
  rw [List.getElem?_eq_none hi]

theorem load_eq_ok (s : State E) {o : Ref} {i : Nat} {v : E}
    (h : (s.heap o).p_mat[i]? = some v) : s.load o i = .ok v := by
  unfold State.load
  rw [h]

/-- Each of the three accessors, called with an in-range `(row, col)` or with the linear
index `row * _Cols + col`, denotes the position `row * _Cols + col` and changes no object. -/
theorem ref_row_major (s : State E) (obj : Ref) {Rows Cols row col : Nat}
    (hs : HasShape (s.heap obj) Rows Cols) (hr : row < Rows) (hc : col < Cols) (a : Accessor)
    (ha : a ∈ [Accessor.at2 row col, .at1 (row * Cols + col), .index (row * Cols + col)]) :
    ∃ s1, s.ref obj a = .ok (row * Cols + col, s1) ∧ s1.heap = s.heap := by
  simp only [List.mem_cons, List.mem_singleton, List.not_mem_nil, or_false] at ha
  rcases ha with rfl | rfl | rfl
  · exact ⟨s.log (.at2 obj row col), at2_ok s hs hr hc, rfl⟩
  · exact ⟨s, rfl, rfl⟩
  · exact ⟨s.log (.index obj (row * Cols + col)), rfl, rfl⟩

/-- Counterexample to C14: on the 2x2 matrix `[[1, 2], [3, 4]]` the call `at(4)`, whose
index is `_Rows * _Cols`, raises no out-of-range error: it returns the reference to
`p_mat[4]`, outside the buffer of 4 elements, and reading it is undefined behaviour. -/
theorem at1_bounds_check_counterexample :
    HasShape ((exampleState 2 2 2).heap 0) 2 2 ∧ 2 * 2 ≤ 4 ∧
    ((exampleState 2 2 2).ref 0 (.at1 4)).toOption.map Prod.fst = some 4 ∧
    (exampleState 2 2 2).read 0 (.at1 4) = .error .undefined_behaviour ∧
    ¬ ∃ what, (exampleState 2 2 2).read 0 (.at1 4) = .error (.runtime_error what) := by
  refine ⟨mkMat_shape 2 2 (exampleA 2), by decide, by decide, rfl, ?_⟩
  rintro ⟨what, h⟩
  have h1 : (exampleState 2 2 2).read 0 (.at1 4) = .error .undefined_behaviour := rfl
  rw [h1] at h
  cases h

/-- C14 as the code has it: `at(index)` makes no bounds check.  For every matrix and
every index the call returns the reference to `p_mat[index]`, the position that
`operator[]` denotes, and raises no error; for `index < _Rows * _Cols` reading through
it succeeds and gives element `index`; for `index >= _Rows * _Cols` the access is
outside the buffer (undefined behaviour), and no out-of-range error is raised. -/
theorem at1_unchecked (s : State E) (obj : Ref) {Rows Cols : Nat}
    (hs : HasShape (s.heap obj) Rows Cols) (index : Nat) :
    s.ref obj (.at1 index) = .ok (index, s) ∧
    s.ref obj (.index index) = .ok (index, s.log (.index obj index)) ∧
    (index < Rows * Cols →
      ∃ v, (s.heap obj).p_mat[index]? = some v ∧ s.read obj (.at1 index) = .ok (v, s)) ∧
    (Rows * Cols ≤ index → s.read obj (.at1 index) = .error .undefined_behaviour) ∧
    ¬ ∃ what, s.read obj (.at1 index) = .error (.runtime_error what) := by
  have hread : s.read obj (.at1 index) =
      match s.load obj index with
      | .error e => .error e
      | .ok v => .ok (v, s) := rfl
  refine ⟨rfl, rfl, ?_, ?_, ?_⟩
  · intro hi
    have hlt : index < (s.heap obj).p_mat.length := by rw [hs.2.2]; exact hi
    refine ⟨(s.heap obj).p_mat.get ⟨index, hlt⟩, List.getElem?_eq_getElem hlt, ?_⟩
    rw [hread, load_ok s hlt]
  · intro hi
    have hge : (s.heap obj).p_mat.length ≤ index := by rw [hs.2.2]; exact hi
    rw [hread, load_outside s hge]
  · rintro ⟨what, h⟩
    rw [hread] at h
    rcases Nat.lt_or_ge index (s.heap obj).p_mat.length with hlt | hge
    · rw [load_ok s hlt] at h
      cases h
    · rw [load_outside s hge] at h
      cases h

/-- Witness of the corrected C14: `at(3)` and the shape of `[[1, 2], [3, 4]]`. -/
theorem at1_unchecked_witness :
    (exampleState 2 2 2).ref 0 (.at1 3) = .ok (3, exampleState 2 2 2) ∧
    (exampleState 2 2 2).ref 0 (.index 3) =
      .ok (3, (exampleState 2 2 2).log (.index 0 3)) ∧
    (3 < 2 * 2 →
      ∃ v, ((exampleState 2 2 2).heap 0).p_mat[3]? = some v ∧
        (exampleState 2 2 2).read 0 (.at1 3) = .ok (v, exampleState 2 2 2)) ∧
    (2 * 2 ≤ 3 → (exampleState 2 2 2).read 0 (.at1 3) = .error .undefined_behaviour) ∧
    ¬ ∃ what, (exampleState 2 2 2).read 0 (.at1 3) = .error (.runtime_error what) :=
  at1_unchecked (exampleState 2 2 2) 0 (mkMat_shape 2 2 (exampleA 2)) 3

/-- C15, row-major addressing.  For every matrix, every `row < _Rows` and `col < _Cols`,
and any two `a` and `b` of the three accessor calls `at(row, col)`,
`at(row * _Cols + col)` and `operator[](row * _Cols + col)`: both denote the position
`row * _Cols + col` of `p_mat`; writing `v` through `a` succeeds and changes that
position only; and reading through `b` afterwards gives `v`. -/
theorem row_major_addressing (s : State E) (obj : Ref) {Rows Cols row col : Nat}
    (hs : HasShape (s.heap obj) Rows Cols) (hr : row < Rows) (hc : col < Cols)
    (a b : Accessor)
    (ha : a ∈ [Accessor.at2 row col, .at1 (row * Cols + col), .index (row * Cols + col)])
    (hb : b ∈ [Accessor.at2 row col, .at1 (row * Cols + col), .index (row * Cols + col)])
    (v : E) :
    (∃ s1, s.ref obj a = .ok (row * Cols + col, s1)) ∧
    (∃ s1, s.ref obj b = .ok (row * Cols + col, s1)) ∧
    ∃ s1 s2, s.write obj a v = .ok s1 ∧
      (s1.heap obj).p_mat = (s.heap obj).p_mat.set (row * Cols + col) v ∧
      (∀ o, o ≠ obj → s1.heap o = s.heap o) ∧
      s1.read obj b = .ok (v, s2) := by
  obtain ⟨sa, hsa, hha⟩ := ref_row_major s obj hs hr hc a ha
  obtain ⟨sb, hsb, _⟩ := ref_row_major s obj hs hr hc b hb
  have hlt : row * Cols + col < (sa.heap obj).p_mat.length := by
    rw [hha, hs.2.2]; exact pos_lt hr hc
  have hw : s.write obj a v = .ok (sa.setMat obj
      { sa.heap obj with p_mat := (sa.heap obj).p_mat.set (row * Cols + col) v }) := by
    unfold State.write
    rw [hsa]
    exact store_ok sa v hlt
  have hs1 : HasShape ((sa.setMat obj
      { sa.heap obj with p_mat := (sa.heap obj).p_mat.set (row * Cols + col) v }).heap obj)
      Rows Cols := by
    rw [State.setMat_heap_self, hha]
    exact ⟨hs.1, hs.2.1, by simp [hs.2.2]⟩
  obtain ⟨sc, hsc, hhc⟩ := ref_row_major _ obj hs1 hr hc b hb
  refine ⟨⟨sa, hsa⟩, ⟨sb, hsb⟩, _, sc, hw, ?_, ?_, ?_⟩
  · rw [State.setMat_heap_self, hha]
  · intro o ho
    rw [State.setMat_heap_ne _ _ _ _ ho, hha]
  · unfold State.read
    rw [hsc]
    have hl : sc.load obj (row * Cols + col) = .ok v := by
      apply load_eq_ok
      rw [hhc, State.setMat_heap_self]
      show ((sa.heap obj).p_mat.set (row * Cols + col) v)[row * Cols + col]? = some v
      rw [List.getElem?_set_self hlt]
    simp only [hl]

/-- Witness of C15: on `[[1, 2], [3, 4]]`, writing 7 through `at(1, 0)` and reading
through `operator[](2)`. -/
theorem row_major_addressing_witness :
    (∃ s1, (exampleState 2 2 2).ref 0 (.at2 1 0) = .ok (1 * 2 + 0, s1)) ∧
    (∃ s1, (exampleState 2 2 2).ref 0 (.index (1 * 2 + 0)) = .ok (1 * 2 + 0, s1)) ∧
    ∃ s1 s2, (exampleState 2 2 2).write 0 (.at2 1 0) 7 = .ok s1 ∧
      (s1.heap 0).p_mat = ((exampleState 2 2 2).heap 0).p_mat.set (1 * 2 + 0) 7 ∧
      (∀ o, o ≠ 0 → s1.heap o = (exampleState 2 2 2).heap o) ∧
      s1.read 0 (.index (1 * 2 + 0)) = .ok (7, s2) :=
  row_major_addressing (exampleState 2 2 2) 0 (mkMat_shape 2 2 (exampleA 2))
    (by decide) (by decide) (.at2 1 0) (.index (1 * 2 + 0)) (by simp) (by simp) 7

/-- C16, equality.  For two matrices `A` and `B` of the same dimensions whose elements
are compared as stored (integers): `A == B` returns true if and only if `A[i] = B[i]`
for every `i < _Rows * _Cols`, with no tolerance; and `A != B` returns the negation of
`A == B`. -/
theorem operator_eq_iff {R : Type} [DecidableEq R] (a b : Matrix2D R) {Rows Cols : Nat}
    (ha : HasShape a Rows Cols) (hb : HasShape b Rows Cols) :
    (operator_eq a b = true ↔ ∀ i, i < Rows * Cols → a.p_mat[i]? = b.p_mat[i]?) ∧
    operator_ne a b = !operator_eq a b := by
  obtain ⟨ha1, ha2, ha3⟩ := ha
  obtain ⟨hb1, hb2, hb3⟩ := hb
  have hta : a.p_mat.take (a.c_cols * a.c_rows) = a.p_mat :=
    List.take_of_length_le (by rw [ha1, ha2, ha3, Nat.mul_comm])
  have htb : b.p_mat.take (a.c_cols * a.c_rows) = b.p_mat :=
    List.take_of_length_le (by rw [ha1, ha2, hb3, Nat.mul_comm])
  have hd : SameDimensions a.c_rows a.c_cols b = true := by
    simp [SameDimensions, ha1, ha2, hb1, hb2]
  constructor
  · unfold operator_eq
    rw [hd, hta, htb]
    simp only [Bool.not_true, Bool.false_eq_true, if_false, decide_eq_true_eq]
    constructor
    · intro h i _
      rw [h]
    · intro h
      apply List.ext_getElem?
      intro i
      rcases Nat.lt_or_ge i (Rows * Cols) with hi | hi
      · exact h i hi
      · rw [List.getElem?_eq_none (by rw [ha3]; exact hi),
          List.getElem?_eq_none (by rw [hb3]; exact hi)]
  · unfold operator_ne operator_eq
    rw [hd]
    simp

/-- Witness of C16: `[[1, 2], [3, 4]]` and `[[5, 6], [7, 8]]`. -/
theorem operator_eq_iff_witness :
    (operator_eq (mkMat 2 2 (exampleA 2)) (mkMat 2 2 (exampleB 2)) = true ↔
      ∀ i, i < 2 * 2 →
        (mkMat 2 2 (exampleA 2)).p_mat[i]? = (mkMat 2 2 (exampleB 2)).p_mat[i]?) ∧
    operator_ne (mkMat 2 2 (exampleA 2)) (mkMat 2 2 (exampleB 2)) =
      !operator_eq (mkMat 2 2 (exampleA 2)) (mkMat 2 2 (exampleB 2)) :=
  operator_eq_iff (mkMat 2 2 (exampleA 2)) (mkMat 2 2 (exampleB 2))
    (mkMat_shape 2 2 (exampleA 2)) (mkMat_shape 2 2 (exampleB 2))

/-! ## Construction from a nested list -/

theorem bufStore_ok {p : List E} {i : Nat} (v : E) (hi : i < p.length) :
    bufStore p i v = .ok (p.set i v) := by
  unfold bufStore
  rw [if_pos hi]

theorem new_array_length (n : Nat) (junk : Nat → E) : (new_array n junk).length = n := by
  simp [new_array]

/-- The buffer after the elements `done` have been processed: those that fit, followed
by what is left of the new storage. -/
theorem init_list_buffer_length {n : Nat} {buf : List E} (hbuf : buf.length = n)
    (done : List E) : (done.take n ++ buf.drop done.length).length = n := by
  rw [List.length_append, List.length_take, List.length_drop, hbuf]
  omega

/-- One execution of the body of the loops of the nested-list constructor, after the
elements `done`: the element is stored when it fits, and counted in both cases. -/
theorem init_list_step_spec {n : Nat} {buf : List E} (hbuf : buf.length = n)
    (done : List E) (e : E) :
    init_list_step n (done.length, done.take n ++ buf.drop done.length) e =
      .ok ((done ++ [e]).length,
        (done ++ [e]).take n ++ buf.drop (done ++ [e]).length) := by
  unfold init_list_step
  simp only
  by_cases h : done.length < n
  · rw [if_pos h]
    have hlen : done.length < (done.take n ++ buf.drop done.length).length := by
      rw [init_list_buffer_length hbuf]; exact h
    rw [bufStore_ok e hlen]
    simp only
    have h1 : done.take n = done := List.take_of_length_le (Nat.le_of_lt h)
    have h2 : (done ++ [e]).take n = done ++ [e] :=
      List.take_of_length_le (by rw [List.length_append, List.length_singleton]; omega)
    have h3 : buf.drop done.length = buf.get ⟨done.length, by omega⟩ ::
        buf.drop (done.length + 1) := List.drop_eq_getElem_cons (by omega)
    rw [h1, h2, h3, List.set_append, if_neg (Nat.lt_irrefl _), Nat.sub_self, List.set_cons_zero,
      List.length_append, List.length_singleton, List.append_assoc, List.singleton_append]
  · rw [if_neg h]
    have h1 : (done ++ [e]).take n = done.take n :=
      List.take_append_of_le_length (by omega)
    have h2 : buf.drop done.length = [] := List.drop_of_length_le (by omega)
    have h3 : buf.drop (done ++ [e]).length = [] :=
      List.drop_of_length_le (by rw [List.length_append, List.length_singleton]; omega)
    rw [h1, h2, h3, List.length_append, List.length_singleton]

/-- The inner loop `for (const auto element : list)`. -/
theorem init_list_inner {n : Nat} {buf : List E} (hbuf : buf.length = n) (list : List E) :
    ∀ done : List E,
      list.foldlM (init_list_step n) (done.length, done.take n ++ buf.drop done.length) =
        .ok ((done ++ list).length,
          (done ++ list).take n ++ buf.drop (done ++ list).length) := by
  induction list with
  | nil =>
    intro done
    rw [List.foldlM_nil, List.append_nil]
    rfl
  | cons e l ih =>
    intro done
    rw [List.foldlM_cons, init_list_step_spec hbuf done e]
    have h := ih (done ++ [e])
    rw [List.append_assoc, List.singleton_append] at h
    exact h

/-- The outer loop `for (const auto list : lists)`. -/
theorem init_list_outer {n : Nat} {buf : List E} (hbuf : buf.length = n)
    (lists : List (List E)) :
    ∀ done : List E,
      lists.foldlM (fun st list => list.foldlM (init_list_step n) st)
          (done.length, done.take n ++ buf.drop done.length) =
        .ok ((done ++ lists.flatten).length,
          (done ++ lists.flatten).take n ++ buf.drop (done ++ lists.flatten).length) := by
  induction lists with
  | nil =>
    intro done
    rw [List.foldlM_nil, List.flatten_nil, List.append_nil]
    rfl
  | cons l ls ih =>
    intro done
    rw [List.foldlM_cons, init_list_inner hbuf l done]
    have h := ih (done ++ l)
    rw [List.append_assoc] at h
    rw [List.flatten_cons]
    exact h

/-- What the nested-list constructor returns, for every nested list and every content
of the new storage: the flat sequence cut to `_Rows * _Cols` elements and filled up with
zeros, and the diagnostic when the count differs from `_Rows * _Cols`. -/
theorem construct_init_list_eq (Rows Cols : Nat) (zero : E) (lists : List (List E))
    (junk : Nat → E) :
    construct_init_list Rows Cols zero lists junk =
      .ok (⟨Rows, Cols, lists.flatten.take (Rows * Cols) ++
          List.replicate (Rows * Cols - lists.flatten.length) zero⟩,
        if lists.flatten.length = Rows * Cols then []
        else [countDiagnostic lists.flatten.length (Rows * Cols)]) := by
  have hbuf : (new_array (Rows * Cols) junk).length = Rows * Cols := new_array_length _ _
  have h := init_list_outer hbuf lists []
  rw [List.nil_append, List.length_nil, List.take_nil, List.nil_append, List.drop_zero] at h
  unfold construct_init_list
  simp only
  rw [h]
  simp only [bne_iff_ne, ne_eq, ite_not]
  by_cases hlt : lists.flatten.length < Rows * Cols
  · rw [if_pos hlt]
    have hlen := init_list_buffer_length hbuf lists.flatten
    unfold bufMemset0
    rw [if_pos (by rw [hlen]; omega)]
    simp only
    have h1 : lists.flatten.take (Rows * Cols) = lists.flatten :=
      List.take_of_length_le (Nat.le_of_lt hlt)
    have h2 : lists.flatten.length + (Rows * Cols - lists.flatten.length) = Rows * Cols := by
      omega
    rw [h1] at hlen
    have h3 : (lists.flatten ++ (new_array (Rows * Cols) junk).drop lists.flatten.length).drop
        (Rows * Cols) = [] :=
      List.drop_of_length_le (by rw [hlen])
    rw [h1, h2, h3, List.take_left, List.append_nil]
  · rw [if_neg hlt]
    have h1 : (new_array (Rows * Cols) junk).drop lists.flatten.length = [] :=
      List.drop_of_length_le (by omega)
    have h2 : Rows * Cols - lists.flatten.length = 0 := by omega
    rw [h1, h2, List.replicate_zero]

/-- C17, nested-list construction, contents.  For every nested list, whose inner lists
concatenated in order give the flat sequence `flat` of `t` elements, every zero element
and every content of the new storage: the constructor returns (it never fails); the
matrix has its `_Rows * _Cols` elements; element `i` is `flat[i]` for every
`i < min(t, _Rows * _Cols)` and zero for every `i` with `t <= i < _Rows * _Cols`; the
buffer is the first `_Rows * _Cols` elements of `flat` followed by the zeros, so the
flat elements at positions `>= _Rows * _Cols` are discarded. -/
theorem construct_init_list_contents (Rows Cols : Nat) (zero : E) (lists : List (List E))
    (junk : Nat → E) :
    ∃ m out, construct_init_list Rows Cols zero lists junk = .ok (m, out) ∧
      HasShape m Rows Cols ∧
      (∀ i, i < min lists.flatten.length (Rows * Cols) → m.p_mat[i]? = lists.flatten[i]?) ∧
      (∀ i, lists.flatten.length ≤ i → i < Rows * Cols → m.p_mat[i]? = some zero) ∧
      m.p_mat = lists.flatten.take (Rows * Cols) ++
        List.replicate (Rows * Cols - lists.flatten.length) zero := by
  refine ⟨_, _, construct_init_list_eq Rows Cols zero lists junk, ⟨rfl, rfl, ?_⟩, ?_, ?_, rfl⟩
  · show (lists.flatten.take (Rows * Cols) ++
        List.replicate (Rows * Cols - lists.flatten.length) zero).length = Rows * Cols
    rw [List.length_append, List.length_take, List.length_replicate]
    omega
  · intro i hi
    show (lists.flatten.take (Rows * Cols) ++
        List.replicate (Rows * Cols - lists.flatten.length) zero)[i]? = _
    rw [List.getElem?_append_left (by rw [List.length_take]; omega), List.getElem?_take,
      if_pos (by omega)]
  · intro i h1 h2
    show (lists.flatten.take (Rows * Cols) ++
        List.replicate (Rows * Cols - lists.flatten.length) zero)[i]? = _
    have h3 : (lists.flatten.take (Rows * Cols)).length = lists.flatten.length := by
      rw [List.length_take]; omega
    rw [List.getElem?_append_right (by rw [h3]; exact h1), h3, List.getElem?_replicate,
      if_pos (by omega)]

/-- Witness of C17: the initialiser of `allPrime` in `Source.cpp`, a 2 x 6 matrix. -/
theorem construct_init_list_contents_witness :
    ∃ m out, construct_init_list 2 6 0 allPrimeLists (fun _ => 77) = .ok (m, out) ∧
      HasShape m 2 6 ∧
      (∀ i, i < min allPrimeLists.flatten.length (2 * 6) →
        m.p_mat[i]? = allPrimeLists.flatten[i]?) ∧
      (∀ i, allPrimeLists.flatten.length ≤ i → i < 2 * 6 → m.p_mat[i]? = some 0) ∧
      m.p_mat = allPrimeLists.flatten.take (2 * 6) ++
        List.replicate (2 * 6 - allPrimeLists.flatten.length) 0 :=
  construct_init_list_contents 2 6 0 allPrimeLists (fun _ => 77)

/-- C18, nested-list construction, diagnostic.  For every nested list with `t` elements
in total: the constructor returns a matrix with its `_Rows * _Cols` elements in every
case; it writes the element-count diagnostic (to `std::cout`) if and only if
`t != _Rows * _Cols`, be `t` smaller or larger; and the text it writes is the one line
that reports the count `t` itself and the expected `_Rows * _Cols`. -/
theorem construct_init_list_diagnostic (Rows Cols : Nat) (zero : E) (lists : List (List E))
    (junk : Nat → E) :
    ∃ m out, construct_init_list Rows Cols zero lists junk = .ok (m, out) ∧
      HasShape m Rows Cols ∧
      (out ≠ [] ↔ lists.flatten.length ≠ Rows * Cols) ∧
      (lists.flatten.length < Rows * Cols ∨ Rows * Cols < lists.flatten.length ↔
        out = [countDiagnostic lists.flatten.length (Rows * Cols)]) ∧
      (lists.flatten.length = Rows * Cols ↔ out = []) ∧
      countDiagnostic lists.flatten.length (Rows * Cols) =
        "ERROR! Initializing matrix with " ++ toString lists.flatten.length ++
          " elements, " ++ toString (Rows * Cols) ++ " expected!" := by
  refine ⟨_, _, construct_init_list_eq Rows Cols zero lists junk, ⟨rfl, rfl, ?_⟩, ?_, ?_, ?_, rfl⟩
  · show (lists.flatten.take (Rows * Cols) ++
        List.replicate (Rows * Cols - lists.flatten.length) zero).length = Rows * Cols
    rw [List.length_append, List.length_take, List.length_replicate]
    omega
  · by_cases h : lists.flatten.length = Rows * Cols
    · rw [if_pos h]
      exact ⟨fun h1 => absurd rfl h1, fun h1 => absurd h h1⟩
    · rw [if_neg h]
      exact ⟨fun _ => h, fun _ => List.cons_ne_nil _ _⟩
  · by_cases h : lists.flatten.length = Rows * Cols
    · rw [if_pos h]
      constructor
      · intro h1
        omega
      · intro h1
        cases h1
    · rw [if_neg h]
      constructor
      · intro _
        rfl
      · intro _
        omega
  · by_cases h : lists.flatten.length = Rows * Cols
    · rw [if_pos h]
      exact ⟨fun _ => rfl, fun _ => h⟩
    · rw [if_neg h]
      exact ⟨fun h1 => absurd h1 h, fun h1 => absurd h1 (List.cons_ne_nil _ _)⟩

set_option maxRecDepth 100000 in
/-- Witness of C18: five elements for a 2 x 2 matrix; the fifth is dropped and the
diagnostic reports 5. -/
theorem construct_init_list_diagnostic_witness :
    (∃ m out, construct_init_list 2 2 0 [[1, 2, 3], [4, 5]] (fun _ => (77 : Int)) = .ok (m, out) ∧
      HasShape m 2 2 ∧
      (out ≠ [] ↔ [[1, 2, 3], [4, (5 : Int)]].flatten.length ≠ 2 * 2) ∧
      ([[1, 2, 3], [4, (5 : Int)]].flatten.length < 2 * 2 ∨
          2 * 2 < [[1, 2, 3], [4, (5 : Int)]].flatten.length ↔
        out = [countDiagnostic [[1, 2, 3], [4, (5 : Int)]].flatten.length (2 * 2)]) ∧
      ([[1, 2, 3], [4, (5 : Int)]].flatten.length = 2 * 2 ↔ out = []) ∧
      countDiagnostic [[1, 2, 3], [4, (5 : Int)]].flatten.length (2 * 2) =
        "ERROR! Initializing matrix with " ++
          toString [[1, 2, 3], [4, (5 : Int)]].flatten.length ++
          " elements, " ++ toString (2 * 2) ++ " expected!") ∧
    (construct_init_list 2 2 0 [[1, 2, 3], [4, 5]] (fun _ => (77 : Int))).toOption =
      some (⟨2, 2, [1, 2, 3, 4]⟩,
        ["ERROR! Initializing matrix with 5 elements, 4 expected!"]) ∧
    (construct_init_list 2 2 0 [[1], [4]] (fun _ => (77 : Int))).toOption =
      some (⟨2, 2, [1, 4, 0, 0]⟩,
        ["ERROR! Initializing matrix with 2 elements, 4 expected!"]) :=
  ⟨construct_init_list_diagnostic 2 2 0 [[1, 2, 3], [4, 5]] (fun _ => 77), by decide, by decide⟩

/-! ## Constant fill and copy -/

/-- A buffer of `n` elements that all equal `c` is the buffer of the constant matrix. -/
theorem eq_mkMat_const {Rows Cols : Nat} (m : Matrix2D E) (c : E) (hs : HasShape m Rows Cols)
    (h : ∀ i, i < Rows * Cols → m.p_mat[i]? = some c) : m = mkMat Rows Cols (fun _ _ => c) :=
  eq_mkMat m _ hs h

theorem set_fill_getElem {p : List E} {i j : Nat} {c : E} (hi : i < p.length)
    (h : ∀ k, k < i → p[k]? = some c) (hj : j < i + 1) : (p.set i c)[j]? = some c := by
  rcases Nat.lt_or_ge j i with hlt | hge
  · rw [List.getElem?_set_ne (by omega)]
    exact h j hlt
  · have hji : j = i := by omega
    subst hji
    exact List.getElem?_set_self hi

/-- The loop of the constructor from a scalar leaves the constant buffer. -/
theorem construct_const_eq {F : Type} (Rows Cols : Nat) (conv : F → E) (init : F)
    (junk : Nat → E) :
    construct_const Rows Cols conv init junk = .ok (mkMat Rows Cols (fun _ _ => conv init)) := by
  obtain ⟨p, hp, hlen, hfill⟩ := forLoop_inv
    (fun i (p : List E) => p.length = Rows * Cols ∧ ∀ k, k < i → p[k]? = some (conv init))
    (Rows * Cols) (fun i p_mat => bufStore p_mat i (conv init))
    (new_array (Rows * Cols) junk)
    ⟨new_array_length _ _, fun k hk => absurd hk (Nat.not_lt_zero k)⟩
    (by
      intro i p hi ⟨h1, h2⟩
      have hlt : i < p.length := by rw [h1]; exact hi
      refine ⟨p.set i (conv init), bufStore_ok _ hlt, ?_, ?_⟩
      · rw [List.length_set, h1]
      · intro k hk
        exact set_fill_getElem hlt h2 hk)
  unfold construct_const
  simp only
  rw [hp]
  simp only
  rw [eq_mkMat_const ⟨Rows, Cols, p⟩ (conv init) ⟨rfl, rfl, hlen⟩ hfill]

/-- The loop of the assignment of a scalar leaves the constant matrix in `*this` and
changes no other object. -/
theorem operator_assign_const_spec (Rows Cols : Nat) (this : Ref) (val : E) (s : State E)
    (hs : HasShape (s.heap this) Rows Cols) :
    ∃ t, operator_assign_const Rows Cols this val s = .ok t ∧
      t.heap this = mkMat Rows Cols (fun _ _ => val) ∧
      ∀ o, o ≠ this → t.heap o = s.heap o := by
  obtain ⟨t, ht, hother, hshape, hfill⟩ := forLoop_inv
    (fun i (t : State E) => (∀ o, o ≠ this → t.heap o = s.heap o) ∧
      HasShape (t.heap this) Rows Cols ∧ ∀ k, k < i → (t.heap this).p_mat[k]? = some val)
    (Rows * Cols) (fun i s => s.store this i val) s
    ⟨fun _ _ => rfl, hs, fun k hk => absurd hk (Nat.not_lt_zero k)⟩
    (by
      intro i t hi ⟨h1, h2, h3⟩
      have hlt : i < (t.heap this).p_mat.length := by rw [h2.2.2]; exact hi
      refine ⟨_, store_ok t val hlt, ?_, ?_, ?_⟩
      · intro o ho
        rw [State.setMat_heap_ne _ _ _ _ ho]
        exact h1 o ho
      · rw [State.setMat_heap_self]
        exact ⟨h2.1, h2.2.1, by simp [h2.2.2]⟩
      · intro k hk
        rw [State.setMat_heap_self]
        exact set_fill_getElem hlt h3 hk)
  exact ⟨t, ht, eq_mkMat_const _ val hshape hfill, hother⟩

/-- C19, constant fill.  For every shape, every scalar `v` and conversion to the element
type: the constructor from `v` returns the matrix all of whose `_Rows * _Cols` elements
are `v` converted, whatever the new storage held; and assigning `v` (converted at the
call) to an existing matrix returns and leaves every element equal to `v` converted,
whatever the matrix held before, and changes no other object. -/
theorem constant_fill {F : Type} (Rows Cols : Nat) (conv : F → E) (v : F) (junk : Nat → E)
    (this : Ref) (s : State E) (hs : HasShape (s.heap this) Rows Cols) :
    construct_const Rows Cols conv v junk = .ok (mkMat Rows Cols (fun _ _ => conv v)) ∧
    (∀ i, i < Rows * Cols → (mkMat Rows Cols (fun _ _ => conv v)).p_mat[i]? = some (conv v)) ∧
    ∃ t, operator_assign_const Rows Cols this (conv v) s = .ok t ∧
      t.heap this = mkMat Rows Cols (fun _ _ => conv v) ∧
      ∀ o, o ≠ this → t.heap o = s.heap o := by
  refine ⟨construct_const_eq Rows Cols conv v junk, ?_,
    operator_assign_const_spec Rows Cols this (conv v) s hs⟩
  intro i hi
  simp [mkMat, hi]

/-- Witness of C19: the scalar 7 and a 2 x 2 integer matrix that held nines. -/
theorem constant_fill_witness :
    construct_const 2 2 (fun x : Int => x) 7 (fun _ => 77) =
      .ok (mkMat 2 2 (fun _ _ => (fun x : Int => x) 7)) ∧
    (∀ i, i < 2 * 2 →
      (mkMat 2 2 (fun _ _ => (fun x : Int => x) 7)).p_mat[i]? = some ((fun x : Int => x) 7)) ∧
    ∃ t, operator_assign_const 2 2 2 ((fun x : Int => x) 7) (exampleState 2 2 2) = .ok t ∧
      t.heap 2 = mkMat 2 2 (fun _ _ => (fun x : Int => x) 7) ∧
      ∀ o, o ≠ 2 → t.heap o = (exampleState 2 2 2).heap o :=
  constant_fill 2 2 (fun x : Int => x) 7 (fun _ => 77) 2 (exampleState 2 2 2)
    (mkMat_shape 2 2 (fun _ _ => (9 : Int)))

/-- A matrix is determined by its shape and its buffer. -/
theorem HasShape.eq_mk {Rows Cols : Nat} {m : Matrix2D E} (hs : HasShape m Rows Cols) :
    m = ⟨Rows, Cols, m.p_mat⟩ := by
  cases m
  obtain ⟨h1, h2, _⟩ := hs
  simp only at h1 h2
  subst h1 h2
  rfl

/-- The copy constructor builds, at the next free address, an object equal to the source,
and changes no other object. -/
theorem copy_construct_spec (Rows Cols : Nat) (src : Ref) (s : State E)
    (hs : HasShape (s.heap src) Rows Cols) :
    ∃ t, copy_construct Rows Cols src s = .ok (s.next, t) ∧ t.next = s.next + 1 ∧
      t.heap s.next = s.heap src ∧ ∀ o, o ≠ s.next → t.heap o = s.heap o := by
  have hlen : Cols * Rows ≤ (s.heap src).p_mat.length := by rw [hs.2.2, Nat.mul_comm]
  unfold copy_construct
  rw [if_pos hlen]
  refine ⟨_, rfl, rfl, ?_, ?_⟩
  · show (s.setMat s.next _).heap s.next = _
    rw [State.setMat_heap_self, List.take_of_length_le (by rw [hs.2.2, Nat.mul_comm])]
    exact hs.eq_mk.symm
  · intro o ho
    show (s.setMat s.next _).heap o = _
    rw [State.setMat_heap_ne _ _ _ _ ho]

/-- The converting constructor builds, at the next free address, the object whose elements
are the converted elements of the source, and changes no other object. -/
theorem convert_construct_spec (Rows Cols : Nat) (conv : E → E) (src : Ref) (junk : Nat → E)
    (s : State E) (hs : HasShape (s.heap src) Rows Cols) (hsrc : src < s.next) :
    ∃ t, convert_construct Rows Cols conv src junk s = .ok (s.next, t) ∧
      t.next = s.next + 1 ∧
      t.heap s.next = ⟨Rows, Cols, (s.heap src).p_mat.map conv⟩ ∧
      ∀ o, o ≠ s.next → t.heap o = s.heap o := by
  have hne : src ≠ s.next := Nat.ne_of_lt hsrc
  obtain ⟨t, ht, hnext, hother, hshape, hfill⟩ := forLoop_inv
    (fun i (t : State E) => t.next = s.next + 1 ∧ (∀ o, o ≠ s.next → t.heap o = s.heap o) ∧
      HasShape (t.heap s.next) Rows Cols ∧
      ∀ k, k < i → (t.heap s.next).p_mat[k]? = ((s.heap src).p_mat[k]?).map conv)
    (Cols * Rows) (fun i (s1 : State E) =>
      let (j, s2) := s1.index src i
      match s2.load src j with
      | .error e => .error e
      | .ok v => s2.store s.next i (conv v))
    { s.setMat s.next ⟨Rows, Cols, new_array (Rows * Cols) junk⟩ with next := s.next + 1 }
    ⟨rfl,
      fun o ho => by
        show (s.setMat s.next _).heap o = _
        rw [State.setMat_heap_ne _ _ _ _ ho],
      by
        show HasShape ((s.setMat s.next _).heap s.next) Rows Cols
        rw [State.setMat_heap_self]
        exact ⟨rfl, rfl, new_array_length _ _⟩,
      fun k hk => absurd hk (Nat.not_lt_zero k)⟩
    (by
      intro i t hi ⟨h0, h1, h2, h3⟩
      have hi2 : i < Rows * Cols := by rw [Nat.mul_comm]; exact hi
      have hsl : i < (s.heap src).p_mat.length := by rw [hs.2.2]; exact hi2
      have hload : (t.log (.index src i)).load src i =
          .ok ((s.heap src).p_mat.get ⟨i, hsl⟩) := by
        apply load_eq_ok
        rw [State.log_heap, h1 src hne]
        exact List.getElem?_eq_getElem hsl
      have hlt : i < ((t.log (.index src i)).heap s.next).p_mat.length := by
        rw [State.log_heap, h2.2.2]; exact hi2
      have hbody : (match (t.log (.index src i)).load src i with
          | .error e => Except.error e
          | .ok v => (t.log (.index src i)).store s.next i (conv v)) =
          Except.ok ((t.log (.index src i)).setMat s.next
            { (t.log (.index src i)).heap s.next with
              p_mat := ((t.log (.index src i)).heap s.next).p_mat.set i
                (conv ((s.heap src).p_mat.get ⟨i, hsl⟩)) }) := by
        rw [hload]
        exact store_ok _ _ hlt
      refine ⟨_, hbody, h0, ?_, ?_, ?_⟩
      · intro o ho
        rw [State.setMat_heap_ne _ _ _ _ ho, State.log_heap]
        exact h1 o ho
      · rw [State.setMat_heap_self, State.log_heap]
        exact ⟨h2.1, h2.2.1, by simp [h2.2.2]⟩
      · intro k hk
        rw [State.setMat_heap_self, State.log_heap]
        show ((t.heap s.next).p_mat.set i (conv ((s.heap src).p_mat.get ⟨i, hsl⟩)))[k]? = _
        rcases Nat.lt_or_ge k i with hki | hki
        · rw [List.getElem?_set_ne (by omega)]
          exact h3 k hki
        · have hk2 : k = i := by omega
          subst hk2
          rw [List.getElem?_set_self (by rw [h2.2.2]; exact hi2),
            List.getElem?_eq_getElem hsl]
          rfl)
  refine ⟨t, ?_, hnext, ?_, hother⟩
  · unfold convert_construct
    dsimp only
    split
    · rename_i e heq
      have h := heq.symm.trans ht
      cases h
    · rename_i s2 heq
      rw [Except.ok.inj (heq.symm.trans ht)]
  · rw [hshape.eq_mk]
    congr 1
    apply List.ext_getElem?
    intro k
    rw [List.getElem?_map]
    rcases Nat.lt_or_ge k (Cols * Rows) with hk | hk
    · exact hfill k hk
    · rw [List.getElem?_eq_none (by rw [hshape.2.2, Nat.mul_comm]; exact hk),
        List.getElem?_eq_none (by rw [hs.2.2, Nat.mul_comm]; exact hk)]
      rfl

/-- The copy assignment leaves in `*this` an object equal to the source, and changes no
other object. -/
theorem operator_assign_spec (Rows Cols : Nat) (this mat2 : Ref) (s : State E)
    (hX : HasShape (s.heap this) Rows Cols) (hY : HasShape (s.heap mat2) Rows Cols) :
    ∃ t, operator_assign Rows Cols this mat2 s = .ok t ∧ t.next = s.next ∧
      t.heap this = s.heap mat2 ∧ ∀ o, o ≠ this → t.heap o = s.heap o := by
  have h1 : Cols * Rows ≤ (s.heap mat2).p_mat.length := by rw [hY.2.2, Nat.mul_comm]
  have h2 : Cols * Rows ≤ (s.heap this).p_mat.length := by rw [hX.2.2, Nat.mul_comm]
  unfold operator_assign
  simp only
  rw [if_pos ⟨h1, h2⟩]
  refine ⟨_, rfl, rfl, ?_, ?_⟩
  · rw [State.setMat_heap_self,
      List.take_of_length_le (by rw [hY.2.2, Nat.mul_comm]),
      List.drop_of_length_le (by rw [hX.2.2, Nat.mul_comm]), List.append_nil]
    rw [hY.eq_mk]
    simp only [hX.1, hX.2.1]
  · intro o ho
    rw [State.setMat_heap_ne _ _ _ _ ho]

theorem map_id_fun {R : Type} (l : List R) : l.map (fun x => x) = l := List.map_id l

/-- C20, copy.  For every matrix `Y` of `_Rows` x `_Cols` elements that lives in the
state (its address is below the next free address): each of the copy constructor, the
converting constructor with the conversion `conv` (it is also the one that copies a
non-const matrix of the same type, with the identity conversion), the copy assignment
to a matrix `X` of the same dimensions, and the assignment `X = Y` from another element
type (a converted temporary is assigned) returns; afterwards `X[i]` is `Y[i]` converted
for every element (the buffer of `X` is the buffer of `Y` mapped by the conversion, the
identity for the copy constructor and the copy assignment); `Y` and every object other
than `X` (and the temporary) is unchanged; and with the identity conversion `X == Y`
returns true. -/
theorem copy_spec {R : Type} [DecidableEq R] (Rows Cols : Nat) (conv : R → R) (X Y : Ref)
    (junk : Nat → R) (s : State R) (hX : HasShape (s.heap X) Rows Cols)
    (hY : HasShape (s.heap Y) Rows Cols) (hXl : X < s.next) (hYl : Y < s.next) :
    (∃ t, copy_construct Rows Cols Y s = .ok (s.next, t) ∧
      t.heap s.next = ⟨Rows, Cols, (s.heap Y).p_mat⟩ ∧
      (∀ o, o ≠ s.next → t.heap o = s.heap o) ∧ t.heap Y = s.heap Y ∧
      operator_eq (t.heap s.next) (t.heap Y) = true) ∧
    (∃ t, convert_construct Rows Cols conv Y junk s = .ok (s.next, t) ∧
      t.heap s.next = ⟨Rows, Cols, (s.heap Y).p_mat.map conv⟩ ∧
      (∀ o, o ≠ s.next → t.heap o = s.heap o) ∧ t.heap Y = s.heap Y) ∧
    (∃ t, convert_construct Rows Cols (fun x => x) Y junk s = .ok (s.next, t) ∧
      t.heap s.next = ⟨Rows, Cols, (s.heap Y).p_mat⟩ ∧ t.heap Y = s.heap Y ∧
      operator_eq (t.heap s.next) (t.heap Y) = true) ∧
    (∃ t, operator_assign Rows Cols X Y s = .ok t ∧
      t.heap X = ⟨Rows, Cols, (s.heap Y).p_mat⟩ ∧
      (∀ o, o ≠ X → t.heap o = s.heap o) ∧ t.heap Y = s.heap Y ∧
      operator_eq (t.heap X) (t.heap Y) = true) ∧
    (X ≠ Y → ∃ t, operator_assign_converted Rows Cols conv X Y junk s = .ok t ∧
      t.heap X = ⟨Rows, Cols, (s.heap Y).p_mat.map conv⟩ ∧
      (∀ o, o ≠ X → o ≠ s.next → t.heap o = s.heap o) ∧ t.heap Y = s.heap Y) := by
  have hYn : Y ≠ s.next := Nat.ne_of_lt hYl
  have hXn : X ≠ s.next := Nat.ne_of_lt hXl
  refine ⟨?_, ?_, ?_, ?_, ?_⟩
  · obtain ⟨t, h1, _, h2, h3⟩ := copy_construct_spec Rows Cols Y s hY
    refine ⟨t, h1, ?_, h3, h3 Y hYn, ?_⟩
    · rw [h2]; exact hY.eq_mk
    · rw [h2, h3 Y hYn]; exact operator_eq_self _
  · obtain ⟨t, h1, _, h2, h3⟩ := convert_construct_spec Rows Cols conv Y junk s hY hYl
    exact ⟨t, h1, h2, h3, h3 Y hYn⟩
  · obtain ⟨t, h1, _, h2, h3⟩ :=
      convert_construct_spec Rows Cols (fun x => x) Y junk s hY hYl
    rw [map_id_fun] at h2
    refine ⟨t, h1, h2, h3 Y hYn, ?_⟩
    rw [h2, h3 Y hYn, ← hY.eq_mk]
    exact operator_eq_self _
  · obtain ⟨t, h1, _, h2, h3⟩ := operator_assign_spec Rows Cols X Y s hX hY
    have h4 : t.heap Y = s.heap Y := by
      rcases Nat.decEq Y X with hne | heq
      · exact h3 Y hne
      · rw [heq, h2, ← heq]
    refine ⟨t, h1, ?_, h3, h4, ?_⟩
    · rw [h2]; exact hY.eq_mk
    · rw [h2, h4]; exact operator_eq_self _
  · intro hXY
    obtain ⟨t1, h1, hn1, h2, h3⟩ := convert_construct_spec Rows Cols conv Y junk s hY hYl
    have hX1 : HasShape (t1.heap X) Rows Cols := by rw [h3 X hXn]; exact hX
    have hT1 : HasShape (t1.heap s.next) Rows Cols := by
      rw [h2]
      exact ⟨rfl, rfl, by rw [List.length_map, hY.2.2]⟩
    obtain ⟨t, h4, _, h5, h6⟩ := operator_assign_spec Rows Cols X s.next t1 hX1 hT1
    refine ⟨t, ?_, ?_, ?_, ?_⟩
    · unfold operator_assign_converted
      rw [h1]
      exact h4
    · rw [h5, h2]
    · intro o ho hon
      rw [h6 o ho, h3 o hon]
    · rw [h6 Y (Ne.symm hXY), h3 Y hYn]

/-- Witness of C20: copies of `Y = [[1, 2], [3, 4]]` (address 0), into a new object and
into the matrix `X` full of nines at address 2. -/
theorem copy_spec_witness :
    (∃ t, copy_construct 2 2 0 (exampleState 2 2 2) = .ok ((exampleState 2 2 2).next, t) ∧
      t.heap (exampleState 2 2 2).next = ⟨2, 2, ((exampleState 2 2 2).heap 0).p_mat⟩ ∧
      (∀ o, o ≠ (exampleState 2 2 2).next → t.heap o = (exampleState 2 2 2).heap o) ∧
      t.heap 0 = (exampleState 2 2 2).heap 0 ∧
      operator_eq (t.heap (exampleState 2 2 2).next) (t.heap 0) = true) ∧
    (∃ t, convert_construct 2 2 (fun x => x + 100) 0 (fun _ => 77) (exampleState 2 2 2) =
        .ok ((exampleState 2 2 2).next, t) ∧
      t.heap (exampleState 2 2 2).next =
        ⟨2, 2, ((exampleState 2 2 2).heap 0).p_mat.map (fun x => x + 100)⟩ ∧
      (∀ o, o ≠ (exampleState 2 2 2).next → t.heap o = (exampleState 2 2 2).heap o) ∧
      t.heap 0 = (exampleState 2 2 2).heap 0) ∧
    (∃ t, convert_construct 2 2 (fun x => x) 0 (fun _ => 77) (exampleState 2 2 2) =
        .ok ((exampleState 2 2 2).next, t) ∧
      t.heap (exampleState 2 2 2).next = ⟨2, 2, ((exampleState 2 2 2).heap 0).p_mat⟩ ∧
      t.heap 0 = (exampleState 2 2 2).heap 0 ∧
      operator_eq (t.heap (exampleState 2 2 2).next) (t.heap 0) = true) ∧
    (∃ t, operator_assign 2 2 2 0 (exampleState 2 2 2) = .ok t ∧
      t.heap 2 = ⟨2, 2, ((exampleState 2 2 2).heap 0).p_mat⟩ ∧
      (∀ o, o ≠ 2 → t.heap o = (exampleState 2 2 2).heap o) ∧
      t.heap 0 = (exampleState 2 2 2).heap 0 ∧
      operator_eq (t.heap 2) (t.heap 0) = true) ∧
    (2 ≠ 0 → ∃ t, operator_assign_converted 2 2 (fun x => x + 100) 2 0 (fun _ => 77)
        (exampleState 2 2 2) = .ok t ∧
      t.heap 2 = ⟨2, 2, ((exampleState 2 2 2).heap 0).p_mat.map (fun x => x + 100)⟩ ∧
      (∀ o, o ≠ 2 → o ≠ (exampleState 2 2 2).next → t.heap o = (exampleState 2 2 2).heap o) ∧
      t.heap 0 = (exampleState 2 2 2).heap 0) :=
  copy_spec 2 2 (fun x => x + 100) 2 0 (fun _ => 77) (exampleState 2 2 2)
    (mkMat_shape 2 2 (fun _ _ => (9 : Int))) (mkMat_shape 2 2 (exampleA 2))
    (by decide) (by decide)

/-! ## Tier selection, the aliasing hazard and the bound check of `POS_XY` -/

/-- The bound of the `#if` chain, in terms of the configuration. -/
theorem Build.bound_eq_effective (b : Build) : b.bound = b.effective := by
  unfold Build.bound Build.effective
  cases hm : b.manual <;> cases hn : b.NDEBUG <;> simp

/-- The tier of a build that leaves no unrolled code in `Mul` is the fallback. -/
theorem Mul_tier_none {bld : Build} (h : bld.bound = none) (RA K CB : Nat) :
    Mul_tier bld RA K CB = .fallback := by
  unfold Mul_tier
  rw [Build.unrolled_none h]

/-- The tier of a build with bound `N`, from the first matching branch of the table. -/
theorem Mul_tier_some {bld : Build} {N : Nat} (h : bld.bound = some N) (RA K CB : Nat) :
    Mul_tier bld RA K CB =
      match (stdTable N).find? (fun br => br.guard RA K CB) with
      | some br => br.tier
      | none => .fallback := by
  unfold Mul_tier
  rw [Build.unrolled_some h] <;> rfl

/-- Counterexample to C21: the configured limit is not the bound of the tiers.  In a
debug build with manual optimisation and the default limit 4 the shape 4x4 * 4x4 runs
the fallback; in a release build with limit 2 even 1x1 * 1x1 runs the fallback (its call
record is the one of the `memset` and the accumulation loop); in a release build with
limit 6 the shape 6x6 * 6x6 runs the fallback and the shape 6x5 * 5x6 the semi-generic
branch. -/
theorem Mul_tier_configured_limit_counterexample :
    (debugManualBuild.manual = true ∧ debugManualBuild.limit = 4 ∧
      Mul_tier debugManualBuild 4 4 4 = .fallback) ∧
    (limit2Build.manual = true ∧ limit2Build.limit = 2 ∧
      Mul_tier limit2Build 1 1 1 = .fallback ∧
      (Mul limit2Build (ringOps Int) 1 1 1 0 1 2 (exampleState 1 1 1)).toOption.map
        (fun t => t.calls) = some [.index 2 0, .at2 0 0 0, .at2 1 0 0, .index 2 0]) ∧
    (limit6Build.manual = true ∧ limit6Build.limit = 6 ∧
      Mul_tier limit6Build 6 6 6 = .fallback ∧ Mul_tier limit6Build 6 5 6 = .semi_generic) := by
  decide

/-- C21 as the code has it.  The bound of the tiers is not the configured limit but the
bound `N` that the `#if` chain derives from it (5, 4 or 3 in a release build with limit
above 4, 3 or 2; 3 in every debug build with manual optimisation; none otherwise).  For
every build, arithmetic and shape with all dimensions at least 1, and objects of the
right shapes: `Mul` returns; with bound `N` it runs the exact-shape branch of the shape
when `_RowsA`, `_ColsA` and `_ColsB` are all `<= N`, the semi-generic branch for `_ColsA`
when `_ColsA <= N` and `_RowsA > N` or `_ColsB > N`, and the fallback if and only if
`_ColsA > N`; without a bound it runs the fallback for every shape. -/
theorem Mul_tier_selection (bld : Build) (ops : ElemOps E) {RA K CB : Nat} (hRA : 1 ≤ RA)
    (hK : 1 ≤ K) (hCB : 1 ≤ CB) (A B C : Ref) (s : State E)
    (hA : HasShape (s.heap A) RA K) (hB : HasShape (s.heap B) K CB)
    (hC : HasShape (s.heap C) RA CB) :
    bld.bound = bld.effective ∧
    (∃ t, Mul bld ops RA K CB A B C s = .ok t) ∧
    (∀ N, bld.bound = some N →
      (RA ≤ N ∧ K ≤ N ∧ CB ≤ N →
        Mul_tier bld RA K CB = .exact_shape ∧
        (unrolledTable N).find? (fun br => br.guard RA K CB) = some (stdExact RA K CB) ∧
        Mul bld ops RA K CB A B C s =
          execBranch ops RA CB A B C (stdExact RA K CB) (Mul_alias_check RA K CB A B C s)) ∧
      (K ≤ N ∧ (N < RA ∨ N < CB) →
        Mul_tier bld RA K CB = .semi_generic ∧
        (unrolledTable N).find? (fun br => br.guard RA K CB) = some (stdLoop K) ∧
        Mul bld ops RA K CB A B C s =
          execBranch ops RA CB A B C (stdLoop K) (Mul_alias_check RA K CB A B C s)) ∧
      (N < K →
        (unrolledTable N).find? (fun br => br.guard RA K CB) = none ∧
        Mul bld ops RA K CB A B C s =
          Mul_fallback ops RA K CB A B C (Mul_alias_check RA K CB A B C s)) ∧
      (Mul_tier bld RA K CB = .fallback ↔ N < K)) ∧
    (bld.bound = none →
      Mul_tier bld RA K CB = .fallback ∧
      Mul bld ops RA K CB A B C s =
        Mul_fallback ops RA K CB A B C (Mul_alias_check RA K CB A B C s)) := by
  refine ⟨bld.bound_eq_effective, ?_, ?_, ?_⟩
  · obtain ⟨t, _, ht, _⟩ := Mul_returns bld ops s hK hA hB hC
    exact ⟨t, ht⟩
  · intro N hN
    have hN3 := Build.bound_some hN
    have htab := unrolledTable_eq hN3
    have hexact : RA ≤ N ∧ K ≤ N ∧ CB ≤ N →
        (stdTable N).find? (fun br => br.guard RA K CB) = some (stdExact RA K CB) := by
      rintro ⟨h1, h2, h3⟩
      have := find_exact hN3 (RA - 1) (by omega) (K - 1) (by omega) (CB - 1) (by omega)
      rwa [Nat.sub_add_cancel hRA, Nat.sub_add_cancel hK, Nat.sub_add_cancel hCB] at this
    have hsemi : K ≤ N ∧ (N < RA ∨ N < CB) →
        (stdTable N).find? (fun br => br.guard RA K CB) = some (stdLoop K) := by
      rintro ⟨h1, h2⟩
      rcases find_stdTable N RA K CB hK with ⟨hlt, _⟩ | ⟨_, br, hf, _, hloop⟩
      · omega
      · rw [hf, hloop h2]
    have hfall : N < K → (stdTable N).find? (fun br => br.guard RA K CB) = none := by
      intro h1
      rcases find_stdTable N RA K CB hK with ⟨_, hf⟩ | ⟨hle, _⟩
      · exact hf
      · omega
    have hMul : Mul bld ops RA K CB A B C s =
        match (stdTable N).find? (fun br => br.guard RA K CB) with
        | some br => execBranch ops RA CB A B C br (Mul_alias_check RA K CB A B C s)
        | none => Mul_fallback ops RA K CB A B C (Mul_alias_check RA K CB A B C s) := by
      unfold Mul
      rw [Build.unrolled_some hN]
      simp only
      rw [Mul_unrolled_find] <;> rfl
    refine ⟨?_, ?_, ?_, ?_⟩
    · intro h
      have hf := hexact h
      refine ⟨?_, by rw [htab]; exact hf, ?_⟩
      · rw [Mul_tier_some hN, hf]; rfl
      · rw [hMul, hf]
    · intro h
      have hf := hsemi h
      refine ⟨?_, by rw [htab]; exact hf, ?_⟩
      · rw [Mul_tier_some hN, hf]; rfl
      · rw [hMul, hf]
    · intro h
      have hf := hfall h
      refine ⟨by rw [htab]; exact hf, ?_⟩
      rw [hMul, hf]
    · rw [Mul_tier_some hN]
      constructor
      · intro h
        by_contra hlt
        have hKN : K ≤ N := by omega
        rcases find_stdTable N RA K CB hK with ⟨hlt2, _⟩ | ⟨_, br, hf, hstd, _⟩
        · omega
        · rw [hf] at h
          rcases hstd with h1 | h1 <;> rw [h1] at h <;> cases h
      · intro h
        rw [hfall h]
  · intro h
    exact ⟨Mul_tier_none h RA K CB, Mul_eq_fallback bld ops RA K CB A B C s hK (Or.inl h)⟩

/-- Witness of the corrected C21: the debug build with manual optimisation and the
default limit 4, whose bound is 3, on the shape 2x2 * 2x2. -/
theorem Mul_tier_selection_witness :
    debugManualBuild.bound = debugManualBuild.effective ∧
    (∃ t, Mul debugManualBuild (ringOps Int) 2 2 2 0 1 2 (exampleState 2 2 2) = .ok t) ∧
    (∀ N, debugManualBuild.bound = some N →
      (2 ≤ N ∧ 2 ≤ N ∧ 2 ≤ N →
        Mul_tier debugManualBuild 2 2 2 = .exact_shape ∧
        (unrolledTable N).find? (fun br => br.guard 2 2 2) = some (stdExact 2 2 2) ∧
        Mul debugManualBuild (ringOps Int) 2 2 2 0 1 2 (exampleState 2 2 2) =
          execBranch (ringOps Int) 2 2 0 1 2 (stdExact 2 2 2)
            (Mul_alias_check 2 2 2 0 1 2 (exampleState 2 2 2))) ∧
      (2 ≤ N ∧ (N < 2 ∨ N < 2) →
        Mul_tier debugManualBuild 2 2 2 = .semi_generic ∧
        (unrolledTable N).find? (fun br => br.guard 2 2 2) = some (stdLoop 2) ∧
        Mul debugManualBuild (ringOps Int) 2 2 2 0 1 2 (exampleState 2 2 2) =
          execBranch (ringOps Int) 2 2 0 1 2 (stdLoop 2)
            (Mul_alias_check 2 2 2 0 1 2 (exampleState 2 2 2))) ∧
      (N < 2 →
        (unrolledTable N).find? (fun br => br.guard 2 2 2) = none ∧
        Mul debugManualBuild (ringOps Int) 2 2 2 0 1 2 (exampleState 2 2 2) =
          Mul_fallback (ringOps Int) 2 2 2 0 1 2
            (Mul_alias_check 2 2 2 0 1 2 (exampleState 2 2 2))) ∧
      (Mul_tier debugManualBuild 2 2 2 = .fallback ↔ N < 2)) ∧
    (debugManualBuild.bound = none →
      Mul_tier debugManualBuild 2 2 2 = .fallback ∧
      Mul debugManualBuild (ringOps Int) 2 2 2 0 1 2 (exampleState 2 2 2) =
        Mul_fallback (ringOps Int) 2 2 2 0 1 2
          (Mul_alias_check 2 2 2 0 1 2 (exampleState 2 2 2))) :=
  Mul_tier_selection debugManualBuild (ringOps Int) (by decide) (by decide) (by decide)
    0 1 2 (exampleState 2 2 2) (mkMat_shape 2 2 (exampleA 2)) (mkMat_shape 2 2 (exampleB 2))
    (mkMat_shape 2 2 (fun _ _ => (9 : Int)))

/-- The code of `Mul` depends on the build through the bound of the `#if` chain only. -/
theorem Mul_congr_bound {b1 b2 : Build} (h : b1.bound = b2.bound) (ops : ElemOps E)
    (RA K CB : Nat) (A B C : Ref) (s : State E) :
    Mul b1 ops RA K CB A B C s = Mul b2 ops RA K CB A B C s := by
  unfold Mul Build.unrolled
  rw [h]

set_option maxRecDepth 100000 in
/-- The call `Mul(A, B, A)` on `A = [[1, 2], [3, 4]]` and `B = [[5, 6], [7, 8]]` in the
four kinds of build. -/
theorem Mul_aliased_example :
    (Mul debugBuild (ringOps Int) 2 2 2 0 1 0 (exampleState 2 2 2)).toOption.map
      (fun t => t.heap 0) = some ⟨2, 2, [0, 0, 0, 0]⟩ ∧
    (Mul sourceBuild (ringOps Int) 2 2 2 0 1 0 (exampleState 2 2 2)).toOption.map
      (fun t => t.heap 0) = some ⟨2, 2, [19, 130, 43, 290]⟩ ∧
    (Mul releaseBuild (ringOps Int) 2 2 2 0 1 0 (exampleState 2 2 2)).toOption.map
      (fun t => t.heap 0) = some ⟨2, 2, [19, 130, 43, 290]⟩ ∧
    (Mul fullBuild (ringOps Int) 2 2 2 0 1 0 (exampleState 2 2 2)).toOption.map
      (fun t => t.heap 0) = some ⟨2, 2, [19, 130, 43, 290]⟩ ∧
    mkMat 2 2 (Mul_reference (exampleA 2) (exampleB 2) 2) = ⟨2, 2, [19, 22, 43, 50]⟩ := by
  decide

/-- C22, aliasing hazard.  There are a 2 x 2 integer matrix `A = [[1, 2], [3, 4]]` and a
matrix `B = [[5, 6], [7, 8]]` such that, in every build, the call `Mul(A, B, A)` returns
and leaves in `A` a matrix `m` that is not the product `[[19, 22], [43, 50]]` of the
original `A` and `B` (it is `[[19, 130], [43, 290]]` when the 2x2 * 2x2 branch runs and
the zero matrix when the fallback runs). -/
theorem Mul_aliasing_hazard (bld : Build) :
    ∃ (fa fb : Nat → Nat → Int) (s : State Int),
      s.heap 0 = mkMat 2 2 fa ∧ s.heap 1 = mkMat 2 2 fb ∧
      ∃ m, (Mul bld (ringOps Int) 2 2 2 0 1 0 s).toOption.map (fun t => t.heap 0) = some m ∧
        m ≠ mkMat 2 2 (Mul_reference fa fb 2) ∧
        (m = ⟨2, 2, [19, 130, 43, 290]⟩ ∨ m = ⟨2, 2, [0, 0, 0, 0]⟩) := by
  obtain ⟨h0, h3, h4, h5, href⟩ := Mul_aliased_example
  refine ⟨exampleA 2, exampleB 2, exampleState 2 2 2, rfl, rfl, ?_⟩
  rw [href]
  rcases bld.bound_cases with h | h | h | h
  · rw [Mul_congr_bound (h.trans (by decide : debugBuild.bound = none).symm)]
    exact ⟨_, h0, by decide, Or.inr rfl⟩
  · rw [Mul_congr_bound (h.trans (by decide : sourceBuild.bound = some 3).symm)]
    exact ⟨_, h3, by decide, Or.inl rfl⟩
  · rw [Mul_congr_bound (h.trans (by decide : releaseBuild.bound = some 4).symm)]
    exact ⟨_, h4, by decide, Or.inl rfl⟩
  · rw [Mul_congr_bound (h.trans (by decide : fullBuild.bound = some 5).symm)]
    exact ⟨_, h5, by decide, Or.inl rfl⟩

/-- C23, the off-by-one of the reference bound check.  The function `POS_XY` raises
exactly when `column > _Cols` or `row > _Rows`, the column being tested first, and
otherwise returns `row * _Cols + column`; so `row == _Rows` and `column == _Cols` pass.
On a matrix of that shape: `at(_Rows, c)` for `c <= _Cols` denotes the position
`_Rows * _Cols + c`, past the end of the store, so reading it is an access outside the
buffer without an out-of-range error; and `at(r, _Cols)` for `r + 1 < _Rows` denotes the
position of the element `(r + 1, 0)`, which a read returns. -/
theorem POS_XY_off_by_one (s : State E) (obj : Ref) (d : E) {Rows Cols : Nat}
    (hs : HasShape (s.heap obj) Rows Cols) (row column : Nat) :
    ((∃ e, POS_XY Rows Cols row column = .error e) ↔ (column > Cols ∨ row > Rows)) ∧
    (column > Cols → POS_XY Rows Cols row column = .error (.runtime_error "X out of range!")) ∧
    (column ≤ Cols → row > Rows →
      POS_XY Rows Cols row column = .error (.runtime_error "Y out of range!")) ∧
    (column ≤ Cols → row ≤ Rows → POS_XY Rows Cols row column = .ok (row * Cols + column)) ∧
    (column ≤ Cols →
      s.at2 obj Rows column = .ok (Rows * Cols + column, s.log (.at2 obj Rows column)) ∧
      Rows * Cols ≤ Rows * Cols + column ∧
      s.read obj (.at2 Rows column) = .error .undefined_behaviour) ∧
    (row + 1 < Rows →
      s.at2 obj row Cols = .ok ((row + 1) * Cols + 0, s.log (.at2 obj row Cols)) ∧
      (1 ≤ Cols → s.read obj (.at2 row Cols) =
        .ok ((s.heap obj).elem d (row + 1) 0, s.log (.at2 obj row Cols)))) := by
  have hpass : ∀ r c, c ≤ Cols → r ≤ Rows → POS_XY Rows Cols r c = .ok (r * Cols + c) := by
    intro r c hc hr
    unfold POS_XY
    rw [if_neg (by omega), if_neg (by omega)]
  have hat : ∀ r c, c ≤ Cols → r ≤ Rows →
      s.at2 obj r c = .ok (r * Cols + c, s.log (.at2 obj r c)) := by
    intro r c hc hr
    unfold State.at2
    rw [hs.1, hs.2.1, hpass r c hc hr]
  refine ⟨?_, ?_, ?_, hpass row column, ?_, ?_⟩
  · rw [POS_XY_error_iff]
    exact Or.comm
  · intro h
    unfold POS_XY
    rw [if_pos h]
  · intro h1 h2
    unfold POS_XY
    rw [if_neg (by omega), if_pos h2]
  · intro hc
    refine ⟨hat Rows column hc (Nat.le_refl _), Nat.le_add_right _ _, ?_⟩
    have href : s.ref obj (.at2 Rows column) = s.at2 obj Rows column := rfl
    unfold State.read
    rw [href, hat Rows column hc (Nat.le_refl _)]
    simp only
    rw [load_outside _ (by rw [State.log_heap, hs.2.2]; exact Nat.le_add_right _ _)]
  · intro hr
    have h1 : row * Cols + Cols = (row + 1) * Cols + 0 := by rw [Nat.succ_mul, Nat.add_zero]
    have h2 := hat row Cols (Nat.le_refl _) (by omega)
    rw [h1] at h2
    refine ⟨h2, ?_⟩
    intro hC
    have href : s.ref obj (.at2 row Cols) = s.at2 obj row Cols := rfl
    unfold State.read
    rw [href, h2]
    simp only
    have hlt : (row + 1) * Cols + 0 < ((s.log (.at2 obj row Cols)).heap obj).p_mat.length := by
      rw [State.log_heap, hs.2.2]
      exact pos_lt hr hC
    rw [load_ok _ hlt]
    simp only [State.log_heap, Matrix2D.elem, hs.2.1]
    rw [List.getD_eq_getElem _ _ (by rw [← State.log_heap s (.at2 obj row Cols)]; exact hlt)]
    rfl

set_option maxRecDepth 100000 in
/-- Witness of C23: on `[[1, 2], [3, 4]]`, `at(0, 2)` reads 3, the element `(1, 0)`, and
`at(2, 0)` is outside the buffer. -/
theorem POS_XY_off_by_one_witness :
    (((∃ e, POS_XY 2 2 0 2 = .error e) ↔ (2 > 2 ∨ 0 > 2)) ∧
    (2 > 2 → POS_XY 2 2 0 2 = .error (.runtime_error "X out of range!")) ∧
    (2 ≤ 2 → 0 > 2 → POS_XY 2 2 0 2 = .error (.runtime_error "Y out of range!")) ∧
    (2 ≤ 2 → 0 ≤ 2 → POS_XY 2 2 0 2 = .ok (0 * 2 + 2)) ∧
    (2 ≤ 2 →
      (exampleState 2 2 2).at2 0 2 2 = .ok (2 * 2 + 2, (exampleState 2 2 2).log (.at2 0 2 2)) ∧
      2 * 2 ≤ 2 * 2 + 2 ∧
      (exampleState 2 2 2).read 0 (.at2 2 2) = .error .undefined_behaviour) ∧
    (0 + 1 < 2 →
      (exampleState 2 2 2).at2 0 0 2 =
        .ok ((0 + 1) * 2 + 0, (exampleState 2 2 2).log (.at2 0 0 2)) ∧
      (1 ≤ 2 → (exampleState 2 2 2).read 0 (.at2 0 2) =
        .ok (((exampleState 2 2 2).heap 0).elem 0 (0 + 1) 0,
          (exampleState 2 2 2).log (.at2 0 0 2))))) ∧
    ((exampleState 2 2 2).heap 0).elem 0 (0 + 1) 0 = 3 ∧
    ((exampleState 2 2 2).read 0 (.at2 0 2)).toOption.map Prod.fst = some 3 :=
  ⟨POS_XY_off_by_one (exampleState 2 2 2) 0 0 (mkMat_shape 2 2 (exampleA 2)) 0 2,
    by decide, by decide⟩

/-! ## Aliasing in the fallback, the gap of the diagnostic, additive conversions -/

theorem zeros_eq {R : Type} [Semiring R] (RA CB : Nat) :
    (⟨RA, CB, List.replicate (RA * CB) 0⟩ : Matrix2D R) = mkMat RA CB (fun _ _ => 0) := by
  simp [mkMat]

theorem zeros_set {R : Type} [Semiring R] {RA CB : Nat} (m : Matrix2D R) (idx : Nat)
    (hm : m = mkMat RA CB (fun _ _ => 0)) :
    (⟨m.c_rows, m.c_cols, m.p_mat.set idx 0⟩ : Matrix2D R) = mkMat RA CB (fun _ _ => 0) := by
  rw [hm, ← zeros_eq]
  show (⟨RA, CB, (List.replicate (RA * CB) (0 : R)).set idx 0⟩ : Matrix2D R) = _
  rw [List.set_replicate_self]

/-- The state reached from `s` has the zero matrix in `C` and every other object as in `s`. -/
theorem zeroed_shape {R : Type} [Semiring R] {C o : Ref} {RA CB R1 C1 : Nat} {s t : State R}
    (hC : HasShape (s.heap C) RA CB) (h1 : t.heap C = mkMat RA CB (fun _ _ => 0))
    (h2 : ∀ o, o ≠ C → t.heap o = s.heap o) (ho : HasShape (s.heap o) R1 C1) :
    HasShape (t.heap o) R1 C1 := by
  by_cases h : o = C
  · subst h
    rw [h1]
    have e1 : RA = R1 := hC.1.symm.trans ho.1
    have e2 : CB = C1 := hC.2.1.symm.trans ho.2.1
    subst e1 e2
    exact mkMat_shape _ _ _
  · rw [h2 o h]; exact ho

/-- The generic fallback with the output being one of the inputs, on integers: the
output (and so that input) ends entirely zero, and no other object changes. -/
theorem Mul_fallback_aliased {R : Type} [Semiring R] {A B C : Ref} {RA K CB : Nat}
    (s : State R) (hal : A = C ∨ B = C)
    (hA : HasShape (s.heap A) RA K) (hB : HasShape (s.heap B) K CB)
    (hC : HasShape (s.heap C) RA CB) :
    ∃ t, Mul_fallback (ringOps R) RA K CB A B C s = .ok t ∧
      t.heap C = mkMat RA CB (fun _ _ => 0) ∧ ∀ o, o ≠ C → t.heap o = s.heap o := by
  unfold Mul_fallback
  simp only
  rw [memset0_ok s (ringOps R).zero hC]
  simp only
  have key := nested_inv
    (fun n (st : Nat × State R) => st.1 = n ∧
      st.2.heap C = mkMat RA CB (fun _ _ => 0) ∧ ∀ o, o ≠ C → st.2.heap o = s.heap o)
    RA CB
    (fun rowsA colsB (st : Nat × State R) =>
      match forLoop K (fun rowCol s =>
        match s.read_at2 A rowsA rowCol with
        | .error e => .error e
        | .ok (x, s1) =>
          match s1.read_at2 B rowCol colsB with
          | .error e => .error e
          | .ok (y, s2) =>
            s2.plus_assign_index (ringOps R) C st.1 ((ringOps R).conv ((ringOps R).mul x y)))
          st.2 with
      | .error e => .error e
      | .ok s3 => .ok (st.1 + 1, s3))
    (0, (s.logs [.index C 0]).setMat C
      { s.heap C with p_mat := List.replicate (RA * CB) (ringOps R).zero })
    ⟨rfl, by
        rw [State.setMat_heap_self, ← zeros_eq]
        show (⟨(s.heap C).c_rows, (s.heap C).c_cols, List.replicate (RA * CB) (0 : R)⟩ :
          Matrix2D R) = _
        rw [hC.1, hC.2.1],
      fun o ho => by rw [State.setMat_heap_ne _ _ _ _ ho]; rfl⟩
    (fun i j st hi hj hP => by
      obtain ⟨p1, p2, p3⟩ := hP
      have hinv := forLoop_inv
        (fun _ (t : State R) =>
          t.heap C = mkMat RA CB (fun _ _ => 0) ∧ ∀ o, o ≠ C → t.heap o = s.heap o)
        K
        (fun rowCol s =>
          match s.read_at2 A i rowCol with
          | .error e => .error e
          | .ok (x, s1) =>
            match s1.read_at2 B rowCol j with
            | .error e => .error e
            | .ok (y, s2) =>
              s2.plus_assign_index (ringOps R) C st.1 ((ringOps R).conv ((ringOps R).mul x y)))
        st.2 ⟨p2, p3⟩
        (fun k t hk hQ => by
          obtain ⟨q1, q2⟩ := hQ
          have hAt := zeroed_shape hC q1 q2 hA
          have hBt := zeroed_shape hC q1 q2 hB
          have hCt := zeroed_shape hC q1 q2 hC
          refine ⟨_, accum_ok (ringOps R) 0 i j k st.1 t hi hk hj
            (by rw [p1]; exact pos_lt hi hj) hAt hBt hCt, ?_, ?_⟩
          · have hprod : (t.heap A).elem 0 i k * (t.heap B).elem 0 k j = 0 := by
              rcases hal with h | h
              · have e : K = CB := hA.2.1.symm.trans (by rw [h]; exact hC.2.1)
                rw [h, q1, elem_mkMat _ 0 hi (by omega), zero_mul]
              · have e : K = RA := hB.1.symm.trans (by rw [h]; exact hC.1)
                rw [h, q1, elem_mkMat _ 0 (by omega) hj, mul_zero]
            have hget : (t.heap C).p_mat.getD st.1 0 = 0 := by
              rw [q1, p1]
              have := elem_mkMat (fun _ _ => (0 : R)) 0 hi hj
              unfold Matrix2D.elem at this
              exact this
            unfold accumResult
            rw [State.setMat_heap_self]
            show (⟨(t.heap C).c_rows, (t.heap C).c_cols, (t.heap C).p_mat.set st.1
              ((t.heap C).p_mat.getD st.1 0 +
                (t.heap A).elem 0 i k * (t.heap B).elem 0 k j)⟩ : Matrix2D R) = _
            rw [hprod, hget, add_zero]
            exact zeros_set (t.heap C) st.1 q1
          · intro o ho
            unfold accumResult
            rw [State.setMat_heap_ne _ _ _ _ ho]
            exact q2 o ho)
      obtain ⟨t, ht, q1, q2⟩ := hinv
      exact ⟨(st.1 + 1, t), by simp only [ht], by simp [p1], q1, q2⟩)
  obtain ⟨t, ht, _, f1, f2⟩ := key
  split
  · next e heq => exact absurd (heq.symm.trans ht) (by simp)
  · next st heq =>
    have hst : st = t := Except.ok.inj (heq.symm.trans ht)
    subst hst
    exact ⟨_, rfl, f1, f2⟩

theorem Mul_tier_fallback {bld : Build} {K : Nat} (hK : 1 ≤ K)
    (h : bld.bound = none ∨ ∃ N, bld.bound = some N ∧ N < K) (RA CB : Nat) :
    Mul_tier bld RA K CB = .fallback := by
  rcases h with h | ⟨N, hN, hlt⟩
  · exact Mul_tier_none h RA K CB
  · rw [Mul_tier_some hN]
    rcases find_stdTable N RA K CB hK with ⟨_, hf⟩ | ⟨hle, _⟩
    · rw [hf]
    · omega

/-- The call `Mul` in a build and for a shape that select the fallback, with the output
being one of the inputs. -/
theorem Mul_aliased_fallback {R : Type} [Semiring R] (bld : Build) {RA K CB : Nat}
    (hK : 1 ≤ K) (hfb : bld.bound = none ∨ ∃ N, bld.bound = some N ∧ N < K) {A B C : Ref}
    (hal : A = C ∨ B = C) (s : State R)
    (hA : HasShape (s.heap A) RA K) (hB : HasShape (s.heap B) K CB)
    (hC : HasShape (s.heap C) RA CB) :
    ∃ t, Mul bld (ringOps R) RA K CB A B C s = .ok t ∧
      t.heap C = mkMat RA CB (fun _ _ => 0) ∧ ∀ o, o ≠ C → t.heap o = s.heap o := by
  rw [Mul_eq_fallback bld (ringOps R) RA K CB A B C s hK hfb]
  obtain ⟨t, ht, h1, h2⟩ := Mul_fallback_aliased (Mul_alias_check RA K CB A B C s) hal
    (by rw [Mul_alias_check_heap]; exact hA) (by rw [Mul_alias_check_heap]; exact hB)
    (by rw [Mul_alias_check_heap]; exact hC)
  refine ⟨t, ht, h1, ?_⟩
  intro o ho
  rw [h2 o ho, Mul_alias_check_heap]

/-- C24, aliasing in the fallback tier.  Whenever the build and the shape select the
generic fallback of `Mul` (nothing is unrolled, or `_ColsA` exceeds the bound) and the
output `C` is the same object as the input `A` or as the input `B`, then for every
integer input (elements in any semiring) the call returns and leaves `C`, and therefore
that input, entirely zero, and no other object changes; in particular, for every square
matrix `X` (`n` x `n`) whose size exceeds the bound, `X *= X` returns and leaves `X`
entirely zero. -/
theorem Mul_fallback_aliased_zero {R : Type} [Semiring R] (bld : Build) {RA K CB : Nat}
    (hK : 1 ≤ K) (hfb : bld.bound = none ∨ ∃ N, bld.bound = some N ∧ N < K) {A B C : Ref}
    (hal : A = C ∨ B = C) (s : State R)
    (hA : HasShape (s.heap A) RA K) (hB : HasShape (s.heap B) K CB)
    (hC : HasShape (s.heap C) RA CB) :
    Mul_tier bld RA K CB = .fallback ∧
    (∃ t, Mul bld (ringOps R) RA K CB A B C s = .ok t ∧
      t.heap C = mkMat RA CB (fun _ _ => 0) ∧
      (A = C → t.heap A = mkMat RA CB (fun _ _ => 0)) ∧
      (B = C → t.heap B = mkMat RA CB (fun _ _ => 0)) ∧
      ∀ o, o ≠ C → t.heap o = s.heap o) ∧
    (∀ (n : Nat) (X : Ref), 1 ≤ n → (bld.bound = none ∨ ∃ N, bld.bound = some N ∧ N < n) →
      X < s.next → HasShape (s.heap X) n n →
      ∃ t, operator_mul_assign bld (ringOps R) n n n n X X s = .ok t ∧
        t.heap X = mkMat n n (fun _ _ => 0)) := by
  refine ⟨Mul_tier_fallback hK hfb RA CB, ?_, ?_⟩
  · obtain ⟨t, ht, h1, h2⟩ := Mul_aliased_fallback bld hK hfb hal s hA hB hC
    exact ⟨t, ht, h1, fun h => by rw [h]; exact h1, fun h => by rw [h]; exact h1, h2⟩
  · intro n X hn hfbn hX hXs
    have hXn : X ≠ s.next := Nat.ne_of_lt hX
    obtain ⟨t1, hc, _, g1, g2⟩ := copy_construct_spec n n X s hXs
    obtain ⟨t, ht, h1, _⟩ := @Mul_aliased_fallback R _ bld n n n hn hfbn s.next X X
      (Or.inr rfl) t1 (by rw [g1]; exact hXs) (by rw [g2 X hXn]; exact hXs)
      (by rw [g2 X hXn]; exact hXs)
    refine ⟨t, ?_, h1⟩
    unfold operator_mul_assign
    rw [if_neg (by simp), if_neg (by simp), hc]
    exact ht

set_option maxRecDepth 100000 in
/-- Witness of C24: `Mul(A, B, A)` on `A = [[1, 2], [3, 4]]` in a build that unrolls
nothing; and `X *= X` there. -/
theorem Mul_fallback_aliased_zero_witness :
    (Mul_tier debugBuild 2 2 2 = .fallback ∧
    (∃ t, Mul debugBuild (ringOps Int) 2 2 2 0 1 0 (exampleState 2 2 2) = .ok t ∧
      t.heap 0 = mkMat 2 2 (fun _ _ => 0) ∧
      (0 = 0 → t.heap 0 = mkMat 2 2 (fun _ _ => 0)) ∧
      (1 = 0 → t.heap 1 = mkMat 2 2 (fun _ _ => 0)) ∧
      ∀ o, o ≠ 0 → t.heap o = (exampleState 2 2 2).heap o) ∧
    (∀ (n : Nat) (X : Ref), 1 ≤ n →
      (debugBuild.bound = none ∨ ∃ N, debugBuild.bound = some N ∧ N < n) →
      X < (exampleState 2 2 2).next → HasShape ((exampleState 2 2 2).heap X) n n →
      ∃ t, operator_mul_assign debugBuild (ringOps Int) n n n n X X (exampleState 2 2 2) = .ok t ∧
        t.heap X = mkMat n n (fun _ _ => 0))) ∧
    (operator_mul_assign debugBuild (ringOps Int) 2 2 2 2 0 0 (exampleState 2 2 2)).toOption.map
      (fun t => t.heap 0) = some ⟨2, 2, [0, 0, 0, 0]⟩ ∧
    (operator_mul_assign sourceBuild (ringOps Int) 4 4 4 4 0 0 (exampleState 4 4 4)).toOption.map
      (fun t => (t.heap 0).p_mat) = some (List.replicate 16 0) :=
  ⟨Mul_fallback_aliased_zero debugBuild (by decide) (Or.inl (by decide)) (Or.inl rfl)
      (exampleState 2 2 2) (mkMat_shape 2 2 (exampleA 2)) (mkMat_shape 2 2 (exampleB 2))
      (mkMat_shape 2 2 (exampleA 2)),
    by decide, by decide⟩

/-- What the aliasing test of `Mul` writes to `std::cerr`: each warning needs both its
pair of objects to coincide and `_ColsA == _ColsB`. -/
theorem Mul_alias_check_cerr (RA K CB : Nat) (A B C : Ref) (s : State E) :
    (Mul_alias_check RA K CB A B C s).cerr =
      s.cerr ++ (if K = CB ∧ A = C then [warnA] else []) ++
        (if K = CB ∧ B = C then [warnB] else []) := by
  unfold Mul_alias_check
  by_cases h1 : K = CB <;> by_cases h2 : A = C <;> by_cases h3 : B = C <;>
    simp [h1, h2, h3, State.print]

set_option maxRecDepth 100000 in
/-- The call `Mul(A, B, B)` for `A = [[1, 2], [3, 4]]` and the 2 x 3 matrix
`B = [[5, 6, 7], [8, 9, 10]]`. -/
theorem Mul_aliased_B_example :
    (exampleState 2 2 3).heap 0 = ⟨2, 2, [1, 2, 3, 4]⟩ ∧
    (exampleState 2 2 3).heap 1 = ⟨2, 3, [5, 6, 7, 8, 9, 10]⟩ ∧
    mkMat 2 3 (Mul_reference (exampleA 2) (exampleB 3) 2) = ⟨2, 3, [21, 24, 27, 47, 54, 61]⟩ ∧
    (Mul sourceBuild (ringOps Int) 2 2 3 0 1 1 (exampleState 2 2 3)).toOption.map
      (fun t => (t.heap 1, t.cerr)) = some (⟨2, 3, [21, 24, 27, 95, 108, 121]⟩, []) ∧
    (Mul debugBuild (ringOps Int) 2 2 3 0 1 1 (exampleState 2 2 3)).toOption.map
      (fun t => (t.heap 1, t.cerr)) = some (⟨2, 3, [0, 0, 0, 0, 0, 0]⟩, []) := by
  decide

/-- C25, the gap in the aliasing diagnostic.  For every build, arithmetic, shape with
`_ColsA >= 1` and objects of the right shapes, whichever of them coincide: `Mul` returns,
and what it writes to `std::cerr` is the warning for `A` when `A` is `C` and
`_ColsA == _ColsB`, followed by the warning for `B` when `B` is `C` and
`_ColsA == _ColsB`; so the warning for `B` is written if and only if `B` and `C` are the
same object and `_ColsA == _ColsB`, and with `B` the same object as `C` and
`_ColsA != _ColsB` (then `A` is square) nothing is written.  On `A = [[1, 2], [3, 4]]`
and `B = [[5, 6, 7], [8, 9, 10]]` the call `Mul(A, B, B)` writes nothing to `std::cerr`
and leaves `[[21, 24, 27], [95, 108, 121]]` in `B` when the 2x2 * 2x3 branch runs (the
second row is computed from the first row that the call has just stored) and the zero
matrix when the fallback runs, not the product `[[21, 24, 27], [47, 54, 61]]`. -/
theorem Mul_alias_diagnostic_gap (bld : Build) (ops : ElemOps E) {RA K CB : Nat} (hK : 1 ≤ K)
    (A B C : Ref) (s : State E)
    (hA : HasShape (s.heap A) RA K) (hB : HasShape (s.heap B) K CB)
    (hC : HasShape (s.heap C) RA CB) :
    (∃ t, Mul bld ops RA K CB A B C s = .ok t ∧
      t.cerr = s.cerr ++ (if K = CB ∧ A = C then [warnA] else []) ++
        (if K = CB ∧ B = C then [warnB] else []) ∧
      (warnB ∈ t.cerr.drop s.cerr.length ↔ (B = C ∧ K = CB)) ∧
      (B = C → K ≠ CB → t.cerr = s.cerr ∧ RA = K)) ∧
    mkMat 2 3 (Mul_reference (exampleA 2) (exampleB 3) 2) = ⟨2, 3, [21, 24, 27, 47, 54, 61]⟩ ∧
    (Mul sourceBuild (ringOps Int) 2 2 3 0 1 1 (exampleState 2 2 3)).toOption.map
      (fun t => (t.heap 1, t.cerr)) = some (⟨2, 3, [21, 24, 27, 95, 108, 121]⟩, []) ∧
    (Mul debugBuild (ringOps Int) 2 2 3 0 1 1 (exampleState 2 2 3)).toOption.map
      (fun t => (t.heap 1, t.cerr)) = some (⟨2, 3, [0, 0, 0, 0, 0, 0]⟩, []) := by
  obtain ⟨_, _, e1, e2, e3⟩ := Mul_aliased_B_example
  refine ⟨?_, e1, e2, e3⟩
  obtain ⟨t, l, ht, hE, _⟩ := Mul_returns bld ops s hK hA hB hC
  have hcerr : t.cerr = s.cerr ++ (if K = CB ∧ A = C then [warnA] else []) ++
      (if K = CB ∧ B = C then [warnB] else []) := by
    rw [hE.2.1, Mul_alias_check_cerr]
  have hne : warnB ≠ warnA := by decide
  refine ⟨t, ht, hcerr, ?_, ?_⟩
  · rw [hcerr, List.append_assoc, List.drop_left]
    by_cases h1 : K = CB <;> by_cases h2 : A = C <;> by_cases h3 : B = C <;>
      simp [h1, h2, h3, hne]
  · intro h1 h2
    refine ⟨?_, ?_⟩
    · rw [hcerr, if_neg (fun h => h2 h.1), if_neg (fun h => h2 h.1)]
      simp
    · exact hC.1.symm.trans (by rw [← h1]; exact hB.1)

/-- Witness of C25: `Mul(A, B, B)` for the 2 x 2 matrix `A` and the 2 x 3 matrix `B`. -/
theorem Mul_alias_diagnostic_gap_witness :
    (∃ t, Mul sourceBuild (ringOps Int) 2 2 3 0 1 1 (exampleState 2 2 3) = .ok t ∧
      t.cerr = (exampleState 2 2 3).cerr ++ (if 2 = 3 ∧ 0 = 1 then [warnA] else []) ++
        (if 2 = 3 ∧ 1 = 1 then [warnB] else []) ∧
      (warnB ∈ t.cerr.drop (exampleState 2 2 3).cerr.length ↔ (1 = 1 ∧ 2 = 3)) ∧
      (1 = 1 → 2 ≠ 3 → t.cerr = (exampleState 2 2 3).cerr ∧ 2 = 2)) ∧
    mkMat 2 3 (Mul_reference (exampleA 2) (exampleB 3) 2) = ⟨2, 3, [21, 24, 27, 47, 54, 61]⟩ ∧
    (Mul sourceBuild (ringOps Int) 2 2 3 0 1 1 (exampleState 2 2 3)).toOption.map
      (fun t => (t.heap 1, t.cerr)) = some (⟨2, 3, [21, 24, 27, 95, 108, 121]⟩, []) ∧
    (Mul debugBuild (ringOps Int) 2 2 3 0 1 1 (exampleState 2 2 3)).toOption.map
      (fun t => (t.heap 1, t.cerr)) = some (⟨2, 3, [0, 0, 0, 0, 0, 0]⟩, []) :=
  Mul_alias_diagnostic_gap sourceBuild (ringOps Int) (by decide) 0 1 1 (exampleState 2 2 3)
    (mkMat_shape 2 2 (exampleA 2)) (mkMat_shape 2 3 (exampleB 3)) (mkMat_shape 2 3 (exampleB 3))

/-- For a conversion that maps the zero `z` of the products to the zero of `_ElemC` and
commutes with addition, converting every product and adding with `+=` gives the
conversion of the sum of the products. -/
theorem fallbackValue_eq_unrolledValue (ops : ElemOps E) (z : E) (hz : ∀ x, ops.add z x = x)
    (h0 : ops.conv z = ops.zero)
    (hadd : ∀ x y, ops.conv (ops.add x y) = ops.plus_assign (ops.conv x) (ops.conv y))
    (fa fb : Nat → Nat → E) {K : Nat} (hK : 1 ≤ K) (r c : Nat) :
    fallbackValue ops fa fb K r c = unrolledValue ops fa fb K r c := by
  obtain ⟨n, rfl⟩ : ∃ n, K = n + 1 := ⟨K - 1, by omega⟩
  unfold fallbackValue unrolledValue
  induction n with
  | zero =>
    show ops.plus_assign ops.zero (ops.conv (ops.mul (fa r 0) (fb 0 c))) =
      ops.conv (ops.mul (fa r 0) (fb 0 c))
    rw [← h0, ← hadd, hz]
  | succ n ih =>
    rw [List.range_succ, List.foldl_append, ih (by omega), sumLeft_succ, hadd]
    rfl

/-- In every build, what `Mul` leaves in a separate `C` is the matrix of the values of
the unrolled code or the matrix of the values of the fallback. -/
theorem Mul_value_cases (bld : Build) (ops : ElemOps E) {RA K CB : Nat} (hK : 1 ≤ K)
    {A B C : Ref} (hAC : A ≠ C) (hBC : B ≠ C) (s : State E) (fa fb : Nat → Nat → E)
    (hA : s.heap A = mkMat RA K fa) (hB : s.heap B = mkMat K CB fb)
    (hC : HasShape (s.heap C) RA CB) :
    ∃ t, Mul bld ops RA K CB A B C s = .ok t ∧
      (t.heap C = mkMat RA CB (unrolledValue ops fa fb K) ∨
        t.heap C = mkMat RA CB (fallbackValue ops fa fb K)) := by
  rcases bld.tier_cases K with ⟨N, hN, hKN⟩ | h
  · obtain ⟨_, t, _, _, _, ht, _, h1, _⟩ :=
      Mul_unrolled_spec bld ops s fa fb hN hK hKN hAC hBC hA hB hC
    exact ⟨t, ht, Or.inl h1⟩
  · obtain ⟨t, ht, _, h1, _⟩ := Mul_fallback_spec bld ops s fa fb hK h hAC hBC hA hB hC
    exact ⟨t, ht, Or.inr h1⟩

/-- C26, additive conversions keep the tiers equal.  When the conversion `conv` to the
element type of `C` maps the zero `z` of the arithmetic of the products to the zero of
`C` and commutes with addition (`conv (p + q)` is `conv p` plus `conv q` in the
arithmetic of `C`), then for every input and every cell the value of the fallback,
`conv(p_0) + ... + conv(p_{_ColsA-1})` accumulated from zero, equals the value of the
exact-shape and semi-generic branches, `conv(p_0 + ... + p_{_ColsA-1})`, where
`p_k = A(r,k) * B(k,c)`; so in every build `Mul` returns and leaves that same matrix in a
separate `C`. -/
theorem Mul_additive_conversion (ops : ElemOps E) (z : E) (hz : ∀ x, ops.add z x = x)
    (h0 : ops.conv z = ops.zero)
    (hadd : ∀ x y, ops.conv (ops.add x y) = ops.plus_assign (ops.conv x) (ops.conv y))
    {RA K CB : Nat} (hK : 1 ≤ K) {A B C : Ref} (hAC : C ≠ A) (hBC : C ≠ B) (s : State E)
    (fa fb : Nat → Nat → E) (hA : s.heap A = mkMat RA K fa) (hB : s.heap B = mkMat K CB fb)
    (hC : HasShape (s.heap C) RA CB) :
    (∀ r c, fallbackValue ops fa fb K r c = unrolledValue ops fa fb K r c) ∧
    (∀ r c, fallbackValue ops fa fb K r c =
      (List.range K).foldl
        (fun acc k => ops.plus_assign acc (ops.conv (ops.mul (fa r k) (fb k c)))) ops.zero) ∧
    (∀ r c, unrolledValue ops fa fb K r c =
      ops.conv (sumLeft ops.add (fun k => ops.mul (fa r k) (fb k c)) K)) ∧
    ∀ bld : Build, ∃ t, Mul bld ops RA K CB A B C s = .ok t ∧
      t.heap C = mkMat RA CB (unrolledValue ops fa fb K) ∧
      t.heap C = mkMat RA CB (fallbackValue ops fa fb K) := by
  have heq := fallbackValue_eq_unrolledValue ops z hz h0 hadd fa fb hK
  have hmat : mkMat RA CB (fallbackValue ops fa fb K) = mkMat RA CB (unrolledValue ops fa fb K) :=
    mkMat_congr (fun r c _ _ => heq r c)
  refine ⟨heq, fun _ _ => rfl, fun _ _ => rfl, ?_⟩
  intro bld
  obtain ⟨t, ht, h⟩ := Mul_value_cases bld ops hK (Ne.symm hAC) (Ne.symm hBC) s fa fb hA hB hC
  rcases h with h | h
  · exact ⟨t, ht, h, by rw [hmat]; exact h⟩
  · exact ⟨t, ht, by rw [← hmat]; exact h, h⟩

/-- Witness of C26: integer products stored in an unsigned type of 8 bits. -/
theorem Mul_additive_conversion_witness :
    (∀ r c, fallbackValue (wrapOps 8) (exampleA 2) (exampleB 2) 2 r c =
      unrolledValue (wrapOps 8) (exampleA 2) (exampleB 2) 2 r c) ∧
    (∀ r c, fallbackValue (wrapOps 8) (exampleA 2) (exampleB 2) 2 r c =
      (List.range 2).foldl
        (fun acc k => (wrapOps 8).plus_assign acc
          ((wrapOps 8).conv ((wrapOps 8).mul (exampleA 2 r k) (exampleB 2 k c))))
        (wrapOps 8).zero) ∧
    (∀ r c, unrolledValue (wrapOps 8) (exampleA 2) (exampleB 2) 2 r c =
      (wrapOps 8).conv (sumLeft (wrapOps 8).add
        (fun k => (wrapOps 8).mul (exampleA 2 r k) (exampleB 2 k c)) 2)) ∧
    ∀ bld : Build, ∃ t, Mul bld (wrapOps 8) 2 2 2 0 1 2 (exampleState 2 2 2) = .ok t ∧
      t.heap 2 = mkMat 2 2 (unrolledValue (wrapOps 8) (exampleA 2) (exampleB 2) 2) ∧
      t.heap 2 = mkMat 2 2 (fallbackValue (wrapOps 8) (exampleA 2) (exampleB 2) 2) :=
  Mul_additive_conversion (wrapOps 8) 0 (fun x => Int.zero_add x) (by decide)
    (fun x y => Int.add_emod x y (2 ^ 8)) (by decide) (by decide) (by decide)
    (exampleState 2 2 2) (exampleA 2) (exampleB 2) rfl rfl
    (mkMat_shape 2 2 (fun _ _ => (9 : Int)))

/-! ## The rotations -/

theorem size_add_cast (w x y : Nat) :
    ((size_add w x y : Nat) : ZMod (2 ^ w)) = (x : ZMod (2 ^ w)) + y := by
  unfold size_add
  rw [ZMod.natCast_mod, Nat.cast_add]

theorem size_mul_cast (w x y : Nat) :
    ((size_mul w x y : Nat) : ZMod (2 ^ w)) = (x : ZMod (2 ^ w)) * y := by
  unfold size_mul
  rw [ZMod.natCast_mod, Nat.cast_mul]

theorem size_sub_cast (w x y : Nat) :
    ((size_sub w x y : Nat) : ZMod (2 ^ w)) = (x : ZMod (2 ^ w)) - y := by
  unfold size_sub
  rw [ZMod.natCast_mod, Nat.cast_add,
    Nat.cast_sub (Nat.le_of_lt (Nat.mod_lt _ (Nat.two_pow_pos w))), ZMod.natCast_mod,
    ZMod.natCast_self]
  ring

theorem size_add_lt (w x y : Nat) : size_add w x y < 2 ^ w := Nat.mod_lt _ (Nat.two_pow_pos w)

theorem size_sub_lt (w x y : Nat) : size_sub w x y < 2 ^ w := Nat.mod_lt _ (Nat.two_pow_pos w)

theorem size_mul_small {w x y : Nat} (h : x * y < 2 ^ w) : size_mul w x y = x * y :=
  Nat.mod_eq_of_lt h

/-- Two values of `size_t` that agree modulo `2 ^ w` are equal. -/
theorem size_eq_of_cast {w a b : Nat} (ha : a < 2 ^ w) (hb : b < 2 ^ w)
    (h : (a : ZMod (2 ^ w)) = (b : ZMod (2 ^ w))) : a = b := by
  have h1 := (ZMod.natCast_eq_natCast_iff a b (2 ^ w)).mp h
  unfold Nat.ModEq at h1
  rwa [Nat.mod_eq_of_lt ha, Nat.mod_eq_of_lt hb] at h1

/-- The index expression of `Transpose90deg`, with `_Rows = r + j + 1`, at the position
`i = c * _Rows + j` of `B`: whatever wraps around on the way, the result is the position of
`A(r, c)`. -/
theorem Transpose90deg_core (w r j c C : Nat) (hM : (r + j + 1) * C < 2 ^ w) (hc : c < C) :
    size_add w
      (size_add w
        (size_sub w (size_sub w (size_mul w C (r + j + 1)) C)
          (size_mul w C (c * (r + j + 1) + j)))
        (size_mul w c (size_mul w (r + j + 1) C)))
      c = r * C + c := by
  apply size_eq_of_cast (size_add_lt _ _ _)
  · have : r * C + c < (r + j + 1) * C := pos_lt (by omega) hc
    omega
  · simp only [size_add_cast, size_sub_cast, size_mul_cast]
    push_cast
    ring

/-- The index expression of `Transpose270deg`, with `_Cols = cc + c + 1`, at the position
`i = c * _Rows + j` of `B`: the result is the position of `A(j, cc)`. -/
theorem Transpose270deg_core (w R j c cc : Nat) (hM : R * (cc + c + 1) < 2 ^ w) (hj : j < R) :
    size_add w
      (size_sub w (size_mul w (c * R + j) (cc + c + 1))
        (size_mul w c (size_add w (size_mul w R (cc + c + 1)) 1)))
      (size_sub w (cc + c + 1) 1) = j * (cc + c + 1) + cc := by
  apply size_eq_of_cast (size_add_lt _ _ _)
  · have : j * (cc + c + 1) + cc < R * (cc + c + 1) := pos_lt hj (by omega)
    omega
  · simp only [size_add_cast, size_sub_cast, size_mul_cast]
    push_cast
    ring

/-- The index expression of `Transpose180deg` at the position `i` of `B`, with
`c_width = i + k + 1`: the result is `k`. -/
theorem Transpose180deg_core (w i k : Nat) (hM : i + k + 1 < 2 ^ w) :
    size_sub w (size_sub w (i + k + 1) 1) i = k := by
  apply size_eq_of_cast (size_sub_lt _ _ _) (by omega)
  simp only [size_sub_cast]
  push_cast
  ring

theorem Transpose90deg_index (w : Nat) {R C i : Nat} (hM : R * C < 2 ^ w) (hi : i < R * C) :
    size_add w
      (size_add w (size_sub w (size_sub w (size_mul w C R) C) (size_mul w C i))
        (size_mul w (i / R) (size_mul w R C)))
      (i / R) = (R - 1 - i % R) * C + i / R := by
  have hR : 0 < R := by
    rcases Nat.eq_zero_or_pos R with h | h
    · rw [h, Nat.zero_mul] at hi; exact absurd hi (Nat.not_lt_zero i)
    · exact h
  have hj : i % R < R := Nat.mod_lt _ hR
  have hc : i / R < C := (Nat.div_lt_iff_lt_mul hR).mpr (by rw [Nat.mul_comm]; exact hi)
  have hRe : R = (R - 1 - i % R) + i % R + 1 := by omega
  have hie : i = i / R * R + i % R := by rw [Nat.mul_comm]; exact (Nat.div_add_mod i R).symm
  have h := Transpose90deg_core w (R - 1 - i % R) (i % R) (i / R) C (by rw [← hRe]; exact hM) hc
  rw [← hRe, ← hie] at h
  exact h

theorem Transpose270deg_index (w : Nat) {R C i : Nat} (hM : R * C < 2 ^ w) (hi : i < R * C) :
    size_add w
      (size_sub w (size_mul w i C) (size_mul w (i / R) (size_add w (size_mul w R C) 1)))
      (size_sub w C 1) = i % R * C + (C - 1 - i / R) := by
  have hR : 0 < R := by
    rcases Nat.eq_zero_or_pos R with h | h
    · rw [h, Nat.zero_mul] at hi; exact absurd hi (Nat.not_lt_zero i)
    · exact h
  have hj : i % R < R := Nat.mod_lt _ hR
  have hc : i / R < C := (Nat.div_lt_iff_lt_mul hR).mpr (by rw [Nat.mul_comm]; exact hi)
  have hCe : C = (C - 1 - i / R) + i / R + 1 := by omega
  have hie : i = i / R * R + i % R := by rw [Nat.mul_comm]; exact (Nat.div_add_mod i R).symm
  have h := Transpose270deg_core w R (i % R) (i / R) (C - 1 - i / R) (by rw [← hCe]; exact hM) hj
  rw [← hCe, ← hie] at h
  exact h

theorem Transpose180deg_index (w : Nat) {n i : Nat} (hM : n < 2 ^ w) (hi : i < n) :
    size_sub w (size_sub w n 1) i = n - 1 - i := by
  have hn : n = i + (n - 1 - i) + 1 := by omega
  have h := Transpose180deg_core w i (n - 1 - i) (by rw [← hn]; exact hM)
  rw [← hn] at h
  exact h

/-- The statement `B[i] = _ElemB(A[j])` with both positions inside the buffers. -/
theorem assign_index_ok (conv : E → E) {A B : Ref} (t : State E) {i j : Nat} {v : E}
    (hv : (t.heap A).p_mat[j]? = some v) (hi : i < (t.heap B).p_mat.length) :
    t.assign_index conv B i A j =
      .ok ((t.logs [.index A j, .index B i]).setMat B
        ⟨(t.heap B).c_rows, (t.heap B).c_cols, (t.heap B).p_mat.set i (conv v)⟩) := by
  unfold State.assign_index State.index
  simp only
  rw [load_eq_ok _ (by rw [State.log_heap]; exact hv)]
  simp only
  rw [store_ok _ _ (by rw [State.log_heap, State.log_heap]; exact hi)]
  simp [State.log_eq_logs, State.logs_logs, State.setMat, State.logs]

/-- The loop `for (i < n) B[i] = _ElemB(A[g i])` on two different objects: it returns,
element `i` of `B` ends as the conversion of element `g i` of `A`, the accessor calls are
`A[g i]` and `B[i]` for every `i` in order, and nothing else changes. -/
theorem assign_index_loop (conv : E → E) {A B : Ref} (hAB : A ≠ B) (n : Nat) (g : Nat → Nat)
    (s : State E) (hg : ∀ i, i < n → g i < (s.heap A).p_mat.length)
    (hB : n ≤ (s.heap B).p_mat.length) :
    ∃ t, forLoop n (fun i s => s.assign_index conv B i A (g i)) s = .ok t ∧
      (∀ o, o ≠ B → t.heap o = s.heap o) ∧
      ((t.heap B).c_rows = (s.heap B).c_rows ∧ (t.heap B).c_cols = (s.heap B).c_cols ∧
        (t.heap B).p_mat.length = (s.heap B).p_mat.length) ∧
      (∀ k, k < n → (t.heap B).p_mat[k]? = ((s.heap A).p_mat[g k]?).map conv) ∧
      t.calls = s.calls ++ (List.range n).flatMap (fun k => [.index A (g k), .index B k]) ∧
      t.cerr = s.cerr ∧ t.next = s.next := by
  induction n with
  | zero =>
    exact ⟨s, rfl, fun _ _ => rfl, ⟨rfl, rfl, rfl⟩, fun k hk => absurd hk (Nat.not_lt_zero k),
      by simp, rfl, rfl⟩
  | succ n ih =>
    obtain ⟨t, ht, h1, ⟨h2, h3, h4⟩, h5, h6, h7, h8⟩ :=
      ih (fun i hi => hg i (Nat.lt_succ_of_lt hi)) (Nat.le_of_succ_le hB)
    have hgn := hg n (Nat.lt_succ_self n)
    have hv : (t.heap A).p_mat[g n]? = some ((s.heap A).p_mat.get ⟨g n, hgn⟩) := by
      rw [h1 A hAB]
      exact List.getElem?_eq_getElem hgn
    have hlt : n < (t.heap B).p_mat.length := by rw [h4]; exact hB
    refine ⟨_, by rw [forLoop_succ, ht]; exact assign_index_ok conv t hv hlt, ?_, ?_, ?_, ?_,
      ?_, ?_⟩
    · intro o ho
      rw [State.setMat_heap_ne _ _ _ _ ho, State.logs_heap]
      exact h1 o ho
    · rw [State.setMat_heap_self]
      exact ⟨h2, h3, by rw [← h4]; exact List.length_set _ _ _⟩
    · intro k hk
      rw [State.setMat_heap_self]
      show ((t.heap B).p_mat.set n (conv ((s.heap A).p_mat.get ⟨g n, hgn⟩)))[k]? = _
      rcases Nat.lt_or_ge k n with hkn | hkn
      · rw [List.getElem?_set_ne (by omega)]
        exact h5 k hkn
      · have hk2 : k = n := by omega
        subst hk2
        rw [List.getElem?_set_self hlt, List.getElem?_eq_getElem hgn]
        rfl
    · rw [State.setMat_calls, State.logs_calls, h6, List.range_succ, List.flatMap_append,
        List.append_assoc]
      simp
    · rw [State.setMat_cerr, State.logs_cerr, h7]
    · rw [State.setMat_next, State.logs_next, h8]

/-- A loop that fills `B` through an index map `g` that stays inside `A` leaves the matrix
whose element `(r, c)` is the conversion of the element of `A` at `g (r * cols + c)`. -/
theorem remap_spec (conv : E → E) (d : E) {A B : Ref} (hAB : A ≠ B) {RA CA RB CB : Nat}
    (g : Nat → Nat) (f : Nat → Nat → E) (s : State E)
    (hA : HasShape (s.heap A) RA CA) (hB : HasShape (s.heap B) RB CB)
    (hn : RA * CA = RB * CB) (hg : ∀ i, i < RB * CB → g i < RA * CA)
    (hf : ∀ i, i < RB * CB → f (i / CB) (i % CB) = conv ((s.heap A).p_mat.getD (g i) d)) :
    ∃ t, forLoop (RA * CA) (fun i s => s.assign_index conv B i A (g i)) s = .ok t ∧
      t.heap B = mkMat RB CB f ∧ (∀ o, o ≠ B → t.heap o = s.heap o) ∧
      (∀ i, i < RB * CB → Access.index B i ∈ t.calls) ∧ t.cerr = s.cerr ∧ t.next = s.next := by
  obtain ⟨t, ht, h1, ⟨h2, h3, h4⟩, h5, h6, h7, h8⟩ := assign_index_loop conv hAB (RA * CA) g s
    (fun i hi => by rw [hA.2.2]; exact hg i (by rw [← hn]; exact hi))
    (by rw [hB.2.2, hn])
  refine ⟨t, ht, ?_, h1, ?_, h7, h8⟩
  · apply eq_mkMat _ _ ⟨h2.trans hB.1, h3.trans hB.2.1, h4.trans hB.2.2⟩
    intro i hi
    have hgi : g i < (s.heap A).p_mat.length := by rw [hA.2.2]; exact hg i hi
    rw [h5 i (by rw [hn]; exact hi), hf i hi, List.getElem?_eq_getElem hgi,
      List.getD_eq_getElem _ _ hgi]
    rfl
  · intro i hi
    rw [h6]
    apply List.mem_append_right
    rw [List.mem_flatMap]
    exact ⟨i, List.mem_range.mpr (by rw [hn]; exact hi), by simp⟩

/-- What `Transpose90deg` leaves in `B`. -/
theorem Transpose90deg_spec (w : Nat) (conv : E → E) (d : E) {Rows Cols : Nat}
    (hM : Rows * Cols < 2 ^ w) {A B : Ref} (hAB : A ≠ B) (s : State E)
    (hA : HasShape (s.heap A) Rows Cols) (hB : HasShape (s.heap B) Cols Rows) :
    ∃ t, Transpose90deg w conv Rows Cols A B s = .ok t ∧
      t.heap B = mkMat Cols Rows (fun r c => conv ((s.heap A).elem d (Rows - 1 - c) r)) ∧
      (∀ o, o ≠ B → t.heap o = s.heap o) ∧
      (∀ i, i < Cols * Rows → Access.index B i ∈ t.calls) ∧ t.cerr = s.cerr ∧
      t.next = s.next := by
  unfold Transpose90deg
  simp only
  rw [size_mul_small hM]
  exact remap_spec conv d hAB _ _ s hA hB (Nat.mul_comm _ _)
    (fun i hi => by
      have hi2 : i < Rows * Cols := by rw [Nat.mul_comm]; exact hi
      have hx := Transpose90deg_index w hM hi2
      rw [size_mul_small hM] at hx
      rw [hx]
      have hR : 0 < Rows := Nat.pos_of_ne_zero (fun h => by rw [h] at hi2; simp at hi2)
      exact pos_lt (by have := Nat.mod_lt i hR; omega)
        ((Nat.div_lt_iff_lt_mul hR).mpr hi))
    (fun i hi => by
      have hi2 : i < Rows * Cols := by rw [Nat.mul_comm]; exact hi
      have hx := Transpose90deg_index w hM hi2
      rw [size_mul_small hM] at hx
      rw [hx]
      unfold Matrix2D.elem
      rw [hA.2.1])

/-- What `Transpose270deg` leaves in `B`. -/
theorem Transpose270deg_spec (w : Nat) (conv : E → E) (d : E) {Rows Cols : Nat}
    (hM : Rows * Cols < 2 ^ w) {A B : Ref} (hAB : A ≠ B) (s : State E)
    (hA : HasShape (s.heap A) Rows Cols) (hB : HasShape (s.heap B) Cols Rows) :
    ∃ t, Transpose270deg w conv Rows Cols A B s = .ok t ∧
      t.heap B = mkMat Cols Rows (fun r c => conv ((s.heap A).elem d c (Cols - 1 - r))) ∧
      (∀ o, o ≠ B → t.heap o = s.heap o) ∧
      (∀ i, i < Cols * Rows → Access.index B i ∈ t.calls) ∧ t.cerr = s.cerr ∧
      t.next = s.next := by
  unfold Transpose270deg
  simp only
  rw [size_mul_small hM]
  exact remap_spec conv d hAB _ _ s hA hB (Nat.mul_comm _ _)
    (fun i hi => by
      have hi2 : i < Rows * Cols := by rw [Nat.mul_comm]; exact hi
      have hx := Transpose270deg_index w hM hi2
      rw [size_mul_small hM] at hx
      rw [hx]
      have hR : 0 < Rows := Nat.pos_of_ne_zero (fun h => by rw [h] at hi2; simp at hi2)
      have hc : i / Rows < Cols := (Nat.div_lt_iff_lt_mul hR).mpr hi
      have hC : 0 < Cols := Nat.lt_of_le_of_lt (Nat.zero_le _) hc
      exact pos_lt (Nat.mod_lt i hR)
        (Nat.lt_of_le_of_lt (Nat.sub_le _ _) (Nat.sub_lt hC Nat.one_pos)))
    (fun i hi => by
      have hi2 : i < Rows * Cols := by rw [Nat.mul_comm]; exact hi
      have hx := Transpose270deg_index w hM hi2
      rw [size_mul_small hM] at hx
      rw [hx]
      unfold Matrix2D.elem
      rw [hA.2.1])

/-- What `Transpose180deg` leaves in `B`. -/
theorem Transpose180deg_spec (w : Nat) (conv : E → E) (d : E) {Rows Cols : Nat}
    (hM : Rows * Cols < 2 ^ w) {A B : Ref} (hAB : A ≠ B) (s : State E)
    (hA : HasShape (s.heap A) Rows Cols) (hB : HasShape (s.heap B) Rows Cols) :
    ∃ t, Transpose180deg w conv Rows Cols A B s = .ok t ∧
      t.heap B = mkMat Rows Cols
        (fun r c => conv ((s.heap A).elem d (Rows - 1 - r) (Cols - 1 - c))) ∧
      (∀ o, o ≠ B → t.heap o = s.heap o) ∧
      (∀ i, i < Rows * Cols → Access.index B i ∈ t.calls) ∧ t.cerr = s.cerr ∧
      t.next = s.next := by
  unfold Transpose180deg
  simp only
  rw [size_mul_small hM]
  have hidx : ∀ i, i < Rows * Cols →
      Rows * Cols - 1 - i = (Rows - 1 - i / Cols) * Cols + (Cols - 1 - i % Cols) := by
    intro i hi
    have hC : 0 < Cols := Nat.pos_of_ne_zero (fun h => by rw [h] at hi; simp at hi)
    have hr : i / Cols < Rows := (Nat.div_lt_iff_lt_mul hC).mpr hi
    have hc : i % Cols < Cols := Nat.mod_lt i hC
    have hie : Cols * (i / Cols) + i % Cols = i := Nat.div_add_mod i Cols
    obtain ⟨r1, hr1⟩ : ∃ r1, Rows = r1 + i / Cols + 1 := ⟨Rows - 1 - i / Cols, by omega⟩
    have e1 : Rows - 1 - i / Cols = r1 := by omega
    have e2 : Rows * Cols = r1 * Cols + Cols * (i / Cols) + Cols := by
      rw [hr1, Nat.add_mul, Nat.add_mul, Nat.one_mul, Nat.mul_comm (i / Cols) Cols]
    rw [e1, e2]
    omega
  exact remap_spec conv d hAB _ _ s hA hB rfl
    (fun i hi => by
      rw [Transpose180deg_index w hM hi]
      omega)
    (fun i hi => by
      rw [Transpose180deg_index w hM hi, hidx i hi]
      unfold Matrix2D.elem
      rw [hA.2.1])

/-- C27, `Transpose90deg` is the rotation by 90 degrees to the right.  For every shape
whose number of elements fits `size_t`, every `A` (`_Rows` x `_Cols`) and every output `B`
(`_Cols` x `_Rows`) that is another object, whatever `B` held: the call returns;
`B(c, _Rows - 1 - r)` is the conversion of `A(r, c)` for all `r < _Rows` and `c < _Cols`;
`B` is the matrix given by that rule, every element of `B` having been written through
`B[i]`; and no other object changes. -/
theorem Transpose90deg_rotates_right (w : Nat) (conv : E → E) (d : E) {Rows Cols : Nat}
    (hM : Rows * Cols < 2 ^ w) {A B : Ref} (hAB : A ≠ B) (s : State E)
    (hA : HasShape (s.heap A) Rows Cols) (hB : HasShape (s.heap B) Cols Rows) :
    ∃ t, Transpose90deg w conv Rows Cols A B s = .ok t ∧
      (∀ r c, r < Rows → c < Cols →
        (t.heap B).elem d c (Rows - 1 - r) = conv ((s.heap A).elem d r c)) ∧
      t.heap B = mkMat Cols Rows (fun r c => conv ((s.heap A).elem d (Rows - 1 - c) r)) ∧
      (∀ i, i < Cols * Rows → Access.index B i ∈ t.calls) ∧
      (∀ o, o ≠ B → t.heap o = s.heap o) := by
  obtain ⟨t, ht, h1, h2, h3, _⟩ := Transpose90deg_spec w conv d hM hAB s hA hB
  refine ⟨t, ht, ?_, h1, h3, h2⟩
  intro r c hr hc
  rw [h1, elem_mkMat _ d hc (by omega)]
  have e : Rows - 1 - (Rows - 1 - r) = r := by omega
  rw [e]

set_option maxRecDepth 100000 in
/-- Witness of C27: `[[1, 2, 3], [4, 5, 6]]` becomes `[[4, 1], [5, 2], [6, 3]]`. -/
theorem Transpose90deg_rotates_right_witness :
    (∃ t, Transpose90deg 64 (fun x => x) 2 3 0 1 rotateState = .ok t ∧
      (∀ r c, r < 2 → c < 3 →
        (t.heap 1).elem 0 c (2 - 1 - r) = (fun x => x) ((rotateState.heap 0).elem 0 r c)) ∧
      t.heap 1 = mkMat 3 2 (fun r c => (fun x => x) ((rotateState.heap 0).elem 0 (2 - 1 - c) r)) ∧
      (∀ i, i < 3 * 2 → Access.index 1 i ∈ t.calls) ∧
      (∀ o, o ≠ 1 → t.heap o = rotateState.heap o)) ∧
    (Transpose90deg 64 (fun x => x) 2 3 0 1 rotateState).toOption.map (fun t => t.heap 1) =
      some ⟨3, 2, [4, 1, 5, 2, 6, 3]⟩ :=
  ⟨Transpose90deg_rotates_right 64 (fun x => x) 0 (by decide) (by decide) rotateState
    (mkMat_shape 2 3 (exampleA 3)) (mkMat_shape 3 2 (fun _ _ => (9 : Int))), by decide⟩

/-- C28, `Transpose270deg` is the rotation by 270 degrees to the right (90 degrees to the
left).  For every shape whose number of elements fits `size_t`, every `A`
(`_Rows` x `_Cols`) and every output `B` (`_Cols` x `_Rows`) that is another object,
whatever `B` held: the call returns; `B(_Cols - 1 - c, r)` is the conversion of `A(r, c)`
for all `r < _Rows` and `c < _Cols`; `B` is the matrix given by that rule, every element
of `B` having been written through `B[i]`; and no other object changes. -/
theorem Transpose270deg_rotates_left (w : Nat) (conv : E → E) (d : E) {Rows Cols : Nat}
    (hM : Rows * Cols < 2 ^ w) {A B : Ref} (hAB : A ≠ B) (s : State E)
    (hA : HasShape (s.heap A) Rows Cols) (hB : HasShape (s.heap B) Cols Rows) :
    ∃ t, Transpose270deg w conv Rows Cols A B s = .ok t ∧
      (∀ r c, r < Rows → c < Cols →
        (t.heap B).elem d (Cols - 1 - c) r = conv ((s.heap A).elem d r c)) ∧
      t.heap B = mkMat Cols Rows (fun r c => conv ((s.heap A).elem d c (Cols - 1 - r))) ∧
      (∀ i, i < Cols * Rows → Access.index B i ∈ t.calls) ∧
      (∀ o, o ≠ B → t.heap o = s.heap o) := by
  obtain ⟨t, ht, h1, h2, h3, _⟩ := Transpose270deg_spec w conv d hM hAB s hA hB
  refine ⟨t, ht, ?_, h1, h3, h2⟩
  intro r c hr hc
  rw [h1, elem_mkMat _ d (by omega) hr]
  have e : Cols - 1 - (Cols - 1 - c) = c := by omega
  rw [e]

set_option maxRecDepth 100000 in
/-- Witness of C28: `[[1, 2, 3], [4, 5, 6]]` becomes `[[3, 6], [2, 5], [1, 4]]`. -/
theorem Transpose270deg_rotates_left_witness :
    (∃ t, Transpose270deg 64 (fun x => x) 2 3 0 1 rotateState = .ok t ∧
      (∀ r c, r < 2 → c < 3 →
        (t.heap 1).elem 0 (3 - 1 - c) r = (fun x => x) ((rotateState.heap 0).elem 0 r c)) ∧
      t.heap 1 = mkMat 3 2 (fun r c => (fun x => x) ((rotateState.heap 0).elem 0 c (3 - 1 - r))) ∧
      (∀ i, i < 3 * 2 → Access.index 1 i ∈ t.calls) ∧
      (∀ o, o ≠ 1 → t.heap o = rotateState.heap o)) ∧
    (Transpose270deg 64 (fun x => x) 2 3 0 1 rotateState).toOption.map (fun t => t.heap 1) =
      some ⟨3, 2, [3, 6, 2, 5, 1, 4]⟩ :=
  ⟨Transpose270deg_rotates_left 64 (fun x => x) 0 (by decide) (by decide) rotateState
    (mkMat_shape 2 3 (exampleA 3)) (mkMat_shape 3 2 (fun _ _ => (9 : Int))), by decide⟩

/-- C29, `Transpose180deg` is the rotation by 180 degrees.  For every shape whose number
of elements fits `size_t`, every `A` (`_Rows` x `_Cols`) and every output `B` of the same
shape that is another object: the call returns and `B(_Rows - 1 - r, _Cols - 1 - c)` is
the conversion of `A(r, c)` for all `r < _Rows` and `c < _Cols`; and applying it twice
with the identity conversion, from `A` to `B` and then from `B` to any `D` of the same
shape other than `B` (`D` may be `A` itself), returns and leaves in `D` the original `A`. -/
theorem Transpose180deg_rotates (w : Nat) (conv : E → E) (d : E) {Rows Cols : Nat}
    (hM : Rows * Cols < 2 ^ w) {A B D : Ref} (hAB : A ≠ B) (hBD : B ≠ D) (s : State E)
    (hA : HasShape (s.heap A) Rows Cols) (hB : HasShape (s.heap B) Rows Cols)
    (hD : HasShape (s.heap D) Rows Cols) :
    (∃ t, Transpose180deg w conv Rows Cols A B s = .ok t ∧
      (∀ r c, r < Rows → c < Cols →
        (t.heap B).elem d (Rows - 1 - r) (Cols - 1 - c) = conv ((s.heap A).elem d r c)) ∧
      t.heap B = mkMat Rows Cols
        (fun r c => conv ((s.heap A).elem d (Rows - 1 - r) (Cols - 1 - c))) ∧
      (∀ o, o ≠ B → t.heap o = s.heap o)) ∧
    (∃ t1 t2, Transpose180deg w (fun x => x) Rows Cols A B s = .ok t1 ∧
      Transpose180deg w (fun x => x) Rows Cols B D t1 = .ok t2 ∧
      t2.heap D = s.heap A ∧
      (∀ r c, r < Rows → c < Cols → (t2.heap D).elem d r c = (s.heap A).elem d r c)) := by
  constructor
  · obtain ⟨t, ht, h1, h2, _⟩ := Transpose180deg_spec w conv d hM hAB s hA hB
    refine ⟨t, ht, ?_, h1, h2⟩
    intro r c hr hc
    rw [h1, elem_mkMat _ d (by omega) (by omega)]
    have e1 : Rows - 1 - (Rows - 1 - r) = r := by omega
    have e2 : Cols - 1 - (Cols - 1 - c) = c := by omega
    rw [e1, e2]
  · obtain ⟨t1, ht1, h1, h2, _⟩ := Transpose180deg_spec w (fun x => x) d hM hAB s hA hB
    have hB1 : HasShape (t1.heap B) Rows Cols := by rw [h1]; exact mkMat_shape _ _ _
    have hD1 : HasShape (t1.heap D) Rows Cols := by rw [h2 D (Ne.symm hBD)]; exact hD
    obtain ⟨t2, ht2, g1, _⟩ := Transpose180deg_spec w (fun x => x) d hM hBD t1 hB1 hD1
    have hfin : t2.heap D = s.heap A := by
      rw [g1, hA.eq_mkMat_elem d]
      apply mkMat_congr
      intro r c hr hc
      show (t1.heap B).elem d (Rows - 1 - r) (Cols - 1 - c) = _
      rw [h1, elem_mkMat _ d (by omega) (by omega)]
      have e1 : Rows - 1 - (Rows - 1 - r) = r := by omega
      have e2 : Cols - 1 - (Cols - 1 - c) = c := by omega
      rw [e1, e2]
    exact ⟨t1, t2, ht1, ht2, hfin, fun r c _ _ => by rw [hfin]⟩

set_option maxRecDepth 100000 in
/-- Witness of C29: `[[1, 2, 3], [4, 5, 6]]` becomes `[[6, 5, 4], [3, 2, 1]]`. -/
theorem Transpose180deg_rotates_witness :
    ((∃ t, Transpose180deg 64 (fun x => x + 100) 2 3 0 2 rotateState = .ok t ∧
      (∀ r c, r < 2 → c < 3 →
        (t.heap 2).elem 0 (2 - 1 - r) (3 - 1 - c) =
          (fun x => x + 100) ((rotateState.heap 0).elem 0 r c)) ∧
      t.heap 2 = mkMat 2 3
        (fun r c => (fun x => x + 100) ((rotateState.heap 0).elem 0 (2 - 1 - r) (3 - 1 - c))) ∧
      (∀ o, o ≠ 2 → t.heap o = rotateState.heap o)) ∧
    (∃ t1 t2, Transpose180deg 64 (fun x => x) 2 3 0 2 rotateState = .ok t1 ∧
      Transpose180deg 64 (fun x => x) 2 3 2 0 t1 = .ok t2 ∧
      t2.heap 0 = rotateState.heap 0 ∧
      (∀ r c, r < 2 → c < 3 → (t2.heap 0).elem 0 r c = (rotateState.heap 0).elem 0 r c))) ∧
    (Transpose180deg 64 (fun x => x) 2 3 0 2 rotateState).toOption.map (fun t => t.heap 2) =
      some ⟨2, 3, [6, 5, 4, 3, 2, 1]⟩ :=
  ⟨Transpose180deg_rotates 64 (fun x => x + 100) 0 (by decide) (by decide) (by decide)
    rotateState (mkMat_shape 2 3 (exampleA 3)) (mkMat_shape 2 3 (fun _ _ => (9 : Int)))
    (mkMat_shape 2 3 (exampleA 3)), by decide⟩

/-- C30, rotation round trip.  For every shape whose number of elements fits `size_t`,
every `A` (`_Rows` x `_Cols`), every `B` (`_Cols` x `_Rows`) that is another object and
every `D` (`_Rows` x `_Cols`) other than `B` (`D` may be `A` itself), with the identity
conversion: `Transpose90deg` from `A` to `B` and then `Transpose270deg` from `B` to `D`
return and leave in `D` a matrix equal to `A` element for element; and so do
`Transpose270deg` from `A` to `B` and then `Transpose90deg` from `B` to `D`. -/
theorem Transpose_round_trip (w : Nat) (d : E) {Rows Cols : Nat}
    (hM : Rows * Cols < 2 ^ w) {A B D : Ref} (hAB : A ≠ B) (hBD : B ≠ D) (s : State E)
    (hA : HasShape (s.heap A) Rows Cols) (hB : HasShape (s.heap B) Cols Rows)
    (hD : HasShape (s.heap D) Rows Cols) :
    (∃ t1 t2, Transpose90deg w (fun x => x) Rows Cols A B s = .ok t1 ∧
      Transpose270deg w (fun x => x) Cols Rows B D t1 = .ok t2 ∧
      t2.heap D = s.heap A ∧
      (∀ r c, r < Rows → c < Cols → (t2.heap D).elem d r c = (s.heap A).elem d r c)) ∧
    (∃ t1 t2, Transpose270deg w (fun x => x) Rows Cols A B s = .ok t1 ∧
      Transpose90deg w (fun x => x) Cols Rows B D t1 = .ok t2 ∧
      t2.heap D = s.heap A ∧
      (∀ r c, r < Rows → c < Cols → (t2.heap D).elem d r c = (s.heap A).elem d r c)) := by
  have hM2 : Cols * Rows < 2 ^ w := by rw [Nat.mul_comm]; exact hM
  constructor
  · obtain ⟨t1, ht1, h1, h2, _⟩ := Transpose90deg_spec w (fun x => x) d hM hAB s hA hB
    have hB1 : HasShape (t1.heap B) Cols Rows := by rw [h1]; exact mkMat_shape _ _ _
    have hD1 : HasShape (t1.heap D) Rows Cols := by rw [h2 D (Ne.symm hBD)]; exact hD
    obtain ⟨t2, ht2, g1, _⟩ := Transpose270deg_spec w (fun x => x) d hM2 hBD t1 hB1 hD1
    have hfin : t2.heap D = s.heap A := by
      rw [g1, hA.eq_mkMat_elem d]
      apply mkMat_congr
      intro r c hr hc
      show (t1.heap B).elem d c (Rows - 1 - r) = _
      rw [h1, elem_mkMat _ d hc (by omega)]
      have e1 : Rows - 1 - (Rows - 1 - r) = r := by omega
      rw [e1]
    exact ⟨t1, t2, ht1, ht2, hfin, fun r c _ _ => by rw [hfin]⟩
  · obtain ⟨t1, ht1, h1, h2, _⟩ := Transpose270deg_spec w (fun x => x) d hM hAB s hA hB
    have hB1 : HasShape (t1.heap B) Cols Rows := by rw [h1]; exact mkMat_shape _ _ _
    have hD1 : HasShape (t1.heap D) Rows Cols := by rw [h2 D (Ne.symm hBD)]; exact hD
    obtain ⟨t2, ht2, g1, _⟩ := Transpose90deg_spec w (fun x => x) d hM2 hBD t1 hB1 hD1
    have hfin : t2.heap D = s.heap A := by
      rw [g1, hA.eq_mkMat_elem d]
      apply mkMat_congr
      intro r c hr hc
      show (t1.heap B).elem d (Cols - 1 - c) r = _
      rw [h1, elem_mkMat _ d (by omega) hr]
      have e1 : Cols - 1 - (Cols - 1 - c) = c := by omega
      rw [e1]
    exact ⟨t1, t2, ht1, ht2, hfin, fun r c _ _ => by rw [hfin]⟩

/-- Witness of C30: `[[1, 2, 3], [4, 5, 6]]` rotated into the 3 x 2 matrix at address 1
and back into the 2 x 3 matrix at address 2. -/
theorem Transpose_round_trip_witness :
    (∃ t1 t2, Transpose90deg 64 (fun x => x) 2 3 0 1 rotateState = .ok t1 ∧
      Transpose270deg 64 (fun x => x) 3 2 1 2 t1 = .ok t2 ∧
      t2.heap 2 = rotateState.heap 0 ∧
      (∀ r c, r < 2 → c < 3 → (t2.heap 2).elem 0 r c = (rotateState.heap 0).elem 0 r c)) ∧
    (∃ t1 t2, Transpose270deg 64 (fun x => x) 2 3 0 1 rotateState = .ok t1 ∧
      Transpose90deg 64 (fun x => x) 3 2 1 2 t1 = .ok t2 ∧
      t2.heap 2 = rotateState.heap 0 ∧
      (∀ r c, r < 2 → c < 3 → (t2.heap 2).elem 0 r c = (rotateState.heap 0).elem 0 r c)) :=
  Transpose_round_trip 64 0 (by decide) (by decide) (by decide) rotateState
    (mkMat_shape 2 3 (exampleA 3)) (mkMat_shape 3 2 (fun _ _ => (9 : Int)))
    (mkMat_shape 2 3 (fun _ _ => (9 : Int)))

/-! ## The index expressions of the rotations under wrap-around -/

/-- The value of a `size_t` expression as an integer is the exact value of the expression
modulo `2 ^ w`. -/
theorem size_int_of_cast {w N : Nat} {z : Int} (hN : N < 2 ^ w)
    (h : (N : ZMod (2 ^ w)) = (z : ZMod (2 ^ w))) : (N : Int) = z % 2 ^ w := by
  have h1 : (((N : Int)) : ZMod (2 ^ w)) = (z : ZMod (2 ^ w)) := by
    rw [Int.cast_natCast]; exact h
  have h2 := (ZMod.intCast_eq_intCast_iff (N : Int) z (2 ^ w)).mp h1
  unfold Int.ModEq at h2
  have h3 : ((2 ^ w : Nat) : Int) = (2 : Int) ^ w := by push_cast; rfl
  rw [h3] at h2
  rw [← h2, Int.emod_eq_of_lt (Int.natCast_nonneg N)]
  rw [← h3]; exact_mod_cast hN

theorem Transpose90deg_difference_int (w R C i : Nat) :
    (Transpose90deg_difference w R C i : Int) = (((C : Int) * R - C) - C * i) % 2 ^ w := by
  apply size_int_of_cast (size_sub_lt _ _ _)
  simp only [Transpose90deg_difference, size_sub_cast, size_mul_cast]
  push_cast
  rfl

theorem Transpose270deg_difference_int (w R C i : Nat) :
    (Transpose270deg_difference w R C i : Int) =
      ((i : Int) * C - ((i / R : Nat) : Int) * ((R : Int) * C + 1)) % 2 ^ w := by
  apply size_int_of_cast (size_sub_lt _ _ _)
  simp only [Transpose270deg_difference, size_sub_cast, size_mul_cast, size_add_cast,
    Int.cast_sub, Int.cast_mul, Int.cast_add, Int.cast_natCast, Int.cast_one, Nat.cast_one]

/-- The exact value of the first difference of `Transpose90deg` is negative from the
second column of `B` on. -/
theorem Transpose90deg_difference_neg {R C i : Nat} (h : R ≤ i) (hi : i < R * C) :
    ((C : Int) * R - C) - C * i < 0 := by
  have hC : 0 < C := by
    rcases Nat.eq_zero_or_pos C with h0 | h0
    · rw [h0, Nat.mul_zero] at hi; exact absurd hi (Nat.not_lt_zero i)
    · exact h0
  have h1 : C * R ≤ C * i := Nat.mul_le_mul_left C h
  have h2 : (C : Int) * R ≤ C * i := by exact_mod_cast h1
  have h3 : (0 : Int) < C := by exact_mod_cast hC
  linarith

/-- The exact value of the first difference of `Transpose270deg` is negative at every
multiple of `_Rows` other than zero. -/
theorem Transpose270deg_difference_neg {R C i : Nat} (h0 : 0 < i) (hm : i % R = 0) :
    (i : Int) * C - ((i / R : Nat) : Int) * ((R : Int) * C + 1) < 0 := by
  have hq : i = R * (i / R) := by
    have := Nat.div_add_mod i R
    rw [hm, Nat.add_zero] at this
    exact this.symm
  have hpos : 0 < i / R := by
    rcases Nat.eq_zero_or_pos (i / R) with h1 | h1
    · rw [h1, Nat.mul_zero] at hq; omega
    · exact h1
  have h2 : (i : Int) = (R : Int) * ((i / R : Nat) : Int) := by exact_mod_cast hq
  have h3 : (0 : Int) < ((i / R : Nat) : Int) := by exact_mod_cast hpos
  have h4 : (i : Int) * C - ((i / R : Nat) : Int) * ((R : Int) * C + 1) =
      -((i / R : Nat) : Int) := by
    rw [h2]; ring
  rw [h4]
  linarith

theorem Transpose90deg_source_eq (w : Nat) {R C i : Nat} (hM : R * C < 2 ^ w) (hi : i < R * C) :
    Transpose90deg_source w R C i = C * (R - 1 - i % R) + i / R := by
  rw [Nat.mul_comm C]
  exact Transpose90deg_index w hM hi

theorem Transpose270deg_source_eq (w : Nat) {R C i : Nat} (hM : R * C < 2 ^ w)
    (hi : i < R * C) :
    Transpose270deg_source w R C i = C * (i % R) + (C - 1 - i / R) := by
  rw [Nat.mul_comm C]
  exact Transpose270deg_index w hM hi

/-- The parts of a position below `R * C`. -/
theorem pos_parts {R C i : Nat} (hi : i < R * C) : 0 < R ∧ 0 < C ∧ i % R < R ∧ i / R < C := by
  have hR : 0 < R := by
    rcases Nat.eq_zero_or_pos R with h | h
    · rw [h, Nat.zero_mul] at hi; exact absurd hi (Nat.not_lt_zero i)
    · exact h
  have hc : i / R < C := (Nat.div_lt_iff_lt_mul hR).mpr (by rw [Nat.mul_comm]; exact hi)
  exact ⟨hR, Nat.lt_of_le_of_lt (Nat.zero_le _) hc, Nat.mod_lt _ hR, hc⟩

theorem Transpose90deg_source_lt (w : Nat) {R C i : Nat} (hM : R * C < 2 ^ w) (hi : i < R * C) :
    Transpose90deg_source w R C i < R * C := by
  obtain ⟨hR, hC, hj, hc⟩ := pos_parts hi
  rw [Transpose90deg_source_eq w hM hi, Nat.mul_comm C]
  exact pos_lt (by omega) hc

theorem Transpose270deg_source_lt (w : Nat) {R C i : Nat} (hM : R * C < 2 ^ w)
    (hi : i < R * C) : Transpose270deg_source w R C i < R * C := by
  obtain ⟨hR, hC, hj, hc⟩ := pos_parts hi
  rw [Transpose270deg_source_eq w hM hi, Nat.mul_comm C]
  exact pos_lt hj (Nat.lt_of_le_of_lt (Nat.sub_le _ _) (Nat.sub_lt hC Nat.one_pos))

/-- Two row-major positions with columns below `C` are equal only for equal rows and
equal columns. -/
theorem pos_inj {C r c r1 c1 : Nat} (hc : c < C) (hc1 : c1 < C)
    (h : r * C + c = r1 * C + c1) : r = r1 ∧ c = c1 := by
  have h1 : (r * C + c) / C = (r1 * C + c1) / C := by rw [h]
  have h2 : (r * C + c) % C = (r1 * C + c1) % C := by rw [h]
  rw [pos_div hc, pos_div hc1] at h1
  rw [pos_mod hc, pos_mod hc1] at h2
  exact ⟨h1, h2⟩

theorem sub_sub_inj {C a b : Nat} (ha : a < C) (hb : b < C) (h : C - 1 - a = C - 1 - b) :
    a = b := by omega

theorem Transpose90deg_source_inj (w : Nat) {R C i j : Nat} (hM : R * C < 2 ^ w)
    (hi : i < R * C) (hj : j < R * C)
    (h : Transpose90deg_source w R C i = Transpose90deg_source w R C j) : i = j := by
  obtain ⟨_, _, hi1, hi2⟩ := pos_parts hi
  obtain ⟨_, _, hj1, hj2⟩ := pos_parts hj
  rw [Transpose90deg_source_eq w hM hi, Transpose90deg_source_eq w hM hj, Nat.mul_comm C,
    Nat.mul_comm C] at h
  obtain ⟨e1, e2⟩ := pos_inj hi2 hj2 h
  have e3 : i % R = j % R := sub_sub_inj hi1 hj1 e1
  rw [← Nat.div_add_mod i R, ← Nat.div_add_mod j R, e2, e3]

theorem Transpose270deg_source_inj (w : Nat) {R C i j : Nat} (hM : R * C < 2 ^ w)
    (hi : i < R * C) (hj : j < R * C)
    (h : Transpose270deg_source w R C i = Transpose270deg_source w R C j) : i = j := by
  obtain ⟨_, hC, hi1, hi2⟩ := pos_parts hi
  obtain ⟨_, _, hj1, hj2⟩ := pos_parts hj
  rw [Transpose270deg_source_eq w hM hi, Transpose270deg_source_eq w hM hj, Nat.mul_comm C,
    Nat.mul_comm C] at h
  obtain ⟨e1, e2⟩ := pos_inj
    (Nat.lt_of_le_of_lt (Nat.sub_le _ _) (Nat.sub_lt hC Nat.one_pos))
    (Nat.lt_of_le_of_lt (Nat.sub_le _ _) (Nat.sub_lt hC Nat.one_pos)) h
  have e3 : i / R = j / R := sub_sub_inj hi2 hj2 e2
  rw [← Nat.div_add_mod i R, ← Nat.div_add_mod j R, e1, e3]

/-- A map of `[0, n)` into itself that takes no value twice lists `[0, n)` in another
order. -/
theorem perm_range_of_inj (n : Nat) (g : Nat → Nat) (hlt : ∀ i, i < n → g i < n)
    (hinj : ∀ i j, i < n → j < n → g i = g j → i = j) :
    ((List.range n).map g).Perm (List.range n) := by
  have hnd : ((List.range n).map g).Nodup :=
    List.Nodup.map_on
      (fun x hx y hy h => hinj x y (List.mem_range.mp hx) (List.mem_range.mp hy) h)
      (List.nodup_range n)
  have hsub : (List.range n).map g ⊆ List.range n := by
    intro x hx
    obtain ⟨i, hi, rfl⟩ := List.mem_map.mp hx
    exact List.mem_range.mpr (hlt i (List.mem_range.mp hi))
  exact (List.subperm_of_subset hnd hsub).perm_of_length_le (by simp)

/-- C31, the index arithmetic of the rotations under unsigned wrap-around.  The loops of
`Transpose90deg` and `Transpose270deg` read `A` at the index expressions
`Transpose90deg_source` and `Transpose270deg_source`, evaluated in `size_t` arithmetic of
`w` bits.  For every shape with `_Rows * _Cols < 2 ^ w`: the exact value of the first
difference `((a * b) - a) - (a * i)` is negative for every `i >= b`, and that of
`(i * a) - ((i / b) * (b * a + 1))` for every multiple `i > 0` of `b`, the machine value
being the exact value modulo `2 ^ w`; nevertheless, for every `i < _Rows * _Cols` the final
value is below `_Rows * _Cols` and equals `_Cols * (_Rows - 1 - i % _Rows) + i / _Rows`
for 90 degrees and `_Cols * (i % _Rows) + (_Cols - 1 - i / _Rows)` for 270 degrees; and
each map takes no value twice and lists `[0, _Rows * _Cols)` in another order. -/
theorem Transpose_source_wrap_around (w : Nat) {Rows Cols : Nat} (hM : Rows * Cols < 2 ^ w) :
    (∀ (conv : E → E) (A B : Ref) (s : State E),
      Transpose90deg w conv Rows Cols A B s =
        forLoop (size_mul w Rows Cols)
          (fun i s => s.assign_index conv B i A (Transpose90deg_source w Rows Cols i)) s ∧
      Transpose270deg w conv Rows Cols A B s =
        forLoop (size_mul w Rows Cols)
          (fun i s => s.assign_index conv B i A (Transpose270deg_source w Rows Cols i)) s) ∧
    (∀ i, Rows ≤ i → i < Rows * Cols →
      ((Cols : Int) * Rows - Cols) - Cols * i < 0 ∧
      (Transpose90deg_difference w Rows Cols i : Int) =
        (((Cols : Int) * Rows - Cols) - Cols * i) % 2 ^ w) ∧
    (∀ i, 0 < i → i % Rows = 0 → i < Rows * Cols →
      (i : Int) * Cols - ((i / Rows : Nat) : Int) * ((Rows : Int) * Cols + 1) < 0 ∧
      (Transpose270deg_difference w Rows Cols i : Int) =
        ((i : Int) * Cols - ((i / Rows : Nat) : Int) * ((Rows : Int) * Cols + 1)) % 2 ^ w) ∧
    (∀ i, i < Rows * Cols →
      Transpose90deg_source w Rows Cols i < Rows * Cols ∧
      Transpose90deg_source w Rows Cols i = Cols * (Rows - 1 - i % Rows) + i / Rows ∧
      Transpose270deg_source w Rows Cols i < Rows * Cols ∧
      Transpose270deg_source w Rows Cols i = Cols * (i % Rows) + (Cols - 1 - i / Rows)) ∧
    (∀ i j, i < Rows * Cols → j < Rows * Cols →
      (Transpose90deg_source w Rows Cols i = Transpose90deg_source w Rows Cols j → i = j) ∧
      (Transpose270deg_source w Rows Cols i = Transpose270deg_source w Rows Cols j → i = j)) ∧
    ((List.range (Rows * Cols)).map (Transpose90deg_source w Rows Cols)).Perm
      (List.range (Rows * Cols)) ∧
    ((List.range (Rows * Cols)).map (Transpose270deg_source w Rows Cols)).Perm
      (List.range (Rows * Cols)) := by
  refine ⟨fun _ _ _ _ => ⟨rfl, rfl⟩, ?_, ?_, ?_, ?_, ?_, ?_⟩
  · intro i h hi
    exact ⟨Transpose90deg_difference_neg h hi, Transpose90deg_difference_int w Rows Cols i⟩
  · intro i h0 hm _
    exact ⟨Transpose270deg_difference_neg h0 hm, Transpose270deg_difference_int w Rows Cols i⟩
  · intro i hi
    exact ⟨Transpose90deg_source_lt w hM hi, Transpose90deg_source_eq w hM hi,
      Transpose270deg_source_lt w hM hi, Transpose270deg_source_eq w hM hi⟩
  · intro i j hi hj
    exact ⟨Transpose90deg_source_inj w hM hi hj, Transpose270deg_source_inj w hM hi hj⟩
  · exact perm_range_of_inj _ _ (fun i hi => Transpose90deg_source_lt w hM hi)
      (fun i j hi hj => Transpose90deg_source_inj w hM hi hj)
  · exact perm_range_of_inj _ _ (fun i hi => Transpose270deg_source_lt w hM hi)
      (fun i j hi hj => Transpose270deg_source_inj w hM hi hj)

set_option maxRecDepth 100000 in
/-- Witness of C31, for a 2 x 3 matrix and 64 bits: at `i = 2` the first difference of
`Transpose90deg` is `2 ^ 64 - 3` and that of `Transpose270deg` is `2 ^ 64 - 1`, and the
source indices are `3, 0, 4, 1, 5, 2` and `2, 5, 1, 4, 0, 3`. -/
theorem Transpose_source_wrap_around_witness :
    2 * 3 < 2 ^ 64 ∧
    (((List.range (2 * 3)).map (Transpose90deg_source 64 2 3)).Perm (List.range (2 * 3)) ∧
      ((List.range (2 * 3)).map (Transpose270deg_source 64 2 3)).Perm (List.range (2 * 3))) ∧
    Transpose90deg_difference 64 2 3 2 = 2 ^ 64 - 3 ∧
    Transpose270deg_difference 64 2 3 2 = 2 ^ 64 - 1 ∧
    (List.range 6).map (Transpose90deg_source 64 2 3) = [3, 0, 4, 1, 5, 2] ∧
    (List.range 6).map (Transpose270deg_source 64 2 3) = [2, 5, 1, 4, 0, 3] :=
  ⟨by decide,
    (@Transpose_source_wrap_around Int 64 2 3 (by decide)).2.2.2.2.2,
    by decide, by decide, by decide, by decide⟩

/-! ## Two rotations by 90 degrees -/

/-- C32, rotations compose.  For every shape whose number of elements fits `size_t` and
every `A` (`_Rows` x `_Cols`): `Transpose90deg` from `A` into `B` (`_Cols` x `_Rows`) and
again from `B` into `D` (`_Rows` x `_Cols`) returns and leaves in `D` the same matrix as
one `Transpose180deg` from `A` into `D2` with the two conversions applied in turn; with
the identity conversions, the same matrix as `Transpose180deg` of `A`.  Every output is
another object than its input; `D` may be `A` itself. -/
theorem Transpose90deg_twice (w : Nat) (conv1 conv2 : E → E) (d : E) {Rows Cols : Nat}
    (hM : Rows * Cols < 2 ^ w) {A B D D2 : Ref} (hAB : A ≠ B) (hBD : B ≠ D) (hAD2 : A ≠ D2)
    (s : State E) (hA : HasShape (s.heap A) Rows Cols) (hB : HasShape (s.heap B) Cols Rows)
    (hD : HasShape (s.heap D) Rows Cols) (hD2 : HasShape (s.heap D2) Rows Cols) :
    ∃ t1 t2 t3, Transpose90deg w conv1 Rows Cols A B s = .ok t1 ∧
      Transpose90deg w conv2 Cols Rows B D t1 = .ok t2 ∧
      Transpose180deg w (fun x => conv2 (conv1 x)) Rows Cols A D2 s = .ok t3 ∧
      t2.heap D = t3.heap D2 ∧
      (∀ r c, r < Rows → c < Cols →
        (t2.heap D).elem d r c =
          conv2 (conv1 ((s.heap A).elem d (Rows - 1 - r) (Cols - 1 - c)))) := by
  obtain ⟨t1, ht1, h1, hf1, _⟩ := Transpose90deg_spec w conv1 d hM hAB s hA hB
  have hB1 : HasShape (t1.heap B) Cols Rows := by rw [h1]; exact mkMat_shape _ _ _
  have hD1 : HasShape (t1.heap D) Rows Cols := by rw [hf1 D (Ne.symm hBD)]; exact hD
  obtain ⟨t2, ht2, h2, _⟩ :=
    Transpose90deg_spec w conv2 d (by rw [Nat.mul_comm]; exact hM) hBD t1 hB1 hD1
  obtain ⟨t3, ht3, h3, _⟩ :=
    Transpose180deg_spec w (fun x => conv2 (conv1 x)) d hM hAD2 s hA hD2
  have hval : ∀ r c, r < Rows → c < Cols →
      conv2 ((t1.heap B).elem d (Cols - 1 - c) r) =
        conv2 (conv1 ((s.heap A).elem d (Rows - 1 - r) (Cols - 1 - c))) := by
    intro r c hr hc
    rw [h1, elem_mkMat _ d (by omega) hr]
  refine ⟨t1, t2, t3, ht1, ht2, ht3, ?_, ?_⟩
  · rw [h2, h3]
    exact mkMat_congr hval
  · intro r c hr hc
    rw [h2, elem_mkMat _ d hr hc]
    exact hval r c hr hc

set_option maxRecDepth 100000 in
/-- Witness of C32: `[[1, 2, 3], [4, 5, 6]]` rotated twice by 90 degrees, and once by 180
degrees, is `[[6, 5, 4], [3, 2, 1]]`. -/
theorem Transpose90deg_twice_witness :
    (∃ t1 t2 t3, Transpose90deg 64 (fun x => x) 2 3 0 1 rotateState = .ok t1 ∧
      Transpose90deg 64 (fun x => x) 3 2 1 2 t1 = .ok t2 ∧
      Transpose180deg 64 (fun x => (fun x => x) ((fun x => x) x)) 2 3 0 3 rotateState = .ok t3 ∧
      t2.heap 2 = t3.heap 3 ∧
      (∀ r c, r < 2 → c < 3 →
        (t2.heap 2).elem 0 r c =
          (fun x => x) ((fun x => x) ((rotateState.heap 0).elem 0 (2 - 1 - r) (3 - 1 - c))))) ∧
    ((Transpose90deg 64 (fun x => x) 2 3 0 1 rotateState).bind
      (Transpose90deg 64 (fun x => x) 3 2 1 2)).toOption.map (fun t => t.heap 2) =
      some ⟨2, 3, [6, 5, 4, 3, 2, 1]⟩ ∧
    (Transpose180deg 64 (fun x => x) 2 3 0 3 rotateState).toOption.map (fun t => t.heap 3) =
      some ⟨2, 3, [6, 5, 4, 3, 2, 1]⟩ :=
  ⟨Transpose90deg_twice 64 (fun x => x) (fun x => x) 0 (by decide) (by decide) (by decide)
    (by decide) rotateState (mkMat_shape 2 3 (exampleA 3))
    (mkMat_shape 3 2 (fun _ _ => (9 : Int))) (mkMat_shape 2 3 (fun _ _ => (9 : Int)))
    (mkMat_shape 2 3 (fun _ _ => (9 : Int))), by decide, by decide⟩

/-! ## Associativity of `Mul` -/

theorem sum_map_range {R : Type} [Semiring R] (f : Nat → R) (n : Nat) :
    ((List.range n).map f).sum = Finset.sum (Finset.range n) f := by
  induction n with
  | zero => simp
  | succ n ih =>
    rw [List.range_succ, List.map_append, List.sum_append, ih, Finset.sum_range_succ]
    simp

/-- The reference product is associative. -/
theorem Mul_reference_assoc {R : Type} [Semiring R] (fa fb fd : Nat → Nat → R)
    (k n r c : Nat) :
    Mul_reference (Mul_reference fa fb k) fd n r c =
      Mul_reference fa (Mul_reference fb fd n) k r c := by
  simp only [Mul_reference, sum_map_range, Finset.sum_mul, Finset.mul_sum, mul_assoc]
  exact Finset.sum_comm

/-- C33, `Mul` is associative across the tiers.  For integer matrices (any semiring `R`
with the arithmetic of `ringOps`), every build, all `m`, `p` and all `k, n >= 1`, and
matrices `A` (`m` x `k`), `B` (`k` x `n`), `D` (`n` x `p`): with four fresh outputs
`T1`, `P`, `T2`, `Q` (different from one another and from `A`, `B`, `D`), the calls
`Mul(A, B, T1)`, `Mul(T1, D, P)`, `Mul(B, D, T2)` and `Mul(A, T2, Q)` all return, and
`P = (A * B) * D` and `Q = A * (B * D)` are the same `m` x `p` matrix, whatever tier
each of the four products runs. -/
theorem Mul_associative {R : Type} [Semiring R] (bld : Build) (d : R) {m k n p : Nat}
    (hk : 1 ≤ k) (hn : 1 ≤ n) {A B D T1 P T2 Q : Ref}
    (hfresh : [T1, P, T2, Q].Nodup)
    (hnew : ∀ x, x ∈ [T1, P, T2, Q] → x ≠ A ∧ x ≠ B ∧ x ≠ D)
    (s : State R) (hA : HasShape (s.heap A) m k) (hB : HasShape (s.heap B) k n)
    (hD : HasShape (s.heap D) n p) (hT1 : HasShape (s.heap T1) m n)
    (hP : HasShape (s.heap P) m p) (hT2 : HasShape (s.heap T2) k p)
    (hQ : HasShape (s.heap Q) m p) :
    ∃ s1 s2 s3 s4,
      Mul bld (ringOps R) m k n A B T1 s = .ok s1 ∧
      Mul bld (ringOps R) m n p T1 D P s1 = .ok s2 ∧
      Mul bld (ringOps R) k n p B D T2 s2 = .ok s3 ∧
      Mul bld (ringOps R) m k p A T2 Q s3 = .ok s4 ∧
      s4.heap P = s4.heap Q ∧
      s4.heap Q = mkMat m p
        (Mul_reference ((s.heap A).elem d)
          (Mul_reference ((s.heap B).elem d) ((s.heap D).elem d) n) k) := by
  obtain ⟨n1A, n1B, n1D⟩ := hnew T1 (by simp)
  obtain ⟨nPA, nPB, nPD⟩ := hnew P (by simp)
  obtain ⟨n2A, n2B, n2D⟩ := hnew T2 (by simp)
  obtain ⟨nQA, nQB, nQD⟩ := hnew Q (by simp)
  have h1P : T1 ≠ P := fun h => by rw [h] at hfresh; simp at hfresh
  have h12 : T1 ≠ T2 := fun h => by rw [h] at hfresh; simp at hfresh
  have h1Q : T1 ≠ Q := fun h => by rw [h] at hfresh; simp at hfresh
  have hP2 : P ≠ T2 := fun h => by rw [h] at hfresh; simp at hfresh
  have hPQ : P ≠ Q := fun h => by rw [h] at hfresh; simp at hfresh
  have h2Q : T2 ≠ Q := fun h => by rw [h] at hfresh; simp at hfresh
  -- `T1 = A * B`
  obtain ⟨s1, r1, v1, f1⟩ := Mul_ring bld hk (Ne.symm n1A) (Ne.symm n1B) s _ _
    (hA.eq_mkMat_elem d) (hB.eq_mkMat_elem d) hT1
  -- `P = T1 * D`
  obtain ⟨s2, r2, v2, f2⟩ := Mul_ring bld hn h1P (Ne.symm nPD) s1 _ _ v1
    (by rw [f1 D (Ne.symm n1D)]; exact hD.eq_mkMat_elem d)
    (by rw [f1 P (Ne.symm h1P)]; exact hP)
  -- `T2 = B * D`
  obtain ⟨s3, r3, v3, f3⟩ := Mul_ring bld hn (Ne.symm n2B) (Ne.symm n2D) s2 _ _
    (by rw [f2 B (Ne.symm nPB), f1 B (Ne.symm n1B)]; exact hB.eq_mkMat_elem d)
    (by rw [f2 D (Ne.symm nPD), f1 D (Ne.symm n1D)]; exact hD.eq_mkMat_elem d)
    (by rw [f2 T2 (Ne.symm hP2), f1 T2 (Ne.symm h12)]; exact hT2)
  -- `Q = A * T2`
  obtain ⟨s4, r4, v4, f4⟩ := Mul_ring bld hk (Ne.symm nQA) h2Q s3 _ _
    (by rw [f3 A (Ne.symm n2A), f2 A (Ne.symm nPA), f1 A (Ne.symm n1A)]
        exact hA.eq_mkMat_elem d)
    v3
    (by rw [f3 Q (Ne.symm h2Q), f2 Q (Ne.symm hPQ), f1 Q (Ne.symm h1Q)]; exact hQ)
  refine ⟨s1, s2, s3, s4, r1, r2, r3, r4, ?_, v4⟩
  rw [f4 P hPQ, f3 P hP2, v2, v4]
  exact mkMat_congr (fun r c _ _ => Mul_reference_assoc _ _ _ k n r c)

set_option maxRecDepth 100000 in
/-- Witness of C33, in the release build with the unrolled code for up to 5x5: for `A`
(2 x 2), `B` (2 x 6) and `D` (6 x 1) the product `A * B` runs the semi-generic branch,
`(A * B) * D` and `B * D` the generic fallback and `A * (B * D)` the exact-shape branch,
and both sides are `[[777], [1729]]`. -/
theorem Mul_associative_witness :
    (∃ s1 s2 s3 s4,
      Mul fullBuild (ringOps Int) 2 2 6 0 1 3 assocState = .ok s1 ∧
      Mul fullBuild (ringOps Int) 2 6 1 3 2 4 s1 = .ok s2 ∧
      Mul fullBuild (ringOps Int) 2 6 1 1 2 5 s2 = .ok s3 ∧
      Mul fullBuild (ringOps Int) 2 2 1 0 5 6 s3 = .ok s4 ∧
      s4.heap 4 = s4.heap 6 ∧
      s4.heap 6 = mkMat 2 1
        (Mul_reference ((assocState.heap 0).elem 0)
          (Mul_reference ((assocState.heap 1).elem 0) ((assocState.heap 2).elem 0) 6) 2)) ∧
    Mul_tier fullBuild 2 2 6 = .semi_generic ∧
    Mul_tier fullBuild 2 6 1 = .fallback ∧
    Mul_tier fullBuild 2 2 1 = .exact_shape ∧
    mkMat 2 1
        (Mul_reference ((assocState.heap 0).elem 0)
          (Mul_reference ((assocState.heap 1).elem 0) ((assocState.heap 2).elem 0) 6) 2) =
      ⟨2, 1, [777, 1729]⟩ :=
  ⟨Mul_associative fullBuild 0 (by decide) (by decide) (by decide) (by decide) assocState
    (mkMat_shape 2 2 (exampleA 2)) (mkMat_shape 2 6 (exampleB 6))
    (mkMat_shape 6 1 (exampleA 1)) (mkMat_shape 2 6 (fun _ _ => (9 : Int)))
    (mkMat_shape 2 1 (fun _ _ => (9 : Int))) (mkMat_shape 2 1 (fun _ _ => (9 : Int)))
    (mkMat_shape 2 1 (fun _ _ => (9 : Int))), by decide, by decide, by decide, by decide⟩

/-! ## Row-major addressing is one-to-one -/

/-- Writing through `at(r, c)` inside the matrix sets element `(r, c)` and leaves every
other element inside the matrix, and every other object, as it was. -/
theorem write_at2_frame (s : State E) (obj : Ref) (d v : E) {Rows Cols r c : Nat}
    (hs : HasShape (s.heap obj) Rows Cols) (hr : r < Rows) (hc : c < Cols) :
    ∃ s1, s.write obj (.at2 r c) v = .ok s1 ∧ (s1.heap obj).elem d r c = v ∧
      (∀ r1 c1, r1 < Rows → c1 < Cols → (r1, c1) ≠ (r, c) →
        (s1.heap obj).elem d r1 c1 = (s.heap obj).elem d r1 c1) ∧
      HasShape (s1.heap obj) Rows Cols ∧ ∀ o, o ≠ obj → s1.heap o = s.heap o := by
  have hlt : r * Cols + c < ((s.log (.at2 obj r c)).heap obj).p_mat.length := by
    rw [State.log_heap, hs.2.2]; exact pos_lt hr hc
  have hlt2 : r * Cols + c < (s.heap obj).p_mat.length := by
    rw [hs.2.2]; exact pos_lt hr hc
  have href : s.ref obj (.at2 r c) = s.at2 obj r c := rfl
  have hw : s.write obj (.at2 r c) v = .ok ((s.log (.at2 obj r c)).setMat obj
      ⟨(s.heap obj).c_rows, (s.heap obj).c_cols, (s.heap obj).p_mat.set (r * Cols + c) v⟩) := by
    unfold State.write
    rw [href, at2_ok s hs hr hc]
    exact store_ok _ v hlt
  refine ⟨_, hw, ?_, ?_, ?_, ?_⟩
  · rw [State.setMat_heap_self]
    unfold Matrix2D.elem
    simp only
    rw [hs.2.1, List.getD_eq_getElem?_getD, List.getElem?_set_self hlt2]
    rfl
  · intro r1 c1 hr1 hc1 hne
    rw [State.setMat_heap_self]
    unfold Matrix2D.elem
    simp only
    rw [hs.2.1, List.getD_eq_getElem?_getD, List.getD_eq_getElem?_getD,
      List.getElem?_set_ne]
    intro h
    obtain ⟨e1, e2⟩ := pos_inj hc hc1 h
    exact hne (by rw [e1, e2])
  · rw [State.setMat_heap_self]
    exact ⟨hs.1, hs.2.1, by simp [hs.2.2]⟩
  · intro o ho
    rw [State.setMat_heap_ne _ _ _ _ ho, State.log_heap]

/-- C34, row-major addressing is a bijection.  For a `_Rows` x `_Cols` matrix: `POS_XY`
gives every pair with `row < _Rows` and `col < _Cols` the index `row * _Cols + col`, which
is below `_Rows * _Cols`; two such pairs with the same index are the same pair; every
index below `_Rows * _Cols` is the index of such a pair; hence a write through `at(r, c)`
with `r < _Rows` and `c < _Cols` returns, sets element `(r, c)`, and changes no other
element of the matrix and no other object. -/
theorem POS_XY_bijection (s : State E) (obj : Ref) (d v : E) {Rows Cols r c : Nat}
    (hs : HasShape (s.heap obj) Rows Cols) (hr : r < Rows) (hc : c < Cols) :
    (∀ r1 c1, r1 < Rows → c1 < Cols →
      POS_XY Rows Cols r1 c1 = .ok (r1 * Cols + c1) ∧ r1 * Cols + c1 < Rows * Cols) ∧
    (∀ r1 c1 r2 c2, r1 < Rows → c1 < Cols → r2 < Rows → c2 < Cols →
      POS_XY Rows Cols r1 c1 = POS_XY Rows Cols r2 c2 → r1 = r2 ∧ c1 = c2) ∧
    (∀ i, i < Rows * Cols → ∃ r1 c1, r1 < Rows ∧ c1 < Cols ∧ POS_XY Rows Cols r1 c1 = .ok i) ∧
    ∃ s1, s.write obj (.at2 r c) v = .ok s1 ∧ (s1.heap obj).elem d r c = v ∧
      (∀ r1 c1, r1 < Rows → c1 < Cols → (r1, c1) ≠ (r, c) →
        (s1.heap obj).elem d r1 c1 = (s.heap obj).elem d r1 c1) ∧
      HasShape (s1.heap obj) Rows Cols ∧ ∀ o, o ≠ obj → s1.heap o = s.heap o := by
  have hpos : ∀ r1 c1, r1 < Rows → c1 < Cols →
      POS_XY Rows Cols r1 c1 = .ok (r1 * Cols + c1) := by
    intro r1 c1 hr1 hc1
    unfold POS_XY
    rw [if_neg (by omega), if_neg (by omega)]
  refine ⟨fun r1 c1 hr1 hc1 => ⟨hpos r1 c1 hr1 hc1, pos_lt hr1 hc1⟩, ?_, ?_,
    write_at2_frame s obj d v hs hr hc⟩
  · intro r1 c1 r2 c2 hr1 hc1 hr2 hc2 h
    rw [hpos r1 c1 hr1 hc1, hpos r2 c2 hr2 hc2] at h
    exact pos_inj hc1 hc2 (Except.ok.inj h)
  · intro i hi
    have hC : 0 < Cols := Nat.pos_of_ne_zero (fun h => by rw [h] at hi; simp at hi)
    refine ⟨i / Cols, i % Cols, (Nat.div_lt_iff_lt_mul hC).mpr hi, Nat.mod_lt i hC, ?_⟩
    rw [hpos _ _ ((Nat.div_lt_iff_lt_mul hC).mpr hi) (Nat.mod_lt i hC), Nat.mul_comm]
    rw [Nat.div_add_mod]

/-- Witness of C34: on `[[1, 2, 3], [4, 5, 6]]`, writing 7 through `at(1, 0)` gives
`[[1, 2, 3], [7, 5, 6]]`. -/
theorem POS_XY_bijection_witness :
    ((∀ r1 c1, r1 < 2 → c1 < 3 →
      POS_XY 2 3 r1 c1 = .ok (r1 * 3 + c1) ∧ r1 * 3 + c1 < 2 * 3) ∧
    (∀ r1 c1 r2 c2, r1 < 2 → c1 < 3 → r2 < 2 → c2 < 3 →
      POS_XY 2 3 r1 c1 = POS_XY 2 3 r2 c2 → r1 = r2 ∧ c1 = c2) ∧
    (∀ i, i < 2 * 3 → ∃ r1 c1, r1 < 2 ∧ c1 < 3 ∧ POS_XY 2 3 r1 c1 = .ok i) ∧
    ∃ s1, rotateState.write 0 (.at2 1 0) 7 = .ok s1 ∧ (s1.heap 0).elem 0 1 0 = 7 ∧
      (∀ r1 c1, r1 < 2 → c1 < 3 → (r1, c1) ≠ (1, 0) →
        (s1.heap 0).elem 0 r1 c1 = (rotateState.heap 0).elem 0 r1 c1) ∧
      HasShape (s1.heap 0) 2 3 ∧ ∀ o, o ≠ 0 → s1.heap o = rotateState.heap o) ∧
    (rotateState.write 0 (.at2 1 0) 7).toOption.map (fun t => t.heap 0) =
      some ⟨2, 3, [1, 2, 3, 7, 5, 6]⟩ ∧
    (List.range 2).flatMap (fun r => (List.range 3).map (fun c => (POS_XY 2 3 r c).toOption)) =
      [some 0, some 1, some 2, some 3, some 4, some 5] :=
  ⟨POS_XY_bijection rotateState 0 0 7 (mkMat_shape 2 3 (exampleA 3)) (by decide) (by decide),
    by decide, by decide⟩

/-! ## Nested lists are read as one flat sequence -/

/-- C35, the nested-list constructor ignores the row structure.  For every shape and every
nested list whose total number of elements is `_Rows * _Cols`, whatever the number and the
lengths of the inner lists: the constructor returns, writes no diagnostic, and builds the
matrix whose buffer is the flattened sequence, so that `at(r, c)` reads element
`r * _Cols + c` of the flattened sequence for all `r < _Rows` and `c < _Cols`; and any two
nested lists with the same flattened sequence build the same matrix with the same
output. -/
theorem construct_init_list_ragged (Rows Cols : Nat) (zero d : E) (lists : List (List E))
    (junk : Nat → E) (htotal : lists.flatten.length = Rows * Cols) :
    construct_init_list Rows Cols zero lists junk = .ok (⟨Rows, Cols, lists.flatten⟩, []) ∧
    (∀ (s : State E) (obj : Ref) (r c : Nat), s.heap obj = ⟨Rows, Cols, lists.flatten⟩ →
      r < Rows → c < Cols →
      s.read obj (.at2 r c) = .ok (lists.flatten.getD (r * Cols + c) d, s.log (.at2 obj r c))) ∧
    (∀ lists2 : List (List E), lists2.flatten = lists.flatten →
      construct_init_list Rows Cols zero lists2 junk =
        construct_init_list Rows Cols zero lists junk) := by
  refine ⟨?_, ?_, ?_⟩
  · rw [construct_init_list_eq, htotal, Nat.sub_self, if_pos rfl, List.replicate_zero,
      List.append_nil, ← htotal, List.take_length]
  · intro s obj r c hs hr hc
    have hshape : HasShape (s.heap obj) Rows Cols := by
      rw [hs]; exact ⟨rfl, rfl, htotal⟩
    have href : s.ref obj (.at2 r c) = s.at2 obj r c := rfl
    have h := read_at2_ok s d hshape hr hc
    unfold State.read_at2 at h
    unfold State.read
    rw [href]
    rw [h]
    unfold Matrix2D.elem
    rw [hs]
  · intro lists2 h
    rw [construct_init_list_eq, construct_init_list_eq, h]

set_option maxRecDepth 100000 in
/-- Witness of C35: `{{1, 2, 3}, {4}}` builds the 2 x 2 matrix `[[1, 2], [3, 4]]` without
a diagnostic, as `{{1, 2}, {3, 4}}` does; `at(1, 0)` is 3, element `1 * 2 + 0` of the
flattened sequence, and not 4, the first element of the second inner list. -/
theorem construct_init_list_ragged_witness :
    (construct_init_list 2 2 (0 : Int) raggedLists (fun _ => 0) =
        .ok (⟨2, 2, raggedLists.flatten⟩, []) ∧
      (∀ (s : State Int) (obj : Ref) (r c : Nat), s.heap obj = ⟨2, 2, raggedLists.flatten⟩ →
        r < 2 → c < 2 →
        s.read obj (.at2 r c) =
          .ok (raggedLists.flatten.getD (r * 2 + c) 0, s.log (.at2 obj r c))) ∧
      (∀ lists2 : List (List Int), lists2.flatten = raggedLists.flatten →
        construct_init_list 2 2 (0 : Int) lists2 (fun _ => 0) =
          construct_init_list 2 2 (0 : Int) raggedLists (fun _ => 0))) ∧
    (construct_init_list 2 2 (0 : Int) raggedLists (fun _ => 0)).toOption =
      some (⟨2, 2, [1, 2, 3, 4]⟩, []) ∧
    (construct_init_list 2 2 (0 : Int) [[1, 2], [3, 4]] (fun _ => 0)).toOption =
      some (⟨2, 2, [1, 2, 3, 4]⟩, []) ∧
    (⟨2, 2, raggedLists.flatten⟩ : Matrix2D Int).elem 0 1 0 = 3 ∧
    (raggedLists.getD 1 []).getD 0 0 = 4 :=
  ⟨construct_init_list_ragged 2 2 0 0 raggedLists (fun _ => 0) (by decide),
    by decide, by decide, by decide, by decide⟩

/-! ## The unrolling bound of a build -/

/-- C36, the effective unrolling bound as a function of the build flags.
`_MATRIX_MANUAL_OPTIMISATION` is defined whenever `NDEBUG` is.  With `NDEBUG`: the block
compiled into `Mul` is the one for up to 5x5 for a configured limit `N >= 5`, the one for
up to 4x4 for `N = 4` and when no limit is configured, the one for up to 3x3 for `N = 3`,
and none for `N <= 2`.  Without `NDEBUG`: the block for up to 3x3 whatever the limit when
the user defines `_MATRIX_MANUAL_OPTIMISATION`, and none otherwise.  With no block every
shape runs the generic fallback. -/
theorem effective_bound_of_flags (b : Build) :
    (b.NDEBUG = true → b.manual = true) ∧
    (b.NDEBUG = true →
      (∀ N : Int, b.MATRIX_LIMIT_MANUAL_OPTIMISATION_TO_N = some N →
        (5 ≤ N → b.bound = some 5) ∧ (N = 4 → b.bound = some 4) ∧
        (N = 3 → b.bound = some 3) ∧ (N ≤ 2 → b.bound = none)) ∧
      (b.MATRIX_LIMIT_MANUAL_OPTIMISATION_TO_N = none → b.bound = some 4)) ∧
    (b.NDEBUG = false →
      (b.MATRIX_MANUAL_OPTIMISATION = true → b.bound = some 3) ∧
      (b.MATRIX_MANUAL_OPTIMISATION = false → b.bound = none)) ∧
    (b.bound = none → ∀ RA K CB, 1 ≤ K → Mul_tier b RA K CB = .fallback) := by
  obtain ⟨m, nd, lim⟩ := b
  refine ⟨?_, ?_, ?_, ?_⟩
  · intro h
    simp only at h
    subst h
    cases m <;> rfl
  · intro h
    simp only at h
    subst h
    refine ⟨fun N hN => ?_, fun hN => ?_⟩
    · simp only at hN
      subst hN
      have hb : (Build.mk m true (some N)).bound =
          if 4 < N then some 5 else if 3 < N then some 4 else if 2 < N then some 3
          else none := by
        cases m <;> simp [Build.bound, Build.manual, Build.limit]
      rw [hb]
      refine ⟨fun h => ?_, fun h => ?_, fun h => ?_, fun h => ?_⟩
      · rw [if_pos (by omega)]
      · rw [if_neg (by omega), if_pos (by omega)]
      · rw [if_neg (by omega), if_neg (by omega), if_pos (by omega)]
      · rw [if_neg (by omega), if_neg (by omega), if_neg (by omega)]
    · simp only at hN
      subst hN
      cases m <;> simp [Build.bound, Build.manual, Build.limit]
  · intro h
    simp only at h
    subst h
    refine ⟨fun hm => ?_, fun hm => ?_⟩ <;> simp only at hm <;> subst hm <;>
      simp [Build.bound, Build.manual]
  · intro h RA K CB hK
    exact Mul_tier_fallback hK (Or.inl h) RA CB

set_option maxRecDepth 100000 in
/-- Witness of C36: the bound of ten builds. -/
theorem effective_bound_of_flags_witness :
    fullBuild.bound = some 5 ∧ limit6Build.bound = some 5 ∧ releaseBuild.bound = some 4 ∧
    limit2Build.bound = none ∧ sourceBuild.bound = some 3 ∧ debugManualBuild.bound = some 3 ∧
    debugBuild.bound = none ∧ (Build.mk false true (some 3)).bound = some 3 ∧
    (Build.mk true false (some 0)).bound = some 3 ∧
    (Build.mk false false (some 5)).bound = none :=
  ⟨(((effective_bound_of_flags fullBuild).2.1 rfl).1 5 rfl).1 (by decide),
    by decide, by decide, by decide, by decide, by decide, by decide, by decide, by decide,
    by decide⟩

/-! ## Element-by-element functions -/

/-- The statement `C[i] = _ElemC(A[i] op B[i])` with the position inside the three
buffers. -/
theorem assign_binop_ok (conv : E → E) (op : E → E → E) {A B C : Ref} (t : State E) {i : Nat}
    {x y : E} (hx : (t.heap A).p_mat[i]? = some x) (hy : (t.heap B).p_mat[i]? = some y)
    (hi : i < (t.heap C).p_mat.length) :
    t.assign_binop conv op C A B i =
      .ok ((t.logs [.index A i, .index B i, .index C i]).setMat C
        ⟨(t.heap C).c_rows, (t.heap C).c_cols, (t.heap C).p_mat.set i (conv (op x y))⟩) := by
  unfold State.assign_binop State.index
  simp only
  rw [load_eq_ok _ (by rw [State.log_heap]; exact hx)]
  simp only
  rw [load_eq_ok _ (by rw [State.log_heap, State.log_heap]; exact hy)]
  simp only
  rw [store_ok _ _ (by rw [State.log_heap, State.log_heap, State.log_heap]; exact hi)]
  simp [State.log_eq_logs, State.logs_logs, State.setMat, State.logs]

/-- The loop `for (i < n) C[i] = _ElemC(A[i] op B[i])` on any three objects, the same or
not: it returns, element `i` of `C` ends as the conversion of `A[i] op B[i]` for the
values that `A` and `B` held before the loop, the elements of `C` from `n` on and all
other objects are unchanged, and the accessor calls are `A[i]`, `B[i]`, `C[i]` for every
`i` in order. -/
theorem binop_loop (conv : E → E) (op : E → E → E) (d : E) (A B C : Ref) (n : Nat)
    (s : State E) (hA : n ≤ (s.heap A).p_mat.length) (hB : n ≤ (s.heap B).p_mat.length)
    (hC : n ≤ (s.heap C).p_mat.length) :
    ∃ t, forLoop n (fun i s => s.assign_binop conv op C A B i) s = .ok t ∧
      (∀ o, o ≠ C → t.heap o = s.heap o) ∧
      ((t.heap C).c_rows = (s.heap C).c_rows ∧ (t.heap C).c_cols = (s.heap C).c_cols ∧
        (t.heap C).p_mat.length = (s.heap C).p_mat.length) ∧
      (∀ k, k < n → (t.heap C).p_mat[k]? =
        some (conv (op ((s.heap A).p_mat.getD k d) ((s.heap B).p_mat.getD k d)))) ∧
      (∀ k, n ≤ k → (t.heap C).p_mat[k]? = (s.heap C).p_mat[k]?) ∧
      t.calls = s.calls ++
        (List.range n).flatMap (fun k => [.index A k, .index B k, .index C k]) ∧
      t.cerr = s.cerr ∧ t.next = s.next := by
  induction n with
  | zero =>
    exact ⟨s, rfl, fun _ _ => rfl, ⟨rfl, rfl, rfl⟩, fun k hk => absurd hk (Nat.not_lt_zero k),
      fun _ _ => rfl, by simp, rfl, rfl⟩
  | succ n ih =>
    obtain ⟨t, ht, h1, ⟨h2, h3, h4⟩, h5, h6, h7, h8, h9⟩ :=
      ih (Nat.le_of_succ_le hA) (Nat.le_of_succ_le hB) (Nat.le_of_succ_le hC)
    have tail : ∀ o, (t.heap o).p_mat[n]? = (s.heap o).p_mat[n]? := by
      intro o
      by_cases ho : o = C
      · rw [ho]; exact h6 n (Nat.le_refl n)
      · rw [h1 o ho]
    have hx : (t.heap A).p_mat[n]? = some ((s.heap A).p_mat.getD n d) := by
      rw [tail A, List.getElem?_eq_getElem hA, List.getD_eq_getElem _ _ hA]
    have hy : (t.heap B).p_mat[n]? = some ((s.heap B).p_mat.getD n d) := by
      rw [tail B, List.getElem?_eq_getElem hB, List.getD_eq_getElem _ _ hB]
    have hlt : n < (t.heap C).p_mat.length := by rw [h4]; exact hC
    refine ⟨_, by rw [forLoop_succ, ht]; exact assign_binop_ok conv op t hx hy hlt, ?_, ?_, ?_,
      ?_, ?_, ?_, ?_⟩
    · intro o ho
      rw [State.setMat_heap_ne _ _ _ _ ho, State.logs_heap]
      exact h1 o ho
    · rw [State.setMat_heap_self]
      exact ⟨h2, h3, by rw [← h4]; exact List.length_set _ _ _⟩
    · intro k hk
      rw [State.setMat_heap_self]
      show ((t.heap C).p_mat.set n _)[k]? = _
      rcases Nat.lt_or_ge k n with hkn | hkn
      · rw [List.getElem?_set_ne (by omega)]
        exact h5 k hkn
      · have hk2 : k = n := by omega
        subst hk2
        rw [List.getElem?_set_self hlt]
    · intro k hk
      rw [State.setMat_heap_self]
      show ((t.heap C).p_mat.set n _)[k]? = _
      rw [List.getElem?_set_ne (by omega)]
      exact h6 k (by omega)
    · rw [State.setMat_calls, State.logs_calls, h7, List.range_succ, List.flatMap_append,
        List.append_assoc]
      simp
    · rw [State.setMat_cerr, State.logs_cerr, h8]
    · rw [State.setMat_next, State.logs_next, h9]

/-- An element-by-element loop over matrices of the same shape, with the output the same
object as an input or not. -/
theorem binop_spec (w : Nat) (conv : E → E) (op : E → E → E) (d : E) {Rows Cols : Nat}
    (hM : Rows * Cols < 2 ^ w) (A B C : Ref) (s : State E)
    (hA : HasShape (s.heap A) Rows Cols) (hB : HasShape (s.heap B) Rows Cols)
    (hC : HasShape (s.heap C) Rows Cols) :
    ∃ t, forLoop (size_mul w Rows Cols) (fun i s => s.assign_binop conv op C A B i) s = .ok t ∧
      HasShape (t.heap C) Rows Cols ∧
      (∀ i, i < Rows * Cols → (t.heap C).p_mat[i]? =
        some (conv (op ((s.heap A).p_mat.getD i d) ((s.heap B).p_mat.getD i d)))) ∧
      (∀ o, o ≠ C → t.heap o = s.heap o) := by
  rw [size_mul_small hM]
  obtain ⟨t, ht, h1, ⟨h2, h3, h4⟩, h5, _⟩ := binop_loop conv op d A B C (Rows * Cols) s
    (by rw [hA.2.2]) (by rw [hB.2.2]) (by rw [hC.2.2])
  exact ⟨t, ht, ⟨h2.trans hC.1, h3.trans hC.2.1, h4.trans hC.2.2⟩, h5, h1⟩

/-- C37, the element-by-element operations.  For every shape whose number of elements
fits `size_t`, every arithmetic and matrices `A`, `B` and `C` of that shape, of which `C`
may be the same object as `A`, as `B`, or as both: `Add`, `Sub` and `MulEBE` return and
leave in every `C[i]`, `i < _Rows * _Cols`, the conversion of `A[i] + B[i]`, `A[i] - B[i]`
and `A[i] * B[i]` respectively, for the values that `A` and `B` held before the call; `C`
keeps its shape and no other object changes. -/
theorem elementwise_in_place (w : Nat) (ops : ElemOps E) (sub : E → E → E) (d : E)
    {Rows Cols : Nat} (hM : Rows * Cols < 2 ^ w) (A B C : Ref) (s : State E)
    (hA : HasShape (s.heap A) Rows Cols) (hB : HasShape (s.heap B) Rows Cols)
    (hC : HasShape (s.heap C) Rows Cols) :
    (∃ t, Add w ops Rows Cols A B C s = .ok t ∧ HasShape (t.heap C) Rows Cols ∧
      (∀ i, i < Rows * Cols → (t.heap C).p_mat[i]? =
        some (ops.conv (ops.add ((s.heap A).p_mat.getD i d) ((s.heap B).p_mat.getD i d)))) ∧
      (∀ o, o ≠ C → t.heap o = s.heap o)) ∧
    (∃ t, Sub w ops sub Rows Cols A B C s = .ok t ∧ HasShape (t.heap C) Rows Cols ∧
      (∀ i, i < Rows * Cols → (t.heap C).p_mat[i]? =
        some (ops.conv (sub ((s.heap A).p_mat.getD i d) ((s.heap B).p_mat.getD i d)))) ∧
      (∀ o, o ≠ C → t.heap o = s.heap o)) ∧
    (∃ t, MulEBE w ops Rows Cols A B C s = .ok t ∧ HasShape (t.heap C) Rows Cols ∧
      (∀ i, i < Rows * Cols → (t.heap C).p_mat[i]? =
        some (ops.conv (ops.mul ((s.heap A).p_mat.getD i d) ((s.heap B).p_mat.getD i d)))) ∧
      (∀ o, o ≠ C → t.heap o = s.heap o)) :=
  ⟨binop_spec w ops.conv ops.add d hM A B C s hA hB hC,
    binop_spec w ops.conv sub d hM A B C s hA hB hC,
    binop_spec w ops.conv ops.mul d hM A B C s hA hB hC⟩

set_option maxRecDepth 100000 in
/-- Witness of C37, in place on `A = [[1, 2], [3, 4]]` with `B = [[5, 6], [7, 8]]`:
`Add(A, B, A)` leaves `[[6, 8], [10, 12]]`, `Sub(A, B, B)` leaves `[[-4, -4], [-4, -4]]`
and `MulEBE(A, A, A)` leaves `[[1, 4], [9, 16]]`, whereas `Mul(A, B, A)` leaves
`[[19, 130], [43, 290]]` and not the product `[[19, 22], [43, 50]]`. -/
theorem elementwise_in_place_witness :
    ((∃ t, Add 64 (ringOps Int) 2 2 0 1 0 (exampleState 2 2 2) = .ok t ∧
        HasShape (t.heap 0) 2 2 ∧
        (∀ i, i < 2 * 2 → (t.heap 0).p_mat[i]? =
          some ((ringOps Int).conv ((ringOps Int).add
            (((exampleState 2 2 2).heap 0).p_mat.getD i 0)
            (((exampleState 2 2 2).heap 1).p_mat.getD i 0)))) ∧
        (∀ o, o ≠ 0 → t.heap o = (exampleState 2 2 2).heap o)) ∧
      (∃ t, Sub 64 (ringOps Int) (fun x y => x - y) 2 2 0 1 0 (exampleState 2 2 2) = .ok t ∧
        HasShape (t.heap 0) 2 2 ∧
        (∀ i, i < 2 * 2 → (t.heap 0).p_mat[i]? =
          some ((ringOps Int).conv ((fun x y => x - y)
            (((exampleState 2 2 2).heap 0).p_mat.getD i 0)
            (((exampleState 2 2 2).heap 1).p_mat.getD i 0)))) ∧
        (∀ o, o ≠ 0 → t.heap o = (exampleState 2 2 2).heap o)) ∧
      (∃ t, MulEBE 64 (ringOps Int) 2 2 0 1 0 (exampleState 2 2 2) = .ok t ∧
        HasShape (t.heap 0) 2 2 ∧
        (∀ i, i < 2 * 2 → (t.heap 0).p_mat[i]? =
          some ((ringOps Int).conv ((ringOps Int).mul
            (((exampleState 2 2 2).heap 0).p_mat.getD i 0)
            (((exampleState 2 2 2).heap 1).p_mat.getD i 0)))) ∧
        (∀ o, o ≠ 0 → t.heap o = (exampleState 2 2 2).heap o))) ∧
    (Add 64 (ringOps Int) 2 2 0 1 0 (exampleState 2 2 2)).toOption.map (fun t => t.heap 0) =
      some ⟨2, 2, [6, 8, 10, 12]⟩ ∧
    (Sub 64 (ringOps Int) (fun x y => x - y) 2 2 0 1 1 (exampleState 2 2 2)).toOption.map
      (fun t => t.heap 1) = some ⟨2, 2, [-4, -4, -4, -4]⟩ ∧
    (MulEBE 64 (ringOps Int) 2 2 0 0 0 (exampleState 2 2 2)).toOption.map (fun t => t.heap 0) =
      some ⟨2, 2, [1, 4, 9, 16]⟩ ∧
    (Mul sourceBuild (ringOps Int) 2 2 2 0 1 0 (exampleState 2 2 2)).toOption.map
      (fun t => t.heap 0) = some ⟨2, 2, [19, 130, 43, 290]⟩ ∧
    mkMat 2 2 (Mul_reference (exampleA 2) (exampleB 2) 2) = ⟨2, 2, [19, 22, 43, 50]⟩ :=
  ⟨elementwise_in_place 64 (ringOps Int) (fun x y => x - y) 0 (by decide) 0 1 0
    (exampleState 2 2 2) (mkMat_shape 2 2 (exampleA 2)) (mkMat_shape 2 2 (exampleB 2))
    (mkMat_shape 2 2 (exampleA 2)), by decide, by decide, by decide, by decide, by decide⟩

/-! ## The example of the comment in `Mul` -/

/-- Counterexample to C38: the matrix `C` of the reminder is not what `Mul` computes.  For
`A = [[0, 1, 0], [0, 0, 0]]` and `B = [[0, 0, 0], [1, 0, 0], [0, 0, 0]]` (only `b` and `j`
are 1) `Mul` leaves `[[1, 0, 0], [0, 0, 0]]` in every tier, the reminder gives the zero
matrix; for `A = [[1, 2, 3], [4, 5, 6]]` and `B = [[5, 6, 7], [8, 9, 10], [11, 12, 13]]`
`Mul` leaves `[[54, 60, 66], [126, 141, 156]]`, the reminder gives
`[[46, 60, 66], [109, 141, 156]]`. -/
theorem Mul_reminder_counterexample :
    (Mul sourceBuild (ringOps Int) 2 3 3 0 1 2
        (reminderState 0 1 0 0 0 0 0 0 0 1 0 0 0 0 0)).toOption.map (fun t => t.heap 2) =
      some ⟨2, 3, [1, 0, 0, 0, 0, 0]⟩ ∧
    (Mul releaseBuild (ringOps Int) 2 3 3 0 1 2
        (reminderState 0 1 0 0 0 0 0 0 0 1 0 0 0 0 0)).toOption.map (fun t => t.heap 2) =
      some ⟨2, 3, [1, 0, 0, 0, 0, 0]⟩ ∧
    (Mul fullBuild (ringOps Int) 2 3 3 0 1 2
        (reminderState 0 1 0 0 0 0 0 0 0 1 0 0 0 0 0)).toOption.map (fun t => t.heap 2) =
      some ⟨2, 3, [1, 0, 0, 0, 0, 0]⟩ ∧
    (Mul debugBuild (ringOps Int) 2 3 3 0 1 2
        (reminderState 0 1 0 0 0 0 0 0 0 1 0 0 0 0 0)).toOption.map (fun t => t.heap 2) =
      some ⟨2, 3, [1, 0, 0, 0, 0, 0]⟩ ∧
    Mul_reminder (0 : Int) 1 0 0 0 0 0 0 0 1 0 0 0 0 0 = ⟨2, 3, [0, 0, 0, 0, 0, 0]⟩ ∧
    (Mul sourceBuild (ringOps Int) 2 3 3 0 1 2
        (reminderState 1 2 3 4 5 6 5 6 7 8 9 10 11 12 13)).toOption.map (fun t => t.heap 2) =
      some ⟨2, 3, [54, 60, 66, 126, 141, 156]⟩ ∧
    Mul_reminder (1 : Int) 2 3 4 5 6 5 6 7 8 9 10 11 12 13 =
      ⟨2, 3, [46, 60, 66, 109, 141, 156]⟩ := by
  decide

/-- The 2 x 3 matrix with the given elements, as a function of the row and the column. -/
theorem mkMat_2x3 {R : Type} [Semiring R] (a b c d e f : R) :
    (⟨2, 3, [a, b, c, d, e, f]⟩ : Matrix2D R) =
      mkMat 2 3 (fun r k => [a, b, c, d, e, f].getD (r * 3 + k) 0) := by
  refine @eq_mkMat R 2 3 _ _ ⟨rfl, rfl, rfl⟩ ?_
  intro i hi
  have h : i = 0 ∨ i = 1 ∨ i = 2 ∨ i = 3 ∨ i = 4 ∨ i = 5 := by omega
  rcases h with h | h | h | h | h | h <;> subst h <;> rfl

/-- The 3 x 3 matrix with the given elements, as a function of the row and the column. -/
theorem mkMat_3x3 {R : Type} [Semiring R] (g h i j k l m n o : R) :
    (⟨3, 3, [g, h, i, j, k, l, m, n, o]⟩ : Matrix2D R) =
      mkMat 3 3 (fun r c => [g, h, i, j, k, l, m, n, o].getD (r * 3 + c) 0) := by
  refine @eq_mkMat R 3 3 _ _ ⟨rfl, rfl, rfl⟩ ?_
  intro x hx
  have h : x = 0 ∨ x = 1 ∨ x = 2 ∨ x = 3 ∨ x = 4 ∨ x = 5 ∨ x = 6 ∨ x = 7 ∨ x = 8 := by omega
  rcases h with h | h | h | h | h | h | h | h | h <;> subst h <;> rfl

/-- C38 as the code has it: the example of the reminder with the first column of `C`
put right.  For `A = [[a, b, c], [d, e, f]]` and `B = [[g, h, i], [j, k, l], [m, n, o]]`
over the integers (any semiring), for all values of the fifteen entries, every build and
every 2 x 3 output `C` that is another object than `A` and `B`: `Mul` returns and leaves
`C = [[a*g + b*j + c*m, a*h + b*k + c*n, a*i + b*l + c*o],
[d*g + e*j + f*m, d*h + e*k + f*n, d*i + e*l + f*o]]`, and no other object changes. -/
theorem Mul_reminder_product {R : Type} [Semiring R] (bld : Build)
    (a b c d e f g h i j k l m n o : R) {A B C : Ref} (hAC : A ≠ C) (hBC : B ≠ C)
    (s : State R) (hA : s.heap A = ⟨2, 3, [a, b, c, d, e, f]⟩)
    (hB : s.heap B = ⟨3, 3, [g, h, i, j, k, l, m, n, o]⟩) (hC : HasShape (s.heap C) 2 3) :
    ∃ t, Mul bld (ringOps R) 2 3 3 A B C s = .ok t ∧
      t.heap C = ⟨2, 3, [a * g + b * j + c * m, a * h + b * k + c * n, a * i + b * l + c * o,
        d * g + e * j + f * m, d * h + e * k + f * n, d * i + e * l + f * o]⟩ ∧
      ∀ x, x ≠ C → t.heap x = s.heap x := by
  obtain ⟨t, ht, hv, hf⟩ := Mul_ring bld (by decide : 1 ≤ 3) hAC hBC s _ _
    (hA.trans (mkMat_2x3 a b c d e f)) (hB.trans (mkMat_3x3 g h i j k l m n o)) hC
  refine ⟨t, ht, ?_, hf⟩
  rw [hv]
  symm
  refine @eq_mkMat R 2 3 _ _ ⟨rfl, rfl, rfl⟩ ?_
  intro x hx
  have hx6 : x = 0 ∨ x = 1 ∨ x = 2 ∨ x = 3 ∨ x = 4 ∨ x = 5 := by omega
  rcases hx6 with h0 | h0 | h0 | h0 | h0 | h0 <;> subst h0 <;>
    simp [Mul_reference, List.range_succ, add_assoc]

set_option maxRecDepth 100000 in
/-- Witness of the amended C38: `[[1, 2, 3], [4, 5, 6]]` times
`[[5, 6, 7], [8, 9, 10], [11, 12, 13]]` is `[[54, 60, 66], [126, 141, 156]]`. -/
theorem Mul_reminder_product_witness :
    (∃ t, Mul sourceBuild (ringOps Int) 2 3 3 0 1 2
        (reminderState 1 2 3 4 5 6 5 6 7 8 9 10 11 12 13) = .ok t ∧
      t.heap 2 = ⟨2, 3, [1 * 5 + 2 * 8 + 3 * 11, 1 * 6 + 2 * 9 + 3 * 12,
        1 * 7 + 2 * 10 + 3 * 13, 4 * 5 + 5 * 8 + 6 * 11, 4 * 6 + 5 * 9 + 6 * 12,
        4 * 7 + 5 * 10 + 6 * 13]⟩ ∧
      ∀ x, x ≠ 2 → t.heap x = (reminderState 1 2 3 4 5 6 5 6 7 8 9 10 11 12 13).heap x) ∧
    (Mul sourceBuild (ringOps Int) 2 3 3 0 1 2
        (reminderState 1 2 3 4 5 6 5 6 7 8 9 10 11 12 13)).toOption.map (fun t => t.heap 2) =
      some ⟨2, 3, [54, 60, 66, 126, 141, 156]⟩ :=
  ⟨Mul_reminder_product sourceBuild 1 2 3 4 5 6 5 6 7 8 9 10 11 12 13 (by decide) (by decide)
    (reminderState 1 2 3 4 5 6 5 6 7 8 9 10 11 12 13) rfl rfl ⟨rfl, rfl, rfl⟩, by decide⟩

/-! ## The generator of the unrolled branches -/

theorem flatMap_sep_all {α : Type} (T : Nat → List α) (sep : List α) (n : Nat) :
    (List.range (n + 1)).flatMap (fun k => T k ++ sep) =
      T 0 ++ (List.range n).flatMap (fun k => sep ++ T (k + 1)) ++ sep := by
  induction n with
  | zero => simp [List.range_succ]
  | succ n ih =>
    rw [List.range_succ (n + 1), List.flatMap_append, ih, List.range_succ n,
      List.flatMap_append]
    simp [List.append_assoc]

/-- A loop that writes a separator after every item but the last writes the first item
and then every other item after a separator. -/
theorem flatMap_sep {α : Type} (T : Nat → List α) (sep : List α) (n : Nat) :
    (List.range (n + 1)).flatMap (fun k => T k ++ (if k < n + 1 - 1 then sep else [])) =
      T 0 ++ (List.range n).flatMap (fun k => sep ++ T (k + 1)) := by
  rw [Nat.add_sub_cancel, List.range_succ n, List.flatMap_append]
  have h : (List.range n).flatMap (fun k => T k ++ (if k < n then sep else [])) =
      (List.range n).flatMap (fun k => T k ++ sep) :=
    List.flatMap_congr (fun k hk => by rw [if_pos (List.mem_range.mp hk)])
  rw [h]
  cases n with
  | zero => simp [List.range_succ]
  | succ m =>
    rw [flatMap_sep_all, List.range_succ m, List.flatMap_append]
    simp [List.append_assoc]

/-- The text of the statement with `n + 1` products, as the generator writes it. -/
theorem stdAssign_text (n : Nat) (ri ci : Idx) :
    (stdAssign (n + 1) ri ci).text =
      cout_str "C.at(" ++ ri.text ++ cout_str ", " ++ ci.text ++ cout_str ") = _ElemC(" ++
        (List.range (n + 1)).flatMap (fun rowCol =>
          cout_str "(A.at(" ++ ri.text ++ cout_str ", " ++ cout_num rowCol ++
            cout_str ") * B.at(" ++ cout_num rowCol ++ cout_str ", " ++ ci.text ++
            cout_str "))" ++
          (if rowCol < (n + 1 - 1) then cout_str " + " else [])) ++
        cout_str ");" := by
  rw [flatMap_sep (fun rowCol =>
    cout_str "(A.at(" ++ ri.text ++ cout_str ", " ++ cout_num rowCol ++
      cout_str ") * B.at(" ++ cout_num rowCol ++ cout_str ", " ++ ci.text ++
      cout_str "))") (cout_str " + ") n]
  simp only [stdAssign, Assign.text, Term.text, Idx.text, List.flatMap_map, Nat.add_sub_cancel,
    List.append_assoc]

theorem text_merge_assign (X : List Char) :
    cout_str "C.at(" ++ (cout_str "rows" ++ (cout_str ", " ++ (cout_str "cols" ++
      (cout_str ") = _ElemC(" ++ X)))) = cout_str "C.at(rows, cols) = _ElemC(" ++ X := by
  have h : cout_str "C.at(rows, cols) = _ElemC(" = cout_str "C.at(" ++ (cout_str "rows" ++
      (cout_str ", " ++ (cout_str "cols" ++ cout_str ") = _ElemC("))) := by decide
  rw [h]
  simp only [List.append_assoc]

theorem text_merge_rows (X : List Char) :
    cout_str "(A.at(" ++ (cout_str "rows" ++ (cout_str ", " ++ X)) =
      cout_str "(A.at(rows, " ++ X := by
  have h : cout_str "(A.at(rows, " = cout_str "(A.at(" ++ (cout_str "rows" ++ cout_str ", ") := by
    decide
  rw [h]
  simp only [List.append_assoc]

theorem text_merge_cols (X : List Char) :
    cout_str ", " ++ (cout_str "cols" ++ (cout_str "))" ++ X)) = cout_str ", cols))" ++ X := by
  have h : cout_str ", cols))" = cout_str ", " ++ (cout_str "cols" ++ cout_str "))") := by
    decide
  rw [h]
  simp only [List.append_assoc]

/-- The text that the generator writes is the text of the groups of the specification. -/
theorem GenerateInlineCodeMAT_MUL_text (max : Nat) :
    GenerateInlineCodeMAT_MUL max = (generatedGroups max).flatMap GenGroup.text := by
  unfold GenerateInlineCodeMAT_MUL generatedGroups
  rw [List.flatMap_map]
  apply List.flatMap_congr
  intro i _
  simp only [GenGroup.text, GenBlock.text, GenExact.text, GenLoop.text, genExact,
    List.flatMap_map, stdAssign_text, Idx.text, List.append_assoc, text_merge_assign,
    text_merge_rows, text_merge_cols]

/-- The branches of the groups of the specification, in the order of the text, are the
regular table. -/
theorem generatedGroups_branches (max : Nat) :
    (generatedGroups max).flatMap GenGroup.branches = stdTable max := by
  unfold generatedGroups stdTable
  rw [List.flatMap_map]
  apply List.flatMap_congr
  intro i _
  simp only [GenGroup.branches, GenLoop.branch, GenExact.branch, genExact, stdGroup, stdExact,
    stdLoop, stdBody, List.flatMap_map, List.map_map, Function.comp_def, ← List.flatMap_def]

/-- Lists made for different keys out of a list without repetition have no element in
common, so that their concatenation has no repetition either. -/
theorem nodup_flatMap_of_key {α β γ : Type} (l : List α) (f : α → List β) (key : β → γ)
    (g : α → γ) (hl : l.Nodup) (hg : ∀ a, a ∈ l → ∀ a1, a1 ∈ l → g a = g a1 → a = a1)
    (hkey : ∀ a, a ∈ l → ∀ b, b ∈ f a → key b = g a) (hf : ∀ a, a ∈ l → (f a).Nodup) :
    (l.flatMap f).Nodup := by
  rw [List.nodup_flatMap]
  refine ⟨hf, ?_⟩
  refine List.Pairwise.imp_of_mem ?_ hl
  intro a b ha hb hne
  show List.Disjoint (f a) (f b)
  intro x hx1 hx2
  exact hne (hg a ha b hb (by rw [← hkey a ha x hx1, hkey b hb x hx2]))

theorem stdGroup_nodup (N K : Nat) : (stdGroup N K).Nodup := by
  unfold stdGroup
  rw [List.nodup_append]
  refine ⟨?_, List.nodup_singleton _, ?_⟩
  · apply nodup_flatMap_of_key (List.range N) _
      (fun br => match br with
        | .exact rA _ _ _ _ => rA
        | .loop _ _ _ => 0)
      (fun r => r + 1) (List.nodup_range N)
    · intro a _ b _ h
      exact Nat.succ.inj h
    · intro a _ b hb
      obtain ⟨c, _, rfl⟩ := List.mem_map.mp hb
      rfl
    · intro a _
      apply List.Nodup.map_on _ (List.nodup_range N)
      intro x _ y _ h
      simp only [stdExact, Branch.exact.injEq] at h
      omega
  · intro x hx1 hx2
    obtain ⟨r, _, hr⟩ := List.mem_flatMap.mp hx1
    obtain ⟨c, _, rfl⟩ := List.mem_map.mp hr
    simp [stdExact, stdLoop] at hx2

/-- No branch occurs twice in the regular table. -/
theorem stdTable_nodup (N : Nat) : (stdTable N).Nodup := by
  unfold stdTable
  apply nodup_flatMap_of_key (List.range N) _
    (fun br => match br with
      | .exact _ cA _ _ _ => cA
      | .loop cA _ _ => cA)
    (fun k => k + 1) (List.nodup_range N)
  · intro a _ b _ h
    exact Nat.succ.inj h
  · intro a _ b hb
    unfold stdGroup at hb
    rcases List.mem_append.mp hb with h | h
    · obtain ⟨r, _, hr⟩ := List.mem_flatMap.mp h
      obtain ⟨c, _, rfl⟩ := List.mem_map.mp hr
      rfl
    · rw [List.mem_singleton.mp h]
      rfl
  · intro a _
    exact stdGroup_nodup N (a + 1)

theorem length_filter_flatMap_range {β : Type} (p : β → Bool) (f : Nat → List β) (n c : Nat)
    (h : ∀ i, i < n → ((f i).filter p).length = c) :
    (((List.range n).flatMap f).filter p).length = n * c := by
  induction n with
  | zero => simp
  | succ n ih =>
    rw [List.range_succ n, List.flatMap_append, List.filter_append, List.length_append,
      ih (fun i hi => h i (Nat.lt_succ_of_lt hi)), Nat.succ_mul]
    simp [h n (Nat.lt_succ_self n)]

/-- The regular table for up to `N` x `N` has `N ^ 3` exact-shape branches. -/
theorem stdTable_count_exact (N : Nat) :
    ((stdTable N).filter (fun br => decide (br.tier = .exact_shape))).length = N ^ 3 := by
  unfold stdTable
  rw [length_filter_flatMap_range _ _ N (N * N)]
  · ring
  · intro k _
    unfold stdGroup
    rw [List.filter_append, List.length_append, length_filter_flatMap_range _ _ N N]
    · simp [stdLoop, Branch.tier]
    · intro r _
      rw [List.filter_eq_self.mpr]
      · simp
      · intro br hbr
        obtain ⟨c, _, rfl⟩ := List.mem_map.mp hbr
        simp [stdExact, Branch.tier]

/-- The regular table for up to `N` x `N` has `N` semi-generic branches. -/
theorem stdTable_count_loop (N : Nat) :
    ((stdTable N).filter (fun br => decide (br.tier = .semi_generic))).length = N := by
  unfold stdTable
  rw [length_filter_flatMap_range _ _ N 1]
  · ring
  · intro k _
    unfold stdGroup
    rw [List.filter_append, List.length_append, length_filter_flatMap_range _ _ N 0]
    · simp [stdLoop, Branch.tier]
    · intro r _
      rw [List.length_eq_zero, List.filter_eq_nil_iff]
      intro br hbr
      obtain ⟨c, _, rfl⟩ := List.mem_map.mp hbr
      simp [stdExact, Branch.tier]

theorem stdBody_succ (R K C : Nat) :
    stdBody (R + 1) K C =
      stdBody R K C ++ (List.range C).map (fun c => stdAssign K (.lit R) (.lit c)) := by
  unfold stdBody
  rw [List.range_succ R, List.flatMap_append]
  simp

theorem stdBody_length (R K C : Nat) : (stdBody R K C).length = R * C := by
  induction R with
  | zero => simp [stdBody]
  | succ R ih => rw [stdBody_succ, List.length_append, ih, Nat.succ_mul]; simp

/-- The statement at position `r * C + c` of the body of an exact-shape branch is the one
for `C.at(r, c)`. -/
theorem stdBody_getElem (R K C : Nat) {r c : Nat} (hr : r < R) (hc : c < C) :
    (stdBody R K C)[r * C + c]? = some (stdAssign K (.lit r) (.lit c)) := by
  induction R with
  | zero => exact absurd hr (Nat.not_lt_zero r)
  | succ R ih =>
    rw [stdBody_succ]
    rcases Nat.lt_or_ge r R with h | h
    · rw [List.getElem?_append_left (by rw [stdBody_length]; exact pos_lt h hc)]
      exact ih h
    · have e : r = R := by omega
      subst e
      rw [List.getElem?_append_right (by rw [stdBody_length]; omega), stdBody_length,
        Nat.add_sub_cancel_left]
      simp [hc]

/-- The products of the statement with `K >= 1` products, in order. -/
theorem stdAssign_terms {K : Nat} (hK : 1 ≤ K) (ri ci : Idx) :
    (stdAssign K ri ci).first :: (stdAssign K ri ci).rest =
      (List.range K).map (fun k => (⟨ri, .lit k, .lit k, ci⟩ : Term)) := by
  obtain ⟨n, rfl⟩ : ∃ n, K = n + 1 := ⟨K - 1, by omega⟩
  rw [List.range_succ_eq_map, List.map_cons, List.map_map]
  simp only [stdAssign, Nat.add_sub_cancel]
  rfl

/-- C39, the branch generator.  For every `max`, the text that
`GenerateInlineCodeMAT_MUL(max)` writes is the text of the groups of the specification,
whose branches in the order of the text are the regular table `stdTable max`.  In that
table no branch occurs twice; `max ^ 3` branches are exact-shape branches and `max` are
semi-generic; its branches are exactly the exact-shape branches with the condition
`_RowsA == RA and _ColsA == CA and _RowsB == CA and _ColsB == CB` for the triples
`(RA, CA, CB)` with all three from 1 to `max`, and the semi-generic branches with the
condition `_ColsA == CA and _RowsB == CA` for `CA` from 1 to `max`.  The body of the
exact-shape branch of a triple has `RA * CB` statements, the one at position `r * CB + c`
assigning `C.at(r, c)`, and the right-hand side of the statement for `(r, c)` is the sum
of the `CA` products `(A.at(r, k) * B.at(k, c))` for `k` from 0 to `CA - 1` in ascending
order.  For `max` 3, 4 and 5 the table is the unrolled code of `Mul` in the header. -/
theorem GenerateInlineCodeMAT_MUL_branches (max : Nat) :
    GenerateInlineCodeMAT_MUL max = (generatedGroups max).flatMap GenGroup.text ∧
    (generatedGroups max).flatMap GenGroup.branches = stdTable max ∧
    (stdTable max).Nodup ∧
    ((stdTable max).filter (fun br => decide (br.tier = .exact_shape))).length = max ^ 3 ∧
    ((stdTable max).filter (fun br => decide (br.tier = .semi_generic))).length = max ∧
    (∀ br, br ∈ stdTable max ↔
      (∃ RA CA CB, (1 ≤ RA ∧ RA ≤ max) ∧ (1 ≤ CA ∧ CA ≤ max) ∧ (1 ≤ CB ∧ CB ≤ max) ∧
        br = .exact RA CA CA CB (stdBody RA CA CB)) ∨
      (∃ CA, (1 ≤ CA ∧ CA ≤ max) ∧ br = .loop CA CA (stdAssign CA .rows .cols))) ∧
    (∀ RA CA CB, (stdBody RA CA CB).length = RA * CB ∧
      ∀ r c, r < RA → c < CB →
        (stdBody RA CA CB)[r * CB + c]? = some (stdAssign CA (.lit r) (.lit c))) ∧
    (∀ CA ri ci, 1 ≤ CA →
      (stdAssign CA ri ci).cRow = ri ∧ (stdAssign CA ri ci).cCol = ci ∧
      (stdAssign CA ri ci).first :: (stdAssign CA ri ci).rest =
        (List.range CA).map (fun k => (⟨ri, .lit k, .lit k, ci⟩ : Term))) ∧
    (max = 3 ∨ max = 4 ∨ max = 5 → unrolledTable max = stdTable max) := by
  refine ⟨GenerateInlineCodeMAT_MUL_text max, generatedGroups_branches max, stdTable_nodup max,
    stdTable_count_exact max, stdTable_count_loop max, ?_,
    fun RA CA CB => ⟨stdBody_length RA CA CB, fun r c hr hc => stdBody_getElem RA CA CB hr hc⟩,
    fun CA ri ci hCA => ⟨rfl, rfl, stdAssign_terms hCA ri ci⟩, unrolledTable_eq⟩
  intro br
  rw [mem_stdTable]
  constructor
  · rintro (⟨r, k, c, hr, hk, hc, h⟩ | ⟨k, hk, h⟩)
    · exact Or.inl ⟨r + 1, k + 1, c + 1, ⟨by omega, by omega⟩, ⟨by omega, by omega⟩,
        ⟨by omega, by omega⟩, h⟩
    · exact Or.inr ⟨k + 1, ⟨by omega, by omega⟩, h⟩
  · rintro (⟨RA, CA, CB, ⟨h1, h2⟩, ⟨h3, h4⟩, ⟨h5, h6⟩, h⟩ | ⟨CA, ⟨h1, h2⟩, h⟩)
    · refine Or.inl ⟨RA - 1, CA - 1, CB - 1, by omega, by omega, by omega, ?_⟩
      rw [Nat.sub_add_cancel h1, Nat.sub_add_cancel h3, Nat.sub_add_cancel h5]
      exact h
    · refine Or.inr ⟨CA - 1, by omega, ?_⟩
      rw [Nat.sub_add_cancel h1]
      exact h

set_option maxRecDepth 1000000 in
/-- Evaluation for C39: the text written for `max = 1`, its one exact-shape branch and its
one semi-generic branch; and for `max = 2` the eight exact-shape conditions in the order
of the text. -/
theorem GenerateInlineCodeMAT_MUL_branches_witness :
    GenerateInlineCodeMAT_MUL 1 = (generatedGroups 1).flatMap GenGroup.text ∧
    String.mk (GenerateInlineCodeMAT_MUL 1) = generatedText1 ∧
    (generatedGroups 1).flatMap GenGroup.branches =
      [.exact 1 1 1 1 [Assign.mk 0 0 ⟨0, 0, 0, 0⟩ []],
        .loop 1 1 (Assign.mk .rows .cols ⟨.rows, 0, 0, .cols⟩ [])] ∧
    ((generatedGroups 2).flatMap GenGroup.branches).filterMap
        (fun br => match br with
          | .exact rA cA rB cB _ => some (rA, cA, rB, cB)
          | .loop _ _ _ => none) =
      [(1, 1, 1, 1), (1, 1, 1, 2), (2, 1, 1, 1), (2, 1, 1, 2),
        (1, 2, 2, 1), (1, 2, 2, 2), (2, 2, 2, 1), (2, 2, 2, 2)] :=
  ⟨(GenerateInlineCodeMAT_MUL_branches 1).1, by decide, by decide, by decide⟩

/-! ## The aliasing diagnostic does not stop the multiplication -/

/-- The fallback writes every element of `C` through `C[index]`. -/
theorem fallbackCalls_writes (A B C : Ref) {RA K CB r c : Nat} (hK : 1 ≤ K) (hr : r < RA)
    (hc : c < CB) : Access.index C (r * CB + c) ∈ fallbackCalls A B C RA K CB := by
  simp only [fallbackCalls, accumCalls, List.mem_append, List.mem_singleton, List.mem_flatMap,
    List.mem_range, List.mem_cons]
  exact Or.inr ⟨r, hr, c, hc, 0, hK, Or.inr (Or.inr (Or.inl rfl))⟩

/-- C8, the aliasing diagnostic.  For objects of the right shapes (`_ColsA >= 1`), in
every build and for every element arithmetic, whichever of `A`, `B`, `C` are the same
object: `Mul` returns normally and creates no object (it makes no copy).  After the
aliasing test it runs the whole code of its tier on the state that the test leaves, the
regular branch of the shape or the generic fallback, exactly as it does without aliasing:
the accessor calls it makes are all the calls of that tier, every element of `C` is
written, through `C.at(r, c)` or through `C[r * _ColsB + c]`, and all objects keep their
shapes.  When `C` is the same object as `A` (so that `A` has the dimensions of `C`), it
has printed the warning about input `A` (followed by the one about input `B` exactly when
`B` is that object too); when `C` is a different object from both `A` and `B`, it has
printed nothing and `C` holds the product, in the arithmetic of the tier that ran. -/
theorem Mul_alias_diagnostic (bld : Build) (ops : ElemOps E) (d : E) {RA K CB : Nat}
    {A B C : Ref} (s : State E) (hK : 1 ≤ K) (hA : HasShape (s.heap A) RA K)
    (hB : HasShape (s.heap B) K CB) (hC : HasShape (s.heap C) RA CB) :
    ∃ t l, Mul bld ops RA K CB A B C s = .ok t ∧ t.next = s.next ∧
      ((∃ br, IsStd br RA K CB ∧ l = branchCalls A B C RA K CB ∧
          (∀ s1, Mul bld ops RA K CB A B C s1 =
            execBranch ops RA CB A B C br (Mul_alias_check RA K CB A B C s1))) ∨
        (l = fallbackCalls A B C RA K CB ∧
          (∀ s1, Mul bld ops RA K CB A B C s1 =
            Mul_fallback ops RA K CB A B C (Mul_alias_check RA K CB A B C s1)))) ∧
      t.calls = s.calls ++ l ∧
      (∀ r c, r < RA → c < CB →
        Access.at2 C r c ∈ l ∨ Access.index C (r * CB + c) ∈ l) ∧
      (∀ o, (t.heap o).c_rows = (s.heap o).c_rows ∧ (t.heap o).c_cols = (s.heap o).c_cols ∧
        (t.heap o).p_mat.length = (s.heap o).p_mat.length) ∧
      (C = A → t.cerr = s.cerr ++ [warnA] ++ (if B = C then [warnB] else [])) ∧
      (C ≠ A → C ≠ B → t.cerr = s.cerr ∧
        (t.heap C = mkMat RA CB
            (unrolledValue ops ((s.heap A).elem d) ((s.heap B).elem d) K) ∨
          t.heap C = mkMat RA CB
            (fallbackValue ops ((s.heap A).elem d) ((s.heap B).elem d) K))) := by
  have main : ∀ (t : State E) (l : List Access), Mul bld ops RA K CB A B C s = .ok t →
      ExtendsBy l (Mul_alias_check RA K CB A B C s) t →
      t.next = s.next ∧ t.calls = s.calls ++ l ∧
      (∀ o, (t.heap o).c_rows = (s.heap o).c_rows ∧ (t.heap o).c_cols = (s.heap o).c_cols ∧
        (t.heap o).p_mat.length = (s.heap o).p_mat.length) ∧
      (C = A → t.cerr = s.cerr ++ [warnA] ++ (if B = C then [warnB] else [])) ∧
      (C ≠ A → C ≠ B → t.cerr = s.cerr ∧
        (t.heap C = mkMat RA CB
            (unrolledValue ops ((s.heap A).elem d) ((s.heap B).elem d) K) ∨
          t.heap C = mkMat RA CB
            (fallbackValue ops ((s.heap A).elem d) ((s.heap B).elem d) K))) := by
    intro t l ht hE
    refine ⟨by rw [hE.2.2.1, Mul_alias_check_next],
      by rw [hE.2.2.2, Mul_alias_check_calls], ?_, ?_, ?_⟩
    · intro o
      have h := hE.1 o
      rw [Mul_alias_check_heap] at h
      exact h
    · intro hCA
      subst hCA
      have hKC : K = CB := by rw [← hA.2.1, ← hC.2.1]
      subst hKC
      rw [hE.2.1, Mul_alias_check_same]
    · intro hCA hCB
      refine ⟨by rw [hE.2.1, Mul_alias_check_distinct RA K CB s (Ne.symm hCA) (Ne.symm hCB)],
        ?_⟩
      obtain ⟨t1, ht1, hv⟩ := Mul_value_cases bld ops hK (Ne.symm hCA) (Ne.symm hCB) s _ _
        (hA.eq_mkMat_elem d) (hB.eq_mkMat_elem d) hC
      have e : t = t1 := Except.ok.inj (ht.symm.trans ht1)
      rw [e]
      exact hv
  rcases bld.tier_cases K with ⟨N, hN, hKN⟩ | h
  · obtain ⟨br, hfind, hstd, _, hM⟩ := Mul_eq_branch bld ops RA K CB A B C s hN hK hKN
    obtain ⟨t, ht, hE⟩ := execBranch_extendsBy ops hstd (Mul_alias_check RA K CB A B C s)
      (by simpa using hA) (by simpa using hB) (by simpa using hC) hK
    have hMul : Mul bld ops RA K CB A B C s = .ok t := by rw [hM, ht]
    obtain ⟨m1, m2, m3, m4, m5⟩ := main t _ hMul hE
    refine ⟨t, _, hMul, m1, Or.inl ⟨br, hstd, rfl, ?_⟩, m2,
      fun r c hr hc => Or.inl (branchCalls_writes A B C hr hc), m3, m4, m5⟩
    intro s1
    obtain ⟨br1, hfind1, _, _, hM1⟩ := Mul_eq_branch bld ops RA K CB A B C s1 hN hK hKN
    have e : br1 = br := Option.some.inj (hfind1.symm.trans hfind)
    rw [hM1, e]
  · obtain ⟨t, ht, hE⟩ := Mul_fallback_extendsBy ops (Mul_alias_check RA K CB A B C s)
      (A := A) (B := B) (C := C) (by simpa using hA) (by simpa using hB) (by simpa using hC)
    have hMul : Mul bld ops RA K CB A B C s = .ok t := by
      rw [Mul_eq_fallback bld ops RA K CB A B C s hK h, ht]
    obtain ⟨m1, m2, m3, m4, m5⟩ := main t _ hMul hE
    exact ⟨t, _, hMul, m1,
      Or.inr ⟨rfl, fun s1 => Mul_eq_fallback bld ops RA K CB A B C s1 hK h⟩, m2,
      fun r c hr hc => Or.inr (fallbackCalls_writes A B C hK hr hc), m3, m4, m5⟩

set_option maxRecDepth 100000 in
/-- Witness of C8: `Mul(A, B, A)` on `A = [[1, 2], [3, 4]]` and `B = [[5, 6], [7, 8]]`.  In
the build of `Source.cpp` it prints the warning about input `A`, runs the 2x2 * 2x2 branch
with its twenty accessor calls and leaves `[[19, 130], [43, 290]]` in `A`; in a build without
unrolled code it prints the same warning, runs the fallback and leaves zeros. -/
theorem Mul_alias_diagnostic_witness :
    (∃ t l, Mul sourceBuild (ringOps Int) 2 2 2 0 1 0 (exampleState 2 2 2) = .ok t ∧
      t.next = (exampleState 2 2 2).next ∧
      ((∃ br, IsStd br 2 2 2 ∧ l = branchCalls 0 1 0 2 2 2 ∧
          (∀ s1, Mul sourceBuild (ringOps Int) 2 2 2 0 1 0 s1 =
            execBranch (ringOps Int) 2 2 0 1 0 br (Mul_alias_check 2 2 2 0 1 0 s1))) ∨
        (l = fallbackCalls 0 1 0 2 2 2 ∧
          (∀ s1, Mul sourceBuild (ringOps Int) 2 2 2 0 1 0 s1 =
            Mul_fallback (ringOps Int) 2 2 2 0 1 0 (Mul_alias_check 2 2 2 0 1 0 s1)))) ∧
      t.calls = (exampleState 2 2 2).calls ++ l ∧
      (∀ r c, r < 2 → c < 2 → Access.at2 0 r c ∈ l ∨ Access.index 0 (r * 2 + c) ∈ l) ∧
      (∀ o, (t.heap o).c_rows = ((exampleState 2 2 2).heap o).c_rows ∧
        (t.heap o).c_cols = ((exampleState 2 2 2).heap o).c_cols ∧
        (t.heap o).p_mat.length = ((exampleState 2 2 2).heap o).p_mat.length) ∧
      ((0 : Ref) = 0 → t.cerr = (exampleState 2 2 2).cerr ++ [warnA] ++
        (if (1 : Ref) = 0 then [warnB] else [])) ∧
      ((0 : Ref) ≠ 0 → (0 : Ref) ≠ 1 → t.cerr = (exampleState 2 2 2).cerr ∧
        (t.heap 0 = mkMat 2 2
            (unrolledValue (ringOps Int) (((exampleState 2 2 2).heap 0).elem 0)
              (((exampleState 2 2 2).heap 1).elem 0) 2) ∨
          t.heap 0 = mkMat 2 2
            (fallbackValue (ringOps Int) (((exampleState 2 2 2).heap 0).elem 0)
              (((exampleState 2 2 2).heap 1).elem 0) 2)))) ∧
    (Mul sourceBuild (ringOps Int) 2 2 2 0 1 0 (exampleState 2 2 2)).toOption.map
      (fun t => (t.heap 0, t.cerr, t.calls)) =
      some (⟨2, 2, [19, 130, 43, 290]⟩, [warnA],
        [.at2 0 0 0, .at2 1 0 0, .at2 0 0 1, .at2 1 1 0, .at2 0 0 0,
          .at2 0 0 0, .at2 1 0 1, .at2 0 0 1, .at2 1 1 1, .at2 0 0 1,
          .at2 0 1 0, .at2 1 0 0, .at2 0 1 1, .at2 1 1 0, .at2 0 1 0,
          .at2 0 1 0, .at2 1 0 1, .at2 0 1 1, .at2 1 1 1, .at2 0 1 1]) ∧
    (Mul debugBuild (ringOps Int) 2 2 2 0 1 0 (exampleState 2 2 2)).toOption.map
      (fun t => (t.heap 0, t.cerr, t.calls.length)) =
      some (⟨2, 2, [0, 0, 0, 0]⟩, [warnA], 25) ∧
    (Mul sourceBuild (ringOps Int) 2 2 2 0 1 2 (exampleState 2 2 2)).toOption.map
      (fun t => (t.heap 2, t.cerr)) = some (⟨2, 2, [19, 22, 43, 50]⟩, []) :=
  ⟨Mul_alias_diagnostic sourceBuild (ringOps Int) 0 (exampleState 2 2 2) (by decide)
    (mkMat_shape 2 2 (exampleA 2)) (mkMat_shape 2 2 (exampleB 2)) (mkMat_shape 2 2 (exampleA 2)),
    by decide, by decide, by decide⟩

end Mat2D
